import Mathlib

/-!
# FujiNet 850 modem emulation (lib/sio/modem.cpp)

A shallow embedding of the modem session engine: the bus command dispatcher
`sio_process` and its handlers, the AT command interpreter `modemCommand`, and the
per-tick relay `sio_handle_modem`.

Modelling conventions.

* Bytes, counters, ports, baud rates and times are natural numbers; a C++ narrowing
  is written with an explicit remainder where it can change the value.
* `std::string` and byte buffers are lists of byte values.
* The object is a record `sioModem`.  Every call to a collaborator that has an effect
  outside the object (bus signals, bus payloads, serial writes, socket operations,
  delays, the sniffer, the telnet engine) appends one `Event` to the field `trace`,
  in program order.  Collaborator queries are answered from the `tcp_`, `srv_`,
  `uart_`, `wifi_`, `fw_` and `clock` fields.
* A C++ exception raised by `std::stoi` or `std::string::substr` is a value of `Exn`;
  code that can raise returns `Except Exn sioModem`.
* `Debug_print`, `Debug_println` and `Debug_printf` produce no event; an increment
  written inside a `Debug_printf` argument list is performed.
-/

/-- Exceptions of the C++ standard library that the interpreter can raise. -/
inductive Exn
  | invalid_argument
  | out_of_range
  deriving DecidableEq, Repr

/-- The decoded bus command frame (`cmdFrame_t`): the four bytes of `commanddata`
and the frame checksum. -/
structure cmdFrame_t where
  device : Nat
  comnd : Nat
  aux1 : Nat
  aux2 : Nat
  checksum : Nat
  deriving DecidableEq, Repr

/-- The byte string of a C string literal. -/
def str (s : String) : List Nat := s.data.map Char.toNat

/-- Names of the help and banner string constants of modem.h that the interpreter
prints (their text is not part of modem.cpp). -/
inductive HelpText
  | HELPL01 | HELPL02 | HELPL03 | HELPL04 | HELPL05 | HELPL06
  | HELPL07 | HELPL08 | HELPL09 | HELPL10 | HELPL11 | HELPL12
  | HELPL13 | HELPL14 | HELPL15 | HELPL16 | HELPL17 | HELPL18
  | HELPPORT1 | HELPPORT2 | HELPPORT3 | HELPPORT4
  | HELPSCAN1 | HELPSCAN2 | HELPSCAN3 | HELPSCAN4 | HELPSCAN5
  | HELPNOWIFI | HELPWIFICONNECTING
  deriving DecidableEq, Repr

/-- Constants, tables and helper routines that modem.cpp uses but that are declared
in headers and sources outside it (modem.h, sio.h, sio.cpp).  Every definition below
takes them as a parameter. -/
structure Consts where
  /-- The reserved RS232 device id, `SIO_DEVICEID_RS232`. -/
  SIO_DEVICEID_RS232 : Nat
  /-- Size of the transmit buffer `txBuf`. -/
  TX_BUF_SIZE : Nat
  /-- Maximum length of the command buffer. -/
  MAX_CMD_LENGTH : Nat
  /-- Minimum number of milliseconds between two RING results. -/
  RING_INTERVAL : Nat
  RESULT_CODE_OK : Int
  RESULT_CODE_CONNECT : Int
  RESULT_CODE_RING : Int
  RESULT_CODE_NO_CARRIER : Int
  RESULT_CODE_ERROR : Int
  /-- The payload checksum routine of the bus layer, `sio_checksum(buf, len)`, applied
  to the first `len` bytes of the buffer. -/
  sio_checksum : List Nat → Nat
  /-- Text of the help and banner strings. -/
  help : HelpText → List Nat
  /-- Default `maxresults` argument of `WiFiManager::scan_networks`. -/
  FNWIFI_SCAN_RESULTS_MAX : Nat
  /-- Number of times `WiFiManager::scan_networks` retries a failed scan. -/
  FNWIFI_RECONNECT_RETRIES : Nat

/-- One record of a WiFi scan, as read by `get_scan_result`. -/
structure wifi_ap_record_t where
  ssid : List Nat
  bssid : List Nat
  rssi : Nat
  primary : Nat
  authmode : Nat
  deriving DecidableEq, Repr

/-- Effects of the modem on its collaborators, in the order the code performs them. -/
inductive Event
  /-- Bus signal Acknowledge, `sio_ack()`. -/
  | sio_ack
  /-- Bus signal Negative-Acknowledge, `sio_nak()`. -/
  | sio_nak
  /-- Bus signal Complete, `sio_complete()`. -/
  | sio_complete
  /-- Bus signal Error, `sio_error()`. -/
  | sio_error
  /-- Payload sent to the host, `sio_to_computer(buf, len, err)`. -/
  | sio_to_computer (buf : List Nat) (err : Bool)
  /-- Payload requested from the host, `sio_to_peripheral(buf, len)`. -/
  | sio_to_peripheral (len : Nat)
  /-- Serial transport: `fnUartSIO.print` of a string. -/
  | uart_print (s : List Nat)
  /-- Serial transport: `fnUartSIO.print` of an integer. -/
  | uart_print_int (i : Int)
  /-- Serial transport: `fnUartSIO.write` of one byte. -/
  | uart_write (b : Nat)
  /-- Serial transport: `fnUartSIO.write` of a buffer. -/
  | uart_write_buf (buf : List Nat)
  | uart_flush
  | uart_set_baudrate (baud : Nat)
  | tcp_connect (host : List Nat) (port : Int)
  | tcp_write (buf : List Nat)
  | tcp_read (n : Nat)
  | tcp_flush
  | tcp_stop
  | tcp_setNoDelay (b : Bool)
  | srv_setMaxClients (n : Nat)
  | srv_begin (port : Nat)
  | srv_stop
  /-- The listener hands its pending connection over, `tcpServer.available()` or
  `tcpServer.accept()`. -/
  | srv_accept
  /-- Write to the second caller that is being turned away. -/
  | busy_write (buf : List Nat)
  | busy_stop
  | telnet_free
  | telnet_init
  | telnet_send (buf : List Nat)
  | telnet_recv (buf : List Nat)
  | sniffer_setEnable (b : Bool)
  | sniffer_dumpOutput (buf : List Nat)
  | sniffer_dumpInput (buf : List Nat)
  | sniffer_closeOutput
  | delay (ms : Nat)
  | delay_microseconds (us : Nat)
  | wifi_connect (ssid key : List Nat)
  | wifi_scan_start
  deriving DecidableEq, Repr

/-- Whether an event is a bus signal or a bus payload sent to the host. -/
def Event.is_bus : Event → Bool
  | .sio_ack => true
  | .sio_nak => true
  | .sio_complete => true
  | .sio_error => true
  | .sio_to_computer _ _ => true
  | _ => false

/-- Whether an event writes to the serial transport. -/
def Event.is_uart : Event → Bool
  | .uart_print _ => true
  | .uart_print_int _ => true
  | .uart_write _ => true
  | .uart_write_buf _ => true
  | _ => false

/-- The modem object together with the state of its collaborators. -/
structure sioModem where
  cmdFrame : cmdFrame_t
  count_PollType1 : Nat
  count_PollType3 : Nat
  count_ReqRelocator : Nat
  count_ReqHandler : Nat
  firmware_sent : Bool
  DTR : Bool
  RTS : Bool
  XMT : Bool
  CRX : Bool
  /-- Session mode: `true` is CommandMode, `false` is ConnectedMode. -/
  cmdMode : Bool
  cmdOutput : Bool
  cmdAtascii : Bool
  answerHack : Bool
  commandEcho : Bool
  numericResultCode : Bool
  autoAnswer : Bool
  baudLock : Bool
  use_telnet : Bool
  modemActive : Bool
  modemBaud : Nat
  listenPort : Nat
  cmd : List Nat
  txBuf : List Nat
  mdmStatus0 : Nat
  mdmStatus1 : Nat
  plusCount : Nat
  plusTime : Nat
  lastRingMs : Nat
  lasttime : Nat
  term_type : List Nat
  /-- TCP client: `tcpClient.connected()`. -/
  tcp_connected : Bool
  /-- TCP client: bytes received from the remote and not yet read;
  `tcpClient.available()` is its length. -/
  tcp_rx : List Nat
  /-- TCP client: outcome the next `tcpClient.connect` will have. -/
  tcp_connect_ok : Bool
  /-- TCP server: port the listener is bound to, if any. -/
  srv_port : Option Nat
  /-- TCP server: number of inbound connections waiting; `tcpServer.hasClient()` is
  `0 < srv_pending`. -/
  srv_pending : Nat
  /-- Serial transport: bytes sent by the host and not yet read. -/
  uart_rx : List Nat
  /-- Bus: the data frame the host sends when `sio_to_peripheral` is called. -/
  bus_data : List Nat
  /-- Bus: the checksum byte the host sends after that data frame. -/
  bus_ck : Nat
  /-- Monotonic clock in milliseconds, `fnSystem.millis()`. -/
  clock : Nat
  /-- File system: result of `load_firmware` for the relocator: the returned size and
  the buffer, if one was allocated. -/
  fw_relocator : Int × Option (List Nat)
  /-- File system: result of `load_firmware` for the handler. -/
  fw_handler : Int × Option (List Nat)
  /-- WiFi: answers of the coming `fnWiFi.connected()` polls; `false` once used up. -/
  wifi_connected : List Bool
  /-- WiFi: `_scan_records` of the WiFi manager. -/
  wifi_scan_records : List wifi_ap_record_t
  /-- WiFi: `_scan_record_count` of the WiFi manager. -/
  wifi_scan_record_count : Nat
  /-- WiFi driver: outcome of each coming scan attempt (`esp_wifi_scan_start` followed
  by `esp_wifi_scan_get_ap_num`): none if either call fails, otherwise the number of
  access points found; an attempt made after the list is used up fails. -/
  esp_scan_ap_num : List (Option Nat)
  /-- WiFi driver: outcome of `esp_wifi_scan_get_ap_records`: none on error, otherwise
  the records the driver holds, of which the call loads at most the number asked. -/
  esp_scan_ap_records : Option (List wifi_ap_record_t)
  /-- Network: the textual IPv4 address. -/
  ip4_address : List Nat
  trace : List Event

namespace sioModem

/-! ## Character codes -/

/-- Modelled from the spec: ASCII_CR is declared outside modem.cpp; carriage return,
the `\r` of the literal `"ATA\r"` in sio_write. -/
def ASCII_CR : Nat := 0x0D
/-- Modelled from the spec: ASCII_LF is declared outside modem.cpp; line feed, the
second byte of the CR LF terminator. -/
def ASCII_LF : Nat := 0x0A
/-- Modelled from the spec: ASCII_BACKSPACE is declared outside modem.cpp. -/
def ASCII_BACKSPACE : Nat := 0x08
/-- Modelled from the spec: ASCII_DELETE is declared outside modem.cpp. -/
def ASCII_DELETE : Nat := 0x7F
/-- Modelled from the spec: ATASCII_EOL is declared in include/atascii.h; the
alternate line terminator of the device, the byte `\x9b` that ends the busy message
of sio_handle_modem. -/
def ATASCII_EOL : Nat := 0x9B
/-- Modelled from the spec: ATASCII_BACKSPACE is declared in include/atascii.h. -/
def ATASCII_BACKSPACE : Nat := 0x7E
/-- Modelled from the spec: ATASCII_CLEAR_SCREEN is declared in include/atascii.h. -/
def ATASCII_CLEAR_SCREEN : Nat := 0x7D
/-- Modelled from the spec: ATASCII_CURSOR_UP is declared in include/atascii.h. -/
def ATASCII_CURSOR_UP : Nat := 0x1C
/-- Modelled from the spec: ATASCII_CURSOR_RIGHT is declared in include/atascii.h. -/
def ATASCII_CURSOR_RIGHT : Nat := 0x1F

/-! ## Bus command bytes -/

def SIO_MODEMCMD_LOAD_RELOCATOR : Nat := 0x21
def SIO_MODEMCMD_LOAD_HANDLER : Nat := 0x26
def SIO_MODEMCMD_TYPE1_POLL : Nat := 0x3F
def SIO_MODEMCMD_TYPE3_POLL : Nat := 0x40
def SIO_MODEMCMD_CONTROL : Nat := 0x41
def SIO_MODEMCMD_CONFIGURE : Nat := 0x42
def SIO_MODEMCMD_SET_DUMP : Nat := 0x44
def SIO_MODEMCMD_LISTEN : Nat := 0x4C
def SIO_MODEMCMD_UNLISTEN : Nat := 0x4D
def SIO_MODEMCMD_BAUDLOCK : Nat := 0x4E
def SIO_MODEMCMD_AUTOANSWER : Nat := 0x4F
def SIO_MODEMCMD_STATUS : Nat := 0x53
def SIO_MODEMCMD_WRITE : Nat := 0x57
def SIO_MODEMCMD_STREAM : Nat := 0x58

def DELAY_FIRMWARE_DELIVERY : Nat := 5000
def RECVBUFSIZE : Nat := 1024

/-! ## Collaborator primitives -/

/-- Append one event to the trace. -/
def emit (e : Event) (s : sioModem) : sioModem :=
  { s with trace := s.trace ++ [e] }

def sio_ack (s : sioModem) : sioModem := s.emit .sio_ack
def sio_nak (s : sioModem) : sioModem := s.emit .sio_nak
def sio_complete (s : sioModem) : sioModem := s.emit .sio_complete
def sio_error (s : sioModem) : sioModem := s.emit .sio_error

/-- The call `sio_to_computer(buf, len, err)`; `buf` holds the `len` bytes sent. -/
def sio_to_computer (buf : List Nat) (err : Bool) (s : sioModem) : sioModem :=
  s.emit (.sio_to_computer buf err)

/-- Modelled from the spec: fnSystem.delay is outside modem.cpp; a bounded wait of
`ms` milliseconds on the monotonic clock. -/
def delay (ms : Nat) (s : sioModem) : sioModem :=
  { s with clock := s.clock + ms, trace := s.trace ++ [.delay ms] }

/-- Modelled from the spec: fnSystem.delay_microseconds is outside modem.cpp; a
bounded wait of `us` microseconds on the monotonic clock. -/
def delay_microseconds (us : Nat) (s : sioModem) : sioModem :=
  { s with clock := s.clock + us / 1000, trace := s.trace ++ [.delay_microseconds us] }

/-- Modelled from the spec: fnSystem.millis is outside modem.cpp; the monotonic
clock as an unsigned 32-bit number of milliseconds. -/
def millis (s : sioModem) : Nat := s.clock % 2 ^ 32

/-- Difference of two unsigned 32-bit times. -/
def elapsed (now since : Nat) : Nat := (now + 2 ^ 32 - since % 2 ^ 32) % 2 ^ 32

/-- Modelled from the spec: the TCP client class is outside modem.cpp;
`tcpClient.stop()` closes the connection and discards unread bytes. -/
def tcp_stop (s : sioModem) : sioModem :=
  { s with tcp_connected := false, tcp_rx := [], trace := s.trace ++ [.tcp_stop] }

def tcp_flush (s : sioModem) : sioModem := s.emit .tcp_flush
def tcp_write (buf : List Nat) (s : sioModem) : sioModem := s.emit (.tcp_write buf)
def tcp_setNoDelay (b : Bool) (s : sioModem) : sioModem := s.emit (.tcp_setNoDelay b)

/-- Modelled from the spec: the TCP client class is outside modem.cpp;
`tcpClient.connect(host, port)` returns whether the connection was made and, when it
was, the client is connected with nothing received yet. -/
def tcp_connect (host : List Nat) (port : Int) (s : sioModem) : Bool × sioModem :=
  (s.tcp_connect_ok,
   { s with tcp_connected := s.tcp_connect_ok,
            tcp_rx := [],
            trace := s.trace ++ [.tcp_connect host port] })

/-- Modelled from the spec: the TCP client class is outside modem.cpp;
`tcpClient.available()` is the number of unread bytes. -/
def tcp_available (s : sioModem) : Nat := s.tcp_rx.length

/-- Modelled from the spec: the TCP client class is outside modem.cpp;
`tcpClient.read(buf, n)` removes up to `n` unread bytes and returns them. -/
def tcp_read (n : Nat) (s : sioModem) : List Nat × sioModem :=
  (s.tcp_rx.take n,
   { s with tcp_rx := s.tcp_rx.drop n, trace := s.trace ++ [.tcp_read n] })

/-- Modelled from the spec: the TCP server class is outside modem.cpp;
`tcpServer.hasClient()` tells whether an inbound connection is waiting. -/
def srv_hasClient (s : sioModem) : Bool := decide (0 < s.srv_pending)

/-- Modelled from the spec: the TCP server class is outside modem.cpp;
`tcpServer.stop()` closes the listener and drops the connections waiting on it. -/
def srv_stop (s : sioModem) : sioModem :=
  { s with srv_port := none, srv_pending := 0, trace := s.trace ++ [.srv_stop] }

def srv_setMaxClients (n : Nat) (s : sioModem) : sioModem := s.emit (.srv_setMaxClients n)

/-- Modelled from the spec: the TCP server class is outside modem.cpp;
`tcpServer.begin(port)` binds the listener to `port`. -/
def srv_begin (port : Nat) (s : sioModem) : sioModem :=
  { s with srv_port := some port, trace := s.trace ++ [.srv_begin port] }

/-- Modelled from the spec: the TCP server class is outside modem.cpp;
`tcpClient = tcpServer.available()` takes one waiting connection, which becomes the
connected TCP client. -/
def srv_take_client (s : sioModem) : sioModem :=
  { s with srv_pending := s.srv_pending - 1,
           tcp_connected := true,
           tcp_rx := [],
           trace := s.trace ++ [.srv_accept] }

/-- Modelled from the spec: the TCP server class is outside modem.cpp;
`tcpServer.accept()` into a local client that is written to and stopped: one waiting
connection is taken, the TCP client of the session is untouched. -/
def srv_turn_away (msg : List Nat) (s : sioModem) : sioModem :=
  { s with srv_pending := s.srv_pending - 1,
           trace := s.trace ++ [.srv_accept, .busy_write msg, .busy_stop] }

def uart_print (t : List Nat) (s : sioModem) : sioModem := s.emit (.uart_print t)
def uart_print_int (i : Int) (s : sioModem) : sioModem := s.emit (.uart_print_int i)
def uart_write (b : Nat) (s : sioModem) : sioModem := s.emit (.uart_write b)
def uart_write_buf (buf : List Nat) (s : sioModem) : sioModem := s.emit (.uart_write_buf buf)
def uart_flush (s : sioModem) : sioModem := s.emit .uart_flush

/-- The pair `telnet_free(telnet); telnet = telnet_init(...)`. -/
def telnet_reset (s : sioModem) : sioModem :=
  (s.emit .telnet_free).emit .telnet_init

/-- Modelled from the spec: fnSystem.load_firmware is outside modem.cpp; called with a
null buffer pointer it returns the size of the relocator, negative on failure. -/
def load_firmware_size_relocator (s : sioModem) : Int := s.fw_relocator.1

/-- Modelled from the spec: fnSystem.load_firmware is outside modem.cpp; called with a
null buffer pointer it returns the size of the handler, negative on failure. -/
def load_firmware_size_handler (s : sioModem) : Int := s.fw_handler.1

/-! ## Result output of the AT interpreter -/

/-- The end-of-line sequence chosen by `cmdAtascii`. -/
def write_eol (s : sioModem) : sioModem :=
  if s.cmdAtascii = true then
    s.uart_write ATASCII_EOL
  else
    (s.uart_write ASCII_CR).uart_write ASCII_LF

def at_connect_resultCode (modemBaud : Nat) (s : sioModem) : sioModem :=
  let resultCode : Int :=
    if modemBaud = 300 then 1
    else if modemBaud = 1200 then 5
    else if modemBaud = 2400 then 10
    else if modemBaud = 4800 then 18
    else if modemBaud = 9600 then 13
    else if modemBaud = 19200 then 85
    else 1
  (s.uart_print_int resultCode).uart_write ASCII_CR

def at_cmd_resultCode (resultCode : Int) (s : sioModem) : sioModem :=
  ((s.uart_print_int resultCode).uart_write ASCII_CR).uart_write ASCII_LF

/-- The overload `at_cmd_println()`. -/
def at_cmd_println (s : sioModem) : sioModem :=
  if s.cmdOutput = false then s
  else s.write_eol.uart_flush

/-- The overloads `at_cmd_println(const char *s, bool addEol)` and
`at_cmd_println(std::string s, bool addEol)`. -/
def at_cmd_println_str (t : List Nat) (addEol : Bool) (s : sioModem) : sioModem :=
  if s.cmdOutput = false then s
  else
    let s := s.uart_print t
    let s := if addEol = true then s.write_eol else s
    s.uart_flush

/-- The overload `at_cmd_println(int i, bool addEol)`. -/
def at_cmd_println_int (i : Int) (addEol : Bool) (s : sioModem) : sioModem :=
  if s.cmdOutput = false then s
  else
    let s := s.uart_print_int i
    let s := if addEol = true then s.write_eol else s
    s.uart_flush

/-- The recurring pattern
`if (numericResultCode == true) at_cmd_resultCode(code); else at_cmd_println(text);`. -/
def at_result (code : Int) (text : List Nat) (s : sioModem) : sioModem :=
  if s.numericResultCode = true then s.at_cmd_resultCode code
  else s.at_cmd_println_str text true

/-- The recurring pattern that reports CONNECT and raises the carrier flag. -/
def at_connect_result (s : sioModem) : sioModem :=
  if s.numericResultCode = true then
    { s.at_connect_resultCode s.modemBaud with CRX := true }
  else
    let s := s.at_cmd_println_str (str "CONNECT ") false
    let s := s.at_cmd_println_int s.modemBaud true
    { s with CRX := true }

/-! ## Boot poll responder -/

/-- The part of `sio_poll_3` after the generic-poll test. -/
def sio_poll_3_rest (K : Consts) (device aux1 aux2 : Nat) (s : sioModem) : sioModem :=
  if aux1 = 0x4F ∧ aux2 = 0x4F then
    { s with count_PollType3 := 0, firmware_sent := false }
  else if aux1 = 0x4E ∧ aux2 = 0x4E then
    { s with count_PollType3 := 0 }
  else
    let respond : Bool := (aux1 == 0x52 && aux2 == 0x01) || device == K.SIO_DEVICEID_RS232
    if respond = false then s
    else
      let filesize := s.load_firmware_size_handler
      if filesize < 0 then s
      else
        let s := s.sio_ack
        let fsize := filesize.toNat % 65536
        let type4response := [fsize % 256, fsize / 256 % 256, K.SIO_DEVICEID_RS232 % 256, 0]
        let s := s.delay_microseconds DELAY_FIRMWARE_DELIVERY
        s.sio_to_computer type4response false

/-- 0x40: TYPE 3 POLL. -/
def sio_poll_3 (K : Consts) (device aux1 aux2 : Nat) (s : sioModem) : sioModem :=
  if aux1 = 0 ∧ aux2 = 0 then
    let s := { s with count_PollType3 := s.count_PollType3 + 1 }
    if s.count_PollType3 = 26 then
      sio_poll_3_rest K device aux1 aux2 s
    else s
  else
    sio_poll_3_rest K device aux1 aux2 s

/-- 0x3F: TYPE 1 POLL. -/
def sio_poll_1 (s : sioModem) : sioModem :=
  let filesize := s.load_firmware_size_relocator
  if filesize < 0 then s
  else
    let s := s.sio_ack
    let relsize := filesize.toNat % 2 ^ 32
    let bootBlock :=
      [0x50, 0x01, 0x21, 0x40, 0x00, 0x05, 0x08, 0x00,
       relsize % 256, relsize / 256 % 256, 0x00, 0x00]
    let s := s.delay_microseconds DELAY_FIRMWARE_DELIVERY
    s.sio_to_computer bootBlock false

/-- 0x21 and 0x26: relocator and handler download.  `sio_to_computer(code, codesize,
false)` sends the first `codesize` bytes of the loaded buffer. -/
def sio_send_firmware (loadcommand : Nat) (s : sioModem) : sioModem :=
  let firmware : Option (Int × Option (List Nat)) :=
    if loadcommand = SIO_MODEMCMD_LOAD_RELOCATOR then some s.fw_relocator
    else if loadcommand = SIO_MODEMCMD_LOAD_HANDLER then some s.fw_handler
    else none
  match firmware with
  | none => s
  | some (codesize, code) =>
    if codesize < 0 ∨ code = none then s.sio_nak
    else
      let s := s.sio_ack
      let s := s.delay_microseconds DELAY_FIRMWARE_DELIVERY
      let s := s.sio_to_computer ((code.getD []).take codesize.toNat) false
      { s with DTR := false, XMT := false, RTS := false }

/-! ## Bus handlers -/

/-- 0x53: STATUS. -/
def sio_status (s : sioModem) : sioModem :=
  let s := { s with mdmStatus1 := s.mdmStatus1 &&& 0b11110011 }
  let s := { s with mdmStatus1 := s.mdmStatus1 ||| (if s.tcp_connected = true then 12 else 0) }
  let s := { s with mdmStatus1 := s.mdmStatus1 &&& 0b11111110 }
  let s := { s with mdmStatus1 :=
    s.mdmStatus1 ||| (if s.tcp_available > 0 ∨ s.srv_hasClient = true then 1 else 0) }
  let s :=
    if s.autoAnswer = true ∧ s.srv_hasClient = true then
      let s := { s with modemActive := true }
      let s := s.delay 2000
      s.at_connect_result
    else s
  s.sio_to_computer [s.mdmStatus0, s.mdmStatus1] false

/-- 0x41: CONTROL. -/
def sio_control (s : sioModem) : sioModem :=
  let aux1 := s.cmdFrame.aux1
  let s := if aux1 &&& 0x02 ≠ 0 then { s with XMT := decide (aux1 &&& 0x01 ≠ 0) } else s
  let s := if aux1 &&& 0x20 ≠ 0 then { s with RTS := decide (aux1 &&& 0x10 ≠ 0) } else s
  let s :=
    if aux1 &&& 0x80 ≠ 0 then
      let s := { s with DTR := decide (aux1 &&& 0x40 ≠ 0) }
      if s.DTR = false ∧ s.tcp_connected = true then s.tcp_stop else s
    else s
  s.sio_complete

def BAUD_300 : Nat := 0x8
def BAUD_600 : Nat := 0x9
def BAUD_1200 : Nat := 0xA
def BAUD_1800 : Nat := 0xB
def BAUD_2400 : Nat := 0xC
def BAUD_4800 : Nat := 0xD
def BAUD_9600 : Nat := 0xE
def BAUD_19200 : Nat := 0xF

/-- 0x42: CONFIGURE. -/
def sio_config (s : sioModem) : sioModem :=
  let s := s.sio_complete
  let newBaud := 0x0F &&& s.cmdFrame.aux1
  if s.baudLock = true then s
  else if newBaud = BAUD_300 then { s with modemBaud := 300 }
  else if newBaud = BAUD_600 then { s with modemBaud := 600 }
  else if newBaud = BAUD_1200 then { s with modemBaud := 1200 }
  else if newBaud = BAUD_1800 then { s with modemBaud := 1800 }
  else if newBaud = BAUD_2400 then { s with modemBaud := 2400 }
  else if newBaud = BAUD_4800 then { s with modemBaud := 4800 }
  else if newBaud = BAUD_9600 then { s with modemBaud := 9600 }
  else if newBaud = BAUD_19200 then { s with modemBaud := 19200 }
  else { s with modemBaud := 300 }

/-- 0x44: SET_DUMP. -/
def sio_set_dump (s : sioModem) : sioModem :=
  (s.emit (.sniffer_setEnable (decide (s.cmdFrame.aux1 ≠ 0)))).sio_complete

/-- The pair of baud-dependent bytes of the STREAM response; the initial value of the
array is the one for 19200 and a baud outside the eight cases leaves it. -/
def stream_divisor (modemBaud : Nat) : Nat × Nat :=
  if modemBaud = 300 then (0xA0, 0x0B)
  else if modemBaud = 600 then (0xCC, 0x05)
  else if modemBaud = 1200 then (0xE3, 0x02)
  else if modemBaud = 1800 then (0xEA, 0x01)
  else if modemBaud = 2400 then (0x6E, 0x01)
  else if modemBaud = 4800 then (0xB3, 0x00)
  else if modemBaud = 9600 then (0x56, 0x00)
  else if modemBaud = 19200 then (0x28, 0x00)
  else (0x28, 0x00)

/-- 0x58: STREAM. -/
def sio_stream (s : sioModem) : sioModem :=
  let d := stream_divisor s.modemBaud
  let response := [d.1, 0xA0, d.2, 0xA0, d.1, 0xA0, d.2, 0xA0, 0x78]
  let s := s.sio_to_computer response false
  let s := s.emit (.uart_set_baudrate s.modemBaud)
  { s with modemActive := true }

/-- 0x4C: LISTEN. -/
def sio_listen (s : sioModem) : sioModem :=
  let s := if s.listenPort ≠ 0 then s.tcp_stop.srv_stop else s
  let s := { s with listenPort := s.cmdFrame.aux2 * 256 + s.cmdFrame.aux1 }
  let s := if s.listenPort < 1 then s.sio_nak else s.sio_ack
  let s := s.srv_setMaxClients 1
  let s := s.srv_begin s.listenPort
  s.sio_complete

/-- 0x4D: UNLISTEN. -/
def sio_unlisten (s : sioModem) : sioModem :=
  s.sio_ack.tcp_stop.srv_stop.sio_complete

/-- 0x4E: BAUDLOCK. -/
def sio_baudlock (s : sioModem) : sioModem :=
  let s := s.sio_ack
  let s := { s with baudLock := decide (s.cmdFrame.aux1 > 0) }
  s.sio_complete

/-- 0x4F: AUTOANSWER. -/
def sio_autoanswer (s : sioModem) : sioModem :=
  let s := s.sio_ack
  let s := { s with autoAnswer := decide (s.cmdFrame.aux1 > 0) }
  s.sio_complete

/-! ## Strings -/

/-- The C function `isspace` in the C locale. -/
def isspace (c : Nat) : Bool := c == 0x20 || (0x09 ≤ c && c ≤ 0x0D)

/-- The C function `isdigit`. -/
def isdigit (c : Nat) : Bool := 0x30 ≤ c && c ≤ 0x39

/-- The C function `toupper` in the C locale. -/
def toupper (c : Nat) : Nat := if 0x61 ≤ c ∧ c ≤ 0x7A then c - 0x20 else c

/-- Modelled from the spec: util_string_trim is defined in utils.cpp; it trims
whitespace from both ends of the string. -/
def util_string_trim (t : List Nat) : List Nat :=
  ((t.dropWhile isspace).reverse.dropWhile isspace).reverse

/-- Modelled from the spec: util_string_toupper is defined in utils.cpp; it case-folds
the string to upper case. -/
def util_string_toupper (t : List Nat) : List Nat := t.map toupper

/-- The call `t.find(c, pos)`; none stands for `std::string::npos`. -/
def find (c : Nat) (pos : Nat) (t : List Nat) : Option Nat :=
  let rest := t.drop pos
  let i := rest.indexOf c
  if i < rest.length then some (pos + i) else none

/-- The call `t.substr(pos)`. -/
def substr_from (pos : Nat) (t : List Nat) : Except Exn (List Nat) :=
  if pos > t.length then .error .out_of_range else .ok (t.drop pos)

/-- The call `t.substr(pos, count)` with an `int` count: a negative count converts to
a `size_t` larger than any string and so selects the rest of the string. -/
def substr (pos : Nat) (count : Int) (t : List Nat) : Except Exn (List Nat) :=
  if pos > t.length then .error .out_of_range
  else if count < 0 then .ok (t.drop pos)
  else .ok ((t.drop pos).take count.toNat)

/-- The call `t.c_str()` read as a C string: the bytes before the first NUL. -/
def c_str (t : List Nat) : List Nat := t.takeWhile (fun c => c != 0)

/-- The value of a run of decimal digits. -/
def digits_value (ds : List Nat) : Nat := ds.foldl (fun a d => 10 * a + (d - 0x30)) 0

/-- The call `std::stoi(t)`: leading whitespace and one optional sign are skipped, the
longest run of decimal digits is converted and what follows is ignored; with no digit
it throws `invalid_argument`, with a value that does not fit `int` `out_of_range`. -/
def stoi (t : List Nat) : Except Exn Int :=
  let t := t.dropWhile isspace
  let neg : Bool := t.head? == some 0x2D
  let t := if t.head? == some 0x2D || t.head? == some 0x2B then t.drop 1 else t
  let ds := t.takeWhile isdigit
  if ds = [] then .error .invalid_argument
  else
    let v : Int := if neg = true then -(digits_value ds : Int) else (digits_value ds : Int)
    if v < -2147483648 ∨ v > 2147483647 then .error .out_of_range
    else .ok v

/-! ## WiFi manager (fnWiFi.cpp) -/

/-- Modelled from the spec: the body of WiFiManager::connected reads the field
`_connected`, which the event handler of the WiFi driver sets; each poll takes the
next answer of the network-interface manager. -/
def wifi_poll_connected (s : sioModem) : Bool × sioModem :=
  match s.wifi_connected with
  | [] => (false, s)
  | b :: rest => (b, { s with wifi_connected := rest })

/-- The do-while loop of `scan_networks`: `attempts` scan attempts are left; returns
the value of `result` and the state. -/
def scan_attempt_loop : Nat → sioModem → Nat × sioModem
  | 0, s => (0, s)
  | attempts + 1, s =>
    let s := s.emit .wifi_scan_start
    match s.esp_scan_ap_num with
    | some n :: rest => (n % 65536, { s with esp_scan_ap_num := rest })
    | none :: rest => scan_attempt_loop attempts { s with esp_scan_ap_num := rest }
    | [] => scan_attempt_loop attempts s

/-- The function `WiFiManager::scan_networks(maxresults)`. -/
def scan_networks (K : Consts) (maxresults : Nat) (s : sioModem) : Nat × sioModem :=
  let s := { s with wifi_scan_records := [], wifi_scan_record_count := 0 }
  let (result, s) := scan_attempt_loop (K.FNWIFI_RECONNECT_RETRIES + 1) s
  let result := if result > maxresults then maxresults else result
  if result > 0 then
    match s.esp_scan_ap_records with
    | none => (0, { s with wifi_scan_records := [], wifi_scan_record_count := 0 })
    | some records =>
      let loaded := records.take result
      let s := { s with wifi_scan_records := loaded, wifi_scan_record_count := loaded.length }
      (s.wifi_scan_record_count % 256, s)
  else (0, s)

/-- What a call of `get_scan_result` does with its index. -/
inductive ScanRead
  /-- The call returns -1 and reads no record. -/
  | refused
  /-- The call reads the record at the index, which lies inside the array. -/
  | record (ap : wifi_ap_record_t)
  /-- The call reads at the index, which lies outside the array. -/
  | outside
  deriving DecidableEq, Repr

/-- The function `WiFiManager::get_scan_result(index, ...)`. -/
def get_scan_result (index : Nat) (s : sioModem) : ScanRead :=
  if index > s.wifi_scan_record_count then .refused
  else
    match s.wifi_scan_records.get? index with
    | some ap => .record ap
    | none => .outside

/-! ## AT command handlers -/

/-- The wait loop of `at_handle_wificonnect`,
`while ((!fnWiFi.connected()) && retries < 20)`, with `left = 20 - retries` rounds
still allowed; returns the final value of `retries` and the state. -/
def wificonnect_wait : Nat → Nat → sioModem → Nat × sioModem
  | 0, retries, s => (retries, (wifi_poll_connected s).2)
  | left + 1, retries, s =>
    let (connected, s) := wifi_poll_connected s
    if connected = true then (retries, s)
    else
      let s := s.delay 1000
      let s := s.at_cmd_println_str (str ".") false
      wificonnect_wait left (retries + 1) s

def at_handle_wificonnect (K : Consts) (s : sioModem) : Except Exn sioModem := do
  let keyIndex := find 0x2C 0 s.cmd
  let (ssid, key) ←
    match keyIndex with
    | some k => do
      let ssid ← substr 13 ((k : Int) - 13 + 1) s.cmd
      let key ← substr_from (k + 1) s.cmd
      pure (ssid, key)
    | none => do
      let ssid ← substr_from 6 s.cmd
      pure (ssid, [])
  let s := s.at_cmd_println_str (K.help .HELPWIFICONNECTING) false
  let s := s.at_cmd_println_str ssid false
  let s := s.at_cmd_println_str (str "/") false
  let s := s.at_cmd_println_str key true
  let s := s.emit (.wifi_connect (c_str ssid) (c_str key))
  let (retries, s) := wificonnect_wait 20 0 s
  if retries ≥ 20 then
    pure (s.at_result K.RESULT_CODE_ERROR (str "ERROR"))
  else
    pure (s.at_result K.RESULT_CODE_OK (str "OK"))

def at_handle_port (K : Consts) (s : sioModem) : Except Exn sioModem := do
  let port ← stoi (← substr_from 6 s.cmd)
  if port > 65535 ∨ port < 0 then
    pure (s.at_result K.RESULT_CODE_ERROR (str "ERROR"))
  else
    let s := if s.listenPort ≠ 0 then s.tcp_stop.srv_stop else s
    let s := { s with listenPort := port.toNat }
    let s := s.srv_setMaxClients 1
    let s := s.srv_begin s.listenPort
    pure (s.at_result K.RESULT_CODE_OK (str "OK"))

def at_handle_get (K : Consts) (s : sioModem) : Except Exn sioModem := do
  let pathIndex : Nat :=
    match find 0x2F 12 s.cmd with
    | some i => i
    | none => s.cmd.length
  let (port, portIndex) ←
    match find 0x3A 12 s.cmd with
    | none => pure ((80 : Int), pathIndex)
    | some i => do
      let port ← stoi (← substr (i + 1) ((pathIndex : Int) - ((i : Int) + 1) + 1) s.cmd)
      pure (port, i)
  let host ← substr 12 ((portIndex : Int) - 12 + 1) s.cmd
  let path ← substr_from pathIndex s.cmd
  let path := if path = [] then str "/" else path
  let (ok, s) := s.tcp_connect (c_str host) port
  if ok = false then
    let s := s.at_result K.RESULT_CODE_NO_CARRIER (str "NO CARRIER")
    let s := s.telnet_reset
    pure { s with CRX := false }
  else
    let s := s.at_connect_result
    let s := { s with cmdMode := false }
    let request := str "GET " ++ path ++ str " HTTP/1.1\r\nHost: " ++ host
      ++ str "\r\nConnection: close\r\n\r\n"
    pure (s.tcp_write request)

def at_handle_help (K : Consts) (s : sioModem) : sioModem :=
  let s := s.at_cmd_println_str (K.help .HELPL01) true
  let s := s.at_cmd_println_str (K.help .HELPL02) true
  let s := s.at_cmd_println_str (K.help .HELPL03) true
  let s := s.at_cmd_println_str (K.help .HELPL04) true
  let s := s.at_cmd_println_str (K.help .HELPL05) true
  let s := s.at_cmd_println_str (K.help .HELPL06) true
  let s := s.at_cmd_println_str (K.help .HELPL07) true
  let s := s.at_cmd_println_str (K.help .HELPL08) true
  let s := s.at_cmd_println_str (K.help .HELPL09) true
  let s := s.at_cmd_println_str (K.help .HELPL10) true
  let s := s.at_cmd_println_str (K.help .HELPL11) true
  let s := s.at_cmd_println_str (K.help .HELPL12) true
  let s := s.at_cmd_println_str (K.help .HELPL13) true
  let s := s.at_cmd_println_str (K.help .HELPL14) true
  let s := s.at_cmd_println_str (K.help .HELPL15) true
  let s := s.at_cmd_println_str (K.help .HELPL16) true
  let s := s.at_cmd_println_str (K.help .HELPL17) true
  let s := s.at_cmd_println_str (K.help .HELPL18) true
  let s := s.at_cmd_println
  let s :=
    if s.listenPort > 0 then
      let s := s.at_cmd_println_str (K.help .HELPPORT1) false
      let s := s.at_cmd_println_int s.listenPort true
      let s := s.at_cmd_println_str (K.help .HELPPORT2) true
      s.at_cmd_println_str (K.help .HELPPORT3) true
    else
      s.at_cmd_println_str (K.help .HELPPORT4) true
  let s := s.at_cmd_println
  s.at_result K.RESULT_CODE_OK (str "OK")

/-- The authentication mode `WIFI_AUTH_OPEN` of the WiFi driver. -/
def WIFI_AUTH_OPEN : Nat := 0

/-- The locals `ssid`, `bssid`, `rssi`, `channel`, `encryption` of
`at_handle_wifilist`, which `get_scan_result` fills in. -/
structure ScanLocals where
  ssid : List Nat
  bssid : List Nat
  rssi : Nat
  channel : Nat
  encryption : Nat

/-- The listing loop of `at_handle_wifilist`, `for (int i = 0; i < n; ++i)`, with
`left = n - i` rounds to go.  A call of `get_scan_result` that does not read a record
of the array leaves the locals as they are. -/
def wifilist_loop (K : Consts) : Nat → Nat → ScanLocals → sioModem → sioModem
  | 0, _, _, s => s
  | left + 1, i, v, s =>
    let v : ScanLocals :=
      match s.get_scan_result (i % 256) with
      | .record ap =>
        { ssid := ap.ssid.take 32, bssid := ap.bssid, rssi := ap.rssi % 256,
          channel := ap.primary % 256, encryption := ap.authmode % 256 }
      | .refused => v
      | .outside => v
    let s := s.at_cmd_println_int ((i : Int) + 1) false
    let s := s.at_cmd_println_str (str ": ") false
    let s := s.at_cmd_println_str (c_str v.ssid) false
    let s := s.at_cmd_println_str (str " [") false
    let s := s.at_cmd_println_int v.channel false
    let s := s.at_cmd_println_str (str "/") false
    let s := s.at_cmd_println_int v.rssi false
    let s := s.at_cmd_println_str (str "]") true
    let s := s.at_cmd_println_str (str "    ") false
    let s := s.at_cmd_println_str (c_str v.bssid) false
    let s := s.at_cmd_println_str
      (if v.encryption = WIFI_AUTH_OPEN then K.help .HELPSCAN4 else K.help .HELPSCAN5) true
    wifilist_loop K left (i + 1) v s

def at_handle_wifilist (K : Consts) (s : sioModem) : sioModem :=
  let s := s.at_cmd_println
  let s := s.at_cmd_println_str (K.help .HELPSCAN1) true
  let (n, s) := s.scan_networks K K.FNWIFI_SCAN_RESULTS_MAX
  let s := s.at_cmd_println
  let s :=
    if n = 0 then
      s.at_cmd_println_str (K.help .HELPSCAN2) true
    else
      let s := s.at_cmd_println_int n false
      let s := s.at_cmd_println_str (K.help .HELPSCAN3) true
      let s := s.at_cmd_println
      wifilist_loop K n 0 { ssid := [], bssid := [], rssi := 0, channel := 0, encryption := 0 } s
  let s := s.at_cmd_println
  s.at_result K.RESULT_CODE_OK (str "OK")

def at_handle_answer (s : sioModem) : sioModem :=
  if s.srv_hasClient = true then
    let s := s.srv_take_client
    let s := s.tcp_setNoDelay true
    let s := s.at_connect_result
    let s := { s with cmdMode := false }
    let s := s.uart_flush
    { s with answerHack := false }
  else s

def at_handle_dial (K : Consts) (s : sioModem) : Except Exn sioModem := do
  let (host, port) ←
    match find 0x3A 0 s.cmd with
    | some portIndex => do
      let host ← substr 4 ((portIndex : Int) - 4) s.cmd
      let port ← substr_from (portIndex + 1) s.cmd
      pure (host, port)
    | none => do
      let host ← substr_from 4 s.cmd
      pure (host, str "23")
  let host := util_string_trim host
  let PhoneNums := [str "1231231234", str "123", str "000"]
  let MyHosts := [str "ukbbs.zap.to", str "rainmaker.wunderground.com", str "stargate.synchro.net"]
  let MyPorts := [str "128", str "23", str "23"]
  let mypos := PhoneNums.indexOf host
  let aliased : Bool := host.all isdigit && decide (mypos < PhoneNums.length)
  let port := if aliased = true then MyPorts.getD mypos [] else port
  let host := if aliased = true then MyHosts.getD mypos [] else host
  if host = str "5551234" then
    let s := s.delay 1300
    pure s.at_connect_result
  else
    let s := s.at_cmd_println_str (str "Connecting to ") false
    let s := s.at_cmd_println_str host false
    let s := s.at_cmd_println_str (str ":") false
    let s := s.at_cmd_println_str port true
    let portInt ← stoi port
    let (ok, s) := s.tcp_connect (c_str host) portInt
    if ok = true then
      let s := s.tcp_setNoDelay true
      let s := s.at_connect_result
      pure { s with cmdMode := false }
    else
      let s := s.at_result K.RESULT_CODE_NO_CARRIER (str "NO CARRIER")
      let s := { s with CRX := false }
      pure s.telnet_reset

/-! ## AT command interpreter -/

/-- The enumeration `_at_cmds` that indexes the command table, in the order of the
table `at_cmds` of `modemCommand`. -/
inductive _at_cmds
  | AT_AT | AT_NET0 | AT_NET1 | AT_A | AT_IP | AT_HELP | AT_H | AT_H1
  | AT_DT | AT_DP | AT_DI | AT_WIFILIST | AT_WIFICONNECT | AT_GET | AT_PORT
  | AT_V0 | AT_V1 | AT_ANDF_ignored | AT_S0E0 | AT_S0E1
  | AT_S2E43_ignored | AT_S5E8_ignored | AT_S6E2_ignored | AT_S7E30_ignored
  | AT_S12E20_ignored | AT_E0 | AT_E1 | AT_M0_ignored | AT_M1_ignored
  | AT_X1_ignored | AT_AC1_ignored | AT_AD2_ignored | AT_AW_ignored
  | AT_OFFHOOK | AT_ZPPP_ignored | AT_BBSX_ignored | AT_SNIFF | AT_UNSNIFF
  | AT_TERMVT52 | AT_TERMVT100 | AT_TERMANSI | AT_TERMDUMB
  | AT_ENUMCOUNT
  deriving DecidableEq, Repr

open _at_cmds in
/-- The table `at_cmds` of `modemCommand`, as the list of its entries in order, each
with its index. -/
def at_cmds : List (_at_cmds × List Nat) :=
  [ (AT_AT, str "AT"),
    (AT_NET0, str "ATNET0"),
    (AT_NET1, str "ATNET1"),
    (AT_A, str "ATA"),
    (AT_IP, str "ATIP"),
    (AT_HELP, str "AT?"),
    (AT_H, str "ATH"),
    (AT_H1, str "+++ATH"),
    (AT_DT, str "ATDT"),
    (AT_DP, str "ATDP"),
    (AT_DI, str "ATDI"),
    (AT_WIFILIST, str "ATWIFILIST"),
    (AT_WIFICONNECT, str "ATWIFICONNECT"),
    (AT_GET, str "ATGET"),
    (AT_PORT, str "ATPORT"),
    (AT_V0, str "ATV0"),
    (AT_V1, str "ATV1"),
    (AT_ANDF_ignored, str "AT&F"),
    (AT_S0E0, str "ATS0=0"),
    (AT_S0E1, str "ATS0=1"),
    (AT_S2E43_ignored, str "ATS2=43"),
    (AT_S5E8_ignored, str "ATS5=8"),
    (AT_S6E2_ignored, str "ATS6=2"),
    (AT_S7E30_ignored, str "ATS7=30"),
    (AT_S12E20_ignored, str "ATS12=20"),
    (AT_E0, str "ATE0"),
    (AT_E1, str "ATE1"),
    (AT_M0_ignored, str "ATM0"),
    (AT_M1_ignored, str "ATM1"),
    (AT_X1_ignored, str "ATX1"),
    (AT_AC1_ignored, str "AT&C1"),
    (AT_AD2_ignored, str "AT&D2"),
    (AT_AW_ignored, str "AT&W"),
    (AT_OFFHOOK, str "ATH2"),
    (AT_ZPPP_ignored, str "+++ATZ"),
    (AT_BBSX_ignored, str "ATS2=128 X1 M0"),
    (AT_SNIFF, str "AT+SNIFF"),
    (AT_UNSNIFF, str "AT-SNIFF"),
    (AT_TERMVT52, str "AT+TERM=VT52"),
    (AT_TERMVT100, str "AT+TERM=VT100"),
    (AT_TERMANSI, str "AT+TERM=ANSI"),
    (AT_TERMDUMB, str "AT+TERM=DUMB") ]

/-- The test `upperCaseCmd.compare(0, strlen(entry), entry) == 0`: the first
`strlen(entry)` characters of the command, or all of it if it is shorter, equal the
entry. -/
def compare_head (entry upperCaseCmd : List Nat) : Bool :=
  upperCaseCmd.take entry.length == entry

/-- The matching step of `modemCommand`: plain AT only on equality, otherwise the
first entry after it, in table order, that heads the command; `AT_ENUMCOUNT` when the
loop runs to its end. -/
def match_at_cmd (upperCaseCmd : List Nat) : _at_cmds :=
  if upperCaseCmd = str "AT" then _at_cmds.AT_AT
  else
    match (at_cmds.drop 1).find? (fun e => compare_head e.2 upperCaseCmd) with
    | some e => e.1
    | none => _at_cmds.AT_ENUMCOUNT

/-- The hang-up branch shared by `AT_OFFHOOK`, `AT_H` and `AT_H1`. -/
def at_hangup (K : Consts) (s : sioModem) : sioModem :=
  if s.tcp_connected = true then
    let s := s.tcp_flush
    let s := s.tcp_stop
    let s := { s with cmdMode := true }
    let s := s.at_result K.RESULT_CODE_NO_CARRIER (str "NO CARRIER")
    let s := s.telnet_reset
    { s with CRX := false }
  else
    s.at_result K.RESULT_CODE_OK (str "OK")

/-- The `switch (cmd_match)` of `modemCommand`. -/
def at_dispatch (K : Consts) (cmd_match : _at_cmds) (s : sioModem) : Except Exn sioModem :=
  let ok (s : sioModem) : sioModem := s.at_result K.RESULT_CODE_OK (str "OK")
  match cmd_match with
  | .AT_AT => pure (ok s)
  | .AT_OFFHOOK | .AT_H | .AT_H1 => pure (s.at_hangup K)
  | .AT_DT | .AT_DP | .AT_DI => s.at_handle_dial K
  | .AT_WIFILIST => pure (s.at_handle_wifilist K)
  | .AT_WIFICONNECT => s.at_handle_wificonnect K
  | .AT_NET0 => pure (ok { s with use_telnet := false })
  | .AT_NET1 => pure (ok { s with use_telnet := true })
  | .AT_A => pure s.at_handle_answer
  | .AT_IP =>
    let (connected, s) := wifi_poll_connected s
    let s :=
      if connected = true then s.at_cmd_println_str s.ip4_address true
      else s.at_cmd_println_str (K.help .HELPNOWIFI) true
    pure (ok s)
  | .AT_HELP => pure (s.at_handle_help K)
  | .AT_GET => s.at_handle_get K
  | .AT_PORT => s.at_handle_port K
  | .AT_V0 => pure { s.at_cmd_resultCode K.RESULT_CODE_OK with numericResultCode := true }
  | .AT_V1 => pure { s.at_cmd_println_str (str "OK") true with numericResultCode := false }
  | .AT_S0E0 => pure (ok { s with autoAnswer := false })
  | .AT_S0E1 => pure (ok { s with autoAnswer := true })
  | .AT_E0 => pure (ok { s with commandEcho := false })
  | .AT_E1 => pure (ok { s with commandEcho := true })
  | .AT_ANDF_ignored | .AT_S2E43_ignored | .AT_S5E8_ignored | .AT_S6E2_ignored
  | .AT_S7E30_ignored | .AT_S12E20_ignored | .AT_M0_ignored | .AT_M1_ignored
  | .AT_X1_ignored | .AT_AC1_ignored | .AT_AD2_ignored | .AT_AW_ignored
  | .AT_ZPPP_ignored | .AT_BBSX_ignored => pure (ok s)
  | .AT_SNIFF => pure (ok (s.emit (.sniffer_setEnable true)))
  | .AT_UNSNIFF => pure (ok (s.emit (.sniffer_setEnable false)))
  | .AT_TERMVT52 => pure (ok { s with term_type := str "VT52" })
  | .AT_TERMVT100 => pure (ok { s with term_type := str "VT100" })
  | .AT_TERMDUMB => pure (ok { s with term_type := str "DUMB" })
  | .AT_TERMANSI => pure (ok { s with term_type := str "ANSI" })
  | .AT_ENUMCOUNT => pure (s.at_result K.RESULT_CODE_ERROR (str "ERROR"))

/-- Perform the command held in the command buffer `cmd`. -/
def modemCommand (K : Consts) (s : sioModem) : Except Exn sioModem :=
  let s := { s with cmd := util_string_trim s.cmd }
  if s.cmd = [] then pure s
  else
    let upperCaseCmd := util_string_toupper s.cmd
    let s := if s.commandEcho = true then s.at_cmd_println else s
    let upperCaseCmd :=
      match find ATASCII_EOL 0 upperCaseCmd with
      | some eol1 => upperCaseCmd.set eol1 ASCII_CR
      | none => upperCaseCmd
    let cmd_match := match_at_cmd upperCaseCmd
    match at_dispatch K cmd_match s with
    | .error e => .error e
    | .ok s => .ok { s with cmd := [] }

/-! ## WRITE -/

/-- Modelled from the spec: sio_to_peripheral is defined in sio.cpp; it reads a data
frame of `len` bytes from the host into the buffer and returns the checksum byte the
host sends after it.  Here the buffer is `txBuf`, just cleared by `memset`. -/
def sio_to_peripheral_txBuf (K : Consts) (len : Nat) (s : sioModem) : Nat × sioModem :=
  let zeroed := List.replicate K.TX_BUF_SIZE 0
  let data := s.bus_data.take len
  (s.bus_ck,
   { s with txBuf := data ++ zeroed.drop data.length,
            trace := s.trace ++ [.sio_to_peripheral len] })

/-- 0x57: WRITE. -/
def sio_write (K : Consts) (s : sioModem) : Except Exn sioModem :=
  if s.cmdFrame.aux1 = 0 then
    pure s.sio_complete
  else
    let (ck, s) := s.sio_to_peripheral_txBuf K 64
    if ck ≠ K.sio_checksum (s.txBuf.take 64) then
      pure s.sio_error
    else do
      let s ←
        if s.cmdMode = true then do
          let s := { s with cmdOutput := false }
          let s := { s with cmd := s.txBuf.take s.cmdFrame.aux1 }
          let s ←
            if s.cmd = str "ATA\r" then
              pure { s with answerHack := true }
            else
              s.modemCommand K
          pure { s with cmdOutput := true }
        else
          if s.tcp_connected = true then
            pure (s.tcp_write (s.txBuf.take s.cmdFrame.aux1))
          else
            pure s
      pure s.sio_complete

/-! ## Session tick -/

/-- Modelled from the spec: fnUartSIO.read is defined outside modem.cpp; it removes and
returns the next byte the host sent. -/
def uart_read (s : sioModem) : Nat × sioModem :=
  (s.uart_rx.headD 0xFF, { s with uart_rx := s.uart_rx.drop 1 })

/-- Modelled from the spec: fnUartSIO.readBytes is defined outside modem.cpp; it
removes and returns up to `n` bytes the host sent. -/
def uart_readBytes (n : Nat) (s : sioModem) : List Nat × sioModem :=
  (s.uart_rx.take n, { s with uart_rx := s.uart_rx.drop n })

/-- The character-assembly part of the command-mode tick, for the character `chr`
just read. -/
def assemble_char (K : Consts) (chr : Nat) (s : sioModem) : Except Exn sioModem :=
  if chr = ASCII_LF ∨ chr = ASCII_CR ∨ chr = ATASCII_EOL then
    let s := { s with cmdAtascii := decide (chr = ATASCII_EOL) }
    s.modemCommand K
  else if chr = ASCII_BACKSPACE ∨ chr = ASCII_DELETE then
    let len := s.cmd.length
    if len > 0 then
      let s := { s with cmd := s.cmd.take (len - 1) }
      if s.commandEcho = true then
        pure (((s.uart_write ASCII_BACKSPACE).uart_write 0x20).uart_write ASCII_BACKSPACE)
      else pure s
    else pure s
  else if chr = ATASCII_BACKSPACE then
    let len := s.cmd.length
    if len > 0 then
      let s := { s with cmd := s.cmd.take (len - 1) }
      if s.commandEcho = true then pure (s.uart_write ATASCII_BACKSPACE) else pure s
    else pure s
  else if chr = ATASCII_CLEAR_SCREEN ∨ (chr ≥ ATASCII_CURSOR_UP ∧ chr ≤ ATASCII_CURSOR_RIGHT) then
    if s.commandEcho = true then pure (s.uart_write chr) else pure s
  else
    let s := if s.cmd.length < K.MAX_CMD_LENGTH then { s with cmd := s.cmd ++ [chr] } else s
    if s.commandEcho = true then pure (s.uart_write chr) else pure s

/-- The command-mode branch of `sio_handle_modem` after the answer-hack test. -/
def command_mode_tick (K : Consts) (s : sioModem) : Except Exn sioModem :=
  let s :=
    if s.listenPort > 0 ∧ s.srv_hasClient = true then
      if s.autoAnswer = true then
        s.at_handle_answer
      else if elapsed s.millis s.lastRingMs > K.RING_INTERVAL then
        let s := s.at_result K.RESULT_CODE_RING (str "RING")
        { s with lastRingMs := s.millis }
      else s
    else s
  if s.uart_rx.length > 0 then
    let (chr, s) := s.uart_read
    assemble_char K chr s
  else pure s

/-- One round of the escape scan over the bytes read from the serial transport. -/
def plus_scan_byte (s : sioModem) (b : Nat) : sioModem :=
  let s := if b = 0x2B then { s with plusCount := s.plusCount + 1 } else { s with plusCount := 0 }
  let s := if s.plusCount ≥ 3 then { s with plusTime := s.millis } else s
  if b ≠ 0x2B then { s with plusCount := 0 } else s

/-- The loop `while ((bytesAvail = tcpClient.available()) > 0)` that relays received
bytes to the serial transport; `fuel` bounds the number of rounds. -/
def tcp_relay_loop : Nat → sioModem → sioModem
  | 0, s => s
  | fuel + 1, s =>
    let bytesAvail := s.tcp_available
    if bytesAvail > 0 then
      let (buf, s) := s.tcp_read (if bytesAvail > RECVBUFSIZE then RECVBUFSIZE else bytesAvail)
      let s :=
        if s.use_telnet = true then s.emit (.telnet_recv buf)
        else (s.uart_write_buf buf).uart_flush
      let s := s.emit (.sniffer_dumpInput buf)
      let s := { s with lasttime := s.millis }
      tcp_relay_loop fuel s
    else s

/-- The message sent to a second caller. -/
def busy_message : List Nat :=
  str "The MODEM is currently serving another caller. Please try again later.\x0d\x0a\x9b"

/-- The connected-mode branch of `sio_handle_modem`.  Every round of the relay loop
reads at least one byte, so the number of unread bytes is enough fuel for it. -/
def connected_mode_tick (K : Consts) (s : sioModem) : sioModem :=
  let s := if s.srv_hasClient = true then s.srv_turn_away busy_message else s
  let sioBytesAvail := s.uart_rx.length
  let s :=
    if sioBytesAvail ≠ 0 ∧ s.tcp_connected = true then
      let (buf, s) :=
        s.uart_readBytes (if sioBytesAvail > K.TX_BUF_SIZE then K.TX_BUF_SIZE else sioBytesAvail)
      let s := { s with txBuf := buf ++ s.txBuf.drop buf.length }
      let s := buf.foldl plus_scan_byte s
      let s := if s.use_telnet = true then s.emit (.telnet_send buf) else s.tcp_write buf
      let s := s.emit (.sniffer_dumpOutput buf)
      { s with lasttime := s.millis }
    else s
  tcp_relay_loop s.tcp_rx.length s

/-- The end of `sio_handle_modem`: the escape timeout and the return to command mode
once the TCP client is no longer connected. -/
def tick_tail (K : Consts) (s : sioModem) : sioModem :=
  let s :=
    if s.plusCount ≥ 3 then
      if elapsed s.millis s.plusTime > 1000 then
        { s.tcp_stop with plusCount := 0 }
      else s
    else s
  if s.tcp_connected = false ∧ s.cmdMode = false ∧ s.DTR = false then
    let s := s.tcp_flush
    let s := s.tcp_stop
    let s := { s with cmdMode := true }
    let s := s.at_result K.RESULT_CODE_NO_CARRIER (str "NO CARRIER")
    let s := s.telnet_reset
    { s with CRX := false }
  else if s.tcp_connected = false ∧ s.cmdMode = false then
    let s := { s with cmdMode := true }
    let s := s.telnet_reset
    let s := s.at_result K.RESULT_CODE_NO_CARRIER (str "NO CARRIER")
    let s := s.telnet_reset
    { s with CRX := false }
  else s

/-- Handle incoming and outgoing data for the modem: one session tick. -/
def sio_handle_modem (K : Consts) (s : sioModem) : Except Exn sioModem :=
  if s.cmdMode = true then
    if s.answerHack = true then
      match ({ s with cmd := str "ATA" }).modemCommand K with
      | .error e => .error e
      | .ok s => .ok { s with answerHack := false }
    else
      match s.command_mode_tick K with
      | .error e => .error e
      | .ok s => .ok (s.tick_tail K)
  else
    .ok ((s.connected_mode_tick K).tick_tail K)

/-! ## Bus command dispatcher -/

/-- Process one command frame.  The frame is taken decoded: `commanddata` split into
its four bytes. -/
def sio_process (K : Consts) (frame : cmdFrame_t) (s : sioModem) : Except Exn sioModem :=
  let s := { s with cmdFrame := frame }
  let comnd := s.cmdFrame.comnd
  if comnd = SIO_MODEMCMD_LOAD_RELOCATOR then
    let s := { s with count_ReqRelocator := s.count_ReqRelocator + 1 }
    pure (s.sio_send_firmware s.cmdFrame.comnd)
  else if comnd = SIO_MODEMCMD_LOAD_HANDLER then
    let s := { s with count_ReqHandler := s.count_ReqHandler + 1 }
    pure (s.sio_send_firmware s.cmdFrame.comnd)
  else if comnd = SIO_MODEMCMD_TYPE1_POLL then
    let s := { s with count_PollType1 := s.count_PollType1 + 1 }
    if s.cmdFrame.aux1 = 1 ∨ s.count_PollType1 = 16 then pure s.sio_poll_1 else pure s
  else if comnd = SIO_MODEMCMD_TYPE3_POLL then
    pure (s.sio_poll_3 K s.cmdFrame.device s.cmdFrame.aux1 s.cmdFrame.aux2)
  else if comnd = SIO_MODEMCMD_CONTROL then
    pure s.sio_ack.sio_control
  else if comnd = SIO_MODEMCMD_CONFIGURE then
    pure s.sio_ack.sio_config
  else if comnd = SIO_MODEMCMD_SET_DUMP then
    pure s.sio_ack.sio_set_dump
  else if comnd = SIO_MODEMCMD_LISTEN then
    pure s.sio_listen
  else if comnd = SIO_MODEMCMD_UNLISTEN then
    pure s.sio_unlisten
  else if comnd = SIO_MODEMCMD_BAUDLOCK then
    pure s.sio_baudlock
  else if comnd = SIO_MODEMCMD_AUTOANSWER then
    pure s.sio_autoanswer
  else if comnd = SIO_MODEMCMD_STATUS then
    pure s.sio_ack.sio_status
  else if comnd = SIO_MODEMCMD_WRITE then
    s.sio_ack.sio_write K
  else if comnd = SIO_MODEMCMD_STREAM then
    pure s.sio_ack.sio_stream
  else
    pure s.sio_nak

/-! ## Observations on traces and sample values -/

/-- Modelled from the spec: sio_checksum is defined in sio.cpp; a simple additive
checksum of the bytes, with the carry out of eight bits added back in. -/
def sio_checksum_additive (buf : List Nat) : Nat :=
  buf.foldl (fun ck b => (ck + b) / 256 + (ck + b) % 256) 0

/-- Modelled from the spec: the constants of modem.h, sio.h and fnWiFi.h are outside
modem.cpp; a sample choice with the RS232 device id 0x50 named in the comment of
sio_poll_3, a 256-byte transmit buffer and command buffer, and distinct result
codes. -/
def sample_consts : Consts where
  SIO_DEVICEID_RS232 := 0x50
  TX_BUF_SIZE := 256
  MAX_CMD_LENGTH := 256
  RING_INTERVAL := 3000
  RESULT_CODE_OK := 0
  RESULT_CODE_CONNECT := 1
  RESULT_CODE_RING := 2
  RESULT_CODE_NO_CARRIER := 3
  RESULT_CODE_ERROR := 4
  sio_checksum := sio_checksum_additive
  help := fun _ => []
  FNWIFI_SCAN_RESULTS_MAX := 20
  FNWIFI_RECONNECT_RETRIES := 8

/-- Modelled from the spec: the member initialisers of the class are in modem.h; a
session starts in CommandMode with no carrier, no listen port, verbose result codes,
command echo and command output on, baud lock and auto-answer off, and with idle
collaborators. -/
def init : sioModem where
  cmdFrame := { device := 0, comnd := 0, aux1 := 0, aux2 := 0, checksum := 0 }
  count_PollType1 := 0
  count_PollType3 := 0
  count_ReqRelocator := 0
  count_ReqHandler := 0
  firmware_sent := false
  DTR := false
  RTS := false
  XMT := false
  CRX := false
  cmdMode := true
  cmdOutput := true
  cmdAtascii := false
  answerHack := false
  commandEcho := true
  numericResultCode := false
  autoAnswer := false
  baudLock := false
  use_telnet := false
  modemActive := false
  modemBaud := 2400
  listenPort := 0
  cmd := []
  txBuf := List.replicate 256 0
  mdmStatus0 := 0
  mdmStatus1 := 0
  plusCount := 0
  plusTime := 0
  lastRingMs := 0
  lasttime := 0
  term_type := str "dumb"
  tcp_connected := false
  tcp_rx := []
  tcp_connect_ok := false
  srv_port := none
  srv_pending := 0
  uart_rx := []
  bus_data := []
  bus_ck := 0
  clock := 0
  fw_relocator := (-1, none)
  fw_handler := (-1, none)
  wifi_connected := []
  wifi_scan_records := []
  wifi_scan_record_count := 0
  esp_scan_ap_num := []
  esp_scan_ap_records := none
  ip4_address := []
  trace := []

/-- The nibble-to-baud table of CONFIGURE as the specification words it: nibbles 0x8
to 0xF select 300, 600, 1200, 1800, 2400, 4800, 9600, 19200 and every other nibble
falls back to 300. -/
def spec_config_baud (nibble : Nat) : Nat :=
  match nibble with
  | 0x8 => 300
  | 0x9 => 600
  | 0xA => 1200
  | 0xB => 1800
  | 0xC => 2400
  | 0xD => 4800
  | 0xE => 9600
  | 0xF => 19200
  | _ => 300

/-! ## Vocabulary of the statements -/

/-- The state in which a handler runs: the frame has been stored. -/
def with_frame (frame : cmdFrame_t) (s : sioModem) : sioModem :=
  { s with cmdFrame := frame }

/-- The second status byte that STATUS computes from the previous one. -/
def status_byte (m : Nat) (connected pending : Bool) : Nat :=
  ((m &&& 0b11110011 ||| (if connected = true then 12 else 0)) &&& 0b11111110)
    ||| (if pending = true then 1 else 0)

/-- The state with a new second status byte. -/
def with_status (b : Nat) (s : sioModem) : sioModem :=
  { s with mdmStatus1 := b }

/-- The auto-answer step of STATUS. -/
def status_answer (s : sioModem) : sioModem :=
  if s.autoAnswer = true ∧ s.srv_hasClient = true then
    (({ s with modemActive := true } : sioModem).delay 2000).at_connect_result
  else s

/-- The XMT and RTS updates of CONTROL. -/
def control_xmt_rts (s : sioModem) : sioModem :=
  { s with
    XMT := if s.cmdFrame.aux1 &&& 0x02 ≠ 0 then decide (s.cmdFrame.aux1 &&& 0x01 ≠ 0) else s.XMT,
    RTS := if s.cmdFrame.aux1 &&& 0x20 ≠ 0 then decide (s.cmdFrame.aux1 &&& 0x10 ≠ 0) else s.RTS }

/-- The state a tick starts from after a waiting caller, if any, was turned away. -/
def after_turn_away (t : sioModem) : sioModem :=
  if t.srv_hasClient = true then t.srv_turn_away busy_message else t

/-- The state after WRITE has read the data frame of the host into the cleared
transmit buffer. -/
def write_loaded (K : Consts) (s : sioModem) : sioModem :=
  { s with txBuf := s.bus_data ++ (List.replicate K.TX_BUF_SIZE 0).drop 64,
           trace := s.trace ++ [Event.sio_to_peripheral 64] }

/-- The state in which WRITE hands a text to the command buffer: command output is
suppressed and the buffer holds the text. -/
def write_handed (text : List Nat) (s : sioModem) : sioModem :=
  { s with cmdOutput := false, cmd := text }

/-- The end of WRITE in CommandMode: command output is restored and Complete is
signalled. -/
def write_finish (s : sioModem) : sioModem :=
  ({ s with cmdOutput := true } : sioModem).sio_complete

/-- The serial-transport events of one final result: the numeric code followed by CR
and LF when numeric result codes are on, otherwise, unless command output is
suppressed, the verbose string followed by the end-of-line sequence and a flush. -/
def result_events (code : Int) (text : List Nat) (s : sioModem) : List Event :=
  if s.numericResultCode = true then
    [Event.uart_print_int code, Event.uart_write ASCII_CR, Event.uart_write ASCII_LF]
  else if s.cmdOutput = false then []
  else if s.cmdAtascii = true then
    [Event.uart_print text, Event.uart_write ATASCII_EOL, Event.uart_flush]
  else
    [Event.uart_print text, Event.uart_write ASCII_CR, Event.uart_write ASCII_LF,
     Event.uart_flush]

/-- A sample session about to receive a data frame of 64 zero bytes followed by the
checksum byte 1, which does not match. -/
def write_sample_bad : sioModem :=
  { init with bus_data := List.replicate 64 0, bus_ck := 1 }

/-- A sample session in ConnectedMode whose TCP client is not connected, about to
receive the data frame ABC padded to 64 bytes with its matching checksum byte. -/
def write_sample_offline : sioModem :=
  { init with cmdMode := false, bus_data := str "ABC" ++ List.replicate 61 0, bus_ck := 198 }

/-- The same sample session with the TCP client connected. -/
def write_sample_online : sioModem :=
  { write_sample_offline with tcp_connected := true }

/-- A sample session in ConnectedMode with a live TCP client, DTR and carrier up,
verbose result codes and command output on. -/
def hangup_sample : sioModem :=
  { init with cmdMode := false, tcp_connected := true, DTR := true, CRX := true }


/-- The state with the firmware loader answering for the handler. -/
def with_handler (fw : Int × Option (List Nat)) (s : sioModem) : sioModem :=
  { s with fw_handler := fw }

/-- The count of TYPE1_POLL commands, advanced by the dispatcher. -/
def count_poll_1 (s : sioModem) : sioModem :=
  { s with count_PollType1 := s.count_PollType1 + 1 }

/-- The count of LOAD_RELOCATOR commands, advanced by the dispatcher. -/
def count_relocator (s : sioModem) : sioModem :=
  { s with count_ReqRelocator := s.count_ReqRelocator + 1 }

/-- The count of LOAD_HANDLER commands, advanced by the dispatcher. -/
def count_handler (s : sioModem) : sioModem :=
  { s with count_ReqHandler := s.count_ReqHandler + 1 }

/-- A sample session whose handler firmware loads with size 1234. -/
def poll_sample : sioModem :=
  init.with_handler (1234, none)


/-- One round of the escape scan on the pair (escape counter, time of the third plus), with
`m` the clock reading. -/
def scan_step (m : Nat) (p : Nat × Nat) (b : Nat) : Nat × Nat :=
  if b = 0x2B then (p.1 + 1, if p.1 + 1 ≥ 3 then m else p.2) else (0, p.2)

/-- The length of the trailing run of plus bytes of a chunk. -/
def trailing_plus (chunk : List Nat) : Nat :=
  (chunk.reverse.takeWhile (fun b => b == 0x2B)).length

/-- The clock moves on by `ms` milliseconds while nothing else happens. -/
def advance (ms : Nat) (s : sioModem) : sioModem :=
  { s with clock := s.clock + ms }

/-- One round of the relay loop, for a client with unread bytes. -/
def relay_round (s : sioModem) : sioModem :=
  let bytesAvail := s.tcp_available
  let (buf, s) := s.tcp_read (if bytesAvail > RECVBUFSIZE then RECVBUFSIZE else bytesAvail)
  let s :=
    if s.use_telnet = true then s.emit (.telnet_recv buf)
    else (s.uart_write_buf buf).uart_flush
  let s := s.emit (.sniffer_dumpInput buf)
  { s with lasttime := s.millis }

/-- The outbound half of the connected-mode tick: the chunk read from the serial transport
is scanned for the escape sequence and written to the TCP client. -/
def outbound_chunk (K : Consts) (s : sioModem) : sioModem :=
  let sioBytesAvail := s.uart_rx.length
  let (buf, s) :=
    s.uart_readBytes (if sioBytesAvail > K.TX_BUF_SIZE then K.TX_BUF_SIZE else sioBytesAvail)
  let s := { s with txBuf := buf ++ s.txBuf.drop buf.length }
  let s := buf.foldl plus_scan_byte s
  let s := if s.use_telnet = true then s.emit (.telnet_send buf) else s.tcp_write buf
  let s := s.emit (.sniffer_dumpOutput buf)
  { s with lasttime := s.millis }

/-- The session fields that the relaying of a connected-mode tick leaves alone, and the
trace, which it only extends. -/
def tick_frame (s t : sioModem) : Prop :=
  t.cmdMode = s.cmdMode ∧ t.tcp_connected = s.tcp_connected ∧ t.clock = s.clock ∧
  t.DTR = s.DTR ∧ t.numericResultCode = s.numericResultCode ∧ t.cmdOutput = s.cmdOutput ∧
  t.cmdAtascii = s.cmdAtascii ∧ ∃ ev, t.trace = s.trace ++ ev

/-- The escape is armed at the clock reading `m`: ConnectedMode with a live TCP client, no
unread serial bytes, three or more plus bytes counted and the third one timed at `m`. -/
def escape_armed (m : Nat) (t : sioModem) : Prop :=
  t.cmdMode = false ∧ t.tcp_connected = true ∧ t.uart_rx = [] ∧ 3 ≤ t.plusCount ∧
  t.plusTime = m

/-- A sample session in ConnectedMode with a live TCP client, to which the host has just
sent the three bytes of the escape sequence. -/
def escape_sample : sioModem :=
  { hangup_sample with uart_rx := str "+++" }

/-- A sample session in ConnectedMode with a live TCP client and the escape armed, to which
the host has just sent one more byte, the letter x. -/
def escape_broken_sample : sioModem :=
  { hangup_sample with plusCount := 3, uart_rx := str "x", clock := 500 }


/-- The session with `line` in the command buffer. -/
def with_cmd (line : List Nat) (s : sioModem) : sioModem :=
  { s with cmd := line }

/-- The events of the overload `at_cmd_println()`: nothing when command output is
suppressed, otherwise the end-of-line sequence and a flush. -/
def println_events (s : sioModem) : List Event :=
  if s.cmdOutput = false then []
  else if s.cmdAtascii = true then [Event.uart_write ATASCII_EOL, Event.uart_flush]
  else [Event.uart_write ASCII_CR, Event.uart_write ASCII_LF, Event.uart_flush]

/-- The events of the echo of the command line end: those of `at_cmd_println()` when
command echo is on, so nothing when command echo is off or command output is
suppressed. -/
def echo_events (s : sioModem) : List Event :=
  if s.commandEcho = true then println_events s else []

/-- The step `Replace EOL with CR` of `modemCommand`. -/
def replace_eol (upperCaseCmd : List Nat) : List Nat :=
  match find ATASCII_EOL 0 upperCaseCmd with
  | some eol1 => upperCaseCmd.set eol1 ASCII_CR
  | none => upperCaseCmd

/-- The session as the `switch` of `modemCommand` finds it: the command buffer trimmed
and the line end echoed. -/
def echoed (s : sioModem) : sioModem :=
  { s with cmd := util_string_trim s.cmd, trace := s.trace ++ echo_events s }

/-- The last step of `modemCommand`, `cmd = ""`. -/
def clear_cmd (s : sioModem) : sioModem :=
  { s with cmd := [] }

/-- A sample session about to receive the data frame AT, CR padded to 64 bytes with its
matching checksum byte. -/
def write_sample_at : sioModem :=
  { init with bus_data := str "AT\r" ++ List.replicate 61 0, bus_ck := 162 }

/-- A sample session about to receive the data frame ATQ, CR padded to 64 bytes with its
matching checksum byte. -/
def write_sample_unknown : sioModem :=
  { init with bus_data := str "ATQ\r" ++ List.replicate 60 0, bus_ck := 243 }


/-- The numeric CONNECT code that `at_connect_resultCode` prints for a baud rate. -/
def connect_code (modemBaud : Nat) : Int :=
  if modemBaud = 300 then 1
  else if modemBaud = 1200 then 5
  else if modemBaud = 2400 then 10
  else if modemBaud = 4800 then 18
  else if modemBaud = 9600 then 13
  else if modemBaud = 19200 then 85
  else 1

/-- The events of the line end chosen by `cmdAtascii`. -/
def eol_events (s : sioModem) : List Event :=
  if s.cmdAtascii = true then [Event.uart_write ATASCII_EOL]
  else [Event.uart_write ASCII_CR, Event.uart_write ASCII_LF]

/-- The events of the CONNECT report: the numeric code and CR when numeric result codes
are on, otherwise, unless command output is suppressed, the string CONNECT with the baud
rate, the line end and a flush. -/
def connect_events (s : sioModem) : List Event :=
  if s.numericResultCode = true then
    [Event.uart_print_int (connect_code s.modemBaud), Event.uart_write ASCII_CR]
  else if s.cmdOutput = false then []
  else
    [Event.uart_print (str "CONNECT "), Event.uart_flush, Event.uart_print_int s.modemBaud]
      ++ eol_events s ++ [Event.uart_flush]

/-- The final results the interpreter can report in the state `s`. -/
def final_results (K : Consts) (s : sioModem) : List (List Event) :=
  [result_events K.RESULT_CODE_OK (str "OK") s,
   result_events K.RESULT_CODE_ERROR (str "ERROR") s,
   result_events K.RESULT_CODE_NO_CARRIER (str "NO CARRIER") s,
   connect_events s]

/-- The output settings of `x` are those of `s` and the trace of `x` extends that
of `s`. -/
def out_frame (s x : sioModem) : Prop :=
  x.cmdOutput = s.cmdOutput ∧ x.cmdAtascii = s.cmdAtascii ∧ x.modemBaud = s.modemBaud ∧
  ∃ ev, x.trace = s.trace ++ ev

/-- The run from `s` to `r` ends with a final result: the output settings are kept and
the trace is extended by some output, then one of the final results of `r`, then events
that write nothing to the serial transport. -/
def ends_with_result (K : Consts) (s r : sioModem) : Prop :=
  out_frame s r ∧
  ∃ pre fin post, r.trace = s.trace ++ pre ++ fin ++ post ∧ fin ∈ final_results K r ∧
    post.filter Event.is_uart = []

/-- The locals of `at_handle_wifilist` after the call of `get_scan_result` of round `i`. -/
def scan_locals (v : ScanLocals) (i : Nat) (s : sioModem) : ScanLocals :=
  match s.get_scan_result (i % 256) with
  | .record ap =>
    { ssid := ap.ssid.take 32, bssid := ap.bssid, rssi := ap.rssi % 256,
      channel := ap.primary % 256, encryption := ap.authmode % 256 }
  | .refused => v
  | .outside => v

/-- The output of one round of the listing loop of `at_handle_wifilist`. -/
def wifilist_line (K : Consts) (i : Nat) (v : ScanLocals) (s : sioModem) : sioModem :=
  let s := s.at_cmd_println_int ((i : Int) + 1) false
  let s := s.at_cmd_println_str (str ": ") false
  let s := s.at_cmd_println_str (c_str v.ssid) false
  let s := s.at_cmd_println_str (str " [") false
  let s := s.at_cmd_println_int v.channel false
  let s := s.at_cmd_println_str (str "/") false
  let s := s.at_cmd_println_int v.rssi false
  let s := s.at_cmd_println_str (str "]") true
  let s := s.at_cmd_println_str (str "    ") false
  let s := s.at_cmd_println_str (c_str v.bssid) false
  s.at_cmd_println_str
    (if v.encryption = WIFI_AUTH_OPEN then K.help .HELPSCAN4 else K.help .HELPSCAN5) true

/-- The first step of `at_handle_dial`: the host and port texts of the dial command. -/
def dial_parse (cmd : List Nat) : Except Exn (List Nat × List Nat) :=
  match find 0x3A 0 cmd with
  | some portIndex => do
    let host ← substr 4 ((portIndex : Int) - 4) cmd
    let port ← substr_from (portIndex + 1) cmd
    pure (host, port)
  | none => do
    let host ← substr_from 4 cmd
    pure (host, str "23")

/-- The second step of `at_handle_dial`: the host is trimmed and a known phone number is
replaced by its host and port. -/
def dial_alias (host port : List Nat) : List Nat × List Nat :=
  let host := util_string_trim host
  let PhoneNums := [str "1231231234", str "123", str "000"]
  let MyHosts := [str "ukbbs.zap.to", str "rainmaker.wunderground.com", str "stargate.synchro.net"]
  let MyPorts := [str "128", str "23", str "23"]
  let mypos := PhoneNums.indexOf host
  let aliased : Bool := host.all isdigit && decide (mypos < PhoneNums.length)
  let port := if aliased = true then MyPorts.getD mypos [] else port
  let host := if aliased = true then MyHosts.getD mypos [] else host
  (host, port)

/-- The last step of `at_handle_dial`: the connection attempt and its report. -/
def dial_run (K : Consts) (host port : List Nat) (s : sioModem) : Except Exn sioModem :=
  if host = str "5551234" then
    let s := s.delay 1300
    pure s.at_connect_result
  else do
    let s := s.at_cmd_println_str (str "Connecting to ") false
    let s := s.at_cmd_println_str host false
    let s := s.at_cmd_println_str (str ":") false
    let s := s.at_cmd_println_str port true
    let portInt ← stoi port
    let (ok, s) := s.tcp_connect (c_str host) portInt
    if ok = true then
      let s := s.tcp_setNoDelay true
      let s := s.at_connect_result
      pure { s with cmdMode := false }
    else
      let s := s.at_result K.RESULT_CODE_NO_CARRIER (str "NO CARRIER")
      let s := { s with CRX := false }
      pure s.telnet_reset

/-- A sample session with numeric result codes on whose last command terminator was the
ATASCII EOL. -/
def numeric_atascii_sample : sioModem :=
  { init with numericResultCode := true, cmdAtascii := true }

/-- A sample session about to receive the data frame ATE0, CR padded to 64 bytes with its
matching checksum byte. -/
def write_sample_echo_off : sioModem :=
  { init with bus_data := str "ATE0\r" ++ List.replicate 59 0, bus_ck := 24 }

/-- The commands whose branch reads a number or a field from the command line and can
raise an exception on it. -/
def parsing_cmds : List _at_cmds :=
  [.AT_DT, .AT_DP, .AT_DI, .AT_WIFICONNECT, .AT_GET, .AT_PORT]


/-- Whether a table entry `e` and a command head `D` agree on the bytes they share, which
they must for the entry to head a command that starts with `D`. -/
def heads_agree (e D : List Nat) : Bool :=
  e.take D.length == D.take e.length

/-- The texts that head a dial command. -/
def dial_heads : List (List Nat) :=
  [str "ATDT", str "ATDP", str "ATDI"]

/-- The events of the overloads of `at_cmd_println` for a string: nothing when command
output is suppressed, otherwise the string, the line end if asked for, and a flush. -/
def print_events (t : List Nat) (addEol : Bool) (s : sioModem) : List Event :=
  if s.cmdOutput = false then []
  else [Event.uart_print t] ++ (if addEol = true then eol_events s else []) ++ [Event.uart_flush]

/-- The events of the progress line that the dial branch prints before it connects:
nothing when command output is suppressed. -/
def connecting_events (host port : List Nat) (s : sioModem) : List Event :=
  print_events (str "Connecting to ") false s ++ print_events host false s
    ++ print_events (str ":") false s ++ print_events port true s

/-- The host and port that the alias table of the dial branch gives for a dialled host
and port text. -/
def alias_of (host port : List Nat) : List Nat × List Nat :=
  if host = str "1231231234" then (str "ukbbs.zap.to", str "128")
  else if host = str "123" then (str "rainmaker.wunderground.com", str "23")
  else if host = str "000" then (str "stargate.synchro.net", str "23")
  else (host, port)

/-- A sample session about to receive the data frame ATDT5551234, CR padded to 64 bytes
with its matching checksum byte. -/
def write_sample_dial_reserved : sioModem :=
  { init with bus_data := str "ATDT5551234\r" ++ List.replicate 52 0, bus_ck := 165 }

/-- A sample session about to receive the data frame ATDTa:1, CR padded to 64 bytes with
its matching checksum byte; the connection attempt will succeed. -/
def write_sample_dial_host : sioModem :=
  { init with bus_data := str "ATDTa:1\r" ++ List.replicate 56 0, bus_ck := 8,
              tcp_connect_ok := true }

/-- A sample session whose next connection attempt succeeds. -/
def reachable_sample : sioModem :=
  { init with tcp_connect_ok := true }

/-- Whether an event is a connection attempt of the TCP client. -/
def Event.is_connect : Event → Bool
  | .tcp_connect _ _ => true
  | _ => false

/-- Whether an event is a connection attempt or a write of the TCP client. -/
def Event.is_request : Event → Bool
  | .tcp_connect _ _ => true
  | .tcp_write _ => true
  | _ => false


/-- The text of the sign of a decimal numeral: a minus sign or nothing. -/
def sign_text (neg : Bool) : List Nat :=
  if neg = true then [0x2D] else []

/-- The value of the decimal numeral with the digits `ds`, negated if `neg`. -/
def signed_value (neg : Bool) (ds : List Nat) : Int :=
  if neg = true then -(digits_value ds : Int) else (digits_value ds : Int)

/-- A sample session about to receive the data frame ATPORT80, CR padded to 64 bytes with
its matching checksum byte. -/
def write_sample_port : sioModem :=
  { init with bus_data := str "ATPORT80\r" ++ List.replicate 55 0, bus_ck := 81 }


/-- The carrier flag, the mode, the listen port and the port of the listener are in `x`
as in `s`, and the trace of `x` extends that of `s`. -/
def core_frame (s x : sioModem) : Prop :=
  x.CRX = s.CRX ∧ x.cmdMode = s.cmdMode ∧ x.listenPort = s.listenPort ∧
  x.srv_port = s.srv_port ∧ ∃ ev, x.trace = s.trace ++ ev

/-- The carrier flag is true only in ConnectedMode. -/
def carrier_connected (s : sioModem) : Prop :=
  s.CRX = true → s.cmdMode = false

/-- The effect of a run from `s` to `r` on the carrier flag and on the listener: the
trace is extended, the run keeps the rule that the carrier flag is true only in
ConnectedMode unless its events hold the pause of 1300 ms or the pause of 2000 ms, and it
leaves the listen port and the listener alone or leaves the listener bound to the listen
port. -/
def step_effect (s r : sioModem) : Prop :=
  (∃ ev, r.trace = s.trace ++ ev ∧
    ((carrier_connected s → carrier_connected r) ∨
      Event.delay 1300 ∈ ev ∨ Event.delay 2000 ∈ ev)) ∧
  ((r.listenPort = s.listenPort ∧ r.srv_port = s.srv_port) ∨
    r.srv_port = some r.listenPort)


/-- One step of a session: a bus command frame is processed, a command line is given to
the interpreter, or a session tick runs. -/
inductive Step where
  | bus (frame : cmdFrame_t)
  | line (text : List Nat)
  | tick

/-- The run of one step of a session. -/
def run_step (K : Consts) : Step → sioModem → Except Exn sioModem
  | .bus frame, s => sio_process K frame s
  | .line text, s => modemCommand K (s.with_cmd text)
  | .tick, s => sio_handle_modem K s

/-- A change of the environment between two steps: the host, the network and the clock
may change what the collaborators hold (the connection state and the unread bytes of the
TCP client, the outcome of the next connection attempt, the callers waiting on the
listener, the unread serial bytes, the next data frame and its checksum byte, the clock,
which does not go back, the firmware files, the coming WiFi answers and the address);
every member of the session, the listener and the trace stay as they are. -/
def env_step (s r : sioModem) : Prop :=
  s.clock ≤ r.clock ∧
  r = { s with tcp_connected := r.tcp_connected, tcp_rx := r.tcp_rx,
               tcp_connect_ok := r.tcp_connect_ok, srv_pending := r.srv_pending,
               uart_rx := r.uart_rx, bus_data := r.bus_data, bus_ck := r.bus_ck,
               clock := r.clock, fw_relocator := r.fw_relocator, fw_handler := r.fw_handler,
               wifi_connected := r.wifi_connected, esp_scan_ap_num := r.esp_scan_ap_num,
               esp_scan_ap_records := r.esp_scan_ap_records, ip4_address := r.ip4_address }

/-- The states reachable from the initial session state by steps that return and satisfy
`P`, and by changes of the environment. -/
inductive reachable (K : Consts) (P : Step → sioModem → sioModem → Prop) : sioModem → Prop
  | start : reachable K P init
  | step (a : Step) (s r : sioModem) :
      reachable K P s → run_step K a s = .ok r → P a s r → reachable K P r
  | env (s r : sioModem) : reachable K P s → env_step s r → reachable K P r

/-- No condition on a step. -/
def any_step (_ : Step) (_ _ : sioModem) : Prop := True

/-- The events of the step hold neither the pause of 1300 ms, which the dial of the
reserved number makes, nor the pause of 2000 ms, which STATUS makes when it answers a
waiting caller. -/
def unpaused (_ : Step) (s r : sioModem) : Prop :=
  ∀ ev, r.trace = s.trace ++ ev → Event.delay 1300 ∉ ev ∧ Event.delay 2000 ∉ ev

/-- The step is not the bus command UNLISTEN. -/
def not_unlisten (a : Step) (_ _ : sioModem) : Prop :=
  ∀ frame, a = Step.bus frame → frame.comnd ≠ SIO_MODEMCMD_UNLISTEN

/-- The state after a step, the state itself if the step does not return. -/
def after (K : Consts) (a : Step) (s : sioModem) : sioModem :=
  match run_step K a s with
  | .ok r => r
  | .error _ => s

/-- The sample session after the command line ATDT5551234 in the initial state. -/
def fake_dialled_sample : sioModem :=
  after sample_consts (.line (str "ATDT5551234")) init

/-- The sample session after LISTEN on port 8080 in the initial state. -/
def listening_sample : sioModem :=
  after sample_consts (.bus ⟨0x50, 0x4C, 0x90, 0x1F, 0⟩) init

/-- The listening sample session after AUTOANSWER with aux1 = 1, with one caller
waiting. -/
def caller_waiting_sample : sioModem :=
  { after sample_consts (.bus ⟨0x50, 0x4F, 1, 0, 0⟩) listening_sample with srv_pending := 1 }

/-- The sample session after STATUS with auto-answer on and a caller waiting. -/
def status_answered_sample : sioModem :=
  after sample_consts (.bus ⟨0x50, 0x53, 0, 0, 0⟩) caller_waiting_sample

/-- The listening sample session after UNLISTEN. -/
def unlistened_sample : sioModem :=
  after sample_consts (.bus ⟨0x50, 0x4D, 0, 0, 0⟩) listening_sample

/-- The sample session after the command line ATDTa:1 with the host reachable. -/
def dialled_sample : sioModem :=
  after sample_consts (.line (str "ATDTa:1")) reachable_sample


/-- Whether an event is a bus signal or a bus payload, in either direction. -/
def Event.is_transfer : Event → Bool
  | .sio_ack => true
  | .sio_nak => true
  | .sio_complete => true
  | .sio_error => true
  | .sio_to_computer _ _ => true
  | .sio_to_peripheral _ => true
  | _ => false

/-- The state after a sequence of steps, each taken with `after`. -/
def run_steps (K : Consts) (steps : List Step) (s : sioModem) : sioModem :=
  steps.foldl (fun x a => after K a x) s

/-- A sample session whose relocator firmware loads with size 1234. -/
def relocator_sample : sioModem :=
  { init with fw_relocator := (1234, none) }

/-- The sample session after sixteen TYPE1_POLL commands with aux1 = 0 and one reset
poll (0x4F, 0x4F). -/
def polled_reset_sample : sioModem :=
  run_steps sample_consts
    (List.replicate 16 (Step.bus ⟨0x50, 0x3F, 0, 0, 0⟩) ++ [Step.bus ⟨0x50, 0x40, 0x4F, 0x4F, 0⟩])
    relocator_sample


/-- The table entry that `modemCommand` selects for the line in the command buffer: the
line is trimmed and upper-cased, its first ATASCII EOL is replaced by CR and the result is
matched against the table. -/
def selected_entry (line : List Nat) : _at_cmds :=
  match_at_cmd (replace_eol (util_string_toupper (util_string_trim line)))


/-- The events of one round of the wait loop of WIFICONNECT: the wait of one second and
the progress dot. -/
def wait_round_events (s : sioModem) : List Event :=
  [Event.delay 1000] ++ print_events (str ".") false s

/-- The number of rounds the wait loop of WIFICONNECT makes when at most `left` rounds are
allowed and the polls of the WiFi collaborator answer as listed (an exhausted list
answers not connected). -/
def wait_rounds : Nat → List Bool → Nat
  | 0, _ => 0
  | left + 1, [] => wait_rounds left [] + 1
  | _ + 1, true :: _ => 0
  | left + 1, false :: rest => wait_rounds left rest + 1

/-- A sample session whose WiFi collaborator answers not connected to twenty polls and
connected to the twenty-first. -/
def late_wifi_sample : sioModem :=
  { init with wifi_connected := List.replicate 20 false ++ [true] }

/-- A sample session whose WiFi collaborator answers connected to the first poll. -/
def wifi_ready_sample : sioModem :=
  { init with wifi_connected := [true] }

/-- Whether an event is a call of the WiFi connect function. -/
def Event.is_wifi_connect : Event → Bool
  | .wifi_connect _ _ => true
  | _ => false

/-- The first step of `at_handle_wificonnect`: the ssid and key texts of the command. -/
def wificonnect_parse (cmd : List Nat) : Except Exn (List Nat × List Nat) :=
  match find 0x2C 0 cmd with
  | some k => do
    let ssid ← substr 13 ((k : Int) - 13 + 1) cmd
    let key ← substr_from (k + 1) cmd
    pure (ssid, key)
  | none => do
    let ssid ← substr_from 6 cmd
    pure (ssid, [])

/-- The last step of `at_handle_wificonnect`: the progress line, the connect call, the
wait loop and the report. -/
def wificonnect_run (K : Consts) (ssid key : List Nat) (s : sioModem) : sioModem :=
  let s := s.at_cmd_println_str (K.help .HELPWIFICONNECTING) false
  let s := s.at_cmd_println_str ssid false
  let s := s.at_cmd_println_str (str "/") false
  let s := s.at_cmd_println_str key true
  let s := s.emit (.wifi_connect (c_str ssid) (c_str key))
  let (retries, s) := wificonnect_wait 20 0 s
  if retries ≥ 20 then
    s.at_result K.RESULT_CODE_ERROR (str "ERROR")
  else
    s.at_result K.RESULT_CODE_OK (str "OK")


/-- A sample session with numeric result codes on, about to receive the data frame AT, CR
padded to 64 bytes with its matching checksum byte. -/
def write_sample_numeric : sioModem :=
  { init with numericResultCode := true, bus_data := str "AT\r" ++ List.replicate 61 0,
              bus_ck := 162 }

/-- A sample session about to receive the data frame ATV0, CR padded to 64 bytes with its
matching checksum byte. -/
def write_sample_v0 : sioModem :=
  { init with bus_data := str "ATV0\r" ++ List.replicate 59 0, bus_ck := 41 }


/-- A sample session that holds two scan records. -/
def scanned_sample : sioModem :=
  { init with wifi_scan_records := [⟨str "home", str "00:11:22:33:44:55", 200, 6, 3⟩,
                ⟨str "cafe", str "66:77:88:99:AA:BB", 180, 11, 0⟩],
              wifi_scan_record_count := 2 }

/-! ## Theorems -/

/-! ### Dispatch -/

/-- Dispatch of CONTROL. -/
theorem sio_process_control (K : Consts) (device aux1 aux2 checksum : Nat) (s : sioModem) :
    sio_process K ⟨device, 0x41, aux1, aux2, checksum⟩ s
      = .ok (s.with_frame ⟨device, 0x41, aux1, aux2, checksum⟩).sio_ack.sio_control := by
  simp [sio_process, with_frame, SIO_MODEMCMD_LOAD_RELOCATOR, SIO_MODEMCMD_LOAD_HANDLER,
    SIO_MODEMCMD_TYPE1_POLL, SIO_MODEMCMD_TYPE3_POLL, SIO_MODEMCMD_CONTROL]
  rfl

/-- Dispatch of CONFIGURE. -/
theorem sio_process_configure (K : Consts) (device aux1 aux2 checksum : Nat) (s : sioModem) :
    sio_process K ⟨device, 0x42, aux1, aux2, checksum⟩ s
      = .ok (s.with_frame ⟨device, 0x42, aux1, aux2, checksum⟩).sio_ack.sio_config := by
  simp [sio_process, with_frame, SIO_MODEMCMD_LOAD_RELOCATOR, SIO_MODEMCMD_LOAD_HANDLER,
    SIO_MODEMCMD_TYPE1_POLL, SIO_MODEMCMD_TYPE3_POLL, SIO_MODEMCMD_CONTROL,
    SIO_MODEMCMD_CONFIGURE]
  rfl

/-- Dispatch of LISTEN. -/
theorem sio_process_listen (K : Consts) (device aux1 aux2 checksum : Nat) (s : sioModem) :
    sio_process K ⟨device, 0x4C, aux1, aux2, checksum⟩ s
      = .ok (s.with_frame ⟨device, 0x4C, aux1, aux2, checksum⟩).sio_listen := by
  simp [sio_process, with_frame, SIO_MODEMCMD_LOAD_RELOCATOR, SIO_MODEMCMD_LOAD_HANDLER,
    SIO_MODEMCMD_TYPE1_POLL, SIO_MODEMCMD_TYPE3_POLL, SIO_MODEMCMD_CONTROL,
    SIO_MODEMCMD_CONFIGURE, SIO_MODEMCMD_SET_DUMP, SIO_MODEMCMD_LISTEN]
  rfl

/-- Dispatch of BAUDLOCK. -/
theorem sio_process_baudlock (K : Consts) (device aux1 aux2 checksum : Nat) (s : sioModem) :
    sio_process K ⟨device, 0x4E, aux1, aux2, checksum⟩ s
      = .ok (s.with_frame ⟨device, 0x4E, aux1, aux2, checksum⟩).sio_baudlock := by
  simp [sio_process, with_frame, SIO_MODEMCMD_LOAD_RELOCATOR, SIO_MODEMCMD_LOAD_HANDLER,
    SIO_MODEMCMD_TYPE1_POLL, SIO_MODEMCMD_TYPE3_POLL, SIO_MODEMCMD_CONTROL,
    SIO_MODEMCMD_CONFIGURE, SIO_MODEMCMD_SET_DUMP, SIO_MODEMCMD_LISTEN,
    SIO_MODEMCMD_UNLISTEN, SIO_MODEMCMD_BAUDLOCK]
  rfl

/-- Dispatch of STATUS. -/
theorem sio_process_status (K : Consts) (device aux1 aux2 checksum : Nat) (s : sioModem) :
    sio_process K ⟨device, 0x53, aux1, aux2, checksum⟩ s
      = .ok (s.with_frame ⟨device, 0x53, aux1, aux2, checksum⟩).sio_ack.sio_status := by
  simp [sio_process, with_frame, SIO_MODEMCMD_LOAD_RELOCATOR, SIO_MODEMCMD_LOAD_HANDLER,
    SIO_MODEMCMD_TYPE1_POLL, SIO_MODEMCMD_TYPE3_POLL, SIO_MODEMCMD_CONTROL,
    SIO_MODEMCMD_CONFIGURE, SIO_MODEMCMD_SET_DUMP, SIO_MODEMCMD_LISTEN,
    SIO_MODEMCMD_UNLISTEN, SIO_MODEMCMD_BAUDLOCK, SIO_MODEMCMD_AUTOANSWER,
    SIO_MODEMCMD_STATUS]
  rfl

/-- Dispatch of WRITE. -/
theorem sio_process_write (K : Consts) (device aux1 aux2 checksum : Nat) (s : sioModem) :
    sio_process K ⟨device, 0x57, aux1, aux2, checksum⟩ s
      = (s.with_frame ⟨device, 0x57, aux1, aux2, checksum⟩).sio_ack.sio_write K := by
  simp [sio_process, with_frame, SIO_MODEMCMD_LOAD_RELOCATOR, SIO_MODEMCMD_LOAD_HANDLER,
    SIO_MODEMCMD_TYPE1_POLL, SIO_MODEMCMD_TYPE3_POLL, SIO_MODEMCMD_CONTROL,
    SIO_MODEMCMD_CONFIGURE, SIO_MODEMCMD_SET_DUMP, SIO_MODEMCMD_LISTEN,
    SIO_MODEMCMD_UNLISTEN, SIO_MODEMCMD_BAUDLOCK, SIO_MODEMCMD_AUTOANSWER,
    SIO_MODEMCMD_STATUS, SIO_MODEMCMD_WRITE]

/-- Dispatch of TYPE3_POLL. -/
theorem sio_process_poll_3 (K : Consts) (device aux1 aux2 checksum : Nat) (s : sioModem) :
    sio_process K ⟨device, 0x40, aux1, aux2, checksum⟩ s
      = .ok ((s.with_frame ⟨device, 0x40, aux1, aux2, checksum⟩).sio_poll_3 K device aux1 aux2) := by
  simp [sio_process, with_frame, SIO_MODEMCMD_LOAD_RELOCATOR, SIO_MODEMCMD_LOAD_HANDLER,
    SIO_MODEMCMD_TYPE1_POLL, SIO_MODEMCMD_TYPE3_POLL]
  rfl

/-! ### Unrecognised command bytes -/

/-- C1: for a command frame whose command byte is none of the fourteen recognised
values, `sio_process` returns, appends exactly the Negative-Acknowledge signal to the
trace and changes nothing else but the stored command frame. -/
theorem sio_process_unrecognised (K : Consts) (frame : cmdFrame_t) (s : sioModem)
    (h : frame.comnd ∉ [0x21, 0x26, 0x3F, 0x40, 0x41, 0x42, 0x44, 0x4C, 0x4D, 0x4E, 0x4F,
      0x53, 0x57, 0x58]) :
    sio_process K frame s
      = .ok { s with cmdFrame := frame, trace := s.trace ++ [Event.sio_nak] } := by
  simp only [List.mem_cons, List.mem_singleton, List.not_mem_nil, or_false, not_or] at h
  obtain ⟨h1, h2, h3, h4, h5, h6, h7, h8, h9, h10, h11, h12, h13, h14⟩ := h
  simp [sio_process, SIO_MODEMCMD_LOAD_RELOCATOR, SIO_MODEMCMD_LOAD_HANDLER,
    SIO_MODEMCMD_TYPE1_POLL, SIO_MODEMCMD_TYPE3_POLL, SIO_MODEMCMD_CONTROL,
    SIO_MODEMCMD_CONFIGURE, SIO_MODEMCMD_SET_DUMP, SIO_MODEMCMD_LISTEN,
    SIO_MODEMCMD_UNLISTEN, SIO_MODEMCMD_BAUDLOCK, SIO_MODEMCMD_AUTOANSWER,
    SIO_MODEMCMD_STATUS, SIO_MODEMCMD_WRITE, SIO_MODEMCMD_STREAM, sio_nak, emit, *]
  rfl

/-- C1 at a sample input: command byte 0x99 on the initial session. -/
theorem sio_process_unrecognised_witness :
    (0x99 ∉ [0x21, 0x26, 0x3F, 0x40, 0x41, 0x42, 0x44, 0x4C, 0x4D, 0x4E, 0x4F,
      0x53, 0x57, 0x58]) ∧
    sio_process sample_consts
        { device := 0x50, comnd := 0x99, aux1 := 1, aux2 := 2, checksum := 0 } init
      = .ok { init with
          cmdFrame := { device := 0x50, comnd := 0x99, aux1 := 1, aux2 := 2, checksum := 0 },
          trace := init.trace ++ [Event.sio_nak] } :=
  ⟨by decide,
   sio_process_unrecognised sample_consts
     { device := 0x50, comnd := 0x99, aux1 := 1, aux2 := 2, checksum := 0 } init (by decide)⟩

/-! ### CONFIGURE and BAUDLOCK -/

/-- The baud nibble extracted by CONFIGURE is the remainder of aux1 modulo 16. -/
theorem low_nibble (a : Nat) : 0x0F &&& a = a % 16 := by
  rw [Nat.and_comm]
  exact Nat.and_pow_two_sub_one_eq_mod a 4

/-- The baud that `sio_config` leaves, when the lock is off, is the table value of the
low nibble. -/
theorem sio_config_unlocked (s : sioModem) (h : s.baudLock = false) :
    s.sio_config = { s.sio_complete with modemBaud := spec_config_baud (s.cmdFrame.aux1 % 16) } := by
  have hlt : s.cmdFrame.aux1 % 16 < 16 := Nat.mod_lt _ (by decide)
  simp only [sio_config, low_nibble, sio_complete, emit, h]
  generalize s.cmdFrame.aux1 % 16 = n at hlt
  interval_cases n <;>
    simp [spec_config_baud, BAUD_300, BAUD_600, BAUD_1200, BAUD_1800, BAUD_2400, BAUD_4800,
      BAUD_9600, BAUD_19200]

/-- The state `sio_config` leaves when the lock is on: only Complete is signalled. -/
theorem sio_config_locked (s : sioModem) (h : s.baudLock = true) :
    s.sio_config = s.sio_complete := by
  simp [sio_config, sio_complete, emit, h]

/-- C2: with the baud lock off, CONFIGURE returns and sets the session baud to the table
value of the low nibble of aux1 (300, 600, 1200, 1800, 2400, 4800, 9600, 19200 for 0x8
to 0xF, and 300 for 0x0 to 0x7); the upper four bits of aux1, aux2, the device id and
the frame checksum do not enter the result. -/
theorem configure_sets_baud (K : Consts) (device aux1 aux2 checksum : Nat) (s : sioModem)
    (h : s.baudLock = false) :
    ∃ s', sio_process K ⟨device, 0x42, aux1, aux2, checksum⟩ s = .ok s' ∧
      s'.modemBaud = spec_config_baud (aux1 % 16) ∧
      (aux1 % 16 = 0x8 → s'.modemBaud = 300) ∧
      (aux1 % 16 = 0x9 → s'.modemBaud = 600) ∧
      (aux1 % 16 = 0xA → s'.modemBaud = 1200) ∧
      (aux1 % 16 = 0xB → s'.modemBaud = 1800) ∧
      (aux1 % 16 = 0xC → s'.modemBaud = 2400) ∧
      (aux1 % 16 = 0xD → s'.modemBaud = 4800) ∧
      (aux1 % 16 = 0xE → s'.modemBaud = 9600) ∧
      (aux1 % 16 = 0xF → s'.modemBaud = 19200) ∧
      (aux1 % 16 < 0x8 → s'.modemBaud = 300) := by
  refine ⟨_, sio_process_configure K device aux1 aux2 checksum s, ?_⟩
  rw [sio_config_unlocked _ (by simpa [with_frame, sio_ack, emit] using h)]
  have hlt : aux1 % 16 < 16 := Nat.mod_lt _ (by decide)
  simp only [with_frame, sio_ack, sio_complete, emit]
  generalize aux1 % 16 = n at hlt
  interval_cases n <;> simp [spec_config_baud]

/-- C2 at a sample input: aux1 = 0x7E (low nibble 0xE) on the initial session. -/
theorem configure_sets_baud_witness :
    init.baudLock = false ∧
    ∃ s', sio_process sample_consts ⟨0x50, 0x42, 0x7E, 0xFF, 0⟩ init = .ok s' ∧
      s'.modemBaud = 9600 := by
  refine ⟨rfl, ?_⟩
  obtain ⟨s', h1, _, _, _, _, _, _, _, h9, _⟩ :=
    configure_sets_baud sample_consts 0x50 0x7E 0xFF 0 init rfl
  exact ⟨s', h1, h9 (by decide)⟩

/-- C3: a BAUDLOCK command followed by a CONFIGURE command: both return; if the aux1 of
BAUDLOCK is non-zero the session baud after CONFIGURE is the one before BAUDLOCK,
whatever the aux1 of CONFIGURE; if it is zero the baud after CONFIGURE is the table
value of the low nibble of the aux1 of CONFIGURE. -/
theorem baudlock_then_configure (K : Consts) (d1 a x c1 d2 b y c2 : Nat) (s : sioModem) :
    ∃ s1 s2, sio_process K ⟨d1, 0x4E, a, x, c1⟩ s = .ok s1 ∧
      sio_process K ⟨d2, 0x42, b, y, c2⟩ s1 = .ok s2 ∧
      (a ≠ 0 → s1.baudLock = true ∧ s2.modemBaud = s.modemBaud) ∧
      (a = 0 → s1.baudLock = false ∧ s2.modemBaud = spec_config_baud (b % 16)) := by
  refine ⟨_, _, sio_process_baudlock K d1 a x c1 s, sio_process_configure K d2 b y c2 _, ?_, ?_⟩
  · intro ha
    have hpos : 0 < a := Nat.pos_of_ne_zero ha
    have hl : (((s.with_frame ⟨d1, 0x4E, a, x, c1⟩).sio_baudlock).with_frame
        ⟨d2, 0x42, b, y, c2⟩).sio_ack.baudLock = true := by
      simp [with_frame, sio_baudlock, sio_ack, sio_complete, emit, hpos]
    refine ⟨by simp [with_frame, sio_baudlock, sio_ack, sio_complete, emit, hpos], ?_⟩
    rw [sio_config_locked _ hl]
    simp [with_frame, sio_baudlock, sio_ack, sio_complete, emit]
  · intro ha
    have hl : (((s.with_frame ⟨d1, 0x4E, a, x, c1⟩).sio_baudlock).with_frame
        ⟨d2, 0x42, b, y, c2⟩).sio_ack.baudLock = false := by
      simp [with_frame, sio_baudlock, sio_ack, sio_complete, emit, ha]
    refine ⟨by simp [with_frame, sio_baudlock, sio_ack, sio_complete, emit, ha], ?_⟩
    rw [sio_config_unlocked _ hl]
    simp [with_frame, sio_baudlock, sio_ack, sio_complete, emit]

/-! ### Final results of the AT interpreter -/

/-- A final result only appends its events to the trace. -/
theorem at_result_eq (code : Int) (text : List Nat) (s : sioModem) :
    s.at_result code text = { s with trace := s.trace ++ result_events code text s } := by
  unfold at_result result_events
  by_cases hn : s.numericResultCode = true
  · rw [if_pos hn, if_pos hn]
    simp [at_cmd_resultCode, uart_print_int, uart_write, emit]
  · rw [if_neg hn, if_neg hn]
    unfold at_cmd_println_str
    by_cases ho : s.cmdOutput = false
    · rw [if_pos ho, if_pos ho]
      simp
    · rw [if_neg ho, if_neg ho]
      by_cases ha : s.cmdAtascii = true
      · rw [if_pos ha]
        simp [write_eol, uart_print, uart_write, uart_flush, emit, ha]
      · rw [if_neg ha]
        simp [write_eol, uart_print, uart_write, uart_flush, emit, ha]

/-- The events of a final result depend on the three output settings only. -/
theorem result_events_congr (code : Int) (text : List Nat) (a b : sioModem)
    (hn : a.numericResultCode = b.numericResultCode) (ho : a.cmdOutput = b.cmdOutput)
    (ha : a.cmdAtascii = b.cmdAtascii) :
    result_events code text a = result_events code text b := by
  unfold result_events
  rw [hn, ho, ha]

/-- The events of a final result contain the numeric code when numeric result codes are
on, and the verbose string when they are off and command output is on. -/
theorem result_events_mem (code : Int) (text : List Nat) (s : sioModem) :
    (s.numericResultCode = true → Event.uart_print_int code ∈ result_events code text s) ∧
    (s.numericResultCode = false → s.cmdOutput = true →
      Event.uart_print text ∈ result_events code text s) := by
  unfold result_events
  constructor
  · intro hn
    simp [hn]
  · intro hn ho
    by_cases ha : s.cmdAtascii = true <;> simp [hn, ho, ha]

/-- The CONNECT report touches neither the status bytes nor the bus: its events are
serial-transport events and a carrier change. -/
theorem at_connect_result_frame (s : sioModem) :
    s.at_connect_result.mdmStatus0 = s.mdmStatus0 ∧
    s.at_connect_result.mdmStatus1 = s.mdmStatus1 ∧
    s.at_connect_result.trace.filter Event.is_bus = s.trace.filter Event.is_bus := by
  unfold at_connect_result
  cases hn : s.numericResultCode <;> cases ho : s.cmdOutput <;> cases ha : s.cmdAtascii <;>
    simp [hn, ho, ha, at_cmd_println_str,
      at_cmd_println_int, at_connect_resultCode, write_eol, uart_print, uart_print_int,
      uart_write, uart_flush, emit, List.filter_append, Event.is_bus]

/-! ### WRITE -/

/-- Reading a 64-byte data frame leaves it at the head of the transmit buffer. -/
theorem sio_to_peripheral_txBuf_eq (K : Consts) (s : sioModem) (hlen : s.bus_data.length = 64) :
    s.sio_to_peripheral_txBuf K 64 = (s.bus_ck, s.write_loaded K) := by
  have ht : s.bus_data.take 64 = s.bus_data := by
    rw [← hlen]; exact List.take_length _
  simp only [sio_to_peripheral_txBuf, write_loaded, ht, hlen]

/-- The first bytes of the loaded transmit buffer are those of the data frame. -/
theorem write_loaded_take (K : Consts) (s : sioModem) (n : Nat) (hlen : s.bus_data.length = 64)
    (hn : n ≤ 64) : (s.write_loaded K).txBuf.take n = s.bus_data.take n := by
  simp only [write_loaded]
  exact List.take_append_of_le_length (by omega)

/-- The 64 bytes over which WRITE computes the checksum are the data frame. -/
theorem write_loaded_take_all (K : Consts) (s : sioModem) (hlen : s.bus_data.length = 64) :
    (s.write_loaded K).txBuf.take 64 = s.bus_data := by
  rw [write_loaded_take K s 64 hlen (le_refl _)]
  have h := List.take_length s.bus_data
  rwa [hlen] at h

/-- WRITE with a byte count of zero only signals Complete. -/
theorem sio_write_empty (K : Consts) (s : sioModem) (ha : s.cmdFrame.aux1 = 0) :
    s.sio_write K = .ok s.sio_complete := by
  unfold sio_write
  rw [if_pos ha]
  rfl

/-- WRITE with a non-zero byte count and a checksum mismatch: after the data frame is
read only Error is signalled. -/
theorem sio_write_bad_checksum (K : Consts) (s : sioModem) (hlen : s.bus_data.length = 64)
    (ha : s.cmdFrame.aux1 ≠ 0) (hck : s.bus_ck ≠ K.sio_checksum s.bus_data) :
    s.sio_write K = .ok (s.write_loaded K).sio_error := by
  unfold sio_write
  rw [if_neg ha, sio_to_peripheral_txBuf_eq K s hlen]
  simp only [write_loaded_take_all K s hlen, hck, ne_eq, not_false_eq_true, if_true]
  rfl

/-- WRITE with a valid checksum in ConnectedMode: the first aux1 bytes of the data
frame go to the TCP client if it is connected, nothing otherwise; then Complete. -/
theorem sio_write_connected (K : Consts) (s : sioModem) (hlen : s.bus_data.length = 64)
    (ha : s.cmdFrame.aux1 ≠ 0) (hle : s.cmdFrame.aux1 ≤ 64)
    (hck : s.bus_ck = K.sio_checksum s.bus_data) (hm : s.cmdMode = false) :
    s.sio_write K = .ok
      (if s.tcp_connected = true then
        ((s.write_loaded K).tcp_write (s.bus_data.take s.cmdFrame.aux1)).sio_complete
       else (s.write_loaded K).sio_complete) := by
  have hm' : (s.write_loaded K).cmdMode = false := hm
  have ha' : (s.write_loaded K).cmdFrame.aux1 = s.cmdFrame.aux1 := rfl
  have hc' : (s.write_loaded K).tcp_connected = s.tcp_connected := rfl
  unfold sio_write
  rw [if_neg ha, sio_to_peripheral_txBuf_eq K s hlen]
  simp only [write_loaded_take_all K s hlen, hck, ne_eq, not_true, if_false, hm', ha', hc',
    write_loaded_take K s _ hlen hle, Bool.false_eq_true]
  cases s.tcp_connected <;> rfl

/-- WRITE with a valid checksum in CommandMode: the first aux1 bytes of the data frame
become the command buffer with command output suppressed; the text ATA followed by CR
only sets the answer flag, any other text is run by the AT interpreter; then command
output is restored and Complete is signalled. -/
theorem sio_write_command (K : Consts) (s : sioModem) (hlen : s.bus_data.length = 64)
    (ha : s.cmdFrame.aux1 ≠ 0) (hle : s.cmdFrame.aux1 ≤ 64)
    (hck : s.bus_ck = K.sio_checksum s.bus_data) (hm : s.cmdMode = true) :
    s.sio_write K =
      if s.bus_data.take s.cmdFrame.aux1 = str "ATA\r" then
        .ok ({ (s.write_loaded K).write_handed (s.bus_data.take s.cmdFrame.aux1) with
                answerHack := true } : sioModem).write_finish
      else
        (((s.write_loaded K).write_handed (s.bus_data.take s.cmdFrame.aux1)).modemCommand K).map
          write_finish := by
  have hm' : (s.write_loaded K).cmdMode = true := hm
  have ha' : (s.write_loaded K).cmdFrame.aux1 = s.cmdFrame.aux1 := rfl
  unfold sio_write
  rw [if_neg ha, sio_to_peripheral_txBuf_eq K s hlen]
  simp only [write_loaded_take_all K s hlen, hck, ne_eq, not_true, if_false, hm', ha',
    write_loaded_take K s _ hlen hle, if_true]
  by_cases hata : s.bus_data.take s.cmdFrame.aux1 = str "ATA\r"
  · simp only [hata, if_true]
    simp [write_handed, write_finish, hm', pure, Except.pure, bind, Except.bind]
  · simp only [hata, if_false]
    cases hmc : modemCommand K ((s.write_loaded K).write_handed (s.bus_data.take s.cmdFrame.aux1))
    · simp only [write_handed, hm'] at hmc
      simp [hmc, write_finish, Except.map, pure, Except.pure, bind, Except.bind]
    · simp only [write_handed, hm'] at hmc
      simp [hmc, write_finish, Except.map, pure, Except.pure, bind, Except.bind]

set_option maxRecDepth 100000 in
/-- C4 fails as stated in ConnectedMode when the TCP client is not connected: for a
WRITE frame with aux1 = 3 and a valid checksum the dispatcher signals Acknowledge,
reads the data frame and signals Complete, and writes nothing to the TCP socket. -/
theorem write_offline_not_sent :
    write_sample_offline.bus_data.length = 64 ∧
    write_sample_offline.bus_ck = sample_consts.sio_checksum write_sample_offline.bus_data ∧
    write_sample_offline.cmdMode = false ∧
    (sio_process sample_consts ⟨0x50, 0x57, 3, 0, 0⟩ write_sample_offline).map (fun r => r.trace)
      = .ok [Event.sio_ack, Event.sio_to_peripheral 64, Event.sio_complete] := by
  exact ⟨rfl, rfl, rfl, rfl⟩

/-- C4, amended: for a WRITE frame with aux1 at most 64 whose 64-byte data frame has a
valid checksum: with aux1 = 0 only Acknowledge and Complete are signalled and nothing is
read or moved; with aux1 not zero, in ConnectedMode exactly the first aux1 bytes of the
data frame are written to the TCP socket when the TCP client is connected and nothing
is written when it is not, and Complete is signalled either way; in CommandMode the
command buffer receives exactly the first aux1 bytes of the data frame, the text ATA
followed by CR sets the answer flag and Complete is signalled, and any other text is run
by the AT interpreter with command output suppressed, Complete being signalled when the
interpreter returns. -/
theorem write_delivers (K : Consts) (device aux1 aux2 checksum : Nat) (s : sioModem)
    (hlen : s.bus_data.length = 64) (hck : s.bus_ck = K.sio_checksum s.bus_data)
    (hle : aux1 ≤ 64) :
    (aux1 = 0 →
      sio_process K ⟨device, 0x57, aux1, aux2, checksum⟩ s
        = .ok { s with cmdFrame := ⟨device, 0x57, aux1, aux2, checksum⟩,
                       trace := s.trace ++ [Event.sio_ack, Event.sio_complete] }) ∧
    (aux1 ≠ 0 → s.cmdMode = false → s.tcp_connected = true →
      sio_process K ⟨device, 0x57, aux1, aux2, checksum⟩ s
        = .ok { s with cmdFrame := ⟨device, 0x57, aux1, aux2, checksum⟩,
                       txBuf := s.bus_data ++ (List.replicate K.TX_BUF_SIZE 0).drop 64,
                       trace := s.trace ++ [Event.sio_ack, Event.sio_to_peripheral 64,
                                            Event.tcp_write (s.bus_data.take aux1),
                                            Event.sio_complete] }) ∧
    (aux1 ≠ 0 → s.cmdMode = false → s.tcp_connected = false →
      sio_process K ⟨device, 0x57, aux1, aux2, checksum⟩ s
        = .ok { s with cmdFrame := ⟨device, 0x57, aux1, aux2, checksum⟩,
                       txBuf := s.bus_data ++ (List.replicate K.TX_BUF_SIZE 0).drop 64,
                       trace := s.trace ++ [Event.sio_ack, Event.sio_to_peripheral 64,
                                            Event.sio_complete] }) ∧
    (aux1 ≠ 0 → s.cmdMode = true → s.bus_data.take aux1 = str "ATA\r" →
      sio_process K ⟨device, 0x57, aux1, aux2, checksum⟩ s
        = .ok { s with cmdFrame := ⟨device, 0x57, aux1, aux2, checksum⟩,
                       txBuf := s.bus_data ++ (List.replicate K.TX_BUF_SIZE 0).drop 64,
                       cmdOutput := true,
                       cmd := s.bus_data.take aux1,
                       answerHack := true,
                       trace := s.trace ++ [Event.sio_ack, Event.sio_to_peripheral 64,
                                            Event.sio_complete] }) ∧
    (aux1 ≠ 0 → s.cmdMode = true → s.bus_data.take aux1 ≠ str "ATA\r" →
      sio_process K ⟨device, 0x57, aux1, aux2, checksum⟩ s
        = (modemCommand K
            { s with cmdFrame := ⟨device, 0x57, aux1, aux2, checksum⟩,
                     txBuf := s.bus_data ++ (List.replicate K.TX_BUF_SIZE 0).drop 64,
                     cmdOutput := false,
                     cmd := s.bus_data.take aux1,
                     trace := s.trace ++ [Event.sio_ack, Event.sio_to_peripheral 64] }).map
          (fun r => { r with cmdOutput := true, trace := r.trace ++ [Event.sio_complete] })) := by
  refine ⟨?_, ?_, ?_, ?_, ?_⟩
  · intro ha
    rw [sio_process_write,
      sio_write_empty K (s.with_frame ⟨device, 0x57, aux1, aux2, checksum⟩).sio_ack ha]
    simp [with_frame, sio_ack, sio_complete, emit]
  · intro ha hm hc
    rw [sio_process_write,
      sio_write_connected K (s.with_frame ⟨device, 0x57, aux1, aux2, checksum⟩).sio_ack hlen ha hle hck hm]
    simp [with_frame, sio_ack, sio_complete, write_loaded, tcp_write, emit, hc]
  · intro ha hm hc
    rw [sio_process_write,
      sio_write_connected K (s.with_frame ⟨device, 0x57, aux1, aux2, checksum⟩).sio_ack hlen ha hle hck hm]
    simp [with_frame, sio_ack, sio_complete, write_loaded, tcp_write, emit, hc]
  · intro ha hm hata
    rw [sio_process_write,
      sio_write_command K (s.with_frame ⟨device, 0x57, aux1, aux2, checksum⟩).sio_ack hlen ha hle hck hm]
    simp [with_frame, sio_ack, sio_complete, write_loaded, write_handed, write_finish, emit, hata,
      hm]
  · intro ha hm hata
    rw [sio_process_write,
      sio_write_command K (s.with_frame ⟨device, 0x57, aux1, aux2, checksum⟩).sio_ack hlen ha hle hck hm]
    simp [with_frame, sio_ack, sio_complete, write_loaded, write_handed, write_finish, emit, hata]
    rfl

set_option maxRecDepth 100000 in
/-- C4, amended, at a sample input: aux1 = 3 in ConnectedMode with the TCP client
connected; the bytes ABC are written to the socket. -/
theorem write_delivers_witness :
    write_sample_online.bus_data.length = 64 ∧
    write_sample_online.bus_ck = sample_consts.sio_checksum write_sample_online.bus_data ∧
    sio_process sample_consts ⟨0x50, 0x57, 3, 0, 0⟩ write_sample_online
      = .ok { write_sample_online with
                cmdFrame := ⟨0x50, 0x57, 3, 0, 0⟩,
                txBuf := write_sample_online.bus_data
                  ++ (List.replicate sample_consts.TX_BUF_SIZE 0).drop 64,
                trace := write_sample_online.trace
                  ++ [Event.sio_ack, Event.sio_to_peripheral 64,
                      Event.tcp_write (write_sample_online.bus_data.take 3),
                      Event.sio_complete] } :=
  ⟨rfl, rfl,
   (write_delivers sample_consts 0x50 3 0 0 write_sample_online rfl rfl (by decide)).2.1
     (by decide) rfl rfl⟩

set_option maxRecDepth 100000 in
/-- C5 fails as stated at aux1 = 0: for a WRITE frame with a byte count of zero and a
data frame whose checksum byte does not match, the dispatcher signals Acknowledge and
Complete, reads no data frame and signals no Error. -/
theorem write_bad_checksum_unread :
    write_sample_bad.bus_data.length = 64 ∧
    write_sample_bad.bus_ck ≠ sample_consts.sio_checksum write_sample_bad.bus_data ∧
    (sio_process sample_consts ⟨0x50, 0x57, 0, 0, 0⟩ write_sample_bad).map (fun r => r.trace)
      = .ok [Event.sio_ack, Event.sio_complete] := by
  refine ⟨rfl, ?_, rfl⟩
  rw [show sample_consts.sio_checksum write_sample_bad.bus_data = 0 from rfl]
  decide

set_option maxRecDepth 100000 in
/-- The checksum byte of the sample data frame of zeros does not match. -/
theorem write_sample_bad_mismatch :
    write_sample_bad.bus_ck ≠ sample_consts.sio_checksum write_sample_bad.bus_data := by
  rw [show sample_consts.sio_checksum write_sample_bad.bus_data = 0 from rfl]
  decide

/-- C5, amended: for a WRITE frame whose 64-byte data frame has a checksum byte that
does not match the computed checksum: if aux1 is not zero, in either mode, the
dispatcher returns after Acknowledge, the read of the data frame and Error; Complete is
not signalled, nothing is written to the TCP socket and no field other than the stored
frame, the transmit buffer and the trace changes, so no AT command is executed and the
command buffer is unchanged; if aux1 is zero the data frame is not read, no checksum is
tested and the dispatcher signals Acknowledge and Complete. -/
theorem write_bad_checksum (K : Consts) (device aux1 aux2 checksum : Nat) (s : sioModem)
    (hlen : s.bus_data.length = 64) (hck : s.bus_ck ≠ K.sio_checksum s.bus_data) :
    (aux1 ≠ 0 →
      sio_process K ⟨device, 0x57, aux1, aux2, checksum⟩ s
        = .ok { s with cmdFrame := ⟨device, 0x57, aux1, aux2, checksum⟩,
                       txBuf := s.bus_data ++ (List.replicate K.TX_BUF_SIZE 0).drop 64,
                       trace := s.trace ++ [Event.sio_ack, Event.sio_to_peripheral 64,
                                            Event.sio_error] }) ∧
    (aux1 = 0 →
      sio_process K ⟨device, 0x57, aux1, aux2, checksum⟩ s
        = .ok { s with cmdFrame := ⟨device, 0x57, aux1, aux2, checksum⟩,
                       trace := s.trace ++ [Event.sio_ack, Event.sio_complete] }) := by
  constructor
  · intro ha
    rw [sio_process_write,
      sio_write_bad_checksum K (s.with_frame ⟨device, 0x57, aux1, aux2, checksum⟩).sio_ack hlen ha hck]
    simp [with_frame, sio_ack, sio_error, write_loaded, emit]
  · intro ha
    rw [sio_process_write,
      sio_write_empty K (s.with_frame ⟨device, 0x57, aux1, aux2, checksum⟩).sio_ack ha]
    simp [with_frame, sio_ack, sio_complete, emit]

set_option maxRecDepth 100000 in
/-- C5, amended, at a sample input: aux1 = 5 with a data frame of zeros and the
checksum byte 1. -/
theorem write_bad_checksum_witness :
    write_sample_bad.bus_data.length = 64 ∧
    write_sample_bad.bus_ck ≠ sample_consts.sio_checksum write_sample_bad.bus_data ∧
    sio_process sample_consts ⟨0x50, 0x57, 5, 0, 0⟩ write_sample_bad
      = .ok { write_sample_bad with
                cmdFrame := ⟨0x50, 0x57, 5, 0, 0⟩,
                txBuf := write_sample_bad.bus_data
                  ++ (List.replicate sample_consts.TX_BUF_SIZE 0).drop 64,
                trace := write_sample_bad.trace
                  ++ [Event.sio_ack, Event.sio_to_peripheral 64, Event.sio_error] } :=
  ⟨rfl, write_sample_bad_mismatch,
   (write_bad_checksum sample_consts 0x50 5 0 0 write_sample_bad rfl
      write_sample_bad_mismatch).1 (by decide)⟩

/-! ### STATUS -/

/-- The bits of the status byte: bits 2 and 3 follow the connection, bit 0 the pending
flag, the others keep their value. -/
theorem status_byte_bits (m : Nat) (connected pending : Bool) :
    (status_byte m connected pending).testBit 2 = connected ∧
    (status_byte m connected pending).testBit 3 = connected ∧
    (status_byte m connected pending).testBit 0 = pending ∧
    (∀ i ∈ [1, 4, 5, 6, 7],
      (status_byte m connected pending).testBit i = m.testBit i) := by
  unfold status_byte
  have t243 : ∀ i ∈ [0, 1, 2, 3, 4, 5, 6, 7],
      Nat.testBit 243 i = (i != 2 && i != 3) := by decide
  have t254 : ∀ i ∈ [0, 1, 2, 3, 4, 5, 6, 7], Nat.testBit 254 i = (i != 0) := by decide
  have t12 : ∀ i ∈ [0, 1, 2, 3, 4, 5, 6, 7], Nat.testBit 12 i = (i == 2 || i == 3) := by decide
  have t1 : ∀ i ∈ [0, 1, 2, 3, 4, 5, 6, 7], Nat.testBit 1 i = (i == 0) := by decide
  cases connected <;> cases pending <;>
    simp [Nat.testBit_and, Nat.testBit_or, t243, t254, t12, t1]

/-- The auto-answer step touches neither the status bytes nor the bus. -/
theorem status_answer_frame (s : sioModem) :
    s.status_answer.mdmStatus0 = s.mdmStatus0 ∧
    s.status_answer.mdmStatus1 = s.mdmStatus1 ∧
    s.status_answer.trace.filter Event.is_bus = s.trace.filter Event.is_bus := by
  unfold status_answer
  by_cases h : s.autoAnswer = true ∧ s.srv_hasClient = true
  · rw [if_pos h]
    obtain ⟨f0, f1, ft⟩ := at_connect_result_frame
      (({ s with modemActive := true } : sioModem).delay 2000)
    refine ⟨f0.trans rfl, f1.trans rfl, ft.trans ?_⟩
    simp [delay, List.filter_append, Event.is_bus]
  · rw [if_neg h]
    exact ⟨rfl, rfl, rfl⟩

set_option maxHeartbeats 1000000 in
/-- STATUS as three steps: the new status byte, the auto-answer step, the payload. -/
theorem sio_status_eq (s : sioModem) :
    s.sio_status =
      (let b := status_byte s.mdmStatus1 s.tcp_connected
         (decide (s.tcp_available > 0) || s.srv_hasClient)
       let s2 := (s.with_status b).status_answer
       s2.sio_to_computer [s2.mdmStatus0, s2.mdmStatus1] false) := by
  unfold sio_status status_byte status_answer with_status
  have hiff : (decide (s.tcp_available > 0) || s.srv_hasClient) = true ↔
      (s.tcp_available > 0 ∨ s.srv_hasClient = true) := by simp
  by_cases hp : s.tcp_available > 0 ∨ s.srv_hasClient = true
  · have hb := hiff.mpr hp
    simp only [tcp_available, srv_hasClient] at hp hb ⊢
    simp only [hp, hb, if_true]
  · have hb : (decide (s.tcp_available > 0) || s.srv_hasClient) = false := by
      simpa using hp
    simp only [tcp_available, srv_hasClient] at hp hb ⊢
    simp only [hp, hb, if_false, Bool.false_eq_true]

/-- The status bytes and the bus events that STATUS leaves. -/
theorem sio_status_spec (s : sioModem) :
    s.sio_status.mdmStatus1 = status_byte s.mdmStatus1 s.tcp_connected
        (decide (s.tcp_available > 0) || s.srv_hasClient) ∧
    s.sio_status.mdmStatus0 = s.mdmStatus0 ∧
    s.sio_status.trace.filter Event.is_bus = s.trace.filter Event.is_bus
      ++ [Event.sio_to_computer [s.sio_status.mdmStatus0, s.sio_status.mdmStatus1] false] := by
  rw [sio_status_eq]
  obtain ⟨f0, f1, ft⟩ := status_answer_frame
    (s.with_status (status_byte s.mdmStatus1 s.tcp_connected
        (decide (s.tcp_available > 0) || s.srv_hasClient)))
  refine ⟨f1, f0, ?_⟩
  simp only [sio_to_computer, emit, List.filter_append, ft]
  rfl

/-- C6: for every prior value of the two status bytes and every session state, STATUS
returns; afterwards bits 2 and 3 of the second status byte both equal the connected flag
of the TCP client, bit 0 is set exactly when TCP data is available or a client is
pending on the listener, bits 1, 4, 5, 6, 7 are unchanged and the first status byte is
unchanged; on the bus, Acknowledge is followed by one payload, the two status bytes. -/
theorem status_reports_bits (K : Consts) (device aux1 aux2 checksum : Nat) (s : sioModem) :
    ∃ s', sio_process K ⟨device, 0x53, aux1, aux2, checksum⟩ s = .ok s' ∧
      s'.mdmStatus1.testBit 2 = s.tcp_connected ∧
      s'.mdmStatus1.testBit 3 = s.tcp_connected ∧
      s'.mdmStatus1.testBit 0 = (decide (s.tcp_available > 0) || s.srv_hasClient) ∧
      (∀ i ∈ [1, 4, 5, 6, 7], s'.mdmStatus1.testBit i = s.mdmStatus1.testBit i) ∧
      s'.mdmStatus0 = s.mdmStatus0 ∧
      s'.trace.filter Event.is_bus = s.trace.filter Event.is_bus
        ++ [Event.sio_ack, Event.sio_to_computer [s'.mdmStatus0, s'.mdmStatus1] false] := by
  refine ⟨_, sio_process_status K device aux1 aux2 checksum s, ?_⟩
  obtain ⟨g1, g0, gt⟩ := sio_status_spec (s.with_frame ⟨device, 0x53, aux1, aux2, checksum⟩).sio_ack
  obtain ⟨b2, b3, b0, bo⟩ := status_byte_bits s.mdmStatus1 s.tcp_connected
    (decide (s.tcp_available > 0) || s.srv_hasClient)
  have g1' : (s.with_frame ⟨device, 0x53, aux1, aux2, checksum⟩).sio_ack.sio_status.mdmStatus1
      = status_byte s.mdmStatus1 s.tcp_connected
          (decide (s.tcp_available > 0) || s.srv_hasClient) := g1
  refine ⟨?_, ?_, ?_, ?_, g0, gt.trans ?_⟩
  · rw [g1']; exact b2
  · rw [g1']; exact b3
  · rw [g1']; exact b0
  · rw [g1']; exact bo
  · simp [with_frame, sio_ack, emit, List.filter_append, Event.is_bus]

/-! ### CONTROL -/

/-- The bit of weight `2 ^ i` selected by a mask test. -/
theorem and_two_pow_eq (a i : Nat) : a &&& 2 ^ i = if a.testBit i = true then 2 ^ i else 0 := by
  apply Nat.eq_of_testBit_eq
  intro j
  rw [Nat.testBit_and, Nat.testBit_two_pow]
  by_cases h : i = j
  · subst h
    by_cases hb : a.testBit i = true <;> simp [hb, Nat.testBit_two_pow_self]
  · by_cases hb : a.testBit i = true <;> simp [hb, h, Nat.testBit_two_pow_of_ne h]

/-- A mask test with a single-bit mask reads that bit. -/
theorem and_two_pow_ne_zero (a i : Nat) : a &&& 2 ^ i ≠ 0 ↔ a.testBit i = true := by
  rw [and_two_pow_eq]
  have hp : 2 ^ i ≠ 0 := Nat.pos_iff_ne_zero.mp (Nat.two_pow_pos i)
  by_cases hb : a.testBit i = true <;> simp [hb, hp]

/-- A single-bit mask test either succeeds with the bit set or fails with it clear. -/
theorem mask_cases (a i : Nat) :
    (a &&& 2 ^ i ≠ 0 ∧ a.testBit i = true) ∨ (a &&& 2 ^ i = 0 ∧ a.testBit i = false) := by
  by_cases h : a.testBit i = true
  · exact Or.inl ⟨(and_two_pow_ne_zero a i).mpr h, h⟩
  · refine Or.inr ⟨?_, by simpa using h⟩
    by_contra hne
    exact h ((and_two_pow_ne_zero a i).mp hne)

/-- The Boolean value of a single-bit mask test is that bit. -/
theorem decide_mask (a i : Nat) : decide (¬ a &&& 2 ^ i = 0) = a.testBit i := by
  rcases mask_cases a i with ⟨m, h⟩ | ⟨m, h⟩
  · rw [h]; exact decide_eq_true m
  · rw [h]; exact decide_eq_false (not_not.mpr m)

set_option maxHeartbeats 1000000 in
/-- C7: for every aux1, CONTROL returns; XMT becomes bit 0 of aux1 if bit 1 is set, RTS
becomes bit 4 if bit 5 is set, DTR becomes bit 6 if bit 7 is set, and each is unchanged
otherwise; the trace grows by Acknowledge, then the stop of the TCP client exactly when
bit 7 is set, bit 6 is clear and the client was connected, then Complete. -/
theorem control_updates_lines (K : Consts) (device aux1 aux2 checksum : Nat) (s : sioModem) :
    ∃ s', sio_process K ⟨device, 0x41, aux1, aux2, checksum⟩ s = .ok s' ∧
      s'.XMT = (if aux1.testBit 1 = true then aux1.testBit 0 else s.XMT) ∧
      s'.RTS = (if aux1.testBit 5 = true then aux1.testBit 4 else s.RTS) ∧
      s'.DTR = (if aux1.testBit 7 = true then aux1.testBit 6 else s.DTR) ∧
      s'.trace = s.trace ++ [Event.sio_ack]
        ++ (if aux1.testBit 7 = true ∧ aux1.testBit 6 = false ∧ s.tcp_connected = true
            then [Event.tcp_stop] else [])
        ++ [Event.sio_complete] := by
  refine ⟨_, sio_process_control K device aux1 aux2 checksum s, ?_⟩
  have e0 : decide (¬ aux1 &&& 0x01 = 0) = aux1.testBit 0 := decide_mask aux1 0
  have e4 : decide (¬ aux1 &&& 0x10 = 0) = aux1.testBit 4 := decide_mask aux1 4
  have c1 : (aux1 &&& 0x02 ≠ 0 ∧ _) ∨ (aux1 &&& 0x02 = 0 ∧ _) := mask_cases aux1 1
  have c5 : (aux1 &&& 0x20 ≠ 0 ∧ _) ∨ (aux1 &&& 0x20 = 0 ∧ _) := mask_cases aux1 5
  have c6 : (aux1 &&& 0x40 ≠ 0 ∧ _) ∨ (aux1 &&& 0x40 = 0 ∧ _) := mask_cases aux1 6
  have c7 : (aux1 &&& 0x80 ≠ 0 ∧ _) ∨ (aux1 &&& 0x80 = 0 ∧ _) := mask_cases aux1 7
  unfold sio_control
  rcases c1 with ⟨m1, h1⟩ | ⟨m1, h1⟩ <;> rcases c5 with ⟨m5, h5⟩ | ⟨m5, h5⟩ <;>
    rcases c7 with ⟨m7, h7⟩ | ⟨m7, h7⟩ <;> rcases c6 with ⟨m6, h6⟩ | ⟨m6, h6⟩ <;>
    cases hc : s.tcp_connected <;>
    simp only [with_frame, sio_ack, emit, m1, m5, m7, m6, h1, h5, h7, h6, hc, ne_eq, not_true,
      not_false_eq_true, if_true, if_false, decide_True, decide_False, Bool.false_eq_true,
      and_self, and_true, and_false, false_and, true_and, e0, e4] <;>
    exact ⟨rfl, rfl, rfl, by simp [sio_complete, tcp_stop, emit]⟩

/-- CONTROL with DTR deasserted while the TCP client is connected hangs up. -/
theorem sio_control_hangup (s : sioModem) (h7 : s.cmdFrame.aux1 &&& 0x80 ≠ 0)
    (h6 : s.cmdFrame.aux1 &&& 0x40 = 0) (hc : s.tcp_connected = true) :
    s.sio_control
      = { s.control_xmt_rts with
          DTR := false, tcp_connected := false, tcp_rx := [],
          trace := s.trace ++ [Event.tcp_stop, Event.sio_complete] } := by
  unfold sio_control control_xmt_rts
  by_cases h1 : s.cmdFrame.aux1 &&& 0x02 ≠ 0 <;> by_cases h5 : s.cmdFrame.aux1 &&& 0x20 ≠ 0 <;>
    simp only [h1, h5, h7, h6, hc, ne_eq, not_true, not_false_eq_true, if_true, if_false,
      decide_True, decide_False, and_self] <;>
    simp [sio_complete, tcp_stop, emit]

/-! ### Hang-up by DTR -/

/-- A connected-mode tick with the TCP client stopped relays nothing: it only turns a
waiting caller away and runs the end of the tick. -/
theorem sio_handle_modem_stopped (K : Consts) (t : sioModem) (hm : t.cmdMode = false)
    (hc : t.tcp_connected = false) (hrx : t.tcp_rx = []) :
    sio_handle_modem K t
      = .ok (tick_tail K t.after_turn_away) := by
  unfold sio_handle_modem connected_mode_tick after_turn_away
  by_cases hs : t.srv_hasClient = true
  · simp [hm, hs, hc, hrx, srv_turn_away, tcp_relay_loop]
  · simp [hm, hs, hc, hrx, tcp_relay_loop]

/-- The end of a tick in ConnectedMode with the TCP client not connected and DTR low:
the session returns to CommandMode, drops the carrier and reports NO CARRIER. -/
theorem tick_tail_dtr_low (K : Consts) (c : sioModem) (hm : c.cmdMode = false)
    (hc : c.tcp_connected = false) (hd : c.DTR = false) :
    (tick_tail K c).cmdMode = true ∧ (tick_tail K c).CRX = false ∧
    ∃ pre, (tick_tail K c).trace = c.trace ++ pre
      ++ result_events K.RESULT_CODE_NO_CARRIER (str "NO CARRIER") c
      ++ [Event.telnet_free, Event.telnet_init] := by
  unfold tick_tail
  by_cases hp : c.plusCount ≥ 3 ∧ elapsed c.millis c.plusTime > 1000
  · obtain ⟨hp1, hp2⟩ := hp
    simp only [hp1, hp2, if_true, at_result_eq]
    refine ⟨?_, ?_, [Event.tcp_stop, Event.tcp_flush, Event.tcp_stop], ?_⟩
    · simp [tcp_stop, tcp_flush, telnet_reset, emit, hm, hd]
    · simp [tcp_stop, tcp_flush, telnet_reset, emit, hm, hd]
    · simp [tcp_stop, tcp_flush, telnet_reset, emit, hm, hd, result_events]
  · have hp' : (if c.plusCount ≥ 3 then
          if elapsed c.millis c.plusTime > 1000 then { c.tcp_stop with plusCount := 0 } else c
        else c) = c := by
      by_cases h1 : c.plusCount ≥ 3
      · by_cases h2 : elapsed c.millis c.plusTime > 1000
        · exact absurd ⟨h1, h2⟩ hp
        · simp [h1, h2]
      · simp [h1]
    simp only [hp', at_result_eq]
    refine ⟨?_, ?_, [Event.tcp_flush, Event.tcp_stop], ?_⟩
    · simp [tcp_stop, tcp_flush, telnet_reset, emit, hm, hd, hc]
    · simp [tcp_stop, tcp_flush, telnet_reset, emit, hm, hd, hc]
    · simp [tcp_stop, tcp_flush, telnet_reset, emit, hm, hd, hc, result_events]

/-- Turning a waiting caller away leaves the session fields and only extends the
trace. -/
theorem after_turn_away_frame (t : sioModem) :
    t.after_turn_away.cmdMode = t.cmdMode ∧ t.after_turn_away.tcp_connected = t.tcp_connected ∧
    t.after_turn_away.DTR = t.DTR ∧
    t.after_turn_away.numericResultCode = t.numericResultCode ∧
    t.after_turn_away.cmdOutput = t.cmdOutput ∧ t.after_turn_away.cmdAtascii = t.cmdAtascii ∧
    ∃ ev, t.after_turn_away.trace = t.trace ++ ev := by
  unfold after_turn_away
  by_cases hs : t.srv_hasClient = true
  · rw [if_pos hs]
    exact ⟨rfl, rfl, rfl, rfl, rfl, rfl, _, rfl⟩
  · rw [if_neg hs]
    exact ⟨rfl, rfl, rfl, rfl, rfl, rfl, [], (List.append_nil _).symm⟩

set_option maxRecDepth 100000 in
/-- C8 fails as stated: in ConnectedMode with a live TCP client, verbose result codes and
command output on, CONTROL with aux1 = 0x80 (DTR change enabled, new DTR low) followed by
one session tick leaves the session in CommandMode and has written the string
NO CARRIER, followed by CR and LF, to the serial transport. -/
theorem dtr_hangup_sample_no_carrier :
    hangup_sample.cmdMode = false ∧ hangup_sample.tcp_connected = true ∧
    Nat.testBit 0x80 7 = true ∧ Nat.testBit 0x80 6 = false ∧
    ((sio_process sample_consts ⟨0x50, 0x41, 0x80, 0, 0⟩ hangup_sample).bind
        (sio_handle_modem sample_consts)).map (fun r => (r.cmdMode, r.trace))
      = .ok (true,
          [Event.sio_ack, Event.tcp_stop, Event.sio_complete, Event.tcp_flush, Event.tcp_stop,
           Event.uart_print (str "NO CARRIER"), Event.uart_write 13, Event.uart_write 10,
           Event.uart_flush, Event.telnet_free, Event.telnet_init]) := by
  exact ⟨rfl, rfl, by decide, by decide, rfl⟩

/-- C8, amended: if, in ConnectedMode with a live TCP client, a CONTROL command
deasserts DTR (aux1 bit 7 set, bit 6 clear), then the command and the following session
tick both return, after the tick the session is in CommandMode with the carrier flag
low, and the tick has written the NO CARRIER result to the serial transport: the numeric
NO CARRIER code when numeric result codes are on, otherwise the string NO CARRIER unless
command output is suppressed. -/
theorem dtr_hangup_reports_no_carrier (K : Consts) (device aux1 aux2 checksum : Nat)
    (s : sioModem) (hm : s.cmdMode = false) (hc : s.tcp_connected = true)
    (h7 : aux1.testBit 7 = true) (h6 : aux1.testBit 6 = false) :
    ∃ s1 s2, sio_process K ⟨device, 0x41, aux1, aux2, checksum⟩ s = .ok s1 ∧
      sio_handle_modem K s1 = .ok s2 ∧
      s2.cmdMode = true ∧ s2.CRX = false ∧
      (∃ pre post, s2.trace = s.trace ++ pre
        ++ result_events K.RESULT_CODE_NO_CARRIER (str "NO CARRIER") s ++ post) ∧
      (s.numericResultCode = true →
        Event.uart_print_int K.RESULT_CODE_NO_CARRIER ∈ s2.trace.drop s.trace.length) ∧
      (s.numericResultCode = false → s.cmdOutput = true →
        Event.uart_print (str "NO CARRIER") ∈ s2.trace.drop s.trace.length) := by
  have m7 : aux1 &&& 0x80 ≠ 0 := (and_two_pow_ne_zero aux1 7).mpr h7
  have m6 : aux1 &&& 0x40 = 0 := by
    rcases mask_cases aux1 6 with ⟨_, h⟩ | ⟨m, _⟩
    · rw [h6] at h; exact absurd h (by decide)
    · exact m
  have e1 := sio_control_hangup (s.with_frame ⟨device, 0x41, aux1, aux2, checksum⟩).sio_ack
    m7 m6 hc
  have hm1 : (s.with_frame ⟨device, 0x41, aux1, aux2, checksum⟩).sio_ack.sio_control.cmdMode
      = false := by rw [e1]; exact hm
  have hc1 : (s.with_frame ⟨device, 0x41, aux1, aux2, checksum⟩).sio_ack.sio_control.tcp_connected
      = false := by rw [e1]
  have hrx1 : (s.with_frame ⟨device, 0x41, aux1, aux2, checksum⟩).sio_ack.sio_control.tcp_rx
      = [] := by rw [e1]
  have hd1 : (s.with_frame ⟨device, 0x41, aux1, aux2, checksum⟩).sio_ack.sio_control.DTR
      = false := by rw [e1]
  have hn1 : (s.with_frame ⟨device, 0x41, aux1, aux2, checksum⟩).sio_ack.sio_control.numericResultCode
      = s.numericResultCode := by rw [e1]; rfl
  have ho1 : (s.with_frame ⟨device, 0x41, aux1, aux2, checksum⟩).sio_ack.sio_control.cmdOutput
      = s.cmdOutput := by rw [e1]; rfl
  have ha1 : (s.with_frame ⟨device, 0x41, aux1, aux2, checksum⟩).sio_ack.sio_control.cmdAtascii
      = s.cmdAtascii := by rw [e1]; rfl
  have ht1 : (s.with_frame ⟨device, 0x41, aux1, aux2, checksum⟩).sio_ack.sio_control.trace
      = s.trace ++ [Event.sio_ack, Event.tcp_stop, Event.sio_complete] := by
    rw [e1]; simp [with_frame, sio_ack, emit]
  refine ⟨_, _, sio_process_control K device aux1 aux2 checksum s,
    sio_handle_modem_stopped K _ hm1 hc1 hrx1, ?_⟩
  obtain ⟨fm, fc, fd, fn, fo, fa, ev, ft⟩ := after_turn_away_frame
    (s.with_frame ⟨device, 0x41, aux1, aux2, checksum⟩).sio_ack.sio_control
  obtain ⟨r1, r2, pre, r3⟩ := tick_tail_dtr_low K
    (s.with_frame ⟨device, 0x41, aux1, aux2, checksum⟩).sio_ack.sio_control.after_turn_away
    (fm.trans hm1) (fc.trans hc1) (fd.trans hd1)
  have hre := result_events_congr K.RESULT_CODE_NO_CARRIER (str "NO CARRIER") _ s
    (fn.trans hn1) (fo.trans ho1) (fa.trans ha1)
  have r3' := r3
  rw [hre, ft, ht1] at r3'
  have r4 : (tick_tail K
      (s.with_frame ⟨device, 0x41, aux1, aux2, checksum⟩).sio_ack.sio_control.after_turn_away).trace
      = s.trace ++ (([Event.sio_ack, Event.tcp_stop, Event.sio_complete] ++ ev ++ pre)
        ++ result_events K.RESULT_CODE_NO_CARRIER (str "NO CARRIER") s
        ++ [Event.telnet_free, Event.telnet_init]) := by
    refine r3'.trans ?_
    simp only [List.append_assoc]
  obtain ⟨mn, mv⟩ := result_events_mem K.RESULT_CODE_NO_CARRIER (str "NO CARRIER") s
  refine ⟨r1, r2, ⟨[Event.sio_ack, Event.tcp_stop, Event.sio_complete] ++ ev ++ pre,
    [Event.telnet_free, Event.telnet_init], ?_⟩, ?_, ?_⟩
  · refine r4.trans ?_
    simp only [List.append_assoc]
  · intro hn
    rw [r4, List.drop_left]
    exact List.mem_append_left _ (List.mem_append_right _ (mn hn))
  · intro hn ho
    rw [r4, List.drop_left]
    exact List.mem_append_left _ (List.mem_append_right _ (mv hn ho))

/-- C8, amended, at a sample input: aux1 = 0x80 on the sample connected session. -/
theorem dtr_hangup_reports_no_carrier_witness :
    hangup_sample.cmdMode = false ∧ hangup_sample.tcp_connected = true ∧
    Nat.testBit 0x80 7 = true ∧ Nat.testBit 0x80 6 = false ∧
    ∃ s1 s2, sio_process sample_consts ⟨0x50, 0x41, 0x80, 0, 0⟩ hangup_sample = .ok s1 ∧
      sio_handle_modem sample_consts s1 = .ok s2 ∧ s2.cmdMode = true ∧ s2.CRX = false := by
  obtain ⟨s1, s2, h1, h2, h3, h4, _⟩ :=
    dtr_hangup_reports_no_carrier sample_consts 0x50 0x80 0 0 hangup_sample rfl rfl
      (by decide) (by decide)
  exact ⟨rfl, rfl, by decide, by decide, s1, s2, h1, h2, h3, h4⟩

/-! ### LISTEN -/

/-- C9: for every aux1 and aux2, LISTEN returns and sets the listen port to
aux1 + 256 * aux2; the trace grows by the stop of the TCP client and of the listener if
the previous listen port was non-zero, then by Negative-Acknowledge if the new port is 0
and by Acknowledge otherwise (one of the two, never both), then by the binding of the
listener to the new port and by Complete. -/
theorem listen_sets_port (K : Consts) (device aux1 aux2 checksum : Nat) (s : sioModem) :
    ∃ s', sio_process K ⟨device, 0x4C, aux1, aux2, checksum⟩ s = .ok s' ∧
      s'.listenPort = aux1 + 256 * aux2 ∧
      s'.trace = s.trace
        ++ (if s.listenPort ≠ 0 then [Event.tcp_stop, Event.srv_stop] else [])
        ++ [if aux1 + 256 * aux2 = 0 then Event.sio_nak else Event.sio_ack]
        ++ [Event.srv_setMaxClients 1, Event.srv_begin (aux1 + 256 * aux2), Event.sio_complete] ∧
      s'.srv_port = some (aux1 + 256 * aux2) := by
  refine ⟨_, sio_process_listen K device aux1 aux2 checksum s, ?_⟩
  have hp : aux1 + 256 * aux2 = aux2 * 256 + aux1 := by omega
  rw [hp]
  unfold sio_listen
  by_cases hl : s.listenPort ≠ 0 <;> by_cases hz : aux2 = 0 ∧ aux1 = 0
  all_goals
    have h0 : (aux2 * 256 + aux1 = 0) ↔ (aux2 = 0 ∧ aux1 = 0) := by omega
    simp only [with_frame, hl, if_true, if_false, not_true, not_false_eq_true, ne_eq]
    simp [sio_complete, sio_nak, sio_ack, srv_begin, srv_setMaxClients, srv_stop, tcp_stop, emit,
      h0, hz]

/-! ### TYPE3_POLL -/

/-- C10: a TYPE3_POLL whose device id is not the reserved RS232 device id and whose
(aux1, aux2) pair is none of (0,0), (0x4F,0x4F), (0x4E,0x4E), (0x52,0x01) returns and
changes nothing but the stored command frame: the trace gets no event, so no signal and
no payload is emitted, and the poll counters and the firmware-sent flag keep their
values. -/
theorem poll_3_ignored (K : Consts) (device aux1 aux2 checksum : Nat) (s : sioModem)
    (hd : device ≠ K.SIO_DEVICEID_RS232)
    (h1 : (aux1, aux2) ≠ (0, 0)) (h2 : (aux1, aux2) ≠ (0x4F, 0x4F))
    (h3 : (aux1, aux2) ≠ (0x4E, 0x4E)) (h4 : (aux1, aux2) ≠ (0x52, 0x01)) :
    sio_process K ⟨device, 0x40, aux1, aux2, checksum⟩ s
      = .ok { s with cmdFrame := ⟨device, 0x40, aux1, aux2, checksum⟩ } := by
  rw [sio_process_poll_3]
  simp only [ne_eq, Prod.mk.injEq] at h1 h2 h3 h4
  simp [sio_poll_3, sio_poll_3_rest, with_frame, h1, h2, h3, h4, hd]

/-- C10 at a sample input: device 0x31 polling with the pair (0x52, 0x02). -/
theorem poll_3_ignored_witness :
    (0x31 ≠ sample_consts.SIO_DEVICEID_RS232) ∧
    sio_process sample_consts ⟨0x31, 0x40, 0x52, 0x02, 0⟩ init
      = .ok { init with cmdFrame := ⟨0x31, 0x40, 0x52, 0x02, 0⟩ } :=
  ⟨by decide,
   poll_3_ignored sample_consts 0x31 0x52 0x02 0 init (by decide) (by decide) (by decide)
     (by decide) (by decide)⟩

/-! ### Boot polls and firmware download -/

/-- C11: a TYPE3_POLL with (aux1, aux2) = (0x4F, 0x4F) sets the type-3 poll counter to 0 and
clears the firmware-already-sent flag; with (0x4E, 0x4E) it sets the counter to 0 and leaves
the flag unchanged. For every device id nothing else changes in the session, the event trace
included: no signal and no payload is emitted. -/
theorem poll_3_reset (K : Consts) (device checksum : Nat) (s : sioModem) :
    sio_process K ⟨device, 0x40, 0x4F, 0x4F, checksum⟩ s
      = .ok { s with cmdFrame := ⟨device, 0x40, 0x4F, 0x4F, checksum⟩,
                     count_PollType3 := 0, firmware_sent := false } ∧
    sio_process K ⟨device, 0x40, 0x4E, 0x4E, checksum⟩ s
      = .ok { s with cmdFrame := ⟨device, 0x40, 0x4E, 0x4E, checksum⟩,
                     count_PollType3 := 0 } := by
  constructor
  · rw [sio_process_poll_3]
    simp [sio_poll_3, sio_poll_3_rest, with_frame]
  · rw [sio_process_poll_3]
    simp [sio_poll_3, sio_poll_3_rest, with_frame]

/-- The two size bytes of the directed-poll response, taken from the 16-bit size. -/
theorem size_bytes_16 (n : Nat) :
    n % 65536 % 256 = n % 256 ∧ n % 65536 / 256 % 256 = n / 256 % 256 := by
  constructor <;> omega

/-- The directed response of `sio_poll_3`: with the handler loadable, Acknowledge, the
settle delay and the descriptor; with the load failing, nothing. -/
theorem sio_poll_3_rest_directed (K : Consts) (device aux1 aux2 : Nat) (s : sioModem)
    (h4F : ¬ (aux1 = 0x4F ∧ aux2 = 0x4F)) (h4E : ¬ (aux1 = 0x4E ∧ aux2 = 0x4E))
    (hd : (aux1 = 0x52 ∧ aux2 = 0x01) ∨ device = K.SIO_DEVICEID_RS232) :
    (s.fw_handler.1 < 0 → sio_poll_3_rest K device aux1 aux2 s = s) ∧
    (∀ n : Nat, s.fw_handler.1 = (n : Int) →
      sio_poll_3_rest K device aux1 aux2 s
        = { s with clock := s.clock + 5,
                   trace := s.trace ++ [Event.sio_ack, Event.delay_microseconds 5000,
                     Event.sio_to_computer
                       [n % 256, n / 256 % 256, K.SIO_DEVICEID_RS232 % 256, 0] false] }) := by
  have hr : ((aux1 == 0x52 && aux2 == 0x01) || device == K.SIO_DEVICEID_RS232) = true := by
    rcases hd with ⟨h1, h2⟩ | h
    · simp [h1, h2]
    · simp [h]
  unfold sio_poll_3_rest
  rw [if_neg h4F, if_neg h4E]
  constructor
  · intro hneg
    simp only [hr, load_firmware_size_handler, hneg, if_true, Bool.true_eq_false, if_false]
  · intro n hn
    have hnn : ¬ ((n : Int) < 0) := by omega
    obtain ⟨b0, b1⟩ := size_bytes_16 n
    simp only [hr, load_firmware_size_handler, hn, hnn, if_false, Bool.true_eq_false,
      Int.toNat_ofNat, b0, b1]
    simp [sio_ack, delay_microseconds, sio_to_computer, emit, DELAY_FIRMWARE_DELIVERY]

/-- Dispatch of TYPE1_POLL. -/
theorem sio_process_poll_1 (K : Consts) (device aux1 aux2 checksum : Nat) (s : sioModem) :
    sio_process K ⟨device, 0x3F, aux1, aux2, checksum⟩ s
      = .ok (if aux1 = 1 ∨ s.count_PollType1 + 1 = 16 then
          (s.with_frame ⟨device, 0x3F, aux1, aux2, checksum⟩).count_poll_1.sio_poll_1
        else (s.with_frame ⟨device, 0x3F, aux1, aux2, checksum⟩).count_poll_1) := by
  by_cases h : aux1 = 1 ∨ s.count_PollType1 + 1 = 16
  · rw [if_pos h]
    simp only [sio_process, with_frame, count_poll_1, SIO_MODEMCMD_LOAD_RELOCATOR,
      SIO_MODEMCMD_LOAD_HANDLER, SIO_MODEMCMD_TYPE1_POLL, Nat.reduceEqDiff, if_false, if_true]
    rw [if_pos (by simpa using h)]
    rfl
  · rw [if_neg h]
    simp only [sio_process, with_frame, count_poll_1, SIO_MODEMCMD_LOAD_RELOCATOR,
      SIO_MODEMCMD_LOAD_HANDLER, SIO_MODEMCMD_TYPE1_POLL, Nat.reduceEqDiff, if_false, if_true]
    rw [if_neg (by simpa using h)]
    rfl

/-- Dispatch of LOAD_RELOCATOR. -/
theorem sio_process_load_relocator (K : Consts) (device aux1 aux2 checksum : Nat)
    (s : sioModem) :
    sio_process K ⟨device, 0x21, aux1, aux2, checksum⟩ s
      = .ok ((s.with_frame ⟨device, 0x21, aux1, aux2, checksum⟩).count_relocator.sio_send_firmware
          0x21) := by
  simp only [sio_process, with_frame, count_relocator, SIO_MODEMCMD_LOAD_RELOCATOR]
  simp only [if_true]
  rfl

/-- Dispatch of LOAD_HANDLER. -/
theorem sio_process_load_handler (K : Consts) (device aux1 aux2 checksum : Nat)
    (s : sioModem) :
    sio_process K ⟨device, 0x26, aux1, aux2, checksum⟩ s
      = .ok ((s.with_frame ⟨device, 0x26, aux1, aux2, checksum⟩).count_handler.sio_send_firmware
          0x26) := by
  simp only [sio_process, with_frame, count_handler, SIO_MODEMCMD_LOAD_RELOCATOR,
    SIO_MODEMCMD_LOAD_HANDLER]
  simp only [Nat.reduceEqDiff, if_false, if_true]
  rfl

/-- Dispatch of STREAM. -/
theorem sio_process_stream (K : Consts) (device aux1 aux2 checksum : Nat) (s : sioModem) :
    sio_process K ⟨device, 0x58, aux1, aux2, checksum⟩ s
      = .ok (s.with_frame ⟨device, 0x58, aux1, aux2, checksum⟩).sio_ack.sio_stream := by
  simp [sio_process, with_frame, SIO_MODEMCMD_LOAD_RELOCATOR, SIO_MODEMCMD_LOAD_HANDLER,
    SIO_MODEMCMD_TYPE1_POLL, SIO_MODEMCMD_TYPE3_POLL, SIO_MODEMCMD_CONTROL,
    SIO_MODEMCMD_CONFIGURE, SIO_MODEMCMD_SET_DUMP, SIO_MODEMCMD_LISTEN,
    SIO_MODEMCMD_UNLISTEN, SIO_MODEMCMD_BAUDLOCK, SIO_MODEMCMD_AUTOANSWER,
    SIO_MODEMCMD_STATUS, SIO_MODEMCMD_WRITE, SIO_MODEMCMD_STREAM]
  rfl

set_option maxRecDepth 100000 in
/-- C12, as stated, fails: a TYPE3_POLL from the reserved RS232 device id with the pair (0, 0),
which is not a reset poll, is not answered although the handler firmware loads (size 1234):
only the poll counter advances and no event is emitted. -/
theorem poll_3_generic_from_rs232_silent :
    (0x50 = sample_consts.SIO_DEVICEID_RS232) ∧
    ((0, 0) ≠ (0x4F, 0x4F) ∧ (0, 0) ≠ (0x4E, 0x4E)) ∧
    (0 : Int) ≤ poll_sample.fw_handler.1 ∧
    (sio_process sample_consts ⟨0x50, 0x40, 0, 0, 0⟩ poll_sample).map
        (fun r => (r.count_PollType3, r.trace))
      = .ok (1, []) := by
  exact ⟨rfl, ⟨by decide, by decide⟩, by decide, rfl⟩

/-- C12 (amended): for a TYPE3_POLL with (aux1, aux2) = (0x52, 0x01), or from the reserved
RS232 device id with a pair that is neither a reset poll nor the general poll (0, 0): if the
handler firmware fails to load nothing is emitted and only the command frame is recorded; if
it loads with size n, exactly one Acknowledge, the settle delay and the 4-byte payload
[n mod 256, (n div 256) mod 256, RS232 device id, 0] are emitted, in this order. A general
poll (0, 0) from the RS232 device id that is not the 26th only advances the poll counter. -/
theorem poll_3_directed (K : Consts) (device aux1 aux2 checksum : Nat) (s : sioModem)
    (hk : K.SIO_DEVICEID_RS232 < 256)
    (hd : (aux1 = 0x52 ∧ aux2 = 0x01) ∨
      (device = K.SIO_DEVICEID_RS232 ∧ (aux1, aux2) ≠ (0, 0) ∧ (aux1, aux2) ≠ (0x4F, 0x4F) ∧
        (aux1, aux2) ≠ (0x4E, 0x4E))) :
    (s.fw_handler.1 < 0 →
      sio_process K ⟨device, 0x40, aux1, aux2, checksum⟩ s
        = .ok { s with cmdFrame := ⟨device, 0x40, aux1, aux2, checksum⟩ }) ∧
    (∀ n : Nat, s.fw_handler.1 = (n : Int) →
      sio_process K ⟨device, 0x40, aux1, aux2, checksum⟩ s
        = .ok { s with cmdFrame := ⟨device, 0x40, aux1, aux2, checksum⟩,
                       clock := s.clock + 5,
                       trace := s.trace ++ [Event.sio_ack, Event.delay_microseconds 5000,
                         Event.sio_to_computer
                           [n % 256, n / 256 % 256, K.SIO_DEVICEID_RS232, 0] false] }) ∧
    (s.count_PollType3 + 1 ≠ 26 →
      sio_process K ⟨K.SIO_DEVICEID_RS232, 0x40, 0, 0, checksum⟩ s
        = .ok { s with cmdFrame := ⟨K.SIO_DEVICEID_RS232, 0x40, 0, 0, checksum⟩,
                       count_PollType3 := s.count_PollType3 + 1 }) := by
  have h00 : ¬ (aux1 = 0 ∧ aux2 = 0) := by
    rcases hd with ⟨h1, _⟩ | ⟨_, h, _, _⟩
    · omega
    · simpa using h
  have h4F : ¬ (aux1 = 0x4F ∧ aux2 = 0x4F) := by
    rcases hd with ⟨h1, _⟩ | ⟨_, _, h, _⟩
    · omega
    · simpa using h
  have h4E : ¬ (aux1 = 0x4E ∧ aux2 = 0x4E) := by
    rcases hd with ⟨h1, _⟩ | ⟨_, _, _, h⟩
    · omega
    · simpa using h
  have hd' : (aux1 = 0x52 ∧ aux2 = 0x01) ∨ device = K.SIO_DEVICEID_RS232 := by
    rcases hd with h | ⟨h, _⟩
    · exact Or.inl h
    · exact Or.inr h
  obtain ⟨r1, r2⟩ := sio_poll_3_rest_directed K device aux1 aux2
    (s.with_frame ⟨device, 0x40, aux1, aux2, checksum⟩) h4F h4E hd'
  have hmod : K.SIO_DEVICEID_RS232 % 256 = K.SIO_DEVICEID_RS232 := Nat.mod_eq_of_lt hk
  refine ⟨?_, ?_, ?_⟩
  · intro hneg
    rw [sio_process_poll_3]
    unfold sio_poll_3
    rw [if_neg h00, r1 hneg]
    rfl
  · intro n hn
    rw [sio_process_poll_3]
    unfold sio_poll_3
    rw [if_neg h00, r2 n hn, hmod]
    rfl
  · intro h26
    rw [sio_process_poll_3]
    unfold sio_poll_3
    rw [if_pos ⟨rfl, rfl⟩]
    simp only [with_frame]
    rw [if_neg h26]

/-- The amended C12 at a sample: a directed poll (0x52, 0x01) with a handler of size 1234. -/
theorem poll_3_directed_witness :
    sample_consts.SIO_DEVICEID_RS232 < 256 ∧
    poll_sample.fw_handler.1 = ((1234 : Nat) : Int) ∧
    sio_process sample_consts ⟨0x31, 0x40, 0x52, 0x01, 0⟩ poll_sample
      = .ok { poll_sample with
                cmdFrame := ⟨0x31, 0x40, 0x52, 0x01, 0⟩,
                clock := poll_sample.clock + 5,
                trace := poll_sample.trace ++ [Event.sio_ack, Event.delay_microseconds 5000,
                  Event.sio_to_computer
                    [1234 % 256, 1234 / 256 % 256, sample_consts.SIO_DEVICEID_RS232, 0] false] } :=
  ⟨by decide, rfl,
   (poll_3_directed sample_consts 0x31 0x52 0x01 0 poll_sample (by decide)
      (Or.inl ⟨rfl, rfl⟩)).2.1 1234 rfl⟩

/-- The two size bytes of the boot block, taken from the 32-bit size. -/
theorem size_bytes_32 (n : Nat) :
    n % 2 ^ 32 % 256 = n % 256 ∧ n % 2 ^ 32 / 256 % 256 = n / 256 % 256 := by
  constructor <;> omega

/-- The response of `sio_poll_1`. -/
theorem sio_poll_1_spec (s : sioModem) :
    (s.fw_relocator.1 < 0 → s.sio_poll_1 = s) ∧
    (∀ n : Nat, s.fw_relocator.1 = (n : Int) →
      s.sio_poll_1
        = { s with clock := s.clock + 5,
                   trace := s.trace ++ [Event.sio_ack, Event.delay_microseconds 5000,
                     Event.sio_to_computer
                       [0x50, 0x01, 0x21, 0x40, 0x00, 0x05, 0x08, 0x00,
                        n % 256, n / 256 % 256, 0x00, 0x00] false] }) := by
  unfold sio_poll_1
  constructor
  · intro hneg
    simp only [load_firmware_size_relocator, hneg, if_true]
  · intro n hn
    have hnn : ¬ ((n : Int) < 0) := by omega
    obtain ⟨b0, b1⟩ := size_bytes_32 n
    simp only [load_firmware_size_relocator, hn, hnn, if_false, Int.toNat_ofNat, b0, b1]
    simp [sio_ack, delay_microseconds, sio_to_computer, emit, DELAY_FIRMWARE_DELIVERY]

/-- C13: whenever TYPE1_POLL responds (aux1 = 1 or the 16th poll) with relocator size n >= 0,
it emits one Acknowledge, the settle delay and exactly the 12 bytes [0x50, 0x01, 0x21, 0x40,
0x00, 0x05, 0x08, 0x00, n mod 256, (n div 256) mod 256, 0x00, 0x00]; when the relocator cannot
be loaded, and on every poll that is not answered, no signal and no payload is emitted (only
the command frame and the poll counter change). -/
theorem poll_1_response (K : Consts) (device aux1 aux2 checksum : Nat) (s : sioModem) :
    (s.fw_relocator.1 < 0 →
      sio_process K ⟨device, 0x3F, aux1, aux2, checksum⟩ s
        = .ok { s with cmdFrame := ⟨device, 0x3F, aux1, aux2, checksum⟩,
                       count_PollType1 := s.count_PollType1 + 1 }) ∧
    (∀ n : Nat, s.fw_relocator.1 = (n : Int) → (aux1 = 1 ∨ s.count_PollType1 + 1 = 16) →
      sio_process K ⟨device, 0x3F, aux1, aux2, checksum⟩ s
        = .ok { s with cmdFrame := ⟨device, 0x3F, aux1, aux2, checksum⟩,
                       count_PollType1 := s.count_PollType1 + 1,
                       clock := s.clock + 5,
                       trace := s.trace ++ [Event.sio_ack, Event.delay_microseconds 5000,
                         Event.sio_to_computer
                           [0x50, 0x01, 0x21, 0x40, 0x00, 0x05, 0x08, 0x00,
                            n % 256, n / 256 % 256, 0x00, 0x00] false] }) ∧
    (¬ (aux1 = 1 ∨ s.count_PollType1 + 1 = 16) →
      sio_process K ⟨device, 0x3F, aux1, aux2, checksum⟩ s
        = .ok { s with cmdFrame := ⟨device, 0x3F, aux1, aux2, checksum⟩,
                       count_PollType1 := s.count_PollType1 + 1 }) := by
  obtain ⟨r1, r2⟩ := sio_poll_1_spec (s.with_frame ⟨device, 0x3F, aux1, aux2, checksum⟩).count_poll_1
  refine ⟨?_, ?_, ?_⟩
  · intro hneg
    rw [sio_process_poll_1, r1 hneg]
    by_cases h : aux1 = 1 ∨ s.count_PollType1 + 1 = 16
    · rw [if_pos h]; rfl
    · rw [if_neg h]; rfl
  · intro n hn h
    rw [sio_process_poll_1, if_pos h, r2 n hn]
    rfl
  · intro h
    rw [sio_process_poll_1, if_neg h]
    rfl

/-- The download of `sio_send_firmware` for a firmware blob `fw`. -/
theorem sio_send_firmware_spec (loadcommand : Nat) (s : sioModem) (fw : Int × Option (List Nat))
    (hfw : (loadcommand = 0x21 ∧ s.fw_relocator = fw) ∨
      (loadcommand = 0x26 ∧ s.fw_handler = fw)) :
    ((fw.1 < 0 ∨ fw.2 = none) →
      s.sio_send_firmware loadcommand = { s with trace := s.trace ++ [Event.sio_nak] }) ∧
    (∀ bytes : List Nat, fw = ((bytes.length : Int), some bytes) →
      s.sio_send_firmware loadcommand
        = { s with clock := s.clock + 5, DTR := false, XMT := false, RTS := false,
                   trace := s.trace ++ [Event.sio_ack, Event.delay_microseconds 5000,
                     Event.sio_to_computer bytes false] }) := by
  have hsel : (if loadcommand = SIO_MODEMCMD_LOAD_RELOCATOR then some s.fw_relocator
      else if loadcommand = SIO_MODEMCMD_LOAD_HANDLER then some s.fw_handler
      else none) = some fw := by
    rcases hfw with ⟨h, e⟩ | ⟨h, e⟩
    · simp [h, e, SIO_MODEMCMD_LOAD_RELOCATOR]
    · simp [h, e, SIO_MODEMCMD_LOAD_RELOCATOR, SIO_MODEMCMD_LOAD_HANDLER]
  unfold sio_send_firmware
  simp only [hsel]
  constructor
  · intro hbad
    rw [if_pos hbad]
    rfl
  · intro bytes hb
    have hok : ¬ (fw.1 < 0 ∨ fw.2 = none) := by
      rw [hb]; simp
    rw [if_neg hok]
    simp [hb, sio_ack, delay_microseconds, sio_to_computer, emit, DELAY_FIRMWARE_DELIVERY]

/-- C14: for LOAD_RELOCATOR and LOAD_HANDLER, if the firmware blob cannot be loaded (negative
size or no buffer) exactly one Negative-Acknowledge is emitted, no payload is sent and DTR, XMT
and RTS are unchanged; if it loads, one Acknowledge and the settle delay are emitted, the
payload sent equals the blob bytes in full, and afterwards DTR, XMT and RTS are all cleared. -/
theorem firmware_download (K : Consts) (device aux1 aux2 checksum : Nat) (s : sioModem) :
    ((s.fw_relocator.1 < 0 ∨ s.fw_relocator.2 = none) →
      sio_process K ⟨device, 0x21, aux1, aux2, checksum⟩ s
        = .ok { s with cmdFrame := ⟨device, 0x21, aux1, aux2, checksum⟩,
                       count_ReqRelocator := s.count_ReqRelocator + 1,
                       trace := s.trace ++ [Event.sio_nak] }) ∧
    (∀ bytes : List Nat, s.fw_relocator = ((bytes.length : Int), some bytes) →
      sio_process K ⟨device, 0x21, aux1, aux2, checksum⟩ s
        = .ok { s with cmdFrame := ⟨device, 0x21, aux1, aux2, checksum⟩,
                       count_ReqRelocator := s.count_ReqRelocator + 1,
                       clock := s.clock + 5, DTR := false, XMT := false, RTS := false,
                       trace := s.trace ++ [Event.sio_ack, Event.delay_microseconds 5000,
                         Event.sio_to_computer bytes false] }) ∧
    ((s.fw_handler.1 < 0 ∨ s.fw_handler.2 = none) →
      sio_process K ⟨device, 0x26, aux1, aux2, checksum⟩ s
        = .ok { s with cmdFrame := ⟨device, 0x26, aux1, aux2, checksum⟩,
                       count_ReqHandler := s.count_ReqHandler + 1,
                       trace := s.trace ++ [Event.sio_nak] }) ∧
    (∀ bytes : List Nat, s.fw_handler = ((bytes.length : Int), some bytes) →
      sio_process K ⟨device, 0x26, aux1, aux2, checksum⟩ s
        = .ok { s with cmdFrame := ⟨device, 0x26, aux1, aux2, checksum⟩,
                       count_ReqHandler := s.count_ReqHandler + 1,
                       clock := s.clock + 5, DTR := false, XMT := false, RTS := false,
                       trace := s.trace ++ [Event.sio_ack, Event.delay_microseconds 5000,
                         Event.sio_to_computer bytes false] }) := by
  obtain ⟨a1, a2⟩ := sio_send_firmware_spec 0x21
    (s.with_frame ⟨device, 0x21, aux1, aux2, checksum⟩).count_relocator s.fw_relocator
    (Or.inl ⟨rfl, rfl⟩)
  obtain ⟨b1, b2⟩ := sio_send_firmware_spec 0x26
    (s.with_frame ⟨device, 0x26, aux1, aux2, checksum⟩).count_handler s.fw_handler
    (Or.inr ⟨rfl, rfl⟩)
  refine ⟨?_, ?_, ?_, ?_⟩
  · intro h
    rw [sio_process_load_relocator, a1 h]; rfl
  · intro bytes h
    rw [sio_process_load_relocator, a2 bytes h]; rfl
  · intro h
    rw [sio_process_load_handler, b1 h]; rfl
  · intro bytes h
    rw [sio_process_load_handler, b2 bytes h]; rfl

/-! ### STREAM -/

/-- C15: STREAM always sends, after the Acknowledge, a 9-byte payload of the form
[a, 0xA0, b, 0xA0, a, 0xA0, b, 0xA0, 0x78] where (a, b) is the divisor pair of the session
baud, with the pairs of the eight supported rates as listed; distinct supported rates give
distinct pairs, hence distinct payloads. It then switches the transport to the session baud,
marks the session active and leaves the session baud (and every other field) unchanged. -/
theorem stream_payload (K : Consts) (device aux1 aux2 checksum : Nat) (s : sioModem) :
    (∃ a b, sio_process K ⟨device, 0x58, aux1, aux2, checksum⟩ s
        = .ok { s with cmdFrame := ⟨device, 0x58, aux1, aux2, checksum⟩,
                       modemActive := true,
                       trace := s.trace ++ [Event.sio_ack,
                         Event.sio_to_computer [a, 0xA0, b, 0xA0, a, 0xA0, b, 0xA0, 0x78] false,
                         Event.uart_set_baudrate s.modemBaud] } ∧
      (a, b) = stream_divisor s.modemBaud ∧
      (s.modemBaud = 300 → (a, b) = (0xA0, 0x0B)) ∧
      (s.modemBaud = 600 → (a, b) = (0xCC, 0x05)) ∧
      (s.modemBaud = 1200 → (a, b) = (0xE3, 0x02)) ∧
      (s.modemBaud = 1800 → (a, b) = (0xEA, 0x01)) ∧
      (s.modemBaud = 2400 → (a, b) = (0x6E, 0x01)) ∧
      (s.modemBaud = 4800 → (a, b) = (0xB3, 0x00)) ∧
      (s.modemBaud = 9600 → (a, b) = (0x56, 0x00)) ∧
      (s.modemBaud = 19200 → (a, b) = (0x28, 0x00))) ∧
    (∀ b1 ∈ [300, 600, 1200, 1800, 2400, 4800, 9600, 19200],
      ∀ b2 ∈ [300, 600, 1200, 1800, 2400, 4800, 9600, 19200],
        stream_divisor b1 = stream_divisor b2 → b1 = b2) := by
  constructor
  · refine ⟨(stream_divisor s.modemBaud).1, (stream_divisor s.modemBaud).2, ?_, rfl, ?_⟩
    · rw [sio_process_stream]
      simp [sio_stream, with_frame, sio_ack, sio_to_computer, emit]
    · refine ⟨?_, ?_, ?_, ?_, ?_, ?_, ?_, ?_⟩ <;> intro h <;> rw [h] <;> rfl
  · decide

/-! ### Escape sequence -/

/-- One round of the escape scan changes the counter and the time only. -/
theorem plus_scan_byte_eq (s : sioModem) (b : Nat) :
    plus_scan_byte s b
      = { s with plusCount := (scan_step s.millis (s.plusCount, s.plusTime) b).1,
                 plusTime := (scan_step s.millis (s.plusCount, s.plusTime) b).2 } := by
  unfold plus_scan_byte scan_step
  by_cases hb : b = 0x2B
  · by_cases h3 : s.plusCount + 1 ≥ 3
    · simp [hb, h3, millis]
    · simp [hb, h3]
  · simp [hb]

/-- The escape scan over a chunk changes the counter and the time only. -/
theorem foldl_plus_scan_byte (chunk : List Nat) (s : sioModem) :
    chunk.foldl plus_scan_byte s
      = { s with
            plusCount := (chunk.foldl (scan_step s.millis) (s.plusCount, s.plusTime)).1,
            plusTime := (chunk.foldl (scan_step s.millis) (s.plusCount, s.plusTime)).2 } := by
  induction chunk generalizing s with
  | nil => rfl
  | cons b rest ih =>
    rw [List.foldl_cons, ih, plus_scan_byte_eq]
    rfl

/-- The counter after one round of the scan. -/
theorem scan_step_fst (m : Nat) (p : Nat × Nat) (b : Nat) :
    (scan_step m p b).1 = if b = 0x2B then p.1 + 1 else 0 := by
  unfold scan_step
  by_cases hb : b = 0x2B
  · rw [if_pos hb, if_pos hb]
  · rw [if_neg hb, if_neg hb]

/-- The time after a round of the scan that leaves the counter at 3 or more. -/
theorem scan_step_snd (m : Nat) (p : Nat × Nat) (b : Nat) (h3 : 3 ≤ (scan_step m p b).1) :
    (scan_step m p b).2 = m := by
  unfold scan_step at h3 ⊢
  by_cases hb : b = 0x2B
  · rw [if_pos hb] at h3 ⊢
    have h : p.1 + 1 ≥ 3 := h3
    simp only [h, if_true]
  · rw [if_neg hb] at h3
    simp at h3

/-- The counter after the scan of a chunk. -/
theorem scan_count (m : Nat) (chunk : List Nat) (c t : Nat) :
    (chunk.foldl (scan_step m) (c, t)).1
      = if chunk.all (fun b => b == 0x2B) = true then c + chunk.length
        else trailing_plus chunk := by
  induction chunk using List.reverseRecOn with
  | nil => simp
  | append_singleton l b ih =>
    rw [List.foldl_append, List.foldl_cons, List.foldl_nil, scan_step_fst, ih]
    by_cases hb : b = 0x2B
    · rw [if_pos hb]
      by_cases hall : l.all (fun b => b == 0x2B) = true
      · have : (l ++ [b]).all (fun b => b == 0x2B) = true := by
          simp only [List.all_append, hall, Bool.true_and]
          simp [hb]
        rw [if_pos hall, if_pos this]
        simp
        omega
      · have : ¬ (l ++ [b]).all (fun b => b == 0x2B) = true := by
          simp only [List.all_append, Bool.and_eq_true]
          exact fun h => hall h.1
        rw [if_neg hall, if_neg this]
        simp [trailing_plus, hb, List.takeWhile_cons]
    · rw [if_neg hb]
      have : ¬ (l ++ [b]).all (fun b => b == 0x2B) = true := by
        simp [List.all_append, hb]
      rw [if_neg this]
      simp [trailing_plus, hb, List.takeWhile_cons]

/-- The time after the scan of a non-empty chunk that leaves the counter at 3 or more is
the clock reading. -/
theorem scan_time (m : Nat) (chunk : List Nat) (c t : Nat) (hne : chunk ≠ [])
    (h3 : 3 ≤ (chunk.foldl (scan_step m) (c, t)).1) :
    (chunk.foldl (scan_step m) (c, t)).2 = m := by
  induction chunk using List.reverseRecOn with
  | nil => exact absurd rfl hne
  | append_singleton l b _ =>
    rw [List.foldl_append, List.foldl_cons, List.foldl_nil] at h3 ⊢
    exact scan_step_snd m _ b h3

/-- A chunk that does not end in a plus byte has no trailing run. -/
theorem trailing_plus_last (chunk : List Nat) (b : Nat) (hb : b ≠ 0x2B) :
    trailing_plus (chunk ++ [b]) = 0 ∧
    (chunk ++ [b]).all (fun b => b == 0x2B) = false := by
  constructor
  · simp [trailing_plus, hb, List.takeWhile_cons]
  · simp [List.all_append, hb]

/-- A chunk that ends in three plus bytes leaves the counter at 3 or more. -/
theorem scan_count_three (m : Nat) (pre : List Nat) (c t : Nat) :
    3 ≤ ((pre ++ str "+++").foldl (scan_step m) (c, t)).1 := by
  rw [List.foldl_append]
  have : str "+++" = [0x2B, 0x2B, 0x2B] := by decide
  rw [this]
  simp [scan_step]

/-- The frame of a tick is reflexive. -/
theorem tick_frame_refl (s : sioModem) : tick_frame s s :=
  ⟨rfl, rfl, rfl, rfl, rfl, rfl, rfl, [], (List.append_nil _).symm⟩

/-- The frame of a tick is transitive. -/
theorem tick_frame_trans (a b c : sioModem) (h1 : tick_frame a b) (h2 : tick_frame b c) :
    tick_frame a c := by
  obtain ⟨a1, a2, a3, a4, a5, a6, a7, e1, a8⟩ := h1
  obtain ⟨b1, b2, b3, b4, b5, b6, b7, e2, b8⟩ := h2
  refine ⟨b1.trans a1, b2.trans a2, b3.trans a3, b4.trans a4, b5.trans a5, b6.trans a6,
    b7.trans a7, e1 ++ e2, ?_⟩
  rw [b8, a8, List.append_assoc]

/-- One round of the relay loop keeps the frame, the escape counter and time and the
unread serial bytes. -/
theorem relay_round_frame (s : sioModem) :
    tick_frame s s.relay_round ∧ s.relay_round.plusCount = s.plusCount ∧
    s.relay_round.plusTime = s.plusTime ∧ s.relay_round.uart_rx = s.uart_rx := by
  unfold relay_round tick_frame
  by_cases ht : s.use_telnet = true
  · simp [tcp_read, emit, ht]
  · simp [tcp_read, emit, uart_write_buf, uart_flush, ht]

/-- The relay loop, one round unfolded. -/
theorem tcp_relay_loop_succ (fuel : Nat) (s : sioModem) :
    tcp_relay_loop (fuel + 1) s
      = if s.tcp_available > 0 then tcp_relay_loop fuel s.relay_round else s := rfl

/-- The relay loop keeps the frame, the escape counter and time and the unread serial
bytes. -/
theorem tcp_relay_loop_frame (fuel : Nat) (s : sioModem) :
    tick_frame s (tcp_relay_loop fuel s) ∧ (tcp_relay_loop fuel s).plusCount = s.plusCount ∧
    (tcp_relay_loop fuel s).plusTime = s.plusTime ∧
    (tcp_relay_loop fuel s).uart_rx = s.uart_rx := by
  induction fuel generalizing s with
  | zero => exact ⟨tick_frame_refl s, rfl, rfl, rfl⟩
  | succ n ih =>
    rw [tcp_relay_loop_succ]
    by_cases ha : s.tcp_available > 0
    · rw [if_pos ha]
      obtain ⟨f1, p1, q1, u1⟩ := relay_round_frame s
      obtain ⟨f2, p2, q2, u2⟩ := ih s.relay_round
      exact ⟨tick_frame_trans _ _ _ f1 f2, p2.trans p1, q2.trans q1, u2.trans u1⟩
    · rw [if_neg ha]
      exact ⟨tick_frame_refl s, rfl, rfl, rfl⟩

/-- Reading up to the buffer size takes the first bytes of the unread ones. -/
theorem take_buffer (n : Nat) (l : List Nat) :
    l.take (if l.length > n then n else l.length) = l.take n ∧
    l.drop (if l.length > n then n else l.length) = l.drop n := by
  by_cases h : l.length > n
  · rw [if_pos h]
    exact ⟨rfl, rfl⟩
  · rw [if_neg h]
    have hle : l.length ≤ n := by omega
    rw [List.take_length, List.drop_length, List.take_of_length_le hle,
      List.drop_of_length_le hle]
    exact ⟨rfl, rfl⟩

/-- The outbound half of the tick keeps the frame, reads one chunk and runs the escape
scan over it. -/
theorem outbound_chunk_spec (K : Consts) (s : sioModem) :
    tick_frame s (outbound_chunk K s) ∧
    (outbound_chunk K s).plusCount
      = ((s.uart_rx.take K.TX_BUF_SIZE).foldl (scan_step s.millis)
          (s.plusCount, s.plusTime)).1 ∧
    (outbound_chunk K s).plusTime
      = ((s.uart_rx.take K.TX_BUF_SIZE).foldl (scan_step s.millis)
          (s.plusCount, s.plusTime)).2 ∧
    (outbound_chunk K s).uart_rx = s.uart_rx.drop K.TX_BUF_SIZE := by
  obtain ⟨tk, dr⟩ := take_buffer K.TX_BUF_SIZE s.uart_rx
  unfold outbound_chunk tick_frame uart_readBytes
  simp only [tk, dr, foldl_plus_scan_byte]
  by_cases ht : s.use_telnet = true
  · simp [emit, ht, millis]
  · simp [emit, tcp_write, ht, millis]

/-- The connected-mode tick: a waiting caller is turned away, a chunk is sent out if
there is one and the client is connected, and received bytes are relayed. -/
theorem connected_mode_tick_eq (K : Consts) (s : sioModem) :
    connected_mode_tick K s
      = if s.after_turn_away.uart_rx.length ≠ 0 ∧ s.after_turn_away.tcp_connected = true then
          tcp_relay_loop (outbound_chunk K s.after_turn_away).tcp_rx.length
            (outbound_chunk K s.after_turn_away)
        else tcp_relay_loop s.after_turn_away.tcp_rx.length s.after_turn_away := by
  exact apply_ite (fun t => tcp_relay_loop t.tcp_rx.length t)
    (s.after_turn_away.uart_rx.length ≠ 0 ∧ s.after_turn_away.tcp_connected = true)
    (outbound_chunk K s.after_turn_away) s.after_turn_away

/-- Turning a waiting caller away keeps the frame, the escape counter and time and the
unread serial bytes. -/
theorem after_turn_away_tick_frame (s : sioModem) :
    tick_frame s s.after_turn_away ∧ s.after_turn_away.plusCount = s.plusCount ∧
    s.after_turn_away.plusTime = s.plusTime ∧ s.after_turn_away.uart_rx = s.uart_rx := by
  unfold after_turn_away
  by_cases hs : s.srv_hasClient = true
  · rw [if_pos hs]
    exact ⟨⟨rfl, rfl, rfl, rfl, rfl, rfl, rfl, _, rfl⟩, rfl, rfl, rfl⟩
  · rw [if_neg hs]
    exact ⟨tick_frame_refl s, rfl, rfl, rfl⟩

/-- The clock reading depends on the clock only. -/
theorem millis_congr (s t : sioModem) (h : t.clock = s.clock) : t.millis = s.millis := by
  unfold millis
  rw [h]

/-- No time has elapsed since the present clock reading. -/
theorem elapsed_self (s : sioModem) : elapsed s.millis s.millis = 0 := by
  unfold elapsed millis
  simp only [Nat.reducePow]
  omega

/-- A tick in ConnectedMode returns: it is the connected-mode relaying followed by the end
of the tick. -/
theorem sio_handle_modem_connected (K : Consts) (s : sioModem) (hm : s.cmdMode = false) :
    sio_handle_modem K s = .ok ((s.connected_mode_tick K).tick_tail K) := by
  unfold sio_handle_modem
  simp [hm]

/-- The connected-mode relaying with no unread serial bytes keeps the frame and the escape
counter and time. -/
theorem connected_mode_tick_quiet (K : Consts) (s : sioModem) (hrx : s.uart_rx = []) :
    tick_frame s (s.connected_mode_tick K) ∧ (s.connected_mode_tick K).plusCount = s.plusCount ∧
    (s.connected_mode_tick K).plusTime = s.plusTime ∧ (s.connected_mode_tick K).uart_rx = [] := by
  obtain ⟨f1, p1, q1, u1⟩ := after_turn_away_tick_frame s
  have hcond : ¬ (s.after_turn_away.uart_rx.length ≠ 0 ∧ s.after_turn_away.tcp_connected = true) := by
    rw [u1, hrx]
    simp
  rw [connected_mode_tick_eq, if_neg hcond]
  obtain ⟨f2, p2, q2, u2⟩ := tcp_relay_loop_frame s.after_turn_away.tcp_rx.length s.after_turn_away
  exact ⟨tick_frame_trans _ _ _ f1 f2, p2.trans p1, q2.trans q1, (u2.trans u1).trans hrx⟩

/-- The connected-mode relaying with unread serial bytes and a live TCP client keeps the
frame, reads one chunk and runs the escape scan over it. -/
theorem connected_mode_tick_chunk (K : Consts) (s : sioModem) (hc : s.tcp_connected = true)
    (hne : s.uart_rx ≠ []) :
    tick_frame s (s.connected_mode_tick K) ∧
    (s.connected_mode_tick K).plusCount
      = ((s.uart_rx.take K.TX_BUF_SIZE).foldl (scan_step s.millis)
          (s.plusCount, s.plusTime)).1 ∧
    (s.connected_mode_tick K).plusTime
      = ((s.uart_rx.take K.TX_BUF_SIZE).foldl (scan_step s.millis)
          (s.plusCount, s.plusTime)).2 ∧
    (s.connected_mode_tick K).uart_rx = s.uart_rx.drop K.TX_BUF_SIZE := by
  obtain ⟨f1, p1, q1, u1⟩ := after_turn_away_tick_frame s
  have hcond : s.after_turn_away.uart_rx.length ≠ 0 ∧ s.after_turn_away.tcp_connected = true := by
    rw [u1, f1.2.1, hc]
    exact ⟨fun h => hne (List.length_eq_zero.mp h), rfl⟩
  rw [connected_mode_tick_eq, if_pos hcond]
  obtain ⟨f2, p2, q2, u2⟩ := outbound_chunk_spec K s.after_turn_away
  obtain ⟨f3, p3, q3, u3⟩ := tcp_relay_loop_frame (outbound_chunk K s.after_turn_away).tcp_rx.length
    (outbound_chunk K s.after_turn_away)
  rw [u1, p1, q1, millis_congr s _ f1.2.2.1] at p2 q2
  rw [u1] at u2
  exact ⟨tick_frame_trans _ _ _ f1 (tick_frame_trans _ _ _ f2 f3), p3.trans p2, q3.trans q2,
    u3.trans u2⟩

/-- The end of a tick with a live TCP client and no escape timeout changes nothing. -/
theorem tick_tail_quiet (K : Consts) (c : sioModem) (hc : c.tcp_connected = true)
    (hq : c.plusCount < 3 ∨ elapsed c.millis c.plusTime ≤ 1000) :
    tick_tail K c = c := by
  unfold tick_tail
  have hp : (if c.plusCount ≥ 3 then
        if elapsed c.millis c.plusTime > 1000 then { c.tcp_stop with plusCount := 0 } else c
      else c) = c := by
    by_cases h1 : c.plusCount ≥ 3
    · have h2 : ¬ elapsed c.millis c.plusTime > 1000 := by omega
      rw [if_pos h1, if_neg h2]
    · rw [if_neg h1]
  simp only [hp]
  simp [hc]

/-- The end of a tick in ConnectedMode once the escape has timed out: the TCP client is
stopped, the session returns to CommandMode, drops the carrier flag and reports
NO CARRIER. -/
theorem tick_tail_escape (K : Consts) (c : sioModem) (hm : c.cmdMode = false)
    (h3 : c.plusCount ≥ 3) (he : elapsed c.millis c.plusTime > 1000) :
    (tick_tail K c).cmdMode = true ∧ (tick_tail K c).tcp_connected = false ∧
    (tick_tail K c).CRX = false ∧ (tick_tail K c).plusCount = 0 ∧
    ∃ a b, (tick_tail K c).trace = c.trace ++ a
      ++ result_events K.RESULT_CODE_NO_CARRIER (str "NO CARRIER") c ++ b := by
  unfold tick_tail
  simp only [h3, he, if_true, at_result_eq]
  by_cases hd : c.DTR = false
  · refine ⟨?_, ?_, ?_, ?_, [Event.tcp_stop, Event.tcp_flush, Event.tcp_stop],
      [Event.telnet_free, Event.telnet_init], ?_⟩
    · simp [tcp_stop, tcp_flush, telnet_reset, emit, hm, hd]
    · simp [tcp_stop, tcp_flush, telnet_reset, emit, hm, hd]
    · simp [tcp_stop, tcp_flush, telnet_reset, emit, hm, hd]
    · simp [tcp_stop, tcp_flush, telnet_reset, emit, hm, hd]
    · simp [tcp_stop, tcp_flush, telnet_reset, emit, hm, hd, result_events]
  · refine ⟨?_, ?_, ?_, ?_, [Event.tcp_stop, Event.telnet_free, Event.telnet_init],
      [Event.telnet_free, Event.telnet_init], ?_⟩
    · simp [tcp_stop, tcp_flush, telnet_reset, emit, hm, hd]
    · simp [tcp_stop, tcp_flush, telnet_reset, emit, hm, hd]
    · simp [tcp_stop, tcp_flush, telnet_reset, emit, hm, hd]
    · simp [tcp_stop, tcp_flush, telnet_reset, emit, hm, hd]
    · simp [tcp_stop, tcp_flush, telnet_reset, emit, hm, hd, result_events]

/-- C17: for every outbound chunk processed by a tick in ConnectedMode with a live TCP
client, the tick returns and the escape counter afterwards equals the length of the chunk's
trailing run of plus bytes, added to the previous counter when the whole chunk is plus bytes;
so a chunk whose last byte is not a plus leaves the counter at 0, whatever the counter and the
time of the third plus were before, and the TCP client stays connected and the session in
ConnectedMode. A tick with no unread bytes, while the counter is below 3 or no more than
1000 ms have elapsed since the third plus, keeps counter, client and mode as well. -/
theorem escape_counter_tracks_trailing_run (K : Consts) (s : sioModem)
    (hm : s.cmdMode = false) (hc : s.tcp_connected = true) :
    (s.uart_rx.take K.TX_BUF_SIZE ≠ [] →
      ∃ s', sio_handle_modem K s = .ok s' ∧
        s'.plusCount
          = (if (s.uart_rx.take K.TX_BUF_SIZE).all (fun b => b == 0x2B) = true then
              s.plusCount + (s.uart_rx.take K.TX_BUF_SIZE).length
            else trailing_plus (s.uart_rx.take K.TX_BUF_SIZE)) ∧
        (∀ pre b, s.uart_rx.take K.TX_BUF_SIZE = pre ++ [b] → b ≠ 0x2B → s'.plusCount = 0) ∧
        s'.cmdMode = false ∧ s'.tcp_connected = true ∧
        s'.uart_rx = s.uart_rx.drop K.TX_BUF_SIZE) ∧
    (s.uart_rx = [] → (s.plusCount < 3 ∨ elapsed s.millis s.plusTime ≤ 1000) →
      ∃ s', sio_handle_modem K s = .ok s' ∧ s'.plusCount = s.plusCount ∧
        s'.plusTime = s.plusTime ∧ s'.cmdMode = false ∧ s'.tcp_connected = true) := by
  constructor
  · intro hne
    have hne' : s.uart_rx ≠ [] := by
      intro h
      rw [h] at hne
      exact hne (List.take_nil)
    obtain ⟨f, p, q, u⟩ := connected_mode_tick_chunk K s hc hne'
    obtain ⟨f1, f2, f3, _⟩ := f
    have hq : (s.connected_mode_tick K).plusCount < 3 ∨
        elapsed (s.connected_mode_tick K).millis (s.connected_mode_tick K).plusTime ≤ 1000 := by
      by_cases h3 : 3 ≤ (s.connected_mode_tick K).plusCount
      · right
        rw [p] at h3
        rw [q, scan_time s.millis _ _ _ hne h3, millis_congr s _ f3, elapsed_self]
        omega
      · left
        omega
    have ht := tick_tail_quiet K (s.connected_mode_tick K) (f2.trans hc) hq
    refine ⟨s.connected_mode_tick K, ?_, ?_, ?_, f1.trans hm, f2.trans hc, u⟩
    · rw [sio_handle_modem_connected K s hm, ht]
    · rw [p, scan_count]
    · intro pre b hpre hb
      obtain ⟨t0, a0⟩ := trailing_plus_last pre b hb
      rw [p, scan_count, hpre, a0, t0]
      simp
  · intro hrx hq
    obtain ⟨f, p, q, _⟩ := connected_mode_tick_quiet K s hrx
    obtain ⟨f1, f2, f3, _⟩ := f
    have hq' : (s.connected_mode_tick K).plusCount < 3 ∨
        elapsed (s.connected_mode_tick K).millis (s.connected_mode_tick K).plusTime ≤ 1000 := by
      rw [p, q, millis_congr s _ f3]
      exact hq
    have ht := tick_tail_quiet K (s.connected_mode_tick K) (f2.trans hc) hq'
    refine ⟨s.connected_mode_tick K, ?_, p, q, f1.trans hm, f2.trans hc⟩
    rw [sio_handle_modem_connected K s hm, ht]

/-- C17 at a sample: with the escape armed, one more byte that is not a plus resets the
counter and keeps the call. -/
theorem escape_counter_tracks_trailing_run_witness :
    escape_broken_sample.cmdMode = false ∧ escape_broken_sample.tcp_connected = true ∧
    escape_broken_sample.plusCount = 3 ∧
    ∃ s', sio_handle_modem sample_consts escape_broken_sample = .ok s' ∧
      s'.plusCount
        = (if (escape_broken_sample.uart_rx.take sample_consts.TX_BUF_SIZE).all
              (fun b => b == 0x2B) = true then
            escape_broken_sample.plusCount
              + (escape_broken_sample.uart_rx.take sample_consts.TX_BUF_SIZE).length
          else trailing_plus (escape_broken_sample.uart_rx.take sample_consts.TX_BUF_SIZE)) ∧
      (∀ pre b, escape_broken_sample.uart_rx.take sample_consts.TX_BUF_SIZE = pre ++ [b] →
        b ≠ 0x2B → s'.plusCount = 0) ∧
      s'.cmdMode = false ∧ s'.tcp_connected = true ∧
      s'.uart_rx = escape_broken_sample.uart_rx.drop sample_consts.TX_BUF_SIZE :=
  ⟨rfl, rfl, rfl,
   (escape_counter_tracks_trailing_run sample_consts escape_broken_sample rfl rfl).1
     (by decide)⟩

set_option maxRecDepth 100000 in
/-- C16, as stated, fails twice over. After the chunk +++ and exactly 1000 ms of silence the
tick leaves the session in ConnectedMode with the client connected; after 1001 ms the tick
hangs up and writes the string NO CARRIER, followed by CR and LF, to the serial
transport. -/
theorem escape_timeout_sample_no_carrier :
    escape_sample.cmdMode = false ∧ escape_sample.tcp_connected = true ∧
    escape_sample.uart_rx = str "+++" ∧
    ((sio_handle_modem sample_consts escape_sample).bind
        (fun s1 => sio_handle_modem sample_consts (s1.advance 1000))).map
        (fun r => (r.cmdMode, r.tcp_connected, r.uart_rx))
      = .ok (false, true, []) ∧
    ((sio_handle_modem sample_consts escape_sample).bind
        (fun s1 => sio_handle_modem sample_consts (s1.advance 1001))).map
        (fun r => (r.cmdMode, r.trace))
      = .ok (true,
          [Event.tcp_write (str "+++"), Event.sniffer_dumpOutput (str "+++"), Event.tcp_stop,
           Event.telnet_free, Event.telnet_init,
           Event.uart_print (str "NO CARRIER"), Event.uart_write 13, Event.uart_write 10,
           Event.uart_flush, Event.telnet_free, Event.telnet_init]) := by
  exact ⟨rfl, rfl, rfl, rfl, rfl⟩

/-- C16 (amended): in ConnectedMode with a live TCP client, a tick that reads a chunk ending
in the bytes +++ returns and arms the escape at the clock reading of that tick. While the
escape is armed and no serial bytes are unread, a tick at which no more than 1000 ms have
elapsed since then returns and keeps the escape armed, the session in ConnectedMode and the
client connected; a tick at which more than 1000 ms have elapsed returns with the TCP client
stopped, the session in CommandMode, the carrier flag low, the escape counter 0, and the
NO CARRIER result written to the serial transport (the numeric code when numeric result
codes are on, otherwise the string unless command output is suppressed). -/
theorem escape_timeout_reports_no_carrier (K : Consts) (s : sioModem) (pre : List Nat)
    (hm : s.cmdMode = false) (hc : s.tcp_connected = true)
    (hrx : s.uart_rx = pre ++ str "+++") (hlen : s.uart_rx.length ≤ K.TX_BUF_SIZE) :
    (∃ s1, sio_handle_modem K s = .ok s1 ∧ escape_armed s.millis s1 ∧ s1.clock = s.clock) ∧
    ∀ t, escape_armed s.millis t →
      (elapsed t.millis s.millis ≤ 1000 →
        ∃ t', sio_handle_modem K t = .ok t' ∧ escape_armed s.millis t' ∧ t'.clock = t.clock) ∧
      (elapsed t.millis s.millis > 1000 →
        ∃ t', sio_handle_modem K t = .ok t' ∧ t'.cmdMode = true ∧ t'.tcp_connected = false ∧
          t'.CRX = false ∧ t'.plusCount = 0 ∧
          ∃ a b, t'.trace = t.trace ++ a
            ++ result_events K.RESULT_CODE_NO_CARRIER (str "NO CARRIER") t ++ b) := by
  constructor
  · have htake : s.uart_rx.take K.TX_BUF_SIZE = pre ++ str "+++" := by
      rw [List.take_of_length_le hlen, hrx]
    have hne : s.uart_rx ≠ [] := by
      rw [hrx]
      simp [str]
    obtain ⟨f, p, q, u⟩ := connected_mode_tick_chunk K s hc hne
    obtain ⟨f1, f2, f3, _⟩ := f
    rw [htake] at p q
    have h3 := scan_count_three s.millis pre s.plusCount s.plusTime
    have hne2 : pre ++ str "+++" ≠ [] := by
      simp [str]
    have hq := scan_time s.millis _ s.plusCount s.plusTime hne2 h3
    have hel : elapsed (s.connected_mode_tick K).millis (s.connected_mode_tick K).plusTime ≤ 1000 := by
      rw [q, hq, millis_congr s _ f3, elapsed_self]
      omega
    have ht := tick_tail_quiet K (s.connected_mode_tick K) (f2.trans hc) (Or.inr hel)
    refine ⟨s.connected_mode_tick K, ?_, ⟨f1.trans hm, f2.trans hc, ?_, ?_, q.trans hq⟩, f3⟩
    · rw [sio_handle_modem_connected K s hm, ht]
    · rw [u, List.drop_of_length_le hlen]
    · rw [p]
      exact h3
  · intro t ⟨tm, tc, tu, t3, tt⟩
    obtain ⟨f, p, q, u⟩ := connected_mode_tick_quiet K t tu
    obtain ⟨f1, f2, f3, f4, f5, f6, f7, ev, f8⟩ := f
    constructor
    · intro hel
      have hel' : elapsed (t.connected_mode_tick K).millis (t.connected_mode_tick K).plusTime
          ≤ 1000 := by
        rw [q, tt, millis_congr t _ f3]
        exact hel
      have ht := tick_tail_quiet K (t.connected_mode_tick K) (f2.trans tc) (Or.inr hel')
      refine ⟨t.connected_mode_tick K, ?_, ⟨f1.trans tm, f2.trans tc, u, ?_, q.trans tt⟩, f3⟩
      · rw [sio_handle_modem_connected K t tm, ht]
      · rw [p]
        exact t3
    · intro hel
      have hel' : elapsed (t.connected_mode_tick K).millis (t.connected_mode_tick K).plusTime
          > 1000 := by
        rw [q, tt, millis_congr t _ f3]
        exact hel
      have h3 : (t.connected_mode_tick K).plusCount ≥ 3 := by
        rw [p]
        exact t3
      obtain ⟨r1, r2, r3, r4, a, b, r5⟩ :=
        tick_tail_escape K (t.connected_mode_tick K) (f1.trans tm) h3 hel'
      refine ⟨(t.connected_mode_tick K).tick_tail K, sio_handle_modem_connected K t tm,
        r1, r2, r3, r4, ev ++ a, b, ?_⟩
      rw [r5, f8, result_events_congr _ _ _ t f5 f6 f7]
      simp [List.append_assoc]

/-- The amended C16 at a sample: the chunk +++ arms the escape of a session in
ConnectedMode. -/
theorem escape_timeout_reports_no_carrier_witness :
    escape_sample.cmdMode = false ∧ escape_sample.tcp_connected = true ∧
    escape_sample.uart_rx = [] ++ str "+++" ∧
    escape_sample.uart_rx.length ≤ sample_consts.TX_BUF_SIZE ∧
    ∃ s1, sio_handle_modem sample_consts escape_sample = .ok s1 ∧
      escape_armed escape_sample.millis s1 ∧ s1.clock = escape_sample.clock :=
  ⟨rfl, rfl, rfl, by decide,
   (escape_timeout_reports_no_carrier sample_consts escape_sample [] rfl rfl rfl
      (by decide)).1⟩

/-! ### The AT interpreter -/

/-- The overload `at_cmd_println()` only appends its events to the trace. -/
theorem at_cmd_println_eq (s : sioModem) :
    s.at_cmd_println = { s with trace := s.trace ++ println_events s } := by
  unfold at_cmd_println println_events
  by_cases ho : s.cmdOutput = false
  · rw [if_pos ho, if_pos ho]
    simp
  · rw [if_neg ho, if_neg ho]
    by_cases ha : s.cmdAtascii = true
    · rw [if_pos ha]
      simp [write_eol, uart_write, uart_flush, emit, ha]
    · rw [if_neg ha]
      simp [write_eol, uart_write, uart_flush, emit, ha]

/-- The interpreter on a line that is not blank: the line is trimmed and echoed, the
upper-cased line is matched against the table, the matched branch runs and the command
buffer is cleared. -/
theorem modemCommand_eq (K : Consts) (s : sioModem) (hne : util_string_trim s.cmd ≠ []) :
    modemCommand K s
      = match at_dispatch K
          (match_at_cmd (replace_eol (util_string_toupper (util_string_trim s.cmd))))
          s.echoed with
        | .error e => .error e
        | .ok r => .ok r.clear_cmd := by
  have hecho : (if s.commandEcho = true then
        ({ s with cmd := util_string_trim s.cmd } : sioModem).at_cmd_println
      else { s with cmd := util_string_trim s.cmd }) = s.echoed := by
    unfold echoed echo_events
    by_cases he : s.commandEcho = true
    · rw [if_pos he, if_pos he, at_cmd_println_eq]
      rfl
    · rw [if_neg he, if_neg he]
      simp
  unfold modemCommand
  simp only [hne, if_false]
  rw [hecho]
  rfl

/-- A successful `find` from the start gives the position of a byte equal to the one
looked for. -/
theorem find_zero_spec (c : Nat) (u : List Nat) (i : Nat) (h : find c 0 u = some i) :
    i < u.length ∧ u[i]? = some c := by
  unfold find at h
  simp only [List.drop_zero, Nat.zero_add] at h
  by_cases hlt : List.indexOf c u < u.length
  · rw [if_pos hlt] at h
    have hi : List.indexOf c u = i := Option.some.inj h
    subst hi
    refine ⟨hlt, ?_⟩
    rw [List.getElem?_eq_getElem hlt]
    exact congrArg some (List.indexOf_get hlt)
  · rw [if_neg hlt] at h
    exact absurd h (by simp)

/-- Replacing the first EOL by CR does not change whether the command starts with a text
that contains neither byte. -/
theorem replace_eol_take (u e : List Nat) (h1 : ATASCII_EOL ∉ e) (h2 : ASCII_CR ∉ e) :
    (replace_eol u).take e.length = e ↔ u.take e.length = e := by
  unfold replace_eol
  cases hf : find ATASCII_EOL 0 u with
  | none => exact Iff.rfl
  | some i =>
    obtain ⟨hi, hget⟩ := find_zero_spec _ _ _ hf
    simp only
    by_cases hlt : i < e.length
    · constructor
      · intro h
        exfalso
        apply h2
        have : e[i]? = some ASCII_CR := by
          rw [← h, List.getElem?_take_of_lt hlt, List.getElem?_set_eq_of_lt _ hi]
        exact List.getElem?_mem this
      · intro h
        exfalso
        apply h1
        have : e[i]? = some ATASCII_EOL := by
          rw [← h, List.getElem?_take_of_lt hlt, hget]
        exact List.getElem?_mem this
    · have hle : e.length ≤ i := by omega
      have : (u.set i ASCII_CR).take e.length = u.take e.length := by
        rw [List.set_take, List.set_eq_of_length_le]
        rw [List.length_take]
        omega
      rw [this]

/-- Replacing the first EOL by CR keeps the length. -/
theorem replace_eol_length (u : List Nat) : (replace_eol u).length = u.length := by
  unfold replace_eol
  cases find ATASCII_EOL 0 u with
  | none => rfl
  | some i => simp

/-- Replacing the first EOL by CR does not change whether the command equals a text that
contains neither byte. -/
theorem replace_eol_eq (u e : List Nat) (h1 : ATASCII_EOL ∉ e) (h2 : ASCII_CR ∉ e) :
    replace_eol u = e ↔ u = e := by
  constructor
  · intro h
    have hl : u.length = e.length := by rw [← replace_eol_length u, h]
    have ht : (replace_eol u).take e.length = e := by rw [h, List.take_length]
    have := (replace_eol_take u e h1 h2).mp ht
    rw [← hl, List.take_length] at this
    exact this
  · intro h
    have hl : (replace_eol u).length = e.length := by rw [replace_eol_length u, h]
    have ht : u.take e.length = e := by rw [h, List.take_length]
    have := (replace_eol_take u e h1 h2).mpr ht
    rw [← hl, List.take_length] at this
    exact this

set_option maxRecDepth 100000 in
/-- No entry of the command table contains an ATASCII EOL or a CR. -/
theorem at_cmds_plain : ∀ e ∈ at_cmds, ATASCII_EOL ∉ e.2 ∧ ASCII_CR ∉ e.2 := by
  decide

/-- The search of two tests that agree on the list gives the same result. -/
theorem find_congr {α : Type} (p q : α → Bool) (l : List α) (h : ∀ x ∈ l, p x = q x) :
    l.find? p = l.find? q := by
  induction l with
  | nil => rfl
  | cons a rest ih =>
    rw [List.find?_cons, List.find?_cons, h a (List.mem_cons_self a rest),
      ih (fun x hx => h x (List.mem_cons_of_mem a hx))]

/-- Replacing the first EOL by CR does not change the matched table entry. -/
theorem match_at_cmd_replace_eol (u : List Nat) :
    match_at_cmd (replace_eol u) = match_at_cmd u := by
  have hAT : (replace_eol u = str "AT") = (u = str "AT") :=
    propext (replace_eol_eq u (str "AT") (by decide) (by decide))
  have hfind : (at_cmds.drop 1).find? (fun e => compare_head e.2 (replace_eol u))
      = (at_cmds.drop 1).find? (fun e => compare_head e.2 u) := by
    apply find_congr
    intro e he
    obtain ⟨h1, h2⟩ := at_cmds_plain e (List.mem_of_mem_drop he)
    unfold compare_head
    have := replace_eol_take u e.2 h1 h2
    by_cases hu : u.take e.2.length = e.2
    · rw [hu, this.mpr hu]
    · have hr : ¬ (replace_eol u).take e.2.length = e.2 := fun h => hu (this.mp h)
      simp [hu, hr]
  unfold match_at_cmd
  simp only [hAT, hfind]

/-- A command that is not plain AT and starts with no other table entry matches no
entry. -/
theorem match_at_cmd_none (u : List Nat) (hAT : u ≠ str "AT")
    (hno : ∀ e ∈ at_cmds.drop 1, ¬ e.2 <+: u) :
    match_at_cmd u = _at_cmds.AT_ENUMCOUNT := by
  have hfind : (at_cmds.drop 1).find? (fun e => compare_head e.2 u) = none := by
    rw [List.find?_eq_none]
    intro e he
    have := hno e he
    rw [List.prefix_iff_eq_take] at this
    unfold compare_head
    simp only [beq_iff_eq]
    exact fun h => this h.symm
  unfold match_at_cmd
  rw [if_neg hAT, hfind]

/-- Leading bytes that all pass the test are dropped. -/
theorem dropWhile_append_all (p : Nat → Bool) (ws l : List Nat) (h : ∀ c ∈ ws, p c = true) :
    (ws ++ l).dropWhile p = l.dropWhile p := by
  induction ws with
  | nil => rfl
  | cons w rest ih =>
    rw [List.cons_append, List.dropWhile_cons, if_pos (h w (List.mem_cons_self w rest))]
    exact ih (fun c hc => h c (List.mem_cons_of_mem w hc))

/-- Trimming removes the whitespace around a text that starts and ends with a byte that
is not whitespace. -/
theorem util_string_trim_padded (ws1 ws2 mid : List Nat) (a z : Nat)
    (h1 : ∀ c ∈ ws1, isspace c = true) (h2 : ∀ c ∈ ws2, isspace c = true)
    (ha : isspace a = false) (hz : isspace z = false) :
    util_string_trim (ws1 ++ (a :: mid ++ [z]) ++ ws2) = a :: mid ++ [z] := by
  unfold util_string_trim
  rw [List.append_assoc, dropWhile_append_all isspace ws1 _ h1, List.cons_append,
    List.cons_append, List.dropWhile_cons, ha]
  simp only [Bool.false_eq_true, if_false]
  have hrev : (a :: (mid ++ [z] ++ ws2)).reverse = ws2.reverse ++ (z :: (a :: mid).reverse) := by
    simp
  rw [hrev, dropWhile_append_all isspace ws2.reverse _ (fun c hc => h2 c (List.mem_reverse.mp hc)),
    List.dropWhile_cons, hz]
  simp

/-- The result of running a line through the interpreter when the matched branch only
reports a final result: the command buffer is cleared and the echo and the result are
appended to the trace. -/
theorem modemCommand_result (K : Consts) (s : sioModem) (m : _at_cmds) (code : Int)
    (text : List Nat) (hne : util_string_trim s.cmd ≠ [])
    (hm : match_at_cmd (util_string_toupper (util_string_trim s.cmd)) = m)
    (hd : ∀ x : sioModem, at_dispatch K m x = .ok (x.at_result code text)) :
    modemCommand K s
      = .ok { s with cmd := [],
                     trace := s.trace ++ echo_events s ++ result_events code text s } := by
  rw [modemCommand_eq K s hne, match_at_cmd_replace_eol, hm, hd, at_result_eq]
  have hr : result_events code text s.echoed = result_events code text s :=
    result_events_congr code text _ _ rfl rfl rfl
  rw [hr]
  simp [echoed, clear_cmd, List.append_assoc]

set_option maxRecDepth 100000 in
/-- C18, as stated, fails: the line AT, CR handed over by a WRITE command is run with
command output suppressed, so with verbose result codes nothing at all is written to the
serial transport; the only events are the bus signals of the WRITE. -/
theorem plain_at_from_write_silent :
    write_sample_at.numericResultCode = false ∧
    (sio_process sample_consts ⟨0x50, 0x57, 3, 0, 0⟩ write_sample_at).map
        (fun r => (r.cmd, r.trace))
      = .ok ([], [Event.sio_ack, Event.sio_to_peripheral 64, Event.sio_complete]) := by
  exact ⟨rfl, rfl⟩

/-- C18 (amended): for every session state, the command line AT in any letter case with
surrounding whitespace makes the interpreter return with the command buffer cleared and
with the echo and then the OK result appended to the trace. The echo is the line end,
written when command echo is on and command output is not suppressed. The OK result is,
with numeric result codes on, the numeric OK code with CR LF, whether or not command
output is suppressed; with numeric result codes off it is the string OK with the line end
when command output is not suppressed, and nothing when it is suppressed. Every other
session field (mode, carrier, baud, command echo, numeric-result mode, auto-answer, listen
port among them) is unchanged, and executing the line a second time leaves the same
session fields as executing it once. -/
theorem plain_at_ok (K : Consts) (s : sioModem) (ws1 ws2 : List Nat) (a t : Nat)
    (h1 : ∀ c ∈ ws1, isspace c = true) (h2 : ∀ c ∈ ws2, isspace c = true)
    (ha : a = 0x41 ∨ a = 0x61) (ht : t = 0x54 ∨ t = 0x74) :
    modemCommand K (s.with_cmd (ws1 ++ [a, t] ++ ws2))
      = .ok { s with cmd := [],
                     trace := s.trace ++ echo_events s
                       ++ result_events K.RESULT_CODE_OK (str "OK") s } ∧
    ∀ s1, modemCommand K (s.with_cmd (ws1 ++ [a, t] ++ ws2)) = .ok s1 →
      ∃ s2, modemCommand K (s1.with_cmd (ws1 ++ [a, t] ++ ws2)) = .ok s2 ∧
        { s2 with trace := s1.trace } = s1 := by
  have hsa : isspace a = false := by
    rcases ha with h | h <;> rw [h] <;> decide
  have hst : isspace t = false := by
    rcases ht with h | h <;> rw [h] <;> decide
  have htrim : util_string_trim (ws1 ++ [a, t] ++ ws2) = [a, t] :=
    util_string_trim_padded ws1 ws2 [] a t h1 h2 hsa hst
  have hup : util_string_toupper [a, t] = str "AT" := by
    rcases ha with h | h <;> rcases ht with h' | h' <;> rw [h, h'] <;> decide
  have hrun : ∀ x : sioModem, modemCommand K (x.with_cmd (ws1 ++ [a, t] ++ ws2))
      = .ok { x with cmd := [],
                     trace := x.trace ++ echo_events x
                       ++ result_events K.RESULT_CODE_OK (str "OK") x } := by
    intro x
    have hne : util_string_trim (x.with_cmd (ws1 ++ [a, t] ++ ws2)).cmd ≠ [] := by
      show util_string_trim (ws1 ++ [a, t] ++ ws2) ≠ []
      rw [htrim]
      exact List.cons_ne_nil _ _
    have hm : match_at_cmd (util_string_toupper
        (util_string_trim (x.with_cmd (ws1 ++ [a, t] ++ ws2)).cmd)) = _at_cmds.AT_AT := by
      show match_at_cmd (util_string_toupper (util_string_trim (ws1 ++ [a, t] ++ ws2))) = _
      rw [htrim, hup]
      rfl
    exact modemCommand_result K _ _at_cmds.AT_AT K.RESULT_CODE_OK (str "OK") hne hm
      (fun _ => rfl)
  refine ⟨hrun s, ?_⟩
  intro s1 hs1
  rw [hrun s] at hs1
  have hs1' := (Except.ok.inj hs1).symm
  refine ⟨_, hrun s1, ?_⟩
  rw [hs1']

/-- The amended C18 at a sample: the line at with blanks around it. -/
theorem plain_at_ok_witness :
    (∀ c ∈ str "  ", isspace c = true) ∧ (∀ c ∈ str " \r", isspace c = true) ∧
    modemCommand sample_consts (init.with_cmd (str "  " ++ [0x61, 0x74] ++ str " \r"))
      = .ok { init with cmd := [],
                        trace := init.trace ++ echo_events init
                          ++ result_events sample_consts.RESULT_CODE_OK (str "OK") init } :=
  ⟨by decide, by decide,
   (plain_at_ok sample_consts init (str "  ") (str " \r") 0x61 0x74 (by decide) (by decide)
      (Or.inr rfl) (Or.inr rfl)).1⟩

set_option maxRecDepth 100000 in
/-- C19, as stated, fails: the line ATQ, CR handed over by a WRITE command matches no
table entry, and as it is run with command output suppressed nothing at all is written
to the serial transport with verbose result codes; the only events are the bus signals
of the WRITE. -/
theorem unknown_from_write_silent :
    write_sample_unknown.numericResultCode = false ∧
    util_string_trim (str "ATQ\r") ≠ [] ∧
    util_string_toupper (util_string_trim (str "ATQ\r")) ≠ str "AT" ∧
    (∀ e ∈ at_cmds.drop 1, ¬ e.2 <+: util_string_toupper (util_string_trim (str "ATQ\r"))) ∧
    (sio_process sample_consts ⟨0x50, 0x57, 4, 0, 0⟩ write_sample_unknown).map
        (fun r => (r.cmd, r.trace))
      = .ok ([], [Event.sio_ack, Event.sio_to_peripheral 64, Event.sio_complete]) := by
  refine ⟨rfl, by decide, by decide, ?_, rfl⟩
  decide

/-- C19 (amended): for every command line that is non-empty after trimming, whose
upper-cased form is not exactly AT and does not start with any of the 41 non-plain table
entries, the interpreter returns with the command buffer cleared, changes no other session
field, and appends to the trace the echo and then the ERROR result. The echo is the line
end, written when command echo is on and command output is not suppressed. The ERROR
result is, with numeric result codes on, the numeric ERROR code with CR LF, whether or not
command output is suppressed; with numeric result codes off it is the string ERROR with
the line end when command output is not suppressed, and nothing when it is suppressed. -/
theorem unmatched_gives_error (K : Consts) (s : sioModem) (line : List Nat)
    (hne : util_string_trim line ≠ [])
    (hAT : util_string_toupper (util_string_trim line) ≠ str "AT")
    (hno : ∀ e ∈ at_cmds.drop 1, ¬ e.2 <+: util_string_toupper (util_string_trim line)) :
    modemCommand K (s.with_cmd line)
      = .ok { s with cmd := [],
                     trace := s.trace ++ echo_events s
                       ++ result_events K.RESULT_CODE_ERROR (str "ERROR") s } :=
  modemCommand_result K (s.with_cmd line) _at_cmds.AT_ENUMCOUNT K.RESULT_CODE_ERROR
    (str "ERROR") hne (match_at_cmd_none _ hAT hno) (fun _ => rfl)

set_option maxRecDepth 100000 in
/-- The amended C19 at a sample: the line ATQ. -/
theorem unmatched_gives_error_witness :
    util_string_trim (str "ATQ") ≠ [] ∧
    util_string_toupper (util_string_trim (str "ATQ")) ≠ str "AT" ∧
    (∀ e ∈ at_cmds.drop 1, ¬ e.2 <+: util_string_toupper (util_string_trim (str "ATQ"))) ∧
    modemCommand sample_consts (init.with_cmd (str "ATQ"))
      = .ok { init with cmd := [],
                        trace := init.trace ++ echo_events init
                          ++ result_events sample_consts.RESULT_CODE_ERROR (str "ERROR") init } :=
  ⟨by decide, by decide, by decide,
   unmatched_gives_error sample_consts init (str "ATQ") (by decide) (by decide) (by decide)⟩

/-! ### Final result of every command -/

/-- The frame is reflexive. -/
theorem out_frame_refl (s : sioModem) : out_frame s s :=
  ⟨rfl, rfl, rfl, [], (List.append_nil _).symm⟩

/-- The frame is transitive. -/
theorem out_frame_trans (a b c : sioModem) (h1 : out_frame a b) (h2 : out_frame b c) :
    out_frame a c := by
  obtain ⟨a1, a2, a3, e1, a4⟩ := h1
  obtain ⟨b1, b2, b3, e2, b4⟩ := h2
  refine ⟨b1.trans a1, b2.trans a2, b3.trans a3, e1 ++ e2, ?_⟩
  rw [b4, a4, List.append_assoc]

/-- A step that keeps the output settings and extends the trace keeps the frame. -/
theorem out_frame_step (s x y : sioModem) (h : out_frame s x) (h1 : y.cmdOutput = x.cmdOutput)
    (h2 : y.cmdAtascii = x.cmdAtascii) (h3 : y.modemBaud = x.modemBaud)
    (h4 : ∃ ev, y.trace = x.trace ++ ev) : out_frame s y :=
  out_frame_trans s x y h ⟨h1, h2, h3, h4⟩

/-- The overloads of `at_cmd_println` for a string only append events to the trace. -/
theorem at_cmd_println_str_eq (t : List Nat) (b : Bool) (s : sioModem) :
    ∃ ev, s.at_cmd_println_str t b = { s with trace := s.trace ++ ev } := by
  unfold at_cmd_println_str
  by_cases ho : s.cmdOutput = false
  · rw [if_pos ho]
    exact ⟨[], by simp⟩
  · rw [if_neg ho]
    cases b
    · exact ⟨[Event.uart_print t, Event.uart_flush], by simp [uart_print, uart_flush, emit]⟩
    · by_cases ha : s.cmdAtascii = true
      · exact ⟨[Event.uart_print t, Event.uart_write ATASCII_EOL, Event.uart_flush], by
          simp [uart_print, uart_flush, write_eol, uart_write, emit, ha]⟩
      · exact ⟨[Event.uart_print t, Event.uart_write ASCII_CR, Event.uart_write ASCII_LF,
          Event.uart_flush], by simp [uart_print, uart_flush, write_eol, uart_write, emit, ha]⟩

/-- The overload of `at_cmd_println` for an integer only appends events to the trace. -/
theorem at_cmd_println_int_eq (i : Int) (b : Bool) (s : sioModem) :
    ∃ ev, s.at_cmd_println_int i b = { s with trace := s.trace ++ ev } := by
  unfold at_cmd_println_int
  by_cases ho : s.cmdOutput = false
  · rw [if_pos ho]
    exact ⟨[], by simp⟩
  · rw [if_neg ho]
    cases b
    · exact ⟨[Event.uart_print_int i, Event.uart_flush], by
        simp [uart_print_int, uart_flush, emit]⟩
    · by_cases ha : s.cmdAtascii = true
      · exact ⟨[Event.uart_print_int i, Event.uart_write ATASCII_EOL, Event.uart_flush], by
          simp [uart_print_int, uart_flush, write_eol, uart_write, emit, ha]⟩
      · exact ⟨[Event.uart_print_int i, Event.uart_write ASCII_CR, Event.uart_write ASCII_LF,
          Event.uart_flush], by
          simp [uart_print_int, uart_flush, write_eol, uart_write, emit, ha]⟩

/-- Printing a string keeps the frame. -/
theorem out_frame_println_str (s x : sioModem) (t : List Nat) (b : Bool) (h : out_frame s x) :
    out_frame s (x.at_cmd_println_str t b) := by
  obtain ⟨ev, he⟩ := at_cmd_println_str_eq t b x
  rw [he]
  exact out_frame_step s x _ h rfl rfl rfl ⟨ev, rfl⟩

/-- Printing an integer keeps the frame. -/
theorem out_frame_println_int (s x : sioModem) (i : Int) (b : Bool) (h : out_frame s x) :
    out_frame s (x.at_cmd_println_int i b) := by
  obtain ⟨ev, he⟩ := at_cmd_println_int_eq i b x
  rw [he]
  exact out_frame_step s x _ h rfl rfl rfl ⟨ev, rfl⟩

/-- Printing a line end keeps the frame. -/
theorem out_frame_println (s x : sioModem) (h : out_frame s x) :
    out_frame s x.at_cmd_println := by
  rw [at_cmd_println_eq]
  exact out_frame_step s x _ h rfl rfl rfl ⟨_, rfl⟩

/-- An event keeps the frame. -/
theorem out_frame_emit (s x : sioModem) (e : Event) (h : out_frame s x) :
    out_frame s (x.emit e) :=
  out_frame_step s x _ h rfl rfl rfl ⟨[e], rfl⟩

/-- A choice between two steps that keep the frame keeps the frame. -/
theorem out_frame_ite (s a b : sioModem) (c : Prop) [Decidable c] (ha : out_frame s a)
    (hb : out_frame s b) : out_frame s (if c then a else b) := by
  by_cases h : c
  · rw [if_pos h]
    exact ha
  · rw [if_neg h]
    exact hb

/-- The CONNECT report only raises the carrier flag and appends its events. -/
theorem at_connect_result_eq (s : sioModem) :
    s.at_connect_result = { s with CRX := true, trace := s.trace ++ connect_events s } := by
  unfold at_connect_result connect_events
  by_cases hn : s.numericResultCode = true
  · rw [if_pos hn, if_pos hn]
    simp [at_connect_resultCode, connect_code, uart_print_int, uart_write, emit]
  · rw [if_neg hn, if_neg hn]
    by_cases ho : s.cmdOutput = false
    · rw [if_pos ho]
      simp [at_cmd_println_str, at_cmd_println_int, ho]
    · rw [if_neg ho]
      by_cases ha : s.cmdAtascii = true
      · simp [at_cmd_println_str, at_cmd_println_int, ho, ha, eol_events, write_eol,
          uart_print, uart_print_int, uart_write, uart_flush, emit]
      · simp [at_cmd_println_str, at_cmd_println_int, ho, ha, eol_events, write_eol,
          uart_print, uart_print_int, uart_write, uart_flush, emit]

/-- The final results depend on the output settings only. -/
theorem final_results_congr (K : Consts) (a b : sioModem)
    (hn : a.numericResultCode = b.numericResultCode) (ho : a.cmdOutput = b.cmdOutput)
    (ha : a.cmdAtascii = b.cmdAtascii) (hb : a.modemBaud = b.modemBaud) :
    final_results K a = final_results K b := by
  unfold final_results connect_events eol_events
  rw [result_events_congr _ _ a b hn ho ha, result_events_congr _ _ a b hn ho ha,
    result_events_congr _ _ a b hn ho ha, hn, ho, ha, hb]

/-- A run that ends with the recurring result pattern ends with a final result. -/
theorem ends_of_at_result (K : Consts) (s x : sioModem) (code : Int) (text : List Nat)
    (h : out_frame s x) (hfin : ∀ r : sioModem, result_events code text r ∈ final_results K r) :
    ends_with_result K s (x.at_result code text) := by
  rw [at_result_eq]
  obtain ⟨h1, h2, h3, ev, h4⟩ := h
  refine ⟨⟨h1, h2, h3, ev ++ result_events code text x, ?_⟩,
    ev, result_events code text x, [], ?_, ?_, rfl⟩
  · show x.trace ++ _ = _
    rw [h4, List.append_assoc]
  · show x.trace ++ _ = _
    rw [h4, List.append_nil]
  · rw [result_events_congr code text x
      { x with trace := x.trace ++ result_events code text x } rfl rfl rfl]
    exact hfin _

/-- A run that ends with the OK pattern ends with a final result. -/
theorem ends_of_ok (K : Consts) (s x : sioModem) (h : out_frame s x) :
    ends_with_result K s (x.at_result K.RESULT_CODE_OK (str "OK")) :=
  ends_of_at_result K s x _ _ h (fun r => by simp [final_results])

/-- A run that ends with the ERROR pattern ends with a final result. -/
theorem ends_of_error (K : Consts) (s x : sioModem) (h : out_frame s x) :
    ends_with_result K s (x.at_result K.RESULT_CODE_ERROR (str "ERROR")) :=
  ends_of_at_result K s x _ _ h (fun r => by simp [final_results])

/-- A run that ends with the NO CARRIER pattern ends with a final result. -/
theorem ends_of_no_carrier (K : Consts) (s x : sioModem) (h : out_frame s x) :
    ends_with_result K s (x.at_result K.RESULT_CODE_NO_CARRIER (str "NO CARRIER")) :=
  ends_of_at_result K s x _ _ h (fun r => by simp [final_results])

/-- A run that ends with the CONNECT report ends with a final result. -/
theorem ends_of_connect (K : Consts) (s x : sioModem) (h : out_frame s x) :
    ends_with_result K s x.at_connect_result := by
  rw [at_connect_result_eq]
  obtain ⟨h1, h2, h3, ev, h4⟩ := h
  refine ⟨⟨h1, h2, h3, ev ++ connect_events x, ?_⟩, ev, connect_events x, [], ?_, ?_, rfl⟩
  · show x.trace ++ _ = _
    rw [h4, List.append_assoc]
  · show x.trace ++ _ = _
    rw [h4, List.append_nil]
  · have : final_results K { x with CRX := true, trace := x.trace ++ connect_events x }
        = final_results K x := final_results_congr K _ _ rfl rfl rfl rfl
    rw [this]
    simp [final_results]

/-- Steps after the final result that keep the output settings and write nothing to the
serial transport leave the run ending with that result. -/
theorem ends_post (K : Consts) (s r y : sioModem) (post : List Event)
    (h : ends_with_result K s r) (hn : y.numericResultCode = r.numericResultCode)
    (ho : y.cmdOutput = r.cmdOutput) (ha : y.cmdAtascii = r.cmdAtascii)
    (hb : y.modemBaud = r.modemBaud) (ht : y.trace = r.trace ++ post)
    (hp : post.filter Event.is_uart = []) :
    ends_with_result K s y := by
  obtain ⟨hf, pre, fin, post0, t0, m0, p0⟩ := h
  refine ⟨out_frame_step s r y hf ho ha hb ⟨post, ht⟩, pre, fin, post0 ++ post, ?_, ?_, ?_⟩
  · rw [ht, t0]
    simp [List.append_assoc]
  · rw [final_results_congr K y r hn ho ha hb]
    exact m0
  · rw [List.filter_append, p0, hp]
    rfl

/-- Output before a run that ends with a final result leaves it ending with that
result. -/
theorem ends_from (K : Consts) (s x r : sioModem) (h : out_frame s x)
    (h2 : ends_with_result K x r) : ends_with_result K s r := by
  obtain ⟨hf, pre, fin, post, t0, m0, p0⟩ := h2
  have hsr := out_frame_trans s x r h hf
  obtain ⟨_, _, _, ev, h4⟩ := h
  refine ⟨hsr, ev ++ pre, fin, post, ?_, m0, p0⟩
  rw [t0, h4]
  simp [List.append_assoc]

/-- A step that changes neither the output settings nor the trace keeps the frame. -/
theorem out_frame_same (s x y : sioModem) (h : out_frame s x) (h1 : y.cmdOutput = x.cmdOutput)
    (h2 : y.cmdAtascii = x.cmdAtascii) (h3 : y.modemBaud = x.modemBaud)
    (h4 : y.trace = x.trace) : out_frame s y :=
  out_frame_step s x y h h1 h2 h3 ⟨[], by rw [h4, List.append_nil]⟩

/-- A poll of the WiFi connection keeps the frame. -/
theorem out_frame_wifi_poll (s x : sioModem) (h : out_frame s x) :
    out_frame s (wifi_poll_connected x).2 := by
  unfold wifi_poll_connected
  cases hw : x.wifi_connected with
  | nil => exact h
  | cons b rest => exact out_frame_same s x _ h rfl rfl rfl rfl

/-- A delay keeps the frame. -/
theorem out_frame_delay (s x : sioModem) (ms : Nat) (h : out_frame s x) :
    out_frame s (x.delay ms) :=
  out_frame_step s x _ h rfl rfl rfl ⟨[Event.delay ms], rfl⟩

/-- The wait loop of WIFICONNECT keeps the frame. -/
theorem out_frame_wificonnect_wait (s : sioModem) (left retries : Nat) (x : sioModem)
    (h : out_frame s x) : out_frame s (wificonnect_wait left retries x).2 := by
  induction left generalizing retries x with
  | zero => exact out_frame_wifi_poll s x h
  | succ n ih =>
    unfold wificonnect_wait
    by_cases hc : (wifi_poll_connected x).1 = true
    · simp only [hc, if_true]
      exact out_frame_wifi_poll s x h
    · simp only [hc, if_false]
      apply ih
      apply out_frame_println_str
      apply out_frame_delay
      exact out_frame_wifi_poll s x h

/-- The scan attempts keep the frame. -/
theorem out_frame_scan_attempt_loop (s : sioModem) (attempts : Nat) (x : sioModem)
    (h : out_frame s x) : out_frame s (scan_attempt_loop attempts x).2 := by
  induction attempts generalizing x with
  | zero => exact h
  | succ n ih =>
    unfold scan_attempt_loop
    have he := out_frame_emit s x Event.wifi_scan_start h
    cases hl : (x.emit Event.wifi_scan_start).esp_scan_ap_num with
    | nil =>
      simp only [hl]
      exact ih _ he
    | cons o rest =>
      cases o with
      | none =>
        simp only [hl]
        exact ih _ (out_frame_same s _ _ he rfl rfl rfl rfl)
      | some k =>
        simp only [hl]
        exact out_frame_same s _ _ he rfl rfl rfl rfl

/-- The network scan keeps the frame. -/
theorem out_frame_scan_networks (K : Consts) (s : sioModem) (maxresults : Nat) (x : sioModem)
    (h : out_frame s x) : out_frame s (scan_networks K maxresults x).2 := by
  unfold scan_networks
  have h0 : out_frame s { x with wifi_scan_records := [], wifi_scan_record_count := 0 } :=
    out_frame_same s x _ h rfl rfl rfl rfl
  have h1 := out_frame_scan_attempt_loop s (K.FNWIFI_RECONNECT_RETRIES + 1) _ h0
  simp only
  generalize scan_attempt_loop (K.FNWIFI_RECONNECT_RETRIES + 1)
    { x with wifi_scan_records := [], wifi_scan_record_count := 0 } = p at h1 ⊢
  obtain ⟨res, y⟩ := p
  simp only at h1 ⊢
  by_cases hr : (if res > maxresults then maxresults else res) > 0
  · rw [if_pos hr]
    cases hrec : y.esp_scan_ap_records with
    | none => exact out_frame_same s _ _ h1 rfl rfl rfl rfl
    | some records => exact out_frame_same s _ _ h1 rfl rfl rfl rfl
  · rw [if_neg hr]
    exact h1

/-- The listing loop, one round unfolded. -/
theorem wifilist_loop_succ (K : Consts) (left i : Nat) (v : ScanLocals) (s : sioModem) :
    wifilist_loop K (left + 1) i v s
      = wifilist_loop K left (i + 1) (scan_locals v i s)
          (wifilist_line K i (scan_locals v i s) s) := rfl

/-- One line of the network listing keeps the frame. -/
theorem out_frame_wifilist_line (K : Consts) (s : sioModem) (i : Nat) (v : ScanLocals)
    (x : sioModem) (h : out_frame s x) : out_frame s (wifilist_line K i v x) := by
  unfold wifilist_line
  simp only
  apply out_frame_println_str
  apply out_frame_println_str
  apply out_frame_println_str
  apply out_frame_println_str
  apply out_frame_println_int
  apply out_frame_println_str
  apply out_frame_println_int
  apply out_frame_println_str
  apply out_frame_println_str
  apply out_frame_println_str
  apply out_frame_println_int
  exact h

/-- The listing loop keeps the frame. -/
theorem out_frame_wifilist_loop (K : Consts) (s : sioModem) (left i : Nat) (v : ScanLocals)
    (x : sioModem) (h : out_frame s x) : out_frame s (wifilist_loop K left i v x) := by
  induction left generalizing i v x with
  | zero => exact h
  | succ n ih =>
    rw [wifilist_loop_succ]
    exact ih _ _ _ (out_frame_wifilist_line K s i _ x h)

/-- The help listing ends with the OK result. -/
theorem ends_help (K : Consts) (s : sioModem) : ends_with_result K s (s.at_handle_help K) := by
  unfold at_handle_help
  simp only
  apply ends_of_ok
  apply out_frame_println
  apply out_frame_ite
  · apply out_frame_println_str
    apply out_frame_println_str
    apply out_frame_println_int
    apply out_frame_println_str
    apply out_frame_println
    iterate 18 apply out_frame_println_str
    exact out_frame_refl s
  · apply out_frame_println_str
    apply out_frame_println
    iterate 18 apply out_frame_println_str
    exact out_frame_refl s

/-- The network listing ends with the OK result. -/
theorem ends_wifilist (K : Consts) (s : sioModem) :
    ends_with_result K s (s.at_handle_wifilist K) := by
  unfold at_handle_wifilist
  simp only
  apply ends_of_ok
  apply out_frame_println
  have h1 : out_frame s ((s.at_cmd_println.at_cmd_println_str (K.help .HELPSCAN1) true).scan_networks
      K K.FNWIFI_SCAN_RESULTS_MAX).2.at_cmd_println := by
    apply out_frame_println
    apply out_frame_scan_networks
    apply out_frame_println_str
    apply out_frame_println
    exact out_frame_refl s
  apply out_frame_ite
  · apply out_frame_println_str
    exact h1
  · apply out_frame_wifilist_loop
    apply out_frame_println
    apply out_frame_println_str
    apply out_frame_println_int
    exact h1

/-- Resetting the telnet state and dropping the carrier flag after the final result. -/
theorem ends_post_reset_crx (K : Consts) (s r : sioModem) (h : ends_with_result K s r) :
    ends_with_result K s { r.telnet_reset with CRX := false } :=
  ends_post K s r _ [Event.telnet_free, Event.telnet_init] h rfl rfl rfl rfl
    (by simp [telnet_reset, emit]) rfl

/-- Dropping the carrier flag and resetting the telnet state after the final result. -/
theorem ends_post_crx_reset (K : Consts) (s r : sioModem) (h : ends_with_result K s r) :
    ends_with_result K s ({ r with CRX := false } : sioModem).telnet_reset :=
  ends_post K s r _ [Event.telnet_free, Event.telnet_init] h rfl rfl rfl rfl
    (by simp [telnet_reset, emit]) rfl

/-- Leaving command mode after the final result. -/
theorem ends_post_online (K : Consts) (s r : sioModem) (h : ends_with_result K s r) :
    ends_with_result K s { r with cmdMode := false } :=
  ends_post K s r _ [] h rfl rfl rfl rfl (by simp) rfl

/-- The end of the answer branch after the final result. -/
theorem ends_post_answer (K : Consts) (s r : sioModem) (h : ends_with_result K s r) :
    ends_with_result K s
      { ({ r with cmdMode := false } : sioModem).uart_flush with answerHack := false } :=
  ends_post K s r _ [Event.uart_flush] h rfl rfl rfl rfl (by simp [uart_flush, emit]) rfl

/-- The request of the GET branch after the final result. -/
theorem ends_post_request (K : Consts) (s r : sioModem) (request : List Nat)
    (h : ends_with_result K s r) :
    ends_with_result K s (({ r with cmdMode := false } : sioModem).tcp_write request) :=
  ends_post K s r _ [Event.tcp_write request] h rfl rfl rfl rfl (by simp [tcp_write, emit]) rfl

/-- Clearing the command buffer after the final result. -/
theorem ends_post_clear_cmd (K : Consts) (s r : sioModem) (h : ends_with_result K s r) :
    ends_with_result K s r.clear_cmd :=
  ends_post K s r _ [] h rfl rfl rfl rfl (by simp [clear_cmd]) rfl

/-- The hang-up branch ends with the NO CARRIER or the OK result. -/
theorem ends_hangup (K : Consts) (s : sioModem) : ends_with_result K s (s.at_hangup K) := by
  unfold at_hangup
  by_cases hc : s.tcp_connected = true
  · rw [if_pos hc]
    simp only
    apply ends_post_reset_crx
    apply ends_of_no_carrier
    exact ⟨rfl, rfl, rfl, [Event.tcp_flush, Event.tcp_stop], by simp [tcp_flush, tcp_stop, emit]⟩
  · rw [if_neg hc]
    exact ends_of_ok K s s (out_frame_refl s)

/-- Answering a waiting caller ends with the CONNECT report. -/
theorem ends_answer (K : Consts) (s : sioModem) (hc : s.srv_hasClient = true) :
    ends_with_result K s s.at_handle_answer := by
  unfold at_handle_answer
  rw [if_pos hc]
  simp only
  apply ends_post_answer
  apply ends_of_connect
  exact ⟨rfl, rfl, rfl, [Event.srv_accept, Event.tcp_setNoDelay true], by
    simp [srv_take_client, tcp_setNoDelay, emit]⟩

/-- The PORT branch, when it returns, ends with the ERROR or the OK result. -/
theorem ends_port (K : Consts) (s r : sioModem) (h : s.at_handle_port K = .ok r) :
    ends_with_result K s r := by
  unfold at_handle_port at h
  cases h1 : substr_from 6 s.cmd with
  | error e =>
    simp only [h1, bind, Except.bind] at h
    exact absurd h (by simp)
  | ok v =>
    cases h2 : stoi v with
    | error e =>
      simp only [h1, h2, bind, Except.bind] at h
      exact absurd h (by simp)
    | ok port =>
      simp only [h1, h2, bind, Except.bind, pure, Except.pure] at h
      by_cases hp : port > 65535 ∨ port < 0
      · rw [if_pos hp] at h
        rw [← Except.ok.inj h]
        exact ends_of_error K s s (out_frame_refl s)
      · rw [if_neg hp] at h
        rw [← Except.ok.inj h]
        apply ends_of_ok
        have h0 : out_frame s (if s.listenPort ≠ 0 then s.tcp_stop.srv_stop else s) := by
          apply out_frame_ite
          · exact ⟨rfl, rfl, rfl, [Event.tcp_stop, Event.srv_stop], by
              simp [tcp_stop, srv_stop]⟩
          · exact out_frame_refl s
        refine out_frame_step s _ _ h0 rfl rfl rfl ⟨[Event.srv_setMaxClients 1,
          Event.srv_begin port.toNat], ?_⟩
        simp [srv_setMaxClients, srv_begin, emit]

/-- The WIFICONNECT branch, when it returns, ends with the ERROR or the OK result. -/
theorem ends_wificonnect (K : Consts) (s r : sioModem) (h : s.at_handle_wificonnect K = .ok r) :
    ends_with_result K s r := by
  have key : ∀ a b : List Nat, out_frame s (wificonnect_wait 20 0
      ((((((s.at_cmd_println_str (K.help .HELPWIFICONNECTING) false).at_cmd_println_str a
        false).at_cmd_println_str (str "/") false).at_cmd_println_str b true).emit
          (.wifi_connect (c_str a) (c_str b))))).2 := by
    intro a b
    apply out_frame_wificonnect_wait
    apply out_frame_emit
    apply out_frame_println_str
    apply out_frame_println_str
    apply out_frame_println_str
    apply out_frame_println_str
    exact out_frame_refl s
  unfold at_handle_wificonnect at h
  simp only [bind, Except.bind, pure, Except.pure] at h
  split at h
  · split at h
    · exact absurd h (by simp)
    · split at h
      · exact absurd h (by simp)
      · split at h
        · rw [← Except.ok.inj h]
          exact ends_of_error K s _ (key _ _)
        · rw [← Except.ok.inj h]
          exact ends_of_ok K s _ (key _ _)
  · split at h
    · exact absurd h (by simp)
    · split at h
      · rw [← Except.ok.inj h]
        exact ends_of_error K s _ (key _ _)
      · rw [← Except.ok.inj h]
        exact ends_of_ok K s _ (key _ _)

/-- A connection attempt keeps the frame. -/
theorem out_frame_tcp_connect (s x : sioModem) (host : List Nat) (port : Int)
    (h : out_frame s x) : out_frame s (x.tcp_connect host port).2 :=
  out_frame_step s x _ h rfl rfl rfl ⟨[Event.tcp_connect host port], rfl⟩

/-- The GET branch, when it returns, ends with the NO CARRIER result or the CONNECT
report. -/
theorem ends_get (K : Consts) (s r : sioModem) (h : s.at_handle_get K = .ok r) :
    ends_with_result K s r := by
  have hfail : ∀ (host : List Nat) (port : Int), ends_with_result K s
      { ((s.tcp_connect host port).2.at_result K.RESULT_CODE_NO_CARRIER
          (str "NO CARRIER")).telnet_reset with CRX := false } := by
    intro host port
    apply ends_post_reset_crx
    apply ends_of_no_carrier
    exact out_frame_tcp_connect s s host port (out_frame_refl s)
  have hgood : ∀ (host : List Nat) (port : Int) (request : List Nat), ends_with_result K s
      (({ (s.tcp_connect host port).2.at_connect_result with cmdMode := false } :
        sioModem).tcp_write request) := by
    intro host port request
    apply ends_post_request
    apply ends_of_connect
    exact out_frame_tcp_connect s s host port (out_frame_refl s)
  unfold at_handle_get at h
  simp only [bind, Except.bind, pure, Except.pure] at h
  split at h
  · split at h
    · exact absurd h (by simp)
    · split at h
      · exact absurd h (by simp)
      · split at h
        · rw [← Except.ok.inj h]
          exact hfail _ _
        · rw [← Except.ok.inj h]
          exact hgood _ _ _
  · split at h
    · exact absurd h (by simp)
    · split at h
      · exact absurd h (by simp)
      · split at h
        · exact absurd h (by simp)
        · split at h
          · exact absurd h (by simp)
          · split at h
            · rw [← Except.ok.inj h]
              exact hfail _ _
            · rw [← Except.ok.inj h]
              exact hgood _ _ _

/-- The dial branch in its three steps. -/
theorem at_handle_dial_eq (K : Consts) (s : sioModem) :
    s.at_handle_dial K
      = (dial_parse s.cmd).bind
          (fun hp => dial_run K (dial_alias hp.1 hp.2).1 (dial_alias hp.1 hp.2).2 s) := by
  unfold at_handle_dial dial_parse
  cases find 0x3A 0 s.cmd with
  | none =>
    dsimp only
    cases substr_from 4 s.cmd <;> rfl
  | some k =>
    dsimp only
    cases substr 4 ((k : Int) - 4) s.cmd with
    | error e => rfl
    | ok host => cases substr_from (k + 1) s.cmd <;> rfl

/-- The connection attempt of the dial branch, when it returns, ends with the CONNECT
report or the NO CARRIER result. -/
theorem ends_dial_run (K : Consts) (host port : List Nat) (s r : sioModem)
    (h : dial_run K host port s = .ok r) : ends_with_result K s r := by
  unfold dial_run at h
  by_cases hf : host = str "5551234"
  · rw [if_pos hf] at h
    rw [← Except.ok.inj h]
    apply ends_of_connect
    exact out_frame_delay s s 1300 (out_frame_refl s)
  · rw [if_neg hf] at h
    have hpre : ∀ portInt : Int, out_frame s
        (((((s.at_cmd_println_str (str "Connecting to ") false).at_cmd_println_str host
          false).at_cmd_println_str (str ":") false).at_cmd_println_str port true).tcp_connect
            (c_str host) portInt).2 := by
      intro portInt
      apply out_frame_tcp_connect
      apply out_frame_println_str
      apply out_frame_println_str
      apply out_frame_println_str
      apply out_frame_println_str
      exact out_frame_refl s
    cases hs : stoi port with
    | error e =>
      simp only [hs, bind, Except.bind] at h
      exact Except.noConfusion h
    | ok portInt =>
      simp only [hs, bind, Except.bind, pure, Except.pure] at h
      split at h
      · rw [← Except.ok.inj h]
        apply ends_post_online
        apply ends_of_connect
        apply out_frame_emit
        exact hpre portInt
      · rw [← Except.ok.inj h]
        apply ends_post_crx_reset
        apply ends_of_no_carrier
        exact hpre portInt

/-- The dial branch, when it returns, ends with the CONNECT report or the NO CARRIER
result. -/
theorem ends_dial (K : Consts) (s r : sioModem) (h : s.at_handle_dial K = .ok r) :
    ends_with_result K s r := by
  rw [at_handle_dial_eq] at h
  cases hp : dial_parse s.cmd with
  | error e =>
    rw [hp] at h
    exact Except.noConfusion h
  | ok hp' =>
    rw [hp] at h
    exact ends_dial_run K _ _ s r h

/-- A branch that reports OK after a step that keeps the frame ends with the OK result. -/
theorem ends_ok_of (K : Consts) (s x r : sioModem) (hx : out_frame s x)
    (h : Except.ok (x.at_result K.RESULT_CODE_OK (str "OK")) = (Except.ok r : Except Exn sioModem)) :
    ends_with_result K s r := by
  rw [← Except.ok.inj h]
  exact ends_of_ok K s x hx

/-- A branch that is a handler which ends with a final result. -/
theorem ends_of_eq (K : Consts) (s x r : sioModem) (hx : ends_with_result K s x)
    (h : Except.ok x = (Except.ok r : Except Exn sioModem)) : ends_with_result K s r := by
  rw [← Except.ok.inj h]
  exact hx

/-- A field update keeps the frame. -/
theorem out_frame_update (s x : sioModem) (h1 : x.cmdOutput = s.cmdOutput)
    (h2 : x.cmdAtascii = s.cmdAtascii) (h3 : x.modemBaud = s.modemBaud)
    (h4 : x.trace = s.trace) : out_frame s x :=
  out_frame_same s s x (out_frame_refl s) h1 h2 h3 h4

/-- The ATV0 branch ends with the numeric OK code. -/
theorem ends_v0 (K : Consts) (s : sioModem) :
    ends_with_result K s { s.at_cmd_resultCode K.RESULT_CODE_OK with numericResultCode := true } := by
  have hn : ({ s with numericResultCode := true } : sioModem).at_result K.RESULT_CODE_OK (str "OK")
      = { s.at_cmd_resultCode K.RESULT_CODE_OK with numericResultCode := true } := by
    unfold at_result
    simp [at_cmd_resultCode, uart_print_int, uart_write, emit]
  rw [← hn]
  exact ends_of_ok K s _ (out_frame_update s _ rfl rfl rfl rfl)

/-- The ATV1 branch ends with the verbose OK result. -/
theorem ends_v1 (K : Consts) (s : sioModem) :
    ends_with_result K s
      { s.at_cmd_println_str (str "OK") true with numericResultCode := false } := by
  have hn : ({ s with numericResultCode := false } : sioModem).at_result K.RESULT_CODE_OK (str "OK")
      = { s.at_cmd_println_str (str "OK") true with numericResultCode := false } := by
    unfold at_result at_cmd_println_str
    by_cases ho : s.cmdOutput = false
    · simp [ho]
    · by_cases ha : s.cmdAtascii = true
      · simp [ho, ha, write_eol, uart_print, uart_write, uart_flush, emit]
      · simp [ho, ha, write_eol, uart_print, uart_write, uart_flush, emit]
  rw [← hn]
  exact ends_of_ok K s _ (out_frame_update s _ rfl rfl rfl rfl)

/-- The IP branch ends with the OK result. -/
theorem ends_ip (K : Consts) (s r : sioModem) (h : at_dispatch K .AT_IP s = .ok r) :
    ends_with_result K s r := by
  unfold at_dispatch at h
  simp only [pure, Except.pure] at h
  rw [← Except.ok.inj h]
  apply ends_of_ok
  apply out_frame_ite
  · apply out_frame_println_str
    exact out_frame_wifi_poll s s (out_frame_refl s)
  · apply out_frame_println_str
    exact out_frame_wifi_poll s s (out_frame_refl s)

/-- Every branch of the `switch` of `modemCommand`, when it returns, ends with a final
result, except the answer branch with no caller waiting. -/
theorem ends_dispatch (K : Consts) (m : _at_cmds) (s r : sioModem)
    (h : at_dispatch K m s = .ok r)
    (hA : ¬ (m = _at_cmds.AT_A ∧ s.srv_hasClient = false)) :
    ends_with_result K s r := by
  cases m with
  | AT_AT => exact ends_ok_of K s s r (out_frame_refl s) h
  | AT_NET0 =>
    exact ends_ok_of K s { s with use_telnet := false } r (out_frame_update s _ rfl rfl rfl rfl) h
  | AT_NET1 =>
    exact ends_ok_of K s { s with use_telnet := true } r (out_frame_update s _ rfl rfl rfl rfl) h
  | AT_S0E0 =>
    exact ends_ok_of K s { s with autoAnswer := false } r (out_frame_update s _ rfl rfl rfl rfl) h
  | AT_S0E1 =>
    exact ends_ok_of K s { s with autoAnswer := true } r (out_frame_update s _ rfl rfl rfl rfl) h
  | AT_E0 =>
    exact ends_ok_of K s { s with commandEcho := false } r (out_frame_update s _ rfl rfl rfl rfl) h
  | AT_E1 =>
    exact ends_ok_of K s { s with commandEcho := true } r (out_frame_update s _ rfl rfl rfl rfl) h
  | AT_TERMVT52 =>
    exact ends_ok_of K s { s with term_type := str "VT52" } r (out_frame_update s _ rfl rfl rfl rfl) h
  | AT_TERMVT100 =>
    exact ends_ok_of K s { s with term_type := str "VT100" } r (out_frame_update s _ rfl rfl rfl rfl) h
  | AT_TERMDUMB =>
    exact ends_ok_of K s { s with term_type := str "DUMB" } r (out_frame_update s _ rfl rfl rfl rfl) h
  | AT_TERMANSI =>
    exact ends_ok_of K s { s with term_type := str "ANSI" } r (out_frame_update s _ rfl rfl rfl rfl) h
  | AT_ANDF_ignored => exact ends_ok_of K s s r (out_frame_refl s) h
  | AT_S2E43_ignored => exact ends_ok_of K s s r (out_frame_refl s) h
  | AT_S5E8_ignored => exact ends_ok_of K s s r (out_frame_refl s) h
  | AT_S6E2_ignored => exact ends_ok_of K s s r (out_frame_refl s) h
  | AT_S7E30_ignored => exact ends_ok_of K s s r (out_frame_refl s) h
  | AT_S12E20_ignored => exact ends_ok_of K s s r (out_frame_refl s) h
  | AT_M0_ignored => exact ends_ok_of K s s r (out_frame_refl s) h
  | AT_M1_ignored => exact ends_ok_of K s s r (out_frame_refl s) h
  | AT_X1_ignored => exact ends_ok_of K s s r (out_frame_refl s) h
  | AT_AC1_ignored => exact ends_ok_of K s s r (out_frame_refl s) h
  | AT_AD2_ignored => exact ends_ok_of K s s r (out_frame_refl s) h
  | AT_AW_ignored => exact ends_ok_of K s s r (out_frame_refl s) h
  | AT_ZPPP_ignored => exact ends_ok_of K s s r (out_frame_refl s) h
  | AT_BBSX_ignored => exact ends_ok_of K s s r (out_frame_refl s) h
  | AT_SNIFF =>
    exact ends_ok_of K s (s.emit (.sniffer_setEnable true)) r
      (out_frame_emit s s _ (out_frame_refl s)) h
  | AT_UNSNIFF =>
    exact ends_ok_of K s (s.emit (.sniffer_setEnable false)) r
      (out_frame_emit s s _ (out_frame_refl s)) h
  | AT_A =>
    have hc : s.srv_hasClient = true := by
      cases hs : s.srv_hasClient with
      | true => rfl
      | false => exact absurd ⟨rfl, hs⟩ hA
    exact ends_of_eq K s _ r (ends_answer K s hc) h
  | AT_IP => exact ends_ip K s r h
  | AT_HELP => exact ends_of_eq K s _ r (ends_help K s) h
  | AT_H => exact ends_of_eq K s _ r (ends_hangup K s) h
  | AT_H1 => exact ends_of_eq K s _ r (ends_hangup K s) h
  | AT_OFFHOOK => exact ends_of_eq K s _ r (ends_hangup K s) h
  | AT_DT => exact ends_dial K s r h
  | AT_DP => exact ends_dial K s r h
  | AT_DI => exact ends_dial K s r h
  | AT_WIFILIST => exact ends_of_eq K s _ r (ends_wifilist K s) h
  | AT_WIFICONNECT => exact ends_wificonnect K s r h
  | AT_GET => exact ends_get K s r h
  | AT_PORT => exact ends_port K s r h
  | AT_V0 => exact ends_of_eq K s _ r (ends_v0 K s) h
  | AT_V1 => exact ends_of_eq K s _ r (ends_v1 K s) h
  | AT_ENUMCOUNT =>
    exact ends_of_eq K s _ r (ends_of_error K s s (out_frame_refl s)) h

/-- Every branch of the `switch` of `modemCommand` that does not parse its argument
returns. -/
theorem at_dispatch_returns (K : Consts) (m : _at_cmds) (s : sioModem)
    (hm : m ∉ parsing_cmds) : ∃ r, at_dispatch K m s = .ok r := by
  cases m <;> first
    | exact ⟨_, rfl⟩
    | exact absurd (by decide) hm

set_option maxRecDepth 100000 in
/-- C20, as stated, fails. With numeric result codes on and ATASCII EOL as the last
terminator the code of ATE1 is followed by CR LF, not by the ATASCII EOL; the line ATE0
handed over by WRITE takes effect but, with verbose result codes, writes no result at
all; ATA with no caller waiting writes only the echo of the line end and no result; and
ATPORT without a number raises an exception instead of reporting. -/
theorem final_result_samples :
    (modemCommand sample_consts (numeric_atascii_sample.with_cmd (str "ATE1"))).map
        (fun r => r.trace)
      = .ok [Event.uart_write 155, Event.uart_flush, Event.uart_print_int 0,
          Event.uart_write 13, Event.uart_write 10] ∧
    (sio_process sample_consts ⟨0x50, 0x57, 5, 0, 0⟩ write_sample_echo_off).map
        (fun r => (r.commandEcho, r.trace))
      = .ok (false, [Event.sio_ack, Event.sio_to_peripheral 64, Event.sio_complete]) ∧
    (modemCommand sample_consts (init.with_cmd (str "ATA"))).map (fun r => r.trace)
      = .ok [Event.uart_write 13, Event.uart_write 10, Event.uart_flush] ∧
    (modemCommand sample_consts (init.with_cmd (str "ATPORT"))).map (fun r => r.trace)
      = .error Exn.invalid_argument := by
  exact ⟨rfl, rfl, rfl, rfl⟩

/-- C20 (amended): for every session state and every command line that is not blank, the
interpreter returns unless the matched command is one of those that parse their argument
(dial, WIFICONNECT, GET, PORT). Whenever it returns, and the command is not ATA with no
caller waiting, it has cleared the command buffer, kept the output settings, and ended by
emitting one final result of the form given by the settings after the command: after
whatever output the command lists, the trace holds one of the results OK, ERROR,
NO CARRIER, CONNECT (a numeric code followed by CR LF, or by CR alone for CONNECT, when
numeric result codes are on; otherwise the verbose string followed by ATASCII EOL or CR LF
as the last command terminator was, or nothing when command output is suppressed) and
after it no event that writes to the serial transport. -/
theorem command_ends_with_final_result (K : Consts) (s : sioModem) (line : List Nat)
    (hne : util_string_trim line ≠ []) :
    (match_at_cmd (util_string_toupper (util_string_trim line)) ∉ parsing_cmds →
      ∃ r, modemCommand K (s.with_cmd line) = .ok r) ∧
    ∀ r, modemCommand K (s.with_cmd line) = .ok r →
      ¬ (match_at_cmd (util_string_toupper (util_string_trim line)) = _at_cmds.AT_A ∧
          s.srv_hasClient = false) →
      r.cmd = [] ∧ r.cmdOutput = s.cmdOutput ∧ r.cmdAtascii = s.cmdAtascii ∧
      r.modemBaud = s.modemBaud ∧
      ∃ pre fin post, r.trace = s.trace ++ pre ++ fin ++ post ∧ fin ∈ final_results K r ∧
        post.filter Event.is_uart = [] := by
  have hrun := modemCommand_eq K (s.with_cmd line) hne
  rw [match_at_cmd_replace_eol] at hrun
  have hcmd : (s.with_cmd line).cmd = line := rfl
  rw [hcmd] at hrun
  constructor
  · intro hm
    obtain ⟨r0, hr0⟩ := at_dispatch_returns K _ (s.with_cmd line).echoed hm
    rw [hr0] at hrun
    exact ⟨_, hrun⟩
  · intro r hr hA
    rw [hrun] at hr
    cases hd : at_dispatch K (match_at_cmd (util_string_toupper (util_string_trim line)))
        (s.with_cmd line).echoed with
    | error e =>
      rw [hd] at hr
      exact Except.noConfusion hr
    | ok r0 =>
      rw [hd] at hr
      have hr' : r0.clear_cmd = r := Except.ok.inj hr
      have h0 : out_frame s (s.with_cmd line).echoed :=
        ⟨rfl, rfl, rfl, echo_events (s.with_cmd line), rfl⟩
      have h1 := ends_dispatch K _ (s.with_cmd line).echoed r0 hd hA
      have h2 := ends_post_clear_cmd K s r0 (ends_from K s _ r0 h0 h1)
      rw [hr'] at h2
      obtain ⟨⟨f1, f2, f3, _⟩, hfin⟩ := h2
      refine ⟨?_, f1, f2, f3, hfin⟩
      rw [← hr']
      rfl

/-- The amended C20 at a sample: the line ATE0 in the initial session returns. -/
theorem command_ends_with_final_result_witness :
    util_string_trim (str "ATE0") ≠ [] ∧
    ∃ r, modemCommand sample_consts (init.with_cmd (str "ATE0")) = .ok r :=
  ⟨by decide,
   (command_ends_with_final_result sample_consts init (str "ATE0") (by decide)).1
     (by decide)⟩

/-! ### Order of the command table -/

/-- An entry that heads a command starting with `D` agrees with `D` on the bytes they
share. -/
theorem compare_head_agree (e D T : List Nat) (h : compare_head e (D ++ T) = true) :
    heads_agree e D = true := by
  unfold compare_head at h
  unfold heads_agree
  have h1 : (D ++ T).take e.length = e := by simpa using h
  have h2 : e.take D.length = ((D ++ T).take e.length).take D.length := by rw [h1]
  rw [List.take_take, List.take_append_eq_append_take] at h2
  have h3 : (D.take (min D.length e.length) ++ T.take (min D.length e.length - D.length))
      = D.take e.length := by
    have : min D.length e.length - D.length = 0 := by omega
    rw [this, List.take_zero, List.append_nil]
    by_cases hle : D.length ≤ e.length
    · rw [Nat.min_eq_left hle, List.take_length, List.take_of_length_le hle]
    · rw [Nat.min_eq_right (by omega)]
  rw [h3] at h2
  simp [h2]

/-- A command that starts with the text of a table entry is headed by it. -/
theorem compare_head_self (D T : List Nat) : compare_head D (D ++ T) = true := by
  unfold compare_head
  simp

/-- The first element passing the test, when none before it does. -/
theorem find_first {α : Type} (p : α → Bool) (l : List α) (i : Nat) (x : α)
    (hi : l.get? i = some x) (hb : ∀ e ∈ l.take i, p e = false) (hx : p x = true) :
    l.find? p = some x := by
  induction l generalizing i with
  | nil => simp at hi
  | cons a rest ih =>
    cases i with
    | zero =>
      simp only [List.get?_cons_zero, Option.some.injEq] at hi
      rw [List.find?_cons, hi, hx]
    | succ n =>
      have ha : p a = false := hb a (by simp)
      rw [List.find?_cons, ha]
      apply ih n
      · simpa using hi
      · intro e he
        exact hb e (by simp [he])

/-- The matched entry of a command that starts with the text `D` of the entry at index
`i + 1`, when no earlier non-plain entry agrees with `D`. -/
theorem match_at_cmd_head (D T : List Nat) (m : _at_cmds) (i : Nat)
    (hi : (at_cmds.drop 1).get? i = some (m, D))
    (hb : ∀ e ∈ (at_cmds.drop 1).take i, heads_agree e.2 D = false)
    (hl : 2 < D.length) : match_at_cmd (D ++ T) = m := by
  have hAT : D ++ T ≠ str "AT" := by
    intro h
    have := congrArg List.length h
    rw [List.length_append] at this
    have h2 : (str "AT").length = 2 := by decide
    omega
  have hfind : (at_cmds.drop 1).find? (fun e => compare_head e.2 (D ++ T)) = some (m, D) := by
    apply find_first _ _ i _ hi
    · intro e he
      cases hc : compare_head e.2 (D ++ T) with
      | false => rfl
      | true =>
        have := compare_head_agree e.2 D T hc
        rw [hb e he] at this
        exact absurd this (by simp)
    · exact compare_head_self D T
  unfold match_at_cmd
  rw [if_neg hAT, hfind]

/-- The search stops at or before any element that passes the test. -/
theorem find_before {α : Type} (p : α → Bool) (l : List α) (j : Nat) (y : α)
    (hj : l.get? j = some y) (hy : p y = true) :
    ∃ e, l.find? p = some e ∧ e ∈ l.take (j + 1) := by
  induction l generalizing j with
  | nil => simp at hj
  | cons a rest ih =>
    by_cases ha : p a = true
    · exact ⟨a, by rw [List.find?_cons, ha], by simp⟩
    · have ha' : p a = false := by simpa using ha
      cases j with
      | zero =>
        simp only [List.get?_cons_zero, Option.some.injEq] at hj
        rw [hj] at ha
        exact absurd hy ha
      | succ n =>
        obtain ⟨e, he1, he2⟩ := ih n (by simpa using hj)
        exact ⟨e, by rw [List.find?_cons, ha', he1], by simp [he2]⟩

/-- The element found passes the test and is in the list. -/
theorem find_some_holds {α : Type} (p : α → Bool) (l : List α) (e : α)
    (h : l.find? p = some e) : p e = true ∧ e ∈ l := by
  induction l with
  | nil => simp at h
  | cons a rest ih =>
    rw [List.find?_cons] at h
    by_cases ha : p a = true
    · rw [ha] at h
      have hae : a = e := Option.some.inj h
      rw [← hae]
      exact ⟨ha, List.mem_cons_self a rest⟩
    · have ha' : p a = false := by simpa using ha
      rw [ha'] at h
      exact ⟨(ih h).1, List.mem_cons_of_mem a (ih h).2⟩

/-- A command headed by ATH2 is headed by ATH. -/
theorem compare_head_ath2 (line : List Nat) (h : compare_head (str "ATH2") line = true) :
    compare_head (str "ATH") line = true := by
  unfold compare_head at h ⊢
  have e4 : (str "ATH2").length = 4 := by decide
  have e3 : (str "ATH").length = 3 := by decide
  have e : (str "ATH2").take 3 = str "ATH" := by decide
  rw [e4] at h
  rw [e3]
  have h1 : line.take 4 = str "ATH2" := by simpa using h
  have h2 : line.take 3 = (line.take 4).take 3 := by
    rw [List.take_take]
    rfl
  rw [h2, h1, e]
  simp

set_option maxRecDepth 100000 in
/-- No command line selects the entry ATH2. -/
theorem match_at_cmd_never_offhook (line : List Nat) :
    match_at_cmd line ≠ _at_cmds.AT_OFFHOOK := by
  unfold match_at_cmd
  by_cases hAT : line = str "AT"
  · rw [if_pos hAT]
    decide
  · rw [if_neg hAT]
    cases hf : (at_cmds.drop 1).find? (fun e => compare_head e.2 line) with
    | none => decide
    | some e =>
      simp only
      intro he
      obtain ⟨hp, hmem⟩ := find_some_holds _ _ e hf
      have htab : ∀ x ∈ at_cmds.drop 1, x.1 = _at_cmds.AT_OFFHOOK → x.2 = str "ATH2" := by
        decide
      rw [htab e hmem he] at hp
      have hath := compare_head_ath2 line hp
      obtain ⟨e', h1, h2⟩ := find_before (fun e => compare_head e.2 line) (at_cmds.drop 1) 5
        (_at_cmds.AT_H, str "ATH") (by decide) hath
      rw [hf] at h1
      have hee : e = e' := Option.some.inj h1
      rw [← hee] at h2
      have hearly : ∀ x ∈ (at_cmds.drop 1).take 6, x.1 ≠ _at_cmds.AT_OFFHOOK := by decide
      exact hearly e h2 he

set_option maxRecDepth 100000 in
/-- C21: the ordered command table has one shadowed entry. ATH (index 6) is a prefix of ATH2
(index 33) and comes before it, so the command line ATH2 is matched to the entry ATH and
the entry ATH2 (AT_OFFHOOK) is never selected; every other non-plain entry, taken as a
command line, is matched to its own index. -/
theorem table_entry_shadowed :
    (_at_cmds.AT_H, str "ATH") ∈ (at_cmds.drop 1).take 32 ∧
    (at_cmds.drop 1).get? 32 = some (_at_cmds.AT_OFFHOOK, str "ATH2") ∧
    str "ATH" <+: str "ATH2" ∧
    match_at_cmd (util_string_toupper (util_string_trim (str "ATH2"))) = _at_cmds.AT_H ∧
    (∀ line : List Nat, match_at_cmd line ≠ _at_cmds.AT_OFFHOOK) ∧
    ∀ e ∈ at_cmds.drop 1, e.1 ≠ _at_cmds.AT_OFFHOOK →
      match_at_cmd (util_string_toupper (util_string_trim e.2)) = e.1 := by
  exact ⟨by decide, by decide, by decide, by decide, match_at_cmd_never_offhook, by decide⟩

/-! ### Dialling -/

/-- The overloads of `at_cmd_println` for a string append exactly their events. -/
theorem at_cmd_println_str_events (t : List Nat) (b : Bool) (s : sioModem) :
    s.at_cmd_println_str t b = { s with trace := s.trace ++ print_events t b s } := by
  unfold at_cmd_println_str print_events eol_events
  by_cases ho : s.cmdOutput = false
  · rw [if_pos ho, if_pos ho]
    simp
  · rw [if_neg ho, if_neg ho]
    cases b
    · simp [uart_print, uart_flush, emit]
    · by_cases ha : s.cmdAtascii = true
      · simp [uart_print, uart_flush, write_eol, uart_write, emit, ha]
      · simp [uart_print, uart_flush, write_eol, uart_write, emit, ha]

/-- The events of a print depend on the two output settings only. -/
theorem print_events_congr (t : List Nat) (b : Bool) (x y : sioModem)
    (ho : x.cmdOutput = y.cmdOutput) (ha : x.cmdAtascii = y.cmdAtascii) :
    print_events t b x = print_events t b y := by
  unfold print_events eol_events
  rw [ho, ha]

/-- The first occurrence of a byte, found from the start. -/
theorem find_zero_first (c : Nat) (a b : List Nat) (ha : c ∉ a) :
    find c 0 (a ++ c :: b) = some a.length := by
  unfold find
  simp only [List.drop_zero, Nat.zero_add]
  rw [List.indexOf_append_of_not_mem ha, List.indexOf_cons_self]
  simp

/-- A byte that does not occur is not found. -/
theorem find_zero_none (c : Nat) (l : List Nat) (h : c ∉ l) : find c 0 l = none := by
  unfold find
  simp only [List.drop_zero, Nat.zero_add]
  rw [List.indexOf_eq_length.mpr h]
  simp

/-- A text whose upper-cased form heads a dial command has four bytes, none a colon. -/
theorem dial_head_plain (d : List Nat) (hd : util_string_toupper d ∈ dial_heads) :
    d.length = 4 ∧ 0x3A ∉ d := by
  have hlen : (util_string_toupper d).length = 4 := by
    have : ∀ D ∈ dial_heads, D.length = 4 := by decide
    exact this _ hd
  have hno : (0x3A : Nat) ∉ util_string_toupper d := by
    have : ∀ D ∈ dial_heads, (0x3A : Nat) ∉ D := by decide
    exact this _ hd
  constructor
  · simpa [util_string_toupper] using hlen
  · intro hmem
    apply hno
    unfold util_string_toupper
    rw [List.mem_map]
    exact ⟨0x3A, hmem, by decide⟩

/-- The host and port texts of a dial command with a colon in its tail. -/
theorem dial_parse_colon (d h p : List Nat) (hd : d.length = 4 ∧ 0x3A ∉ d) (hh : 0x3A ∉ h) :
    dial_parse (d ++ (h ++ 0x3A :: p)) = .ok (h, p) := by
  obtain ⟨hlen, hno⟩ := hd
  have hnot : (0x3A : Nat) ∉ d ++ h := by
    rw [List.mem_append]
    exact fun hm => hm.elim hno hh
  have hf : find 0x3A 0 (d ++ (h ++ 0x3A :: p)) = some (d ++ h).length := by
    rw [← List.append_assoc]
    exact find_zero_first 0x3A (d ++ h) p hnot
  unfold dial_parse
  rw [hf]
  simp only [List.length_append, hlen]
  have h1 : substr 4 (((4 + h.length : Nat) : Int) - 4) (d ++ (h ++ 0x3A :: p)) = .ok h := by
    unfold substr
    have hpos : ¬ 4 > (d ++ (h ++ 0x3A :: p)).length := by
      simp [hlen]
    have hc : ¬ (((4 + h.length : Nat) : Int) - 4 < 0) := by omega
    have hcn : (((4 + h.length : Nat) : Int) - 4).toNat = h.length := by omega
    rw [if_neg hpos, if_neg hc, hcn]
    have : (d ++ (h ++ 0x3A :: p)).drop 4 = h ++ 0x3A :: p := by
      rw [← hlen, List.drop_left]
    rw [this, List.take_left]
  have h2 : substr_from (4 + h.length + 1) (d ++ (h ++ 0x3A :: p)) = .ok p := by
    unfold substr_from
    have hpos : ¬ 4 + h.length + 1 > (d ++ (h ++ 0x3A :: p)).length := by
      simp [hlen]
      omega
    rw [if_neg hpos]
    have : (d ++ (h ++ 0x3A :: p)) = (d ++ h ++ [0x3A]) ++ p := by simp
    rw [this]
    have hl : (d ++ h ++ [0x3A]).length = 4 + h.length + 1 := by
      simp [hlen]
      omega
    rw [← hl, List.drop_left]
  rw [h1, h2]
  rfl

/-- The host and port texts of a dial command with no colon in its tail. -/
theorem dial_parse_plain (d tail : List Nat) (hd : d.length = 4 ∧ 0x3A ∉ d)
    (ht : 0x3A ∉ tail) : dial_parse (d ++ tail) = .ok (tail, str "23") := by
  obtain ⟨hlen, hno⟩ := hd
  have hnot : (0x3A : Nat) ∉ d ++ tail := by
    rw [List.mem_append]
    exact fun hm => hm.elim hno ht
  unfold dial_parse
  rw [find_zero_none _ _ hnot]
  simp only
  have h1 : substr_from 4 (d ++ tail) = .ok tail := by
    unfold substr_from
    have hpos : ¬ 4 > (d ++ tail).length := by simp [hlen]
    rw [if_neg hpos, ← hlen, List.drop_left]
  rw [h1]
  rfl

/-- The alias step of the dial branch at a dialled host that is trimmed to `host`. -/
theorem dial_alias_at (raw host port : List Nat) (h : util_string_trim raw = host) :
    dial_alias raw port
      = (if (host.all isdigit && decide (List.indexOf host
              [str "1231231234", str "123", str "000"] < 3)) = true then
            [str "ukbbs.zap.to", str "rainmaker.wunderground.com",
              str "stargate.synchro.net"].getD
              (List.indexOf host [str "1231231234", str "123", str "000"]) []
          else host,
         if (host.all isdigit && decide (List.indexOf host
              [str "1231231234", str "123", str "000"] < 3)) = true then
            [str "128", str "23", str "23"].getD
              (List.indexOf host [str "1231231234", str "123", str "000"]) []
          else port) := by
  unfold dial_alias
  rw [h]
  rfl

/-- The alias step of the dial branch rewrites exactly the three phone numbers. -/
theorem dial_alias_eq (raw port : List Nat) :
    dial_alias raw port = alias_of (util_string_trim raw) port := by
  rw [dial_alias_at raw (util_string_trim raw) port rfl]
  by_cases h1 : util_string_trim raw = str "1231231234"
  · rw [h1]
    have hc : ((str "1231231234").all isdigit && decide (List.indexOf (str "1231231234")
        [str "1231231234", str "123", str "000"] < 3)) = true := by decide
    have ha : alias_of (str "1231231234") port = (str "ukbbs.zap.to", str "128") := by
      unfold alias_of
      rw [if_pos rfl]
    rw [if_pos hc, if_pos hc, ha]
    decide
  · by_cases h2 : util_string_trim raw = str "123"
    · rw [h2]
      have hc : ((str "123").all isdigit && decide (List.indexOf (str "123")
          [str "1231231234", str "123", str "000"] < 3)) = true := by decide
      have ha : alias_of (str "123") port = (str "rainmaker.wunderground.com", str "23") := by
        unfold alias_of
        rw [if_neg (show ¬ str "123" = str "1231231234" by decide), if_pos rfl]
      rw [if_pos hc, if_pos hc, ha]
      decide
    · by_cases h3 : util_string_trim raw = str "000"
      · rw [h3]
        have hc : ((str "000").all isdigit && decide (List.indexOf (str "000")
            [str "1231231234", str "123", str "000"] < 3)) = true := by decide
        have ha : alias_of (str "000") port = (str "stargate.synchro.net", str "23") := by
          unfold alias_of
          rw [if_neg (show ¬ str "000" = str "1231231234" by decide),
            if_neg (show ¬ str "000" = str "123" by decide), if_pos rfl]
        rw [if_pos hc, if_pos hc, ha]
        decide
      · have hidx : ¬ (List.indexOf (util_string_trim raw)
            [str "1231231234", str "123", str "000"] < 3) := by
          have e1 : (str "1231231234" == util_string_trim raw) = false :=
            beq_eq_false_iff_ne.mpr (fun h => h1 h.symm)
          have e2 : (str "123" == util_string_trim raw) = false :=
            beq_eq_false_iff_ne.mpr (fun h => h2 h.symm)
          have e3 : (str "000" == util_string_trim raw) = false :=
            beq_eq_false_iff_ne.mpr (fun h => h3 h.symm)
          simp [List.indexOf, List.findIdx_cons, e1, e2, e3]
        have hc : ¬ ((util_string_trim raw).all isdigit && decide (List.indexOf
            (util_string_trim raw) [str "1231231234", str "123", str "000"] < 3)) = true := by
          simp [hidx]
        unfold alias_of
        rw [if_neg hc, if_neg hc, if_neg h1, if_neg h2, if_neg h3]

/-- A print after other output appends its events. -/
theorem println_after (t : List Nat) (b : Bool) (x : sioModem) (ev : List Event) :
    ({ x with trace := x.trace ++ ev } : sioModem).at_cmd_println_str t b
      = { x with trace := x.trace ++ (ev ++ print_events t b x) } := by
  rw [at_cmd_println_str_events,
    print_events_congr t b ({ x with trace := x.trace ++ ev } : sioModem) x rfl rfl]
  simp [List.append_assoc]

/-- The progress line of the dial branch appends exactly its events. -/
theorem connecting_eq (host port : List Nat) (x : sioModem) :
    (((x.at_cmd_println_str (str "Connecting to ") false).at_cmd_println_str host
      false).at_cmd_println_str (str ":") false).at_cmd_println_str port true
      = { x with trace := x.trace ++ connecting_events host port x } := by
  rw [at_cmd_println_str_events (str "Connecting to ") false x, println_after, println_after,
    println_after]
  unfold connecting_events
  simp [List.append_assoc]

/-- The events of the CONNECT report depend on the output settings and the baud only. -/
theorem connect_events_congr (a b : sioModem)
    (hn : a.numericResultCode = b.numericResultCode) (ho : a.cmdOutput = b.cmdOutput)
    (ha : a.cmdAtascii = b.cmdAtascii) (hb : a.modemBaud = b.modemBaud) :
    connect_events a = connect_events b := by
  unfold connect_events eol_events
  rw [hn, ho, ha, hb]

/-- The dial branch at the reserved number: a delay and the CONNECT report, the carrier
flag raised, and nothing else. -/
theorem dial_run_fake (K : Consts) (port : List Nat) (x : sioModem) :
    dial_run K (str "5551234") port x
      = .ok { x with CRX := true, clock := x.clock + 1300,
                     trace := x.trace ++ ([Event.delay 1300] ++ connect_events x) } := by
  unfold dial_run
  rw [if_pos rfl]
  simp only [pure, Except.pure]
  rw [at_connect_result_eq, connect_events_congr (x.delay 1300) x rfl rfl rfl rfl]
  simp [delay, List.append_assoc]

/-- The dial branch at another host whose port text is a number: the progress line, the
connection attempt and its report. -/
theorem dial_run_connect (K : Consts) (host port : List Nat) (n : Int) (x : sioModem)
    (hf : host ≠ str "5551234") (hn : stoi port = .ok n) :
    (x.tcp_connect_ok = true →
      dial_run K host port x
        = .ok { x with CRX := true, cmdMode := false, tcp_connected := true, tcp_rx := [],
                       trace := x.trace ++ (connecting_events host port x
                         ++ [Event.tcp_connect (c_str host) n, Event.tcp_setNoDelay true]
                         ++ connect_events x) }) ∧
    (x.tcp_connect_ok = false →
      dial_run K host port x
        = .ok { x with CRX := false, tcp_connected := false, tcp_rx := [],
                       trace := x.trace ++ (connecting_events host port x
                         ++ [Event.tcp_connect (c_str host) n]
                         ++ result_events K.RESULT_CODE_NO_CARRIER (str "NO CARRIER") x
                         ++ [Event.telnet_free, Event.telnet_init]) }) := by
  unfold dial_run
  rw [if_neg hf]
  simp only [hn, bind, Except.bind, pure, Except.pure, connecting_eq]
  constructor
  · intro hok
    have h1 : (tcp_connect (c_str host) n
        { x with trace := x.trace ++ connecting_events host port x }).1 = true := hok
    simp only [h1, if_true]
    rw [at_connect_result_eq]
    have hc : connect_events (tcp_setNoDelay true (tcp_connect (c_str host) n
        { x with trace := x.trace ++ connecting_events host port x }).2) = connect_events x :=
      connect_events_congr _ x rfl rfl rfl rfl
    rw [hc]
    simp [tcp_connect, tcp_setNoDelay, emit, hok, List.append_assoc]
  · intro hok
    have h1 : ¬ (tcp_connect (c_str host) n
        { x with trace := x.trace ++ connecting_events host port x }).1 = true := by
      show ¬ x.tcp_connect_ok = true
      rw [hok]
      simp
    simp only [h1, if_false]
    rw [at_result_eq]
    have hc : result_events K.RESULT_CODE_NO_CARRIER (str "NO CARRIER") (tcp_connect (c_str host) n
        { x with trace := x.trace ++ connecting_events host port x }).2
          = result_events K.RESULT_CODE_NO_CARRIER (str "NO CARRIER") x :=
      result_events_congr _ _ _ x rfl rfl rfl
    rw [hc]
    simp [tcp_connect, telnet_reset, emit, hok, List.append_assoc]

/-- The dial branch at another host whose port text is not a number raises the exception
of `std::stoi` after the progress line. -/
theorem dial_run_throws (K : Consts) (host port : List Nat) (e : Exn) (x : sioModem)
    (hf : host ≠ str "5551234") (hn : stoi port = .error e) :
    dial_run K host port x = .error e := by
  unfold dial_run
  rw [if_neg hf]
  simp only [hn, bind, Except.bind]

/-- The interpreter on a dial command: the command line is parsed, the alias table is
applied, the connection is attempted and the command buffer is cleared. -/
theorem modemCommand_dial (K : Consts) (s : sioModem) (d tail : List Nat)
    (hd : util_string_toupper d ∈ dial_heads) (hline : util_string_trim s.cmd = d ++ tail) :
    modemCommand K s
      = match (dial_parse (d ++ tail)).bind (fun hp =>
            dial_run K (dial_alias hp.1 hp.2).1 (dial_alias hp.1 hp.2).2 s.echoed) with
        | .error e => .error e
        | .ok r => .ok r.clear_cmd := by
  obtain ⟨hlen, _⟩ := dial_head_plain d hd
  have hne : util_string_trim s.cmd ≠ [] := by
    rw [hline]
    intro h
    have := congrArg List.length h
    simp [hlen] at this
  have hup : util_string_toupper (d ++ tail)
      = util_string_toupper d ++ util_string_toupper tail := by
    simp [util_string_toupper]
  have hm : ∃ m, match_at_cmd (util_string_toupper d ++ util_string_toupper tail) = m ∧
      ∀ x : sioModem, at_dispatch K m x = x.at_handle_dial K := by
    simp only [dial_heads, List.mem_cons, List.mem_singleton, List.not_mem_nil, or_false] at hd
    rcases hd with h | h | h
    · rw [h]
      exact ⟨_at_cmds.AT_DT, match_at_cmd_head _ _ _ 7 (by decide) (by decide) (by decide),
        fun _ => rfl⟩
    · rw [h]
      exact ⟨_at_cmds.AT_DP, match_at_cmd_head _ _ _ 8 (by decide) (by decide) (by decide),
        fun _ => rfl⟩
    · rw [h]
      exact ⟨_at_cmds.AT_DI, match_at_cmd_head _ _ _ 9 (by decide) (by decide) (by decide),
        fun _ => rfl⟩
  obtain ⟨m, hm1, hm2⟩ := hm
  rw [modemCommand_eq K s hne, match_at_cmd_replace_eol, hline, hup, hm1, hm2,
    at_handle_dial_eq]
  have hc : s.echoed.cmd = d ++ tail := hline
  rw [hc]

/-- The final result, the echo, the progress line and the CONNECT report hold no
connection attempt. -/
theorem output_events_no_connect (s : sioModem) (code : Int) (text host port : List Nat) :
    (result_events code text s).filter Event.is_connect = [] ∧
    (echo_events s).filter Event.is_connect = [] ∧
    (connecting_events host port s).filter Event.is_connect = [] ∧
    (connect_events s).filter Event.is_connect = [] := by
  unfold result_events echo_events println_events connecting_events print_events connect_events
    eol_events
  refine ⟨?_, ?_, ?_, ?_⟩
  · by_cases hn : s.numericResultCode = true <;> by_cases ho : s.cmdOutput = false <;>
      by_cases ha : s.cmdAtascii = true <;> simp [hn, ho, ha, Event.is_connect]
  · by_cases he : s.commandEcho = true <;> by_cases ho : s.cmdOutput = false <;>
      by_cases ha : s.cmdAtascii = true <;> simp [he, ho, ha, Event.is_connect]
  · by_cases ho : s.cmdOutput = false <;>
      by_cases ha : s.cmdAtascii = true <;> simp [ho, ha, Event.is_connect]
  · by_cases hn : s.numericResultCode = true <;> by_cases ho : s.cmdOutput = false <;>
      by_cases ha : s.cmdAtascii = true <;> simp [hn, ho, ha, Event.is_connect]

set_option maxRecDepth 100000 in
/-- C22, as stated, fails: the line ATDT5551234 handed over by a WRITE command is run with
command output suppressed, so with verbose result codes no CONNECT result is written to
the serial transport, although the carrier flag is raised; the only events are the bus
signals of the WRITE and the delay. -/
theorem dial_reserved_from_write_silent :
    write_sample_dial_reserved.numericResultCode = false ∧
    (sio_process sample_consts ⟨0x50, 0x57, 12, 0, 0⟩ write_sample_dial_reserved).map
        (fun r => (r.CRX, r.trace))
      = .ok (true, [Event.sio_ack, Event.sio_to_peripheral 64, Event.delay 1300,
          Event.sio_complete]) := by
  exact ⟨rfl, rfl⟩

/-- C22 (amended): for every session state, a dial command (ATDT, ATDP or ATDI in any
letter case) of the reserved number 5551234, with or without whitespace before the number,
makes the interpreter return with the command buffer cleared, the carrier flag raised and
the clock moved on by the delay of 1300 ms; the trace gains the echo, the delay and the
CONNECT report for the current baud, with no connection attempt among them; no other
session field changes. The echo is the line end, written when command echo is on and
command output is not suppressed. The CONNECT report is, with numeric result codes on, the
numeric CONNECT code and CR, whether or not command output is suppressed; with numeric
result codes off it is the string CONNECT with the baud and the line end when command
output is not suppressed, and nothing when it is suppressed. -/
theorem dial_reserved_number (K : Consts) (s : sioModem) (d ws : List Nat)
    (hd : util_string_toupper d ∈ dial_heads) (hws : ∀ c ∈ ws, isspace c = true)
    (hline : util_string_trim s.cmd = d ++ (ws ++ str "5551234")) :
    modemCommand K s
      = .ok { s with cmd := [], CRX := true, clock := s.clock + 1300,
                     trace := s.trace
                       ++ (echo_events s ++ [Event.delay 1300] ++ connect_events s) } ∧
    (echo_events s ++ [Event.delay 1300] ++ connect_events s).filter Event.is_connect = [] := by
  have hplain := dial_head_plain d hd
  have hno : (0x3A : Nat) ∉ ws ++ str "5551234" := by
    rw [List.mem_append]
    intro hm
    rcases hm with hm | hm
    · have := hws _ hm
      exact absurd this (by decide)
    · exact absurd hm (by decide)
  have htrim : util_string_trim (ws ++ str "5551234") = str "5551234" := by
    have h5 : str "5551234" = 0x35 :: [0x35, 0x35, 0x31, 0x32, 0x33] ++ [0x34] := by decide
    have := util_string_trim_padded ws [] [0x35, 0x35, 0x31, 0x32, 0x33] 0x35 0x34 hws
      (by simp) (by decide) (by decide)
    rw [List.append_nil] at this
    rw [h5]
    exact this
  have halias : dial_alias (ws ++ str "5551234") (str "23") = (str "5551234", str "23") := by
    rw [dial_alias_eq, htrim]
    decide
  constructor
  · rw [modemCommand_dial K s d _ hd hline, dial_parse_plain d _ hplain hno]
    simp only [Except.bind, halias]
    rw [dial_run_fake, connect_events_congr s.echoed s rfl rfl rfl rfl]
    simp [echoed, clear_cmd, List.append_assoc]
  · obtain ⟨_, h2, _, h4⟩ := output_events_no_connect s 0 [] [] []
    simp [List.filter_append, h2, h4, Event.is_connect]

/-- The amended C22 at a sample: ATDT 5551234, with a blank, in the initial session. -/
theorem dial_reserved_number_witness :
    util_string_toupper (str "atdt") ∈ dial_heads ∧ (∀ c ∈ str " ", isspace c = true) ∧
    util_string_trim (init.with_cmd (str "atdt 5551234")).cmd
      = str "atdt" ++ (str " " ++ str "5551234") ∧
    modemCommand sample_consts (init.with_cmd (str "atdt 5551234"))
      = .ok { init.with_cmd (str "atdt 5551234") with
                cmd := [], CRX := true,
                clock := (init.with_cmd (str "atdt 5551234")).clock + 1300,
                trace := (init.with_cmd (str "atdt 5551234")).trace
                  ++ (echo_events (init.with_cmd (str "atdt 5551234")) ++ [Event.delay 1300]
                    ++ connect_events (init.with_cmd (str "atdt 5551234"))) } :=
  ⟨by decide, by decide, by decide,
   (dial_reserved_number sample_consts (init.with_cmd (str "atdt 5551234")) (str "atdt")
      (str " ") (by decide) (by decide) (by decide)).1⟩

set_option maxRecDepth 100000 in
/-- C23, as stated, fails: the line ATDTa:1 handed over by a WRITE command in CommandMode
connects, but as it is run with command output suppressed no CONNECT result is written to
the serial transport with verbose result codes. -/
theorem dial_host_from_write_silent :
    write_sample_dial_host.numericResultCode = false ∧
    write_sample_dial_host.cmdMode = true ∧
    (sio_process sample_consts ⟨0x50, 0x57, 8, 0, 0⟩ write_sample_dial_host).map
        (fun r => (r.cmdMode, r.CRX, r.trace))
      = .ok (false, true, [Event.sio_ack, Event.sio_to_peripheral 64,
          Event.tcp_connect (str "a") 1, Event.tcp_setNoDelay true, Event.sio_complete]) := by
  exact ⟨rfl, rfl, rfl⟩

/-- C23 (amended): for every dial command whose host, after the alias table, is not the
reserved number and whose port text is a number n, the interpreter returns with the
command buffer cleared; the trace gains the echo, the progress line and one connection
attempt to the host on port n. If the connection is made, the switch-off of Nagle and the
CONNECT report follow, the carrier flag is true and the session is in ConnectedMode. If it
is not, the NO CARRIER result follows, the Telnet engine is freed and recreated, the
carrier flag is false and the mode is unchanged, so a session in CommandMode stays there.
The echo is the line end, written when command echo is on and command output is not
suppressed; the progress line is written when command output is not suppressed. The
CONNECT report and the NO CARRIER result are, with numeric result codes on, the numeric
code (the CONNECT code with CR, the NO CARRIER code with CR LF), whether or not command
output is suppressed; with numeric result codes off they are the verbose string with the
line end when command output is not suppressed, and nothing when it is suppressed. -/
theorem dial_connects (K : Consts) (s : sioModem) (d tail h p : List Nat) (n : Int)
    (hd : util_string_toupper d ∈ dial_heads) (hline : util_string_trim s.cmd = d ++ tail)
    (hparse : dial_parse (d ++ tail) = .ok (h, p))
    (hfake : (dial_alias h p).1 ≠ str "5551234") (hport : stoi (dial_alias h p).2 = .ok n) :
    (s.tcp_connect_ok = true →
      modemCommand K s
        = .ok { s with cmd := [], CRX := true, cmdMode := false, tcp_connected := true,
                       tcp_rx := [],
                       trace := s.trace ++ (echo_events s
                         ++ connecting_events (dial_alias h p).1 (dial_alias h p).2 s
                         ++ [Event.tcp_connect (c_str (dial_alias h p).1) n,
                             Event.tcp_setNoDelay true]
                         ++ connect_events s) }) ∧
    (s.tcp_connect_ok = false →
      modemCommand K s
        = .ok { s with cmd := [], CRX := false, tcp_connected := false, tcp_rx := [],
                       trace := s.trace ++ (echo_events s
                         ++ connecting_events (dial_alias h p).1 (dial_alias h p).2 s
                         ++ [Event.tcp_connect (c_str (dial_alias h p).1) n]
                         ++ result_events K.RESULT_CODE_NO_CARRIER (str "NO CARRIER") s
                         ++ [Event.telnet_free, Event.telnet_init]) }) := by
  have hrun := modemCommand_dial K s d tail hd hline
  rw [hparse] at hrun
  simp only [Except.bind] at hrun
  obtain ⟨r1, r2⟩ := dial_run_connect K _ _ n s.echoed hfake hport
  have hce : connecting_events (dial_alias h p).1 (dial_alias h p).2 s.echoed
      = connecting_events (dial_alias h p).1 (dial_alias h p).2 s := by
    unfold connecting_events
    rw [print_events_congr _ _ s.echoed s rfl rfl, print_events_congr _ _ s.echoed s rfl rfl,
      print_events_congr _ _ s.echoed s rfl rfl, print_events_congr _ _ s.echoed s rfl rfl]
  constructor
  · intro hok
    rw [hrun, r1 hok, hce, connect_events_congr s.echoed s rfl rfl rfl rfl]
    simp [echoed, clear_cmd, List.append_assoc]
  · intro hok
    rw [hrun, r2 hok, hce, result_events_congr _ _ s.echoed s rfl rfl rfl]
    simp [echoed, clear_cmd, List.append_assoc]

set_option maxRecDepth 100000 in
/-- The amended C23 at a sample: ATDTa:1 in the initial session, whose connection attempt
fails. -/
theorem dial_connects_witness :
    util_string_toupper (str "ATDT") ∈ dial_heads ∧
    util_string_trim (init.with_cmd (str "ATDTa:1")).cmd = str "ATDT" ++ str "a:1" ∧
    dial_parse (str "ATDT" ++ str "a:1") = .ok (str "a", str "1") ∧
    (dial_alias (str "a") (str "1")).1 ≠ str "5551234" ∧
    stoi (dial_alias (str "a") (str "1")).2 = .ok 1 ∧
    (init.with_cmd (str "ATDTa:1")).tcp_connect_ok = false ∧
    (modemCommand sample_consts (init.with_cmd (str "ATDTa:1"))).map
        (fun r => (r.cmdMode, r.CRX))
      = .ok (true, false) :=
  ⟨by decide, by decide, rfl, by decide, rfl, rfl, by
    rw [(dial_connects sample_consts (init.with_cmd (str "ATDTa:1")) (str "ATDT") (str "a:1")
      (str "a") (str "1") 1 (by decide) (by decide) rfl (by decide) rfl).2 rfl]
    rfl⟩

/-- A text with no NUL byte is its own C string. -/
theorem c_str_plain (t : List Nat) (h : 0 ∉ t) : c_str t = t := by
  unfold c_str
  rw [List.takeWhile_eq_self_iff]
  intro c hc
  have : c ≠ 0 := fun h0 => h (h0 ▸ hc)
  simpa using this

/-- A host that is not all digits is not rewritten by the alias table. -/
theorem alias_of_not_digits (host port : List Nat) (h : host.all isdigit = false) :
    alias_of host port = (host, port) := by
  unfold alias_of
  have h1 : host ≠ str "1231231234" := by
    intro e
    rw [e] at h
    exact absurd h (by decide)
  have h2 : host ≠ str "123" := by
    intro e
    rw [e] at h
    exact absurd h (by decide)
  have h3 : host ≠ str "000" := by
    intro e
    rw [e] at h
    exact absurd h (by decide)
  rw [if_neg h1, if_neg h2, if_neg h3]

/-- C24: for every dial command (ATDT, ATDP or ATDI in any letter case, followed by a
tail): a tail h:p with no colon in h is parsed to the host text h and the port text p, a
tail with no colon to the whole tail and the port text 23. The host is trimmed of
whitespace, and the pair becomes (ukbbs.zap.to, 128), (rainmaker.wunderground.com, 23) or
(stargate.synchro.net, 23) exactly when the trimmed host is 1231231234, 123 or 000; a host
that is not all digits is never rewritten. Whenever the resulting host is not the reserved
number and the resulting port text is a number n, the interpreter returns and the trace
gains exactly one connection attempt, to that host (read as a C string, which is the host
itself when it holds no NUL byte) on port n. -/
theorem dial_target (K : Consts) (s : sioModem) (d tail : List Nat)
    (hd : util_string_toupper d ∈ dial_heads) (hline : util_string_trim s.cmd = d ++ tail) :
    (∀ h p, tail = h ++ 0x3A :: p → 0x3A ∉ h → dial_parse (d ++ tail) = .ok (h, p)) ∧
    (0x3A ∉ tail → dial_parse (d ++ tail) = .ok (tail, str "23")) ∧
    (∀ h p, dial_alias h p = alias_of (util_string_trim h) p) ∧
    (∀ host port, host.all isdigit = false → alias_of host port = (host, port)) ∧
    (∀ t : List Nat, 0 ∉ t → c_str t = t) ∧
    (∀ h p n, dial_parse (d ++ tail) = .ok (h, p) →
      (alias_of (util_string_trim h) p).1 ≠ str "5551234" →
      stoi (alias_of (util_string_trim h) p).2 = .ok n →
      ∃ r pre post, modemCommand K s = .ok r ∧
        r.trace = s.trace ++ pre
          ++ [Event.tcp_connect (c_str (alias_of (util_string_trim h) p).1) n] ++ post ∧
        pre.filter Event.is_connect = [] ∧ post.filter Event.is_connect = []) := by
  have hplain := dial_head_plain d hd
  refine ⟨?_, ?_, dial_alias_eq, alias_of_not_digits, c_str_plain, ?_⟩
  · intro h p ht hh
    rw [ht]
    exact dial_parse_colon d h p hplain hh
  · intro ht
    exact dial_parse_plain d tail hplain ht
  · intro h p n hparse hfake hport
    rw [← dial_alias_eq] at hfake hport ⊢
    obtain ⟨r1, r2⟩ := dial_connects K s d tail h p n hd hline hparse hfake hport
    obtain ⟨_, e2, e3, e4⟩ := output_events_no_connect s K.RESULT_CODE_NO_CARRIER
      (str "NO CARRIER") (dial_alias h p).1 (dial_alias h p).2
    obtain ⟨e1, _⟩ := output_events_no_connect s K.RESULT_CODE_NO_CARRIER
      (str "NO CARRIER") [] []
    by_cases hok : s.tcp_connect_ok = true
    · refine ⟨_, echo_events s ++ connecting_events (dial_alias h p).1 (dial_alias h p).2 s,
        [Event.tcp_setNoDelay true] ++ connect_events s, r1 hok, ?_, ?_, ?_⟩
      · simp [List.append_assoc]
      · rw [List.filter_append, e2, e3]
        rfl
      · rw [List.filter_append, e4]
        rfl
    · have hok' : s.tcp_connect_ok = false := by simpa using hok
      refine ⟨_, echo_events s ++ connecting_events (dial_alias h p).1 (dial_alias h p).2 s,
        result_events K.RESULT_CODE_NO_CARRIER (str "NO CARRIER") s
          ++ [Event.telnet_free, Event.telnet_init], r2 hok', ?_, ?_, ?_⟩
      · simp [List.append_assoc]
      · rw [List.filter_append, e2, e3]
        rfl
      · rw [List.filter_append, e1]
        rfl

set_option maxRecDepth 100000 in
/-- C24 at a sample: the tail 123:99 names an alias, so the connection goes to
rainmaker.wunderground.com on port 23. -/
theorem dial_target_witness :
    util_string_toupper (str "ATDT") ∈ dial_heads ∧
    util_string_trim (init.with_cmd (str "ATDT123:99")).cmd = str "ATDT" ++ str "123:99" ∧
    dial_parse (str "ATDT" ++ str "123:99") = .ok (str "123", str "99") ∧
    alias_of (util_string_trim (str "123")) (str "99")
      = (str "rainmaker.wunderground.com", str "23") ∧
    ∃ r pre post, modemCommand sample_consts (init.with_cmd (str "ATDT123:99")) = .ok r ∧
      r.trace = (init.with_cmd (str "ATDT123:99")).trace ++ pre
        ++ [Event.tcp_connect (c_str (alias_of (util_string_trim (str "123")) (str "99")).1) 23]
        ++ post ∧
      pre.filter Event.is_connect = [] ∧ post.filter Event.is_connect = [] :=
  ⟨by decide, by decide, rfl, by decide,
   (dial_target sample_consts (init.with_cmd (str "ATDT123:99")) (str "ATDT") (str "123:99")
      (by decide) (by decide)).2.2.2.2.2 (str "123") (str "99") 23 rfl (by decide) rfl⟩

set_option maxRecDepth 100000 in
/-- C25: a dial command whose port text is not a number does not lead to the ERROR result.
For the lines ATDTexample.com: (empty port) and ATDTexample.com:abc the call of `std::stoi`
raises `invalid_argument`, so the interpreter does not return: no result is reported and
the command buffer is not cleared. -/
theorem dial_malformed_port_throws :
    modemCommand sample_consts (init.with_cmd (str "ATDTexample.com:"))
      = .error Exn.invalid_argument ∧
    modemCommand sample_consts (init.with_cmd (str "ATDTexample.com:abc"))
      = .error Exn.invalid_argument ∧
    stoi (str "") = .error Exn.invalid_argument ∧
    stoi (str "abc") = .error Exn.invalid_argument := by
  exact ⟨rfl, rfl, rfl, rfl⟩

set_option maxRecDepth 100000 in
/-- C26: the GET branch keeps the delimiter in the host. For ATGEThttp://example.com/index.html
and for ATGEThttp://example.com:8080/a, with the connection made, the connection attempt
and the Host header name the hosts example.com/ and example.com: (the byte that ends the
host is counted in); only a URL with neither port nor path names the host example.com. -/
theorem get_host_keeps_delimiter :
    (modemCommand sample_consts
        (reachable_sample.with_cmd (str "ATGEThttp://example.com/index.html"))).map
        (fun r => (r.cmdMode, r.trace.filter Event.is_request))
      = .ok (false, [Event.tcp_connect (str "example.com/") 80, Event.tcp_write (str
          "GET /index.html HTTP/1.1\r\nHost: example.com/\r\nConnection: close\r\n\r\n")]) ∧
    (modemCommand sample_consts
        (reachable_sample.with_cmd (str "ATGEThttp://example.com:8080/a"))).map
        (fun r => (r.cmdMode, r.trace.filter Event.is_request))
      = .ok (false, [Event.tcp_connect (str "example.com:") 8080, Event.tcp_write (str
          "GET /a HTTP/1.1\r\nHost: example.com:\r\nConnection: close\r\n\r\n")]) ∧
    (modemCommand sample_consts (reachable_sample.with_cmd (str "ATGEThttp://example.com"))).map
        (fun r => (r.cmdMode, r.trace.filter Event.is_request))
      = .ok (false, [Event.tcp_connect (str "example.com") 80, Event.tcp_write (str
          "GET / HTTP/1.1\r\nHost: example.com\r\nConnection: close\r\n\r\n")]) := by
  exact ⟨rfl, rfl, rfl⟩

/-! ### Listen port -/

/-- The call `std::stoi` on a decimal numeral, with or without a minus sign. -/
theorem stoi_signed (neg : Bool) (ds : List Nat) (hne : ds ≠ [])
    (hd : ∀ c ∈ ds, isdigit c = true) :
    stoi (sign_text neg ++ ds)
      = if signed_value neg ds < -2147483648 ∨ signed_value neg ds > 2147483647 then
          .error .out_of_range
        else .ok (signed_value neg ds) := by
  obtain ⟨d0, rest, rfl⟩ := List.exists_cons_of_ne_nil hne
  have h0 : isdigit d0 = true := hd d0 (List.mem_cons_self _ _)
  have hb : 0x30 ≤ d0 ∧ d0 ≤ 0x39 := by
    simpa [isdigit] using h0
  have hs : isspace d0 = false := by
    simp only [isspace, Bool.or_eq_false_iff, beq_eq_false_iff_ne, Bool.and_eq_false_iff,
      decide_eq_false_iff_not, not_le]
    omega
  have htw : (d0 :: rest).takeWhile isdigit = d0 :: rest := by
    rw [List.takeWhile_eq_self_iff]
    exact hd
  have e1 : (d0 == 0x2D) = false := by
    rw [beq_eq_false_iff_ne]
    omega
  have e2 : (d0 == 0x2B) = false := by
    rw [beq_eq_false_iff_ne]
    omega
  cases neg
  · have hv : signed_value false (d0 :: rest) = (digits_value (d0 :: rest) : Int) := rfl
    rw [hv]
    simp only [stoi, sign_text, List.nil_append, List.dropWhile_cons, hs, List.head?_cons,
      Bool.false_eq_true, if_false, Option.some.injEq, beq_iff_eq, htw]
    have e3 : d0 ≠ 45 := by omega
    simp [e1, e2, e3, htw]
  · have hv : signed_value true (d0 :: rest) = -(digits_value (d0 :: rest) : Int) := rfl
    rw [hv]
    have hs2 : isspace 0x2D = false := by decide
    simp only [stoi, sign_text, if_true, List.cons_append, List.nil_append, List.dropWhile_cons,
      hs2, List.head?_cons, Bool.false_eq_true, if_false]
    simp [htw]

/-- The PORT branch on a command whose text after the sixth byte reads as the number `v`:
ERROR outside 0..65535; otherwise the client and the listener are stopped if a listen port
was set, the listener is bound to `v`, and OK. -/
theorem at_handle_port_eq (K : Consts) (x : sioModem) (tail : List Nat) (v : Int)
    (hsub : substr_from 6 x.cmd = .ok tail) (hst : stoi tail = .ok v) :
    x.at_handle_port K
      = if v > 65535 ∨ v < 0 then .ok (x.at_result K.RESULT_CODE_ERROR (str "ERROR"))
        else .ok ((((({ (if x.listenPort ≠ 0 then x.tcp_stop.srv_stop else x) with
            listenPort := v.toNat } : sioModem).srv_setMaxClients 1).srv_begin v.toNat).at_result
            K.RESULT_CODE_OK (str "OK"))) := by
  unfold at_handle_port
  simp only [bind, Except.bind, hsub, hst, pure, Except.pure]
  by_cases hv : v > 65535 ∨ v < 0
  · rw [if_pos hv, if_pos hv]
  · rw [if_neg hv, if_neg hv]
    rfl

/-- The interpreter on a PORT command: the PORT branch runs on the trimmed and echoed
line and the command buffer is cleared. -/
theorem modemCommand_port (K : Consts) (s : sioModem) (d tail : List Nat)
    (hd : util_string_toupper d = str "ATPORT") (hline : util_string_trim s.cmd = d ++ tail) :
    modemCommand K s
      = match s.echoed.at_handle_port K with
        | .error e => .error e
        | .ok r => .ok r.clear_cmd := by
  have hlen : d.length = 6 := by
    have := congrArg List.length hd
    simpa [util_string_toupper] using this
  have hne : util_string_trim s.cmd ≠ [] := by
    rw [hline]
    intro h
    have := congrArg List.length h
    simp [hlen] at this
  have hup : util_string_toupper (d ++ tail)
      = str "ATPORT" ++ util_string_toupper tail := by
    rw [← hd]
    simp [util_string_toupper]
  rw [modemCommand_eq K s hne, match_at_cmd_replace_eol, hline, hup,
    match_at_cmd_head (str "ATPORT") _ _at_cmds.AT_PORT 13 (by decide) (by decide) (by decide)]
  rfl

set_option maxRecDepth 100000 in
/-- C27, as stated, fails: the line ATPORT80 handed over by a WRITE command is run with
command output suppressed, so with verbose result codes the listener is bound to port 80
but no OK result is written to the serial transport. -/
theorem port_from_write_silent :
    write_sample_port.numericResultCode = false ∧
    (sio_process sample_consts ⟨0x50, 0x57, 9, 0, 0⟩ write_sample_port).map
        (fun r => (r.listenPort, r.srv_port, r.trace))
      = .ok (80, some 80, [Event.sio_ack, Event.sio_to_peripheral 64,
          Event.srv_setMaxClients 1, Event.srv_begin 80, Event.sio_complete]) := by
  exact ⟨rfl, rfl⟩

/-- C27 (amended): for every session state and every decimal numeral (a minus sign or
none, then one or more digits) whose value n fits the type `int`, the command ATPORTn, in
any letter case, makes the interpreter return with the command buffer cleared. When
0 ≤ n ≤ 65535 the listen port becomes n and the listener is bound to n, after the client
and the listener have been stopped if the previous listen port was not zero, and the
result is OK; otherwise the result is ERROR and nothing but the command buffer and the
trace changes. The trace gains the echo (the line end, written when command echo is on and
command output is not suppressed), the events of the sockets and the result. The result
is, with numeric result codes on, the numeric code followed by CR LF, whether or not
command output is suppressed; with numeric result codes off it is the string and the line
end when command output is not suppressed, and nothing when it is suppressed. So the
listen port after the command is at most 65535 if it was before. -/
theorem port_command (K : Consts) (s : sioModem) (d : List Nat) (neg : Bool) (ds : List Nat)
    (hd : util_string_toupper d = str "ATPORT")
    (hds : ds ≠ [] ∧ ∀ c ∈ ds, isdigit c = true)
    (hline : util_string_trim s.cmd = d ++ (sign_text neg ++ ds))
    (hfit : -2147483648 ≤ signed_value neg ds ∧ signed_value neg ds ≤ 2147483647) :
    (0 ≤ signed_value neg ds ∧ signed_value neg ds ≤ 65535 → s.listenPort ≠ 0 →
      modemCommand K s
        = .ok { s with cmd := [], listenPort := (signed_value neg ds).toNat,
                       tcp_connected := false, tcp_rx := [],
                       srv_port := some (signed_value neg ds).toNat, srv_pending := 0,
                       trace := s.trace ++ (echo_events s
                         ++ [Event.tcp_stop, Event.srv_stop, Event.srv_setMaxClients 1,
                             Event.srv_begin (signed_value neg ds).toNat]
                         ++ result_events K.RESULT_CODE_OK (str "OK") s) }) ∧
    (0 ≤ signed_value neg ds ∧ signed_value neg ds ≤ 65535 → s.listenPort = 0 →
      modemCommand K s
        = .ok { s with cmd := [], listenPort := (signed_value neg ds).toNat,
                       srv_port := some (signed_value neg ds).toNat,
                       trace := s.trace ++ (echo_events s
                         ++ [Event.srv_setMaxClients 1,
                             Event.srv_begin (signed_value neg ds).toNat]
                         ++ result_events K.RESULT_CODE_OK (str "OK") s) }) ∧
    (¬ (0 ≤ signed_value neg ds ∧ signed_value neg ds ≤ 65535) →
      modemCommand K s
        = .ok { s with cmd := [],
                       trace := s.trace ++ (echo_events s
                         ++ result_events K.RESULT_CODE_ERROR (str "ERROR") s) }) ∧
    (∀ r, modemCommand K s = .ok r → s.listenPort ≤ 65535 → r.listenPort ≤ 65535) := by
  have hlen : d.length = 6 := by
    have := congrArg List.length hd
    simpa [util_string_toupper] using this
  have hsub : substr_from 6 s.echoed.cmd = .ok (sign_text neg ++ ds) := by
    have hc : s.echoed.cmd = d ++ (sign_text neg ++ ds) := hline
    rw [hc]
    unfold substr_from
    rw [if_neg (by simp [hlen])]
    rw [← hlen, List.drop_left]
  have hst : stoi (sign_text neg ++ ds) = .ok (signed_value neg ds) := by
    rw [stoi_signed neg ds hds.1 hds.2, if_neg]
    omega
  have hrun := modemCommand_port K s d _ hd hline
  rw [at_handle_port_eq K s.echoed _ _ hsub hst] at hrun
  have hre : ∀ (code : Int) (text : List Nat) (x : sioModem),
      x.numericResultCode = s.numericResultCode → x.cmdOutput = s.cmdOutput →
      x.cmdAtascii = s.cmdAtascii → result_events code text x = result_events code text s :=
    fun code text x h1 h2 h3 => result_events_congr code text x s h1 h2 h3
  have A : 0 ≤ signed_value neg ds ∧ signed_value neg ds ≤ 65535 → s.listenPort ≠ 0 →
      modemCommand K s
        = .ok { s with cmd := [], listenPort := (signed_value neg ds).toNat,
                       tcp_connected := false, tcp_rx := [],
                       srv_port := some (signed_value neg ds).toNat, srv_pending := 0,
                       trace := s.trace ++ (echo_events s
                         ++ [Event.tcp_stop, Event.srv_stop, Event.srv_setMaxClients 1,
                             Event.srv_begin (signed_value neg ds).toNat]
                         ++ result_events K.RESULT_CODE_OK (str "OK") s) } := by
    intro hin hl
    have hl2 : s.echoed.listenPort ≠ 0 := hl
    rw [hrun, if_neg (by omega), if_pos hl2, at_result_eq]
    simp [echoed, clear_cmd, tcp_stop, srv_stop, srv_setMaxClients, srv_begin, emit,
      List.append_assoc]
    exact hre _ _ _ rfl rfl rfl
  have B : 0 ≤ signed_value neg ds ∧ signed_value neg ds ≤ 65535 → s.listenPort = 0 →
      modemCommand K s
        = .ok { s with cmd := [], listenPort := (signed_value neg ds).toNat,
                       srv_port := some (signed_value neg ds).toNat,
                       trace := s.trace ++ (echo_events s
                         ++ [Event.srv_setMaxClients 1,
                             Event.srv_begin (signed_value neg ds).toNat]
                         ++ result_events K.RESULT_CODE_OK (str "OK") s) } := by
    intro hin hl
    have hl2 : ¬ s.echoed.listenPort ≠ 0 := fun h => h hl
    rw [hrun, if_neg (by omega), if_neg hl2, at_result_eq]
    simp [echoed, clear_cmd, srv_setMaxClients, srv_begin, emit, List.append_assoc]
    exact hre _ _ _ rfl rfl rfl
  have C : ¬ (0 ≤ signed_value neg ds ∧ signed_value neg ds ≤ 65535) →
      modemCommand K s
        = .ok { s with cmd := [],
                       trace := s.trace ++ (echo_events s
                         ++ result_events K.RESULT_CODE_ERROR (str "ERROR") s) } := by
    intro hout
    rw [hrun, if_pos (by omega), at_result_eq]
    simp [echoed, clear_cmd, List.append_assoc]
    exact hre _ _ _ rfl rfl rfl
  refine ⟨A, B, C, ?_⟩
  intro r hr hle
  by_cases hin : 0 ≤ signed_value neg ds ∧ signed_value neg ds ≤ 65535
  · have hn : (signed_value neg ds).toNat ≤ 65535 := by omega
    by_cases hl : s.listenPort = 0
    · rw [B hin hl] at hr
      cases hr
      exact hn
    · rw [A hin hl] at hr
      cases hr
      exact hn
  · rw [C hin] at hr
    cases hr
    exact hle

set_option maxRecDepth 100000 in
/-- The amended C27 at samples: atport8080 in the initial session. -/
theorem port_command_witness :
    util_string_toupper (str "atport") = str "ATPORT" ∧
    (str "8080" ≠ [] ∧ ∀ c ∈ str "8080", isdigit c = true) ∧
    util_string_trim (init.with_cmd (str "atport8080")).cmd
      = str "atport" ++ (sign_text false ++ str "8080") ∧
    (-2147483648 ≤ signed_value false (str "8080") ∧
      signed_value false (str "8080") ≤ 2147483647) ∧
    signed_value false (str "8080") = 8080 ∧
    modemCommand sample_consts (init.with_cmd (str "atport8080"))
      = .ok { init.with_cmd (str "atport8080") with
                cmd := [], listenPort := (signed_value false (str "8080")).toNat,
                srv_port := some (signed_value false (str "8080")).toNat,
                trace := (init.with_cmd (str "atport8080")).trace
                  ++ (echo_events (init.with_cmd (str "atport8080"))
                    ++ [Event.srv_setMaxClients 1,
                        Event.srv_begin (signed_value false (str "8080")).toNat]
                    ++ result_events sample_consts.RESULT_CODE_OK (str "OK")
                        (init.with_cmd (str "atport8080"))) } :=
  ⟨by decide, by decide, by decide, by decide, by decide,
   (port_command sample_consts (init.with_cmd (str "atport8080")) (str "atport") false
      (str "8080") (by decide) (by decide) (by decide) (by decide)).2.1 (by decide) rfl⟩

/-! ### Bound on the command buffer -/

/-- The interpreter on a blank line only trims the command buffer, which leaves it
empty. -/
theorem modemCommand_blank (K : Consts) (s : sioModem) (h : util_string_trim s.cmd = []) :
    modemCommand K s = .ok { s with cmd := [] } := by
  unfold modemCommand
  simp only [h, if_true]
  rfl

/-- When the interpreter returns, the command buffer is empty. -/
theorem modemCommand_clears (K : Consts) (s r : sioModem) (h : modemCommand K s = .ok r) :
    r.cmd = [] := by
  by_cases hb : util_string_trim s.cmd = []
  · rw [modemCommand_blank K s hb] at h
    cases h
    rfl
  · rw [modemCommand_eq K s hb] at h
    split at h
    · exact Except.noConfusion h
    · cases h
      rfl

/-- An echo of one byte leaves the command buffer alone. -/
theorem echo_keeps_cmd (x : sioModem) (b : Nat) :
    (if x.commandEcho = true then (.ok (x.uart_write b) : Except Exn sioModem) else .ok x)
      = .ok { x with trace := x.trace ++ (if x.commandEcho = true then [Event.uart_write b]
                                           else []) } := by
  by_cases he : x.commandEcho = true
  · rw [if_pos he, if_pos he]
    rfl
  · rw [if_neg he, if_neg he]
    simp

/-- After a call of `assemble_char` that returns, the command buffer is no longer than
before or within the bound. -/
theorem assemble_char_bound (K : Consts) (chr : Nat) (s r : sioModem)
    (h : assemble_char K chr s = .ok r) :
    r.cmd.length ≤ s.cmd.length ∨ r.cmd.length ≤ K.MAX_CMD_LENGTH := by
  unfold assemble_char at h
  by_cases h1 : chr = ASCII_LF ∨ chr = ASCII_CR ∨ chr = ATASCII_EOL
  · rw [if_pos h1] at h
    rw [modemCommand_clears K _ r h]
    exact Or.inl (Nat.zero_le _)
  · rw [if_neg h1] at h
    by_cases h2 : chr = ASCII_BACKSPACE ∨ chr = ASCII_DELETE
    · rw [if_pos h2] at h
      simp only at h
      by_cases hl : s.cmd.length > 0
      · rw [if_pos hl] at h
        by_cases he : s.commandEcho = true
        · rw [if_pos he] at h
          cases h
          simp only [uart_write, emit, List.length_take]
          omega
        · rw [if_neg he] at h
          cases h
          simp only [List.length_take]
          omega
      · rw [if_neg hl] at h
        cases h
        exact Or.inl (le_refl _)
    · rw [if_neg h2] at h
      by_cases h3 : chr = ATASCII_BACKSPACE
      · rw [if_pos h3] at h
        simp only at h
        by_cases hl : s.cmd.length > 0
        · rw [if_pos hl] at h
          by_cases he : s.commandEcho = true
          · rw [if_pos he] at h
            cases h
            simp only [uart_write, emit, List.length_take]
            omega
          · rw [if_neg he] at h
            cases h
            simp only [List.length_take]
            omega
        · rw [if_neg hl] at h
          cases h
          exact Or.inl (le_refl _)
      · rw [if_neg h3] at h
        by_cases h4 : chr = ATASCII_CLEAR_SCREEN ∨
            (chr ≥ ATASCII_CURSOR_UP ∧ chr ≤ ATASCII_CURSOR_RIGHT)
        · rw [if_pos h4] at h
          by_cases he : s.commandEcho = true
          · rw [if_pos he] at h
            cases h
            exact Or.inl (le_refl _)
          · rw [if_neg he] at h
            cases h
            exact Or.inl (le_refl _)
        · rw [if_neg h4] at h
          simp only at h
          by_cases hl : s.cmd.length < K.MAX_CMD_LENGTH
          · rw [if_pos hl] at h
            by_cases he : s.commandEcho = true
            · rw [if_pos he] at h
              cases h
              simp only [uart_write, emit, List.length_append, List.length_singleton]
              omega
            · rw [if_neg he] at h
              cases h
              simp only [List.length_append, List.length_singleton]
              omega
          · rw [if_neg hl] at h
            by_cases he : s.commandEcho = true
            · rw [if_pos he] at h
              cases h
              exact Or.inl (le_refl _)
            · rw [if_neg he] at h
              cases h
              exact Or.inl (le_refl _)

/-- C30: character-by-character assembly never makes the command buffer longer than
MAX_CMD_LENGTH: after a call of `assemble_char` that returns, the buffer is no longer than
the larger of its length before and MAX_CMD_LENGTH, so within the bound if it was. A
character that is no line terminator, backspace, delete, clear-screen or cursor key and
that arrives at a full buffer leaves the session unchanged but for its echo when command
echo is on: it is dropped from the buffer and no result is reported. And whenever a call
of `modemCommand` returns, for every input line, the command buffer is empty. -/
theorem command_buffer_bounded (K : Consts) :
    (∀ (chr : Nat) (s r : sioModem), assemble_char K chr s = .ok r →
      r.cmd.length ≤ max s.cmd.length K.MAX_CMD_LENGTH ∧
      (s.cmd.length ≤ K.MAX_CMD_LENGTH → r.cmd.length ≤ K.MAX_CMD_LENGTH)) ∧
    (∀ (chr : Nat) (s : sioModem),
      ¬ (chr = ASCII_LF ∨ chr = ASCII_CR ∨ chr = ATASCII_EOL) →
      ¬ (chr = ASCII_BACKSPACE ∨ chr = ASCII_DELETE) → chr ≠ ATASCII_BACKSPACE →
      ¬ (chr = ATASCII_CLEAR_SCREEN ∨ (chr ≥ ATASCII_CURSOR_UP ∧ chr ≤ ATASCII_CURSOR_RIGHT)) →
      ¬ s.cmd.length < K.MAX_CMD_LENGTH →
      assemble_char K chr s
        = .ok { s with trace := s.trace ++ (if s.commandEcho = true then [Event.uart_write chr]
                                             else []) }) ∧
    (∀ (line : List Nat) (s r : sioModem), modemCommand K (s.with_cmd line) = .ok r →
      r.cmd = []) := by
  refine ⟨?_, ?_, ?_⟩
  · intro chr s r h
    have key := assemble_char_bound K chr s r h
    constructor
    · rcases key with k | k
      · exact le_trans k (le_max_left _ _)
      · exact le_trans k (le_max_right _ _)
    · intro hle
      rcases key with k | k
      · exact le_trans k hle
      · exact k
  · intro chr s h1 h2 h3 h4 hl
    unfold assemble_char
    rw [if_neg h1, if_neg h2, if_neg h3, if_neg h4]
    simp only
    rw [if_neg hl]
    exact echo_keeps_cmd s chr
  · intro line s r h
    exact modemCommand_clears K _ r h

/-! ### Carrier flag and listener over the steps of a session -/

/-- The frame is reflexive. -/
theorem core_refl (s : sioModem) : core_frame s s :=
  ⟨rfl, rfl, rfl, rfl, [], (List.append_nil _).symm⟩

/-- The frame is transitive. -/
theorem core_trans (a b c : sioModem) (h1 : core_frame a b) (h2 : core_frame b c) :
    core_frame a c := by
  obtain ⟨a1, a2, a3, a4, e1, a5⟩ := h1
  obtain ⟨b1, b2, b3, b4, e2, b5⟩ := h2
  refine ⟨b1.trans a1, b2.trans a2, b3.trans a3, b4.trans a4, e1 ++ e2, ?_⟩
  rw [b5, a5, List.append_assoc]

/-- A step that keeps the four fields and extends the trace keeps the frame. -/
theorem core_step (s x y : sioModem) (h : core_frame s x) (h1 : y.CRX = x.CRX)
    (h2 : y.cmdMode = x.cmdMode) (h3 : y.listenPort = x.listenPort)
    (h4 : y.srv_port = x.srv_port) (h5 : ∃ ev, y.trace = x.trace ++ ev) : core_frame s y :=
  core_trans s x y h ⟨h1, h2, h3, h4, h5⟩

/-- A step that keeps the four fields and the trace keeps the frame. -/
theorem core_same (s x y : sioModem) (h : core_frame s x) (h1 : y.CRX = x.CRX)
    (h2 : y.cmdMode = x.cmdMode) (h3 : y.listenPort = x.listenPort)
    (h4 : y.srv_port = x.srv_port) (h5 : y.trace = x.trace) : core_frame s y :=
  core_step s x y h h1 h2 h3 h4 ⟨[], by rw [h5, List.append_nil]⟩

/-- Printing a string keeps the frame. -/
theorem core_println_str (s x : sioModem) (t : List Nat) (b : Bool) (h : core_frame s x) :
    core_frame s (x.at_cmd_println_str t b) := by
  obtain ⟨ev, he⟩ := at_cmd_println_str_eq t b x
  rw [he]
  exact core_step s x _ h rfl rfl rfl rfl ⟨ev, rfl⟩

/-- Printing an integer keeps the frame. -/
theorem core_println_int (s x : sioModem) (i : Int) (b : Bool) (h : core_frame s x) :
    core_frame s (x.at_cmd_println_int i b) := by
  obtain ⟨ev, he⟩ := at_cmd_println_int_eq i b x
  rw [he]
  exact core_step s x _ h rfl rfl rfl rfl ⟨ev, rfl⟩

/-- Printing a line end keeps the frame. -/
theorem core_println (s x : sioModem) (h : core_frame s x) :
    core_frame s x.at_cmd_println := by
  rw [at_cmd_println_eq]
  exact core_step s x _ h rfl rfl rfl rfl ⟨_, rfl⟩

/-- An event keeps the frame. -/
theorem core_emit (s x : sioModem) (e : Event) (h : core_frame s x) :
    core_frame s (x.emit e) :=
  core_step s x _ h rfl rfl rfl rfl ⟨[e], rfl⟩

/-- A choice between two steps that keep the frame keeps the frame. -/
theorem core_ite (s a b : sioModem) (c : Prop) [Decidable c] (ha : core_frame s a)
    (hb : core_frame s b) : core_frame s (if c then a else b) := by
  by_cases h : c
  · rw [if_pos h]
    exact ha
  · rw [if_neg h]
    exact hb

/-- A final result keeps the frame. -/
theorem core_at_result (s x : sioModem) (code : Int) (text : List Nat) (h : core_frame s x) :
    core_frame s (x.at_result code text) := by
  rw [at_result_eq]
  exact core_step s x _ h rfl rfl rfl rfl ⟨_, rfl⟩

/-- A poll of the WiFi connection keeps the frame. -/
theorem core_wifi_poll (s x : sioModem) (h : core_frame s x) :
    core_frame s (wifi_poll_connected x).2 := by
  unfold wifi_poll_connected
  cases hw : x.wifi_connected with
  | nil => exact h
  | cons b rest => exact core_same s x _ h rfl rfl rfl rfl rfl

/-- A delay keeps the frame. -/
theorem core_delay (s x : sioModem) (ms : Nat) (h : core_frame s x) :
    core_frame s (x.delay ms) :=
  core_step s x _ h rfl rfl rfl rfl ⟨[Event.delay ms], rfl⟩

/-- The wait loop of WIFICONNECT keeps the frame. -/
theorem core_wificonnect_wait (s : sioModem) (left retries : Nat) (x : sioModem)
    (h : core_frame s x) : core_frame s (wificonnect_wait left retries x).2 := by
  induction left generalizing retries x with
  | zero => exact core_wifi_poll s x h
  | succ n ih =>
    unfold wificonnect_wait
    by_cases hc : (wifi_poll_connected x).1 = true
    · simp only [hc, if_true]
      exact core_wifi_poll s x h
    · simp only [hc, if_false]
      apply ih
      apply core_println_str
      apply core_delay
      exact core_wifi_poll s x h

/-- The scan attempts keep the frame. -/
theorem core_scan_attempt_loop (s : sioModem) (attempts : Nat) (x : sioModem)
    (h : core_frame s x) : core_frame s (scan_attempt_loop attempts x).2 := by
  induction attempts generalizing x with
  | zero => exact h
  | succ n ih =>
    unfold scan_attempt_loop
    have he := core_emit s x Event.wifi_scan_start h
    cases hl : (x.emit Event.wifi_scan_start).esp_scan_ap_num with
    | nil =>
      simp only [hl]
      exact ih _ he
    | cons o rest =>
      cases o with
      | none =>
        simp only [hl]
        exact ih _ (core_same s _ _ he rfl rfl rfl rfl rfl)
      | some k =>
        simp only [hl]
        exact core_same s _ _ he rfl rfl rfl rfl rfl

/-- The network scan keeps the frame. -/
theorem core_scan_networks (K : Consts) (s : sioModem) (maxresults : Nat) (x : sioModem)
    (h : core_frame s x) : core_frame s (scan_networks K maxresults x).2 := by
  unfold scan_networks
  have h0 : core_frame s { x with wifi_scan_records := [], wifi_scan_record_count := 0 } :=
    core_same s x _ h rfl rfl rfl rfl rfl
  have h1 := core_scan_attempt_loop s (K.FNWIFI_RECONNECT_RETRIES + 1) _ h0
  simp only
  generalize scan_attempt_loop (K.FNWIFI_RECONNECT_RETRIES + 1)
    { x with wifi_scan_records := [], wifi_scan_record_count := 0 } = p at h1 ⊢
  obtain ⟨res, y⟩ := p
  simp only at h1 ⊢
  by_cases hr : (if res > maxresults then maxresults else res) > 0
  · rw [if_pos hr]
    cases hrec : y.esp_scan_ap_records with
    | none => exact core_same s _ _ h1 rfl rfl rfl rfl rfl
    | some records => exact core_same s _ _ h1 rfl rfl rfl rfl rfl
  · rw [if_neg hr]
    exact h1

/-- One line of the network listing keeps the frame. -/
theorem core_wifilist_line (K : Consts) (s : sioModem) (i : Nat) (v : ScanLocals)
    (x : sioModem) (h : core_frame s x) : core_frame s (wifilist_line K i v x) := by
  unfold wifilist_line
  simp only
  apply core_println_str
  apply core_println_str
  apply core_println_str
  apply core_println_str
  apply core_println_int
  apply core_println_str
  apply core_println_int
  apply core_println_str
  apply core_println_str
  apply core_println_str
  apply core_println_int
  exact h

/-- The listing loop keeps the frame. -/
theorem core_wifilist_loop (K : Consts) (s : sioModem) (left i : Nat) (v : ScanLocals)
    (x : sioModem) (h : core_frame s x) : core_frame s (wifilist_loop K left i v x) := by
  induction left generalizing i v x with
  | zero => exact h
  | succ n ih =>
    rw [wifilist_loop_succ]
    exact ih _ _ _ (core_wifilist_line K s i _ x h)

/-- The help listing keeps the frame. -/
theorem core_help (K : Consts) (s : sioModem) : core_frame s (s.at_handle_help K) := by
  unfold at_handle_help
  simp only
  apply core_at_result
  apply core_println
  apply core_ite
  · apply core_println_str
    apply core_println_str
    apply core_println_int
    apply core_println_str
    apply core_println
    iterate 18 apply core_println_str
    exact core_refl s
  · apply core_println_str
    apply core_println
    iterate 18 apply core_println_str
    exact core_refl s

/-- The network listing keeps the frame. -/
theorem core_wifilist (K : Consts) (s : sioModem) :
    core_frame s (s.at_handle_wifilist K) := by
  unfold at_handle_wifilist
  simp only
  apply core_at_result
  apply core_println
  have h1 : core_frame s ((s.at_cmd_println.at_cmd_println_str (K.help .HELPSCAN1) true).scan_networks
      K K.FNWIFI_SCAN_RESULTS_MAX).2.at_cmd_println := by
    apply core_println
    apply core_scan_networks
    apply core_println_str
    apply core_println
    exact core_refl s
  apply core_ite
  · apply core_println_str
    exact h1
  · apply core_wifilist_loop
    apply core_println
    apply core_println_str
    apply core_println_int
    exact h1

/-- The WIFICONNECT branch, when it returns, keeps the frame. -/
theorem core_wificonnect (K : Consts) (s r : sioModem) (h : s.at_handle_wificonnect K = .ok r) :
    core_frame s r := by
  have key : ∀ a b : List Nat, core_frame s (wificonnect_wait 20 0
      ((((((s.at_cmd_println_str (K.help .HELPWIFICONNECTING) false).at_cmd_println_str a
        false).at_cmd_println_str (str "/") false).at_cmd_println_str b true).emit
          (.wifi_connect (c_str a) (c_str b))))).2 := by
    intro a b
    apply core_wificonnect_wait
    apply core_emit
    apply core_println_str
    apply core_println_str
    apply core_println_str
    apply core_println_str
    exact core_refl s
  unfold at_handle_wificonnect at h
  simp only [bind, Except.bind, pure, Except.pure] at h
  split at h
  · split at h
    · exact absurd h (by simp)
    · split at h
      · exact absurd h (by simp)
      · split at h
        · rw [← Except.ok.inj h]
          exact core_at_result s _ _ _ (key _ _)
        · rw [← Except.ok.inj h]
          exact core_at_result s _ _ _ (key _ _)
  · split at h
    · exact absurd h (by simp)
    · split at h
      · rw [← Except.ok.inj h]
        exact core_at_result s _ _ _ (key _ _)
      · rw [← Except.ok.inj h]
        exact core_at_result s _ _ _ (key _ _)

/-- A run that keeps the frame has the effect of a step. -/
theorem effect_of_core (s r : sioModem) (h : core_frame s r) : step_effect s r := by
  obtain ⟨h1, h2, h3, h4, ev, h5⟩ := h
  refine ⟨⟨ev, h5, Or.inl ?_⟩, Or.inl ⟨h3, h4⟩⟩
  intro hi hc
  rw [h2]
  rw [h1] at hc
  exact hi hc

/-- The effect of a step is transitive. -/
theorem effect_trans (a b c : sioModem) (h1 : step_effect a b) (h2 : step_effect b c) :
    step_effect a c := by
  obtain ⟨⟨e1, t1, c1⟩, l1⟩ := h1
  obtain ⟨⟨e2, t2, c2⟩, l2⟩ := h2
  refine ⟨⟨e1 ++ e2, by rw [t2, t1, List.append_assoc], ?_⟩, ?_⟩
  · rcases c1 with c1 | c1 | c1
    · rcases c2 with c2 | c2 | c2
      · exact Or.inl (fun hi => c2 (c1 hi))
      · exact Or.inr (Or.inl (List.mem_append_right _ c2))
      · exact Or.inr (Or.inr (List.mem_append_right _ c2))
    · exact Or.inr (Or.inl (List.mem_append_left _ c1))
    · exact Or.inr (Or.inr (List.mem_append_left _ c1))
  · rcases l2 with ⟨p2, q2⟩ | l2
    · rcases l1 with ⟨p1, q1⟩ | l1
      · exact Or.inl ⟨p2.trans p1, q2.trans q1⟩
      · right
        rw [q2, p2]
        exact l1
    · exact Or.inr l2

/-- A run that keeps the frame, followed by a step that keeps the listener and the listen
port, extends the trace and leaves the carrier flag false or the mode ConnectedMode. -/
theorem effect_post (s x r : sioModem) (ev : List Event) (hx : core_frame s x)
    (ht : r.trace = x.trace ++ ev) (hl : r.listenPort = x.listenPort)
    (hp : r.srv_port = x.srv_port) (hc : r.CRX = false ∨ r.cmdMode = false) :
    step_effect s r := by
  apply effect_trans s x r (effect_of_core s x hx)
  refine ⟨⟨ev, ht, Or.inl ?_⟩, Or.inl ⟨hl, hp⟩⟩
  intro _ hcrx
  rcases hc with hc | hc
  · rw [hc] at hcrx
    exact absurd hcrx (by simp)
  · exact hc

/-- The hang-up branch has the effect of a step. -/
theorem effect_hangup (K : Consts) (s : sioModem) : step_effect s (s.at_hangup K) := by
  unfold at_hangup
  by_cases hc : s.tcp_connected = true
  · rw [if_pos hc]
    simp only
    rw [at_result_eq]
    exact effect_post s s _ _ (core_refl s)
      (show _ = s.trace ++ ([Event.tcp_flush, Event.tcp_stop]
        ++ result_events K.RESULT_CODE_NO_CARRIER (str "NO CARRIER")
            ({ s.tcp_flush.tcp_stop with cmdMode := true } : sioModem)
        ++ [Event.telnet_free, Event.telnet_init]) by
        simp [tcp_flush, tcp_stop, telnet_reset, emit, List.append_assoc])
      rfl rfl (Or.inl rfl)
  · rw [if_neg hc]
    exact effect_of_core s _ (core_at_result s s _ _ (core_refl s))

/-- The answer branch has the effect of a step. -/
theorem effect_answer (s : sioModem) : step_effect s s.at_handle_answer := by
  unfold at_handle_answer
  by_cases hc : s.srv_hasClient = true
  · rw [if_pos hc]
    simp only
    rw [at_connect_result_eq]
    exact effect_post s s _ _ (core_refl s)
      (show _ = s.trace ++ ([Event.srv_accept, Event.tcp_setNoDelay true]
        ++ connect_events ((s.srv_take_client).tcp_setNoDelay true) ++ [Event.uart_flush]) by
        simp [srv_take_client, tcp_setNoDelay, uart_flush, emit, List.append_assoc])
      rfl rfl (Or.inr rfl)
  · rw [if_neg hc]
    exact effect_of_core s s (core_refl s)

/-- A connection attempt keeps the frame. -/
theorem core_tcp_connect (s x : sioModem) (host : List Nat) (port : Int)
    (h : core_frame s x) : core_frame s (x.tcp_connect host port).2 :=
  core_step s x _ h rfl rfl rfl rfl ⟨[Event.tcp_connect host port], rfl⟩

/-- The CONNECT report followed by the change to ConnectedMode. -/
theorem effect_connect_online (s x : sioModem) (hx : core_frame s x) :
    step_effect s { x.at_connect_result with cmdMode := false } := by
  rw [at_connect_result_eq]
  exact effect_post s x _ (connect_events x) hx rfl rfl rfl (Or.inr rfl)

/-- The CONNECT report, the change to ConnectedMode and the request of the GET branch. -/
theorem effect_connect_request (s x : sioModem) (request : List Nat) (hx : core_frame s x) :
    step_effect s (({ x.at_connect_result with cmdMode := false } : sioModem).tcp_write request) := by
  rw [at_connect_result_eq]
  exact effect_post s x _ (connect_events x ++ [Event.tcp_write request]) hx
    (by simp [tcp_write, emit, List.append_assoc]) rfl rfl (Or.inr rfl)

/-- The NO CARRIER result, the reset of the telnet state and the drop of the carrier
flag. -/
theorem effect_no_carrier_reset_crx (K : Consts) (s x : sioModem) (hx : core_frame s x) :
    step_effect s { (x.at_result K.RESULT_CODE_NO_CARRIER
      (str "NO CARRIER")).telnet_reset with CRX := false } := by
  rw [at_result_eq]
  exact effect_post s x _ (result_events K.RESULT_CODE_NO_CARRIER (str "NO CARRIER") x
      ++ [Event.telnet_free, Event.telnet_init]) hx
    (by simp [telnet_reset, emit, List.append_assoc]) rfl rfl (Or.inl rfl)

/-- The NO CARRIER result, the drop of the carrier flag and the reset of the telnet
state. -/
theorem effect_no_carrier_crx_reset (K : Consts) (s x : sioModem) (hx : core_frame s x) :
    step_effect s ({ x.at_result K.RESULT_CODE_NO_CARRIER
      (str "NO CARRIER") with CRX := false } : sioModem).telnet_reset := by
  rw [at_result_eq]
  exact effect_post s x _ (result_events K.RESULT_CODE_NO_CARRIER (str "NO CARRIER") x
      ++ [Event.telnet_free, Event.telnet_init]) hx
    (by simp [telnet_reset, emit, List.append_assoc]) rfl rfl (Or.inl rfl)

/-- The pause and the CONNECT report of the reserved number. -/
theorem effect_fake (s : sioModem) : step_effect s (s.delay 1300).at_connect_result := by
  rw [at_connect_result_eq]
  refine ⟨⟨[Event.delay 1300] ++ connect_events (s.delay 1300), ?_, Or.inr (Or.inl ?_)⟩,
    Or.inl ⟨rfl, rfl⟩⟩
  · simp [delay, List.append_assoc]
  · simp

/-- The connection attempt of the dial branch, when it returns, has the effect of a
step: the reserved number makes the pause of 1300 ms. -/
theorem effect_dial_run (K : Consts) (host port : List Nat) (s r : sioModem)
    (h : dial_run K host port s = .ok r) : step_effect s r := by
  unfold dial_run at h
  by_cases hf : host = str "5551234"
  · rw [if_pos hf] at h
    rw [← Except.ok.inj h]
    exact effect_fake s
  · rw [if_neg hf] at h
    have hpre : ∀ portInt : Int, core_frame s
        (((((s.at_cmd_println_str (str "Connecting to ") false).at_cmd_println_str host
          false).at_cmd_println_str (str ":") false).at_cmd_println_str port true).tcp_connect
            (c_str host) portInt).2 := by
      intro portInt
      apply core_tcp_connect
      apply core_println_str
      apply core_println_str
      apply core_println_str
      apply core_println_str
      exact core_refl s
    cases hs : stoi port with
    | error e =>
      simp only [hs, bind, Except.bind] at h
      exact Except.noConfusion h
    | ok portInt =>
      simp only [hs, bind, Except.bind, pure, Except.pure] at h
      split at h
      · rw [← Except.ok.inj h]
        apply effect_connect_online
        apply core_emit
        exact hpre portInt
      · rw [← Except.ok.inj h]
        apply effect_no_carrier_crx_reset
        exact hpre portInt

/-- The dial branch, when it returns, has the effect of a step. -/
theorem effect_dial (K : Consts) (s r : sioModem) (h : s.at_handle_dial K = .ok r) :
    step_effect s r := by
  rw [at_handle_dial_eq] at h
  cases hp : dial_parse s.cmd with
  | error e =>
    rw [hp] at h
    exact Except.noConfusion h
  | ok hp' =>
    rw [hp] at h
    exact effect_dial_run K _ _ s r h

/-- The GET branch, when it returns, has the effect of a step. -/
theorem effect_get (K : Consts) (s r : sioModem) (h : s.at_handle_get K = .ok r) :
    step_effect s r := by
  have hfail : ∀ (host : List Nat) (port : Int), step_effect s
      { ((s.tcp_connect host port).2.at_result K.RESULT_CODE_NO_CARRIER
          (str "NO CARRIER")).telnet_reset with CRX := false } := by
    intro host port
    apply effect_no_carrier_reset_crx
    exact core_tcp_connect s s host port (core_refl s)
  have hgood : ∀ (host : List Nat) (port : Int) (request : List Nat), step_effect s
      (({ (s.tcp_connect host port).2.at_connect_result with cmdMode := false } :
        sioModem).tcp_write request) := by
    intro host port request
    apply effect_connect_request
    exact core_tcp_connect s s host port (core_refl s)
  unfold at_handle_get at h
  simp only [bind, Except.bind, pure, Except.pure] at h
  split at h
  · split at h
    · exact absurd h (by simp)
    · split at h
      · exact absurd h (by simp)
      · split at h
        · rw [← Except.ok.inj h]
          exact hfail _ _
        · rw [← Except.ok.inj h]
          exact hgood _ _ _
  · split at h
    · exact absurd h (by simp)
    · split at h
      · exact absurd h (by simp)
      · split at h
        · exact absurd h (by simp)
        · split at h
          · exact absurd h (by simp)
          · split at h
            · rw [← Except.ok.inj h]
              exact hfail _ _
            · rw [← Except.ok.inj h]
              exact hgood _ _ _

/-- Binding the listener to a new listen port and reporting OK, after a run that keeps
the carrier flag and the mode. -/
theorem effect_begin (K : Consts) (s x : sioModem) (n : Nat) (hc : x.CRX = s.CRX)
    (hm : x.cmdMode = s.cmdMode) (ht : ∃ ev, x.trace = s.trace ++ ev) :
    step_effect s (((({ x with listenPort := n } : sioModem).srv_setMaxClients 1).srv_begin
      n).at_result K.RESULT_CODE_OK (str "OK")) := by
  rw [at_result_eq]
  obtain ⟨ev, he⟩ := ht
  refine ⟨⟨ev ++ ([Event.srv_setMaxClients 1, Event.srv_begin n]
      ++ result_events K.RESULT_CODE_OK (str "OK")
        ((({ x with listenPort := n } : sioModem).srv_setMaxClients 1).srv_begin n)), ?_,
    Or.inl ?_⟩, Or.inr rfl⟩
  · simp [srv_setMaxClients, srv_begin, emit, he, List.append_assoc]
  · intro hi hcrx
    have h1 : x.CRX = true := hcrx
    have h2 : x.cmdMode = false := by
      rw [hm]
      apply hi
      rw [← hc]
      exact h1
    exact h2

/-- Binding the listener to the new listen port, with the previous client and listener
stopped first when a listen port was set, and the OK result. -/
theorem effect_bind_port (K : Consts) (s : sioModem) (n : Nat) :
    step_effect s (((({ (if s.listenPort ≠ 0 then s.tcp_stop.srv_stop else s) with
      listenPort := n } : sioModem).srv_setMaxClients 1).srv_begin n).at_result
        K.RESULT_CODE_OK (str "OK")) := by
  apply effect_begin
  · by_cases hl : s.listenPort ≠ 0
    · rw [if_pos hl]
      rfl
    · rw [if_neg hl]
  · by_cases hl : s.listenPort ≠ 0
    · rw [if_pos hl]
      rfl
    · rw [if_neg hl]
  · by_cases hl : s.listenPort ≠ 0
    · rw [if_pos hl]
      exact ⟨[Event.tcp_stop, Event.srv_stop], by simp [tcp_stop, srv_stop]⟩
    · rw [if_neg hl]
      exact ⟨[], (List.append_nil _).symm⟩

/-- The PORT branch, when it returns, has the effect of a step: it leaves the listener
bound to the listen port or changes neither. -/
theorem effect_port (K : Consts) (s r : sioModem) (h : s.at_handle_port K = .ok r) :
    step_effect s r := by
  unfold at_handle_port at h
  cases h1 : substr_from 6 s.cmd with
  | error e =>
    simp only [h1, bind, Except.bind] at h
    exact absurd h (by simp)
  | ok v =>
    cases h2 : stoi v with
    | error e =>
      simp only [h1, h2, bind, Except.bind] at h
      exact absurd h (by simp)
    | ok port =>
      simp only [h1, h2, bind, Except.bind, pure, Except.pure] at h
      by_cases hp : port > 65535 ∨ port < 0
      · rw [if_pos hp] at h
        rw [← Except.ok.inj h]
        exact effect_of_core s _ (core_at_result s s _ _ (core_refl s))
      · rw [if_neg hp] at h
        rw [← Except.ok.inj h]
        exact effect_bind_port K s port.toNat

/-- A branch that reports OK after a step that keeps the frame has the effect of a
step. -/
theorem effect_ok_of (K : Consts) (s x r : sioModem) (hx : core_frame s x)
    (h : Except.ok (x.at_result K.RESULT_CODE_OK (str "OK")) = (Except.ok r : Except Exn sioModem)) :
    step_effect s r := by
  rw [← Except.ok.inj h]
  exact effect_of_core s _ (core_at_result s x _ _ hx)

/-- A branch that is a handler with the effect of a step. -/
theorem effect_of_eq (s x r : sioModem) (hx : step_effect s x)
    (h : Except.ok x = (Except.ok r : Except Exn sioModem)) : step_effect s r := by
  rw [← Except.ok.inj h]
  exact hx

/-- The IP branch has the effect of a step. -/
theorem effect_ip (K : Consts) (s r : sioModem) (h : at_dispatch K .AT_IP s = .ok r) :
    step_effect s r := by
  unfold at_dispatch at h
  simp only [pure, Except.pure] at h
  rw [← Except.ok.inj h]
  apply effect_of_core
  apply core_at_result
  apply core_ite
  · apply core_println_str
    exact core_wifi_poll s s (core_refl s)
  · apply core_println_str
    exact core_wifi_poll s s (core_refl s)

/-- The ATV0 branch keeps the frame. -/
theorem core_v0 (K : Consts) (s : sioModem) :
    core_frame s { s.at_cmd_resultCode K.RESULT_CODE_OK with numericResultCode := true } :=
  ⟨rfl, rfl, rfl, rfl, [Event.uart_print_int K.RESULT_CODE_OK, Event.uart_write ASCII_CR,
    Event.uart_write ASCII_LF], by simp [at_cmd_resultCode, uart_print_int, uart_write, emit]⟩

/-- The ATV1 branch keeps the frame. -/
theorem core_v1 (s : sioModem) :
    core_frame s { s.at_cmd_println_str (str "OK") true with numericResultCode := false } := by
  obtain ⟨ev, he⟩ := at_cmd_println_str_eq (str "OK") true s
  rw [he]
  exact ⟨rfl, rfl, rfl, rfl, ev, rfl⟩

/-- Every branch of the `switch` of `modemCommand`, when it returns, has the effect of a
step. -/
theorem effect_dispatch (K : Consts) (m : _at_cmds) (s r : sioModem)
    (h : at_dispatch K m s = .ok r) : step_effect s r := by
  cases m with
  | AT_AT => exact effect_ok_of K s s r (core_refl s) h
  | AT_NET0 =>
    exact effect_ok_of K s { s with use_telnet := false } r
      (core_same s s _ (core_refl s) rfl rfl rfl rfl rfl) h
  | AT_NET1 =>
    exact effect_ok_of K s { s with use_telnet := true } r
      (core_same s s _ (core_refl s) rfl rfl rfl rfl rfl) h
  | AT_S0E0 =>
    exact effect_ok_of K s { s with autoAnswer := false } r
      (core_same s s _ (core_refl s) rfl rfl rfl rfl rfl) h
  | AT_S0E1 =>
    exact effect_ok_of K s { s with autoAnswer := true } r
      (core_same s s _ (core_refl s) rfl rfl rfl rfl rfl) h
  | AT_E0 =>
    exact effect_ok_of K s { s with commandEcho := false } r
      (core_same s s _ (core_refl s) rfl rfl rfl rfl rfl) h
  | AT_E1 =>
    exact effect_ok_of K s { s with commandEcho := true } r
      (core_same s s _ (core_refl s) rfl rfl rfl rfl rfl) h
  | AT_TERMVT52 =>
    exact effect_ok_of K s { s with term_type := str "VT52" } r
      (core_same s s _ (core_refl s) rfl rfl rfl rfl rfl) h
  | AT_TERMVT100 =>
    exact effect_ok_of K s { s with term_type := str "VT100" } r
      (core_same s s _ (core_refl s) rfl rfl rfl rfl rfl) h
  | AT_TERMDUMB =>
    exact effect_ok_of K s { s with term_type := str "DUMB" } r
      (core_same s s _ (core_refl s) rfl rfl rfl rfl rfl) h
  | AT_TERMANSI =>
    exact effect_ok_of K s { s with term_type := str "ANSI" } r
      (core_same s s _ (core_refl s) rfl rfl rfl rfl rfl) h
  | AT_ANDF_ignored => exact effect_ok_of K s s r (core_refl s) h
  | AT_S2E43_ignored => exact effect_ok_of K s s r (core_refl s) h
  | AT_S5E8_ignored => exact effect_ok_of K s s r (core_refl s) h
  | AT_S6E2_ignored => exact effect_ok_of K s s r (core_refl s) h
  | AT_S7E30_ignored => exact effect_ok_of K s s r (core_refl s) h
  | AT_S12E20_ignored => exact effect_ok_of K s s r (core_refl s) h
  | AT_M0_ignored => exact effect_ok_of K s s r (core_refl s) h
  | AT_M1_ignored => exact effect_ok_of K s s r (core_refl s) h
  | AT_X1_ignored => exact effect_ok_of K s s r (core_refl s) h
  | AT_AC1_ignored => exact effect_ok_of K s s r (core_refl s) h
  | AT_AD2_ignored => exact effect_ok_of K s s r (core_refl s) h
  | AT_AW_ignored => exact effect_ok_of K s s r (core_refl s) h
  | AT_ZPPP_ignored => exact effect_ok_of K s s r (core_refl s) h
  | AT_BBSX_ignored => exact effect_ok_of K s s r (core_refl s) h
  | AT_SNIFF =>
    exact effect_ok_of K s (s.emit (.sniffer_setEnable true)) r
      (core_emit s s _ (core_refl s)) h
  | AT_UNSNIFF =>
    exact effect_ok_of K s (s.emit (.sniffer_setEnable false)) r
      (core_emit s s _ (core_refl s)) h
  | AT_A => exact effect_of_eq s _ r (effect_answer s) h
  | AT_IP => exact effect_ip K s r h
  | AT_HELP => exact effect_of_eq s _ r (effect_of_core s _ (core_help K s)) h
  | AT_H => exact effect_of_eq s _ r (effect_hangup K s) h
  | AT_H1 => exact effect_of_eq s _ r (effect_hangup K s) h
  | AT_OFFHOOK => exact effect_of_eq s _ r (effect_hangup K s) h
  | AT_DT => exact effect_dial K s r h
  | AT_DP => exact effect_dial K s r h
  | AT_DI => exact effect_dial K s r h
  | AT_WIFILIST => exact effect_of_eq s _ r (effect_of_core s _ (core_wifilist K s)) h
  | AT_WIFICONNECT => exact effect_of_core s r (core_wificonnect K s r h)
  | AT_GET => exact effect_get K s r h
  | AT_PORT => exact effect_port K s r h
  | AT_V0 => exact effect_of_eq s _ r (effect_of_core s _ (core_v0 K s)) h
  | AT_V1 => exact effect_of_eq s _ r (effect_of_core s _ (core_v1 s)) h
  | AT_ENUMCOUNT =>
    exact effect_of_eq s _ r (effect_of_core s _ (core_at_result s s _ _ (core_refl s))) h

/-- The interpreter, when it returns, has the effect of a step. -/
theorem effect_modemCommand (K : Consts) (s r : sioModem) (h : modemCommand K s = .ok r) :
    step_effect s r := by
  by_cases hb : util_string_trim s.cmd = []
  · rw [modemCommand_blank K s hb] at h
    rw [← Except.ok.inj h]
    exact effect_of_core s _ (core_same s s _ (core_refl s) rfl rfl rfl rfl rfl)
  · rw [modemCommand_eq K s hb] at h
    split at h
    · exact Except.noConfusion h
    · rename_i x hx
      rw [← Except.ok.inj h]
      have h1 : step_effect s s.echoed :=
        effect_of_core s _ ⟨rfl, rfl, rfl, rfl, echo_events s, rfl⟩
      have h2 : step_effect s.echoed x := effect_dispatch K _ _ x hx
      have h3 : step_effect x x.clear_cmd :=
        effect_of_core x _ (core_same x x _ (core_refl x) rfl rfl rfl rfl rfl)
      exact effect_trans s x _ (effect_trans s _ x h1 h2) h3


/-- CONTROL keeps the frame. -/
theorem core_sio_control (s x : sioModem) (h : core_frame s x) : core_frame s x.sio_control := by
  unfold sio_control
  lift_lets
  intro aux1 s1 s2 s4 s3
  have h1 : core_frame s s1 := by
    apply core_ite
    · exact core_same s x _ h rfl rfl rfl rfl rfl
    · exact h
  have h2 : core_frame s s2 := by
    apply core_ite
    · exact core_same s s1 _ h1 rfl rfl rfl rfl rfl
    · exact h1
  have h4 : core_frame s s4 := core_same s s2 _ h2 rfl rfl rfl rfl rfl
  have h3 : core_frame s s3 := by
    apply core_ite
    · apply core_ite
      · exact core_step s s4 _ h4 rfl rfl rfl rfl ⟨[Event.tcp_stop], rfl⟩
      · exact h4
    · exact h2
  exact core_emit s s3 _ h3

/-- CONFIGURE keeps the frame. -/
theorem core_sio_config (s x : sioModem) (h : core_frame s x) : core_frame s x.sio_config := by
  unfold sio_config
  lift_lets
  intro s1 newBaud
  have h1 : core_frame s s1 := core_emit s x _ h
  apply core_ite
  · exact h1
  iterate 8
    apply core_ite
    · exact core_same s s1 _ h1 rfl rfl rfl rfl rfl
  exact core_same s s1 _ h1 rfl rfl rfl rfl rfl

/-- SET_DUMP keeps the frame. -/
theorem core_sio_set_dump (s x : sioModem) (h : core_frame s x) :
    core_frame s x.sio_set_dump :=
  core_emit s _ _ (core_emit s x _ h)

/-- BAUDLOCK keeps the frame. -/
theorem core_sio_baudlock (s x : sioModem) (h : core_frame s x) :
    core_frame s x.sio_baudlock :=
  core_emit s _ _ (core_same s _ _ (core_emit s x Event.sio_ack h) rfl rfl rfl rfl rfl)

/-- AUTOANSWER keeps the frame. -/
theorem core_sio_autoanswer (s x : sioModem) (h : core_frame s x) :
    core_frame s x.sio_autoanswer :=
  core_emit s _ _ (core_same s _ _ (core_emit s x Event.sio_ack h) rfl rfl rfl rfl rfl)

/-- STREAM keeps the frame. -/
theorem core_sio_stream (s x : sioModem) (h : core_frame s x) : core_frame s x.sio_stream :=
  core_same s _ _ (core_emit s _ _ (core_emit s x _ h)) rfl rfl rfl rfl rfl

/-- A pause in microseconds keeps the frame. -/
theorem core_delay_microseconds (s x : sioModem) (us : Nat) (h : core_frame s x) :
    core_frame s (x.delay_microseconds us) :=
  core_step s x _ h rfl rfl rfl rfl ⟨[Event.delay_microseconds us], rfl⟩

/-- TYPE 1 POLL keeps the frame. -/
theorem core_sio_poll_1 (s x : sioModem) (h : core_frame s x) : core_frame s x.sio_poll_1 := by
  unfold sio_poll_1
  lift_lets
  intro filesize s1 relsize bootBlock s2
  apply core_ite
  · exact h
  · exact core_emit s _ _ (core_delay_microseconds s _ _ (core_emit s x _ h))

/-- The part of TYPE 3 POLL after the generic-poll test keeps the frame. -/
theorem core_sio_poll_3_rest (K : Consts) (device aux1 aux2 : Nat) (s x : sioModem)
    (h : core_frame s x) : core_frame s (sio_poll_3_rest K device aux1 aux2 x) := by
  unfold sio_poll_3_rest
  lift_lets
  intro respond filesize s1 fsize type4response s2
  apply core_ite
  · exact core_same s x _ h rfl rfl rfl rfl rfl
  · apply core_ite
    · exact core_same s x _ h rfl rfl rfl rfl rfl
    · apply core_ite
      · exact h
      · apply core_ite
        · exact h
        · exact core_emit s _ _ (core_delay_microseconds s _ _ (core_emit s x _ h))

/-- TYPE 3 POLL keeps the frame. -/
theorem core_sio_poll_3 (K : Consts) (device aux1 aux2 : Nat) (s x : sioModem)
    (h : core_frame s x) : core_frame s (sio_poll_3 K device aux1 aux2 x) := by
  unfold sio_poll_3
  lift_lets
  intro s1
  have h1 : core_frame s s1 := core_same s x _ h rfl rfl rfl rfl rfl
  apply core_ite
  · apply core_ite
    · exact core_sio_poll_3_rest K device aux1 aux2 s s1 h1
    · exact h1
  · exact core_sio_poll_3_rest K device aux1 aux2 s x h

/-- The firmware download keeps the frame. -/
theorem core_sio_send_firmware (loadcommand : Nat) (s x : sioModem) (h : core_frame s x) :
    core_frame s (x.sio_send_firmware loadcommand) := by
  unfold sio_send_firmware
  lift_lets
  intro firmware s1 s2
  clear_value firmware
  cases firmware with
  | none => exact h
  | some p =>
    obtain ⟨codesize, code⟩ := p
    dsimp only
    apply core_ite
    · exact core_emit s x _ h
    · exact core_same s _ _ (core_emit s _ _ (core_delay_microseconds s _ _ (core_emit s x _ h)))
        rfl rfl rfl rfl rfl

/-- A run that keeps the carrier flag and the mode, extends the trace and leaves the
listener bound to the listen port has the effect of a step. -/
theorem effect_bound (s y : sioModem) (hc : y.CRX = s.CRX) (hm : y.cmdMode = s.cmdMode)
    (ht : ∃ ev, y.trace = s.trace ++ ev) (hb : y.srv_port = some y.listenPort) :
    step_effect s y := by
  obtain ⟨ev, he⟩ := ht
  refine ⟨⟨ev, he, Or.inl ?_⟩, Or.inr hb⟩
  intro hi h
  rw [hm]
  apply hi
  rw [← hc]
  exact h

/-- LISTEN keeps the carrier flag and the mode, extends the trace and leaves the listener
bound to the listen port. -/
theorem sio_listen_effect (x : sioModem) :
    x.sio_listen.CRX = x.CRX ∧ x.sio_listen.cmdMode = x.cmdMode ∧
    x.sio_listen.srv_port = some x.sio_listen.listenPort ∧
    x.sio_listen.trace = x.trace
      ++ (if x.listenPort ≠ 0 then [Event.tcp_stop, Event.srv_stop] else [])
      ++ [if x.cmdFrame.aux2 * 256 + x.cmdFrame.aux1 < 1 then Event.sio_nak else Event.sio_ack]
      ++ [Event.srv_setMaxClients 1, Event.srv_begin (x.cmdFrame.aux2 * 256 + x.cmdFrame.aux1),
          Event.sio_complete] := by
  unfold sio_listen
  by_cases hl : x.listenPort ≠ 0 <;>
    by_cases hz : x.cmdFrame.aux2 * 256 + x.cmdFrame.aux1 < 1
  all_goals
    simp only [hl, if_true, if_false, not_true, not_false_eq_true, ne_eq]
    simp [sio_complete, sio_nak, sio_ack, srv_begin, srv_setMaxClients, srv_stop, tcp_stop, emit,
      hz]

/-- LISTEN has the effect of a step: it leaves the listener bound to the listen port. -/
theorem effect_sio_listen (s x : sioModem) (h : core_frame s x) :
    step_effect s x.sio_listen := by
  apply effect_trans s x _ (effect_of_core s x h)
  obtain ⟨h1, h2, h3, h4⟩ := sio_listen_effect x
  exact effect_bound x _ h1 h2 ⟨_, by rw [h4, List.append_assoc, List.append_assoc]⟩ h3

/-- UNLISTEN keeps the carrier flag, the mode and the listen port, extends the trace and
leaves no listener bound. -/
theorem sio_unlisten_effect (s : sioModem) :
    s.sio_unlisten.CRX = s.CRX ∧ s.sio_unlisten.cmdMode = s.cmdMode ∧
    s.sio_unlisten.listenPort = s.listenPort ∧ s.sio_unlisten.srv_port = none ∧
    s.sio_unlisten.trace = s.trace
      ++ [Event.sio_ack, Event.tcp_stop, Event.srv_stop, Event.sio_complete] := by
  unfold sio_unlisten sio_ack tcp_stop srv_stop sio_complete emit
  simp

/-- The pause and the CONNECT report of the auto-answer step of STATUS. -/
theorem effect_status_pause (y : sioModem) :
    step_effect y (({ y with modemActive := true } : sioModem).delay 2000).at_connect_result := by
  rw [at_connect_result_eq]
  refine ⟨⟨[Event.delay 2000]
    ++ connect_events (({ y with modemActive := true } : sioModem).delay 2000), ?_,
    Or.inr (Or.inr ?_)⟩, Or.inl ⟨rfl, rfl⟩⟩
  · simp [delay, List.append_assoc]
  · simp

/-- The auto-answer step of STATUS has the effect of a step. -/
theorem effect_status_answer (y : sioModem) : step_effect y y.status_answer := by
  unfold status_answer
  by_cases ha : y.autoAnswer = true ∧ y.srv_hasClient = true
  · rw [if_pos ha]
    exact effect_status_pause y
  · rw [if_neg ha]
    exact effect_of_core y y (core_refl y)

/-- STATUS has the effect of a step: when it answers a waiting caller its events hold the
pause of 2000 ms. -/
theorem effect_sio_status (s x : sioModem) (h : core_frame s x) :
    step_effect s x.sio_status := by
  apply effect_trans s x _ (effect_of_core s x h)
  rw [sio_status_eq]
  simp only
  have h1 : step_effect x (x.with_status (status_byte x.mdmStatus1 x.tcp_connected
      (decide (x.tcp_available > 0) || x.srv_hasClient))) :=
    effect_of_core x _ (core_same x x _ (core_refl x) rfl rfl rfl rfl rfl)
  have h2 := effect_status_answer (x.with_status (status_byte x.mdmStatus1 x.tcp_connected
      (decide (x.tcp_available > 0) || x.srv_hasClient)))
  have h3 := effect_trans _ _ _ h1 h2
  exact effect_trans _ _ _ h3 (effect_of_core _ _ (core_emit _ _ _ (core_refl _)))


/-- WRITE, when it returns, has the effect of a step. -/
theorem effect_sio_write (K : Consts) (x r : sioModem) (h : x.sio_write K = .ok r) :
    step_effect x r := by
  unfold sio_write at h
  by_cases ha : x.cmdFrame.aux1 = 0
  · rw [if_pos ha] at h
    rw [← Except.ok.inj h]
    exact effect_of_core x _ (core_emit x x _ (core_refl x))
  · rw [if_neg ha] at h
    have hy : core_frame x (x.sio_to_peripheral_txBuf K 64).2 :=
      core_step x x _ (core_refl x) rfl rfl rfl rfl ⟨[Event.sio_to_peripheral 64], rfl⟩
    generalize x.sio_to_peripheral_txBuf K 64 = p at h hy
    obtain ⟨ck, y⟩ := p
    simp only at h hy
    by_cases hck : ck ≠ K.sio_checksum (y.txBuf.take 64)
    · rw [if_pos hck] at h
      rw [← Except.ok.inj h]
      exact effect_of_core x _ (core_emit x y _ hy)
    · rw [if_neg hck] at h
      simp only [bind, Except.bind, pure, Except.pure] at h
      by_cases hm : y.cmdMode = true
      · rw [if_pos hm] at h
        by_cases hata : List.take y.cmdFrame.aux1 y.txBuf = str "ATA\r"
        · rw [if_pos hata] at h
          rw [← Except.ok.inj h]
          exact effect_of_core x _
            (core_step x y _ hy rfl rfl rfl rfl ⟨[Event.sio_complete], rfl⟩)
        · rw [if_neg hata] at h
          split at h
          · exact Except.noConfusion h
          · rename_i v hv
            rw [← Except.ok.inj h]
            have h1 := effect_modemCommand K _ v hv
            have h0 : step_effect x y := effect_of_core x y hy
            have h2 := effect_trans x _ v
              (effect_trans x y _ h0
                (effect_of_core y _ (core_same y y _ (core_refl y) rfl rfl rfl rfl rfl))) h1
            exact effect_trans x v _ h2
              (effect_of_core v _
                (core_step v v _ (core_refl v) rfl rfl rfl rfl ⟨[Event.sio_complete], rfl⟩))
      · rw [if_neg hm] at h
        by_cases hc : y.tcp_connected = true
        · rw [if_pos hc] at h
          rw [← Except.ok.inj h]
          exact effect_of_core x _ (core_emit x _ _ (core_emit x y _ hy))
        · rw [if_neg hc] at h
          rw [← Except.ok.inj h]
          exact effect_of_core x _ (core_emit x y _ hy)

/-- Storing the command frame keeps the frame. -/
theorem core_with_frame (f : cmdFrame_t) (s : sioModem) :
    core_frame s ({ s with cmdFrame := f } : sioModem) :=
  core_same s s _ (core_refl s) rfl rfl rfl rfl rfl

/-- A bus command, when it returns, has the effect of a step, or it is UNLISTEN, which
keeps the carrier flag, the mode and the listen port, extends the trace and leaves no
listener bound. -/
theorem effect_sio_process (K : Consts) (f : cmdFrame_t) (s r : sioModem)
    (h : sio_process K f s = .ok r) :
    step_effect s r ∨
    (f.comnd = SIO_MODEMCMD_UNLISTEN ∧ r.CRX = s.CRX ∧ r.cmdMode = s.cmdMode ∧
      r.listenPort = s.listenPort ∧ r.srv_port = none ∧ ∃ ev, r.trace = s.trace ++ ev) := by
  revert h
  unfold sio_process
  lift_lets
  intro s0 comnd s1 s2 s3 h
  have h0 : core_frame s s0 := core_with_frame f s
  have h1 : core_frame s s1 := core_same s s0 _ h0 rfl rfl rfl rfl rfl
  have h2 : core_frame s s2 := core_same s s0 _ h0 rfl rfl rfl rfl rfl
  have h3 : core_frame s s3 := core_same s s0 _ h0 rfl rfl rfl rfl rfl
  have hack : core_frame s s0.sio_ack := core_emit s s0 _ h0
  by_cases c1 : comnd = SIO_MODEMCMD_LOAD_RELOCATOR
  · rw [if_pos c1] at h
    rw [← Except.ok.inj h]
    exact Or.inl (effect_of_core s _ (core_sio_send_firmware _ s s1 h1))
  rw [if_neg c1] at h
  by_cases c2 : comnd = SIO_MODEMCMD_LOAD_HANDLER
  · rw [if_pos c2] at h
    rw [← Except.ok.inj h]
    exact Or.inl (effect_of_core s _ (core_sio_send_firmware _ s s2 h2))
  rw [if_neg c2] at h
  by_cases c3 : comnd = SIO_MODEMCMD_TYPE1_POLL
  · rw [if_pos c3] at h
    by_cases c3a : s3.cmdFrame.aux1 = 1 ∨ s3.count_PollType1 = 16
    · rw [if_pos c3a] at h
      rw [← Except.ok.inj h]
      exact Or.inl (effect_of_core s _ (core_sio_poll_1 s s3 h3))
    · rw [if_neg c3a] at h
      rw [← Except.ok.inj h]
      exact Or.inl (effect_of_core s _ h3)
  rw [if_neg c3] at h
  by_cases c4 : comnd = SIO_MODEMCMD_TYPE3_POLL
  · rw [if_pos c4] at h
    rw [← Except.ok.inj h]
    exact Or.inl (effect_of_core s _ (core_sio_poll_3 K _ _ _ s s0 h0))
  rw [if_neg c4] at h
  by_cases c5 : comnd = SIO_MODEMCMD_CONTROL
  · rw [if_pos c5] at h
    rw [← Except.ok.inj h]
    exact Or.inl (effect_of_core s _ (core_sio_control s _ hack))
  rw [if_neg c5] at h
  by_cases c6 : comnd = SIO_MODEMCMD_CONFIGURE
  · rw [if_pos c6] at h
    rw [← Except.ok.inj h]
    exact Or.inl (effect_of_core s _ (core_sio_config s _ hack))
  rw [if_neg c6] at h
  by_cases c7 : comnd = SIO_MODEMCMD_SET_DUMP
  · rw [if_pos c7] at h
    rw [← Except.ok.inj h]
    exact Or.inl (effect_of_core s _ (core_sio_set_dump s _ hack))
  rw [if_neg c7] at h
  by_cases c8 : comnd = SIO_MODEMCMD_LISTEN
  · rw [if_pos c8] at h
    rw [← Except.ok.inj h]
    exact Or.inl (effect_sio_listen s s0 h0)
  rw [if_neg c8] at h
  by_cases c9 : comnd = SIO_MODEMCMD_UNLISTEN
  · rw [if_pos c9] at h
    rw [← Except.ok.inj h]
    obtain ⟨u1, u2, u3, u4, u5⟩ := sio_unlisten_effect s0
    exact Or.inr ⟨c9, u1, u2, u3, u4, _, u5⟩
  rw [if_neg c9] at h
  by_cases c10 : comnd = SIO_MODEMCMD_BAUDLOCK
  · rw [if_pos c10] at h
    rw [← Except.ok.inj h]
    exact Or.inl (effect_of_core s _ (core_sio_baudlock s s0 h0))
  rw [if_neg c10] at h
  by_cases c11 : comnd = SIO_MODEMCMD_AUTOANSWER
  · rw [if_pos c11] at h
    rw [← Except.ok.inj h]
    exact Or.inl (effect_of_core s _ (core_sio_autoanswer s s0 h0))
  rw [if_neg c11] at h
  by_cases c12 : comnd = SIO_MODEMCMD_STATUS
  · rw [if_pos c12] at h
    rw [← Except.ok.inj h]
    exact Or.inl (effect_sio_status s _ hack)
  rw [if_neg c12] at h
  by_cases c13 : comnd = SIO_MODEMCMD_WRITE
  · rw [if_pos c13] at h
    exact Or.inl (effect_trans s _ r (effect_of_core s _ hack) (effect_sio_write K _ r h))
  rw [if_neg c13] at h
  by_cases c14 : comnd = SIO_MODEMCMD_STREAM
  · rw [if_pos c14] at h
    rw [← Except.ok.inj h]
    exact Or.inl (effect_of_core s _ (core_sio_stream s _ hack))
  rw [if_neg c14] at h
  rw [← Except.ok.inj h]
  exact Or.inl (effect_of_core s _ (core_emit s s0 _ h0))


/-- One round of the relay loop keeps the frame. -/
theorem core_relay_round (s : sioModem) : core_frame s s.relay_round := by
  unfold relay_round core_frame
  by_cases ht : s.use_telnet = true
  · simp [tcp_read, emit, ht]
  · simp [tcp_read, emit, uart_write_buf, uart_flush, ht]

/-- The relay loop keeps the frame. -/
theorem core_tcp_relay_loop (fuel : Nat) (s : sioModem) :
    core_frame s (tcp_relay_loop fuel s) := by
  induction fuel generalizing s with
  | zero => exact core_refl s
  | succ n ih =>
    rw [tcp_relay_loop_succ]
    by_cases ha : s.tcp_available > 0
    · rw [if_pos ha]
      exact core_trans _ _ _ (core_relay_round s) (ih s.relay_round)
    · rw [if_neg ha]
      exact core_refl s

/-- The outbound half of the tick keeps the frame. -/
theorem core_outbound_chunk (K : Consts) (s : sioModem) :
    core_frame s (outbound_chunk K s) := by
  obtain ⟨tk, dr⟩ := take_buffer K.TX_BUF_SIZE s.uart_rx
  unfold outbound_chunk core_frame uart_readBytes
  simp only [tk, dr, foldl_plus_scan_byte]
  by_cases ht : s.use_telnet = true
  · simp [emit, ht, millis]
  · simp [emit, tcp_write, ht, millis]

/-- Turning a waiting caller away keeps the frame. -/
theorem core_after_turn_away (s : sioModem) : core_frame s s.after_turn_away := by
  unfold after_turn_away
  by_cases hs : s.srv_hasClient = true
  · rw [if_pos hs]
    exact ⟨rfl, rfl, rfl, rfl, _, rfl⟩
  · rw [if_neg hs]
    exact core_refl s

/-- The connected-mode relaying keeps the frame. -/
theorem core_connected_mode_tick (K : Consts) (s : sioModem) :
    core_frame s (s.connected_mode_tick K) := by
  rw [connected_mode_tick_eq]
  apply core_ite
  · exact core_trans _ _ _ (core_trans _ _ _ (core_after_turn_away s)
      (core_outbound_chunk K _)) (core_tcp_relay_loop _ _)
  · exact core_trans _ _ _ (core_after_turn_away s) (core_tcp_relay_loop _ _)

/-- A choice between two runs with the effect of a step has the effect of a step. -/
theorem effect_ite (s a b : sioModem) (c : Prop) [Decidable c] (ha : step_effect s a)
    (hb : step_effect s b) : step_effect s (if c then a else b) := by
  by_cases h : c
  · rw [if_pos h]
    exact ha
  · rw [if_neg h]
    exact hb

/-- The return to CommandMode at the end of a tick with DTR low. -/
theorem effect_tail_low (K : Consts) (s y : sioModem) (hy : core_frame s y) :
    step_effect s { (({ y.tcp_flush.tcp_stop with cmdMode := true } : sioModem).at_result
      K.RESULT_CODE_NO_CARRIER (str "NO CARRIER")).telnet_reset with CRX := false } := by
  rw [at_result_eq]
  exact effect_post s y _ ([Event.tcp_flush, Event.tcp_stop]
      ++ result_events K.RESULT_CODE_NO_CARRIER (str "NO CARRIER")
          ({ y.tcp_flush.tcp_stop with cmdMode := true } : sioModem)
      ++ [Event.telnet_free, Event.telnet_init]) hy
    (by simp [tcp_flush, tcp_stop, telnet_reset, emit, List.append_assoc]) rfl rfl (Or.inl rfl)

/-- The return to CommandMode at the end of a tick with DTR high. -/
theorem effect_tail_high (K : Consts) (s y : sioModem) (hy : core_frame s y) :
    step_effect s { (({ y with cmdMode := true } : sioModem).telnet_reset.at_result
      K.RESULT_CODE_NO_CARRIER (str "NO CARRIER")).telnet_reset with CRX := false } := by
  rw [at_result_eq]
  exact effect_post s y _ ([Event.telnet_free, Event.telnet_init]
      ++ result_events K.RESULT_CODE_NO_CARRIER (str "NO CARRIER")
          ({ y with cmdMode := true } : sioModem).telnet_reset
      ++ [Event.telnet_free, Event.telnet_init]) hy
    (by simp [telnet_reset, emit, List.append_assoc]) rfl rfl (Or.inl rfl)

/-- The end of a tick has the effect of a step: it changes nothing, or it stops the TCP
client, or it returns to CommandMode with the carrier flag dropped. -/
theorem effect_tick_tail (K : Consts) (s : sioModem) : step_effect s (s.tick_tail K) := by
  unfold tick_tail
  lift_lets
  intro a s1 s2 s3 s4 s5 s6 s7 s8 s9 s10
  have h1 : core_frame s s1 := by
    apply core_ite
    · apply core_ite
      · exact ⟨rfl, rfl, rfl, rfl, [Event.tcp_stop], rfl⟩
      · exact core_refl s
    · exact core_refl s
  apply effect_ite
  · exact effect_tail_low K s s1 h1
  · apply effect_ite
    · exact effect_tail_high K s s1 h1
    · exact effect_of_core s s1 h1

/-- The assembly of one character, when it returns, has the effect of a step. -/
theorem effect_assemble_char (K : Consts) (chr : Nat) (s r : sioModem)
    (h : assemble_char K chr s = .ok r) : step_effect s r := by
  unfold assemble_char at h
  by_cases h1 : chr = ASCII_LF ∨ chr = ASCII_CR ∨ chr = ATASCII_EOL
  · rw [if_pos h1] at h
    simp only at h
    exact effect_trans s ({ s with cmdAtascii := decide (chr = ATASCII_EOL) } : sioModem) r
      (effect_of_core s _ (core_same s s _ (core_refl s) rfl rfl rfl rfl rfl))
      (effect_modemCommand K _ r h)
  · rw [if_neg h1] at h
    have hcut : core_frame s ({ s with cmd := s.cmd.take (s.cmd.length - 1) } : sioModem) :=
      core_same s s _ (core_refl s) rfl rfl rfl rfl rfl
    by_cases h2 : chr = ASCII_BACKSPACE ∨ chr = ASCII_DELETE
    · rw [if_pos h2] at h
      simp only at h
      by_cases hl : s.cmd.length > 0
      · rw [if_pos hl] at h
        by_cases he : s.commandEcho = true
        · rw [if_pos he] at h
          cases h
          exact effect_of_core s _ (core_emit s _ _ (core_emit s _ _ (core_emit s _ _ hcut)))
        · rw [if_neg he] at h
          cases h
          exact effect_of_core s _ hcut
      · rw [if_neg hl] at h
        cases h
        exact effect_of_core s _ (core_refl s)
    · rw [if_neg h2] at h
      by_cases h3 : chr = ATASCII_BACKSPACE
      · rw [if_pos h3] at h
        simp only at h
        by_cases hl : s.cmd.length > 0
        · rw [if_pos hl] at h
          by_cases he : s.commandEcho = true
          · rw [if_pos he] at h
            cases h
            exact effect_of_core s _ (core_emit s _ _ hcut)
          · rw [if_neg he] at h
            cases h
            exact effect_of_core s _ hcut
        · rw [if_neg hl] at h
          cases h
          exact effect_of_core s _ (core_refl s)
      · rw [if_neg h3] at h
        by_cases h4 : chr = ATASCII_CLEAR_SCREEN ∨
            (chr ≥ ATASCII_CURSOR_UP ∧ chr ≤ ATASCII_CURSOR_RIGHT)
        · rw [if_pos h4] at h
          by_cases he : s.commandEcho = true
          · rw [if_pos he] at h
            cases h
            exact effect_of_core s _ (core_emit s s _ (core_refl s))
          · rw [if_neg he] at h
            cases h
            exact effect_of_core s _ (core_refl s)
        · rw [if_neg h4] at h
          simp only at h
          have hadd : core_frame s ({ s with cmd := s.cmd ++ [chr] } : sioModem) :=
            core_same s s _ (core_refl s) rfl rfl rfl rfl rfl
          by_cases hl : s.cmd.length < K.MAX_CMD_LENGTH
          · rw [if_pos hl] at h
            by_cases he : s.commandEcho = true
            · rw [if_pos he] at h
              cases h
              exact effect_of_core s _ (core_emit s _ _ hadd)
            · rw [if_neg he] at h
              cases h
              exact effect_of_core s _ hadd
          · rw [if_neg hl] at h
            by_cases he : s.commandEcho = true
            · rw [if_pos he] at h
              cases h
              exact effect_of_core s _ (core_emit s s _ (core_refl s))
            · rw [if_neg he] at h
              cases h
              exact effect_of_core s _ (core_refl s)

/-- The command-mode part of a tick, when it returns, has the effect of a step. -/
theorem effect_command_mode_tick (K : Consts) (s r : sioModem)
    (h : s.command_mode_tick K = .ok r) : step_effect s r := by
  revert h
  unfold command_mode_tick
  lift_lets
  intro s1 s2 h
  have h2 : step_effect s s2 := by
    apply effect_ite
    · apply effect_ite
      · exact effect_answer s
      · apply effect_ite
        · exact effect_of_core s _
            (core_same s _ _ (core_at_result s s _ _ (core_refl s)) rfl rfl rfl rfl rfl)
        · exact effect_of_core s s (core_refl s)
    · exact effect_of_core s s (core_refl s)
  clear_value s2
  by_cases hrx : s2.uart_rx.length > 0
  · rw [if_pos hrx] at h
    have h3 : step_effect s2 s2.uart_read.2 :=
      effect_of_core s2 _ (core_same s2 s2 _ (core_refl s2) rfl rfl rfl rfl rfl)
    exact effect_trans s _ r (effect_trans s s2 _ h2 h3) (effect_assemble_char K _ _ r h)
  · rw [if_neg hrx] at h
    cases h
    exact h2

/-- A session tick, when it returns, has the effect of a step. -/
theorem effect_sio_handle_modem (K : Consts) (s r : sioModem)
    (h : sio_handle_modem K s = .ok r) : step_effect s r := by
  unfold sio_handle_modem at h
  by_cases hm : s.cmdMode = true
  · rw [if_pos hm] at h
    by_cases hh : s.answerHack = true
    · rw [if_pos hh] at h
      split at h
      · exact Except.noConfusion h
      · rename_i v hv
        cases h
        have h1 : step_effect s ({ s with cmd := str "ATA" } : sioModem) :=
          effect_of_core s _ (core_same s s _ (core_refl s) rfl rfl rfl rfl rfl)
        have h2 := effect_modemCommand K _ v hv
        exact effect_trans s v _ (effect_trans s _ v h1 h2)
          (effect_of_core v _ (core_same v v _ (core_refl v) rfl rfl rfl rfl rfl))
    · rw [if_neg hh] at h
      split at h
      · exact Except.noConfusion h
      · rename_i v hv
        cases h
        exact effect_trans s v _ (effect_command_mode_tick K s v hv) (effect_tick_tail K v)
  · rw [if_neg hm] at h
    cases h
    exact effect_trans s _ _ (effect_of_core s _ (core_connected_mode_tick K s))
      (effect_tick_tail K _)

/-! ### Invariants of the reachable states -/

/-- A change of the environment keeps the carrier flag, the mode, the listen port and
the listener. -/
theorem env_step_core (s r : sioModem) (h : env_step s r) :
    r.CRX = s.CRX ∧ r.cmdMode = s.cmdMode ∧ r.listenPort = s.listenPort ∧
    r.srv_port = s.srv_port := by
  obtain ⟨_, he⟩ := h
  refine ⟨?_, ?_, ?_, ?_⟩ <;> rw [he]

/-- Every step that returns has the effect of a step, or it is UNLISTEN. -/
theorem effect_run_step (K : Consts) (a : Step) (s r : sioModem)
    (h : run_step K a s = .ok r) :
    step_effect s r ∨
    ((∃ frame, a = Step.bus frame ∧ frame.comnd = SIO_MODEMCMD_UNLISTEN) ∧ r.CRX = s.CRX ∧
      r.cmdMode = s.cmdMode ∧ r.listenPort = s.listenPort ∧ r.srv_port = none ∧
      ∃ ev, r.trace = s.trace ++ ev) := by
  cases a with
  | bus frame =>
    rcases effect_sio_process K frame s r h with he | ⟨hu, h1, h2, h3, h4, h5⟩
    · exact Or.inl he
    · exact Or.inr ⟨⟨frame, rfl, hu⟩, h1, h2, h3, h4, h5⟩
  | line text =>
    exact Or.inl (effect_trans s (s.with_cmd text) r
      (effect_of_core s _ (core_same s s _ (core_refl s) rfl rfl rfl rfl rfl))
      (effect_modemCommand K _ r h))
  | tick => exact Or.inl (effect_sio_handle_modem K s r h)

set_option maxRecDepth 100000 in
/-- C28, as stated, fails. The command line ATDT5551234 in the initial state raises the
carrier flag and leaves the session in CommandMode; and so does, after LISTEN on port 8080
and AUTOANSWER with aux1 = 1, a STATUS command that finds a caller waiting. -/
theorem carrier_without_connection :
    reachable sample_consts any_step fake_dialled_sample ∧
    fake_dialled_sample.CRX = true ∧ fake_dialled_sample.cmdMode = true ∧
    reachable sample_consts any_step status_answered_sample ∧
    status_answered_sample.CRX = true ∧ status_answered_sample.cmdMode = true := by
  refine ⟨?_, rfl, rfl, ?_, rfl, rfl⟩
  · exact reachable.step (.line (str "ATDT5551234")) init _ reachable.start rfl trivial
  · have h1 : reachable sample_consts any_step listening_sample :=
      reachable.step (.bus ⟨0x50, 0x4C, 0x90, 0x1F, 0⟩) init _ reachable.start rfl trivial
    have h2 : reachable sample_consts any_step
        (after sample_consts (.bus ⟨0x50, 0x4F, 1, 0, 0⟩) listening_sample) :=
      reachable.step (.bus ⟨0x50, 0x4F, 1, 0, 0⟩) listening_sample _ h1 rfl trivial
    have h3 : reachable sample_consts any_step caller_waiting_sample :=
      reachable.env _ _ h2 ⟨le_refl _, rfl⟩
    exact reachable.step (.bus ⟨0x50, 0x53, 0, 0, 0⟩) caller_waiting_sample _ h3 rfl trivial

/-- C28 (amended): in every state reachable from the initial session state by any
sequence of bus commands, command lines, session ticks and changes of the environment in
which no step makes the pause of 1300 ms of the dial of the reserved number or the pause
of 2000 ms of a STATUS command that answers a waiting caller, carrier (CRX) true implies
that the session is in ConnectedMode. -/
theorem carrier_implies_connected (K : Consts) (s : sioModem)
    (h : reachable K unpaused s) : s.CRX = true → s.cmdMode = false := by
  induction h with
  | start =>
    intro hc
    exact absurd hc (by decide)
  | step a s r _ hrun hP ih =>
    rcases effect_run_step K a s r hrun with ⟨⟨ev, ht, hc⟩, _⟩ | ⟨_, h1, h2, _⟩
    · rcases hc with hc | hc | hc
      · exact hc ih
      · exact absurd hc (hP ev ht).1
      · exact absurd hc (hP ev ht).2
    · intro hcrx
      rw [h2]
      apply ih
      rw [← h1]
      exact hcrx
  | env s r _ henv ih =>
    obtain ⟨h1, h2, _⟩ := env_step_core s r henv
    intro hcrx
    rw [h2]
    apply ih
    rw [← h1]
    exact hcrx

set_option maxRecDepth 100000 in
/-- The amended C28 at a sample: the command line ATDTa:1 with the host reachable leaves
the initial session with the carrier flag true, in ConnectedMode. -/
theorem carrier_implies_connected_witness :
    reachable sample_consts unpaused dialled_sample ∧ dialled_sample.CRX = true ∧
    (dialled_sample.CRX = true → dialled_sample.cmdMode = false) := by
  have h1 : reachable sample_consts unpaused reachable_sample :=
    reachable.env init _ reachable.start ⟨le_refl _, rfl⟩
  have ht : dialled_sample.trace = reachable_sample.trace
      ++ [Event.uart_write 13, Event.uart_write 10, Event.uart_flush,
          Event.uart_print (str "Connecting to "), Event.uart_flush,
          Event.uart_print (str "a"), Event.uart_flush,
          Event.uart_print (str ":"), Event.uart_flush,
          Event.uart_print (str "1"), Event.uart_write 13, Event.uart_write 10,
          Event.uart_flush, Event.tcp_connect (str "a") 1, Event.tcp_setNoDelay true,
          Event.uart_print (str "CONNECT "), Event.uart_flush, Event.uart_print_int 2400,
          Event.uart_write 13, Event.uart_write 10, Event.uart_flush] := rfl
  have h2 : reachable sample_consts unpaused dialled_sample := by
    refine reachable.step (.line (str "ATDTa:1")) reachable_sample _ h1 rfl ?_
    intro ev hev
    rw [ht] at hev
    rw [← List.append_cancel_left hev]
    decide
  exact ⟨h2, rfl, carrier_implies_connected sample_consts dialled_sample h2⟩

set_option maxRecDepth 100000 in
/-- C29, as stated, fails: after LISTEN on port 8080 and UNLISTEN the listen port is still
8080 but no listener is bound. -/
theorem unlisten_keeps_listen_port :
    reachable sample_consts any_step unlistened_sample ∧
    unlistened_sample.listenPort = 8080 ∧ unlistened_sample.srv_port = none := by
  refine ⟨?_, rfl, rfl⟩
  have h1 : reachable sample_consts any_step listening_sample :=
    reachable.step (.bus ⟨0x50, 0x4C, 0x90, 0x1F, 0⟩) init _ reachable.start rfl trivial
  exact reachable.step (.bus ⟨0x50, 0x4D, 0, 0, 0⟩) listening_sample _ h1 rfl trivial

/-- C29 (amended): in every state reachable from the initial session state by any
sequence of bus commands, command lines, session ticks and changes of the environment,
the listener is bound to no port or to the listen port; and if the state is reached with
no UNLISTEN command among the bus commands, a non-zero listen port implies that the
listener is bound to that port. -/
theorem listen_port_bound (K : Consts) (s : sioModem) (h : reachable K any_step s) :
    (s.srv_port = none ∨ s.srv_port = some s.listenPort) ∧
    (reachable K not_unlisten s → s.listenPort ≠ 0 → s.srv_port = some s.listenPort) := by
  constructor
  · induction h with
    | start => exact Or.inl rfl
    | step a s r _ hrun _ ih =>
      rcases effect_run_step K a s r hrun with ⟨_, hl⟩ | ⟨_, _, _, _, h4, _⟩
      · rcases hl with ⟨p, q⟩ | hl
        · rw [p, q]
          exact ih
        · exact Or.inr hl
      · exact Or.inl h4
    | env s r _ henv ih =>
      obtain ⟨_, _, h3, h4⟩ := env_step_core s r henv
      rw [h3, h4]
      exact ih
  · intro hn
    clear h
    induction hn with
    | start =>
      intro h0
      exact absurd rfl h0
    | step a s r _ hrun hP ih =>
      rcases effect_run_step K a s r hrun with ⟨_, hl⟩ | ⟨⟨frame, ha, hu⟩, _⟩
      · rcases hl with ⟨p, q⟩ | hl
        · rw [p, q]
          exact ih
        · intro _
          exact hl
      · exact absurd hu (hP frame ha)
    | env s r _ henv ih =>
      obtain ⟨_, _, h3, h4⟩ := env_step_core s r henv
      rw [h3, h4]
      exact ih

set_option maxRecDepth 100000 in
/-- The amended C29 at a sample: after LISTEN on port 8080 the listen port is 8080 and the
listener is bound to it. -/
theorem listen_port_bound_witness :
    reachable sample_consts any_step listening_sample ∧
    reachable sample_consts not_unlisten listening_sample ∧
    listening_sample.listenPort = 8080 ∧ listening_sample.srv_port = some 8080 ∧
    (listening_sample.srv_port = none ∨
      listening_sample.srv_port = some listening_sample.listenPort) := by
  have h1 : reachable sample_consts any_step listening_sample :=
    reachable.step (.bus ⟨0x50, 0x4C, 0x90, 0x1F, 0⟩) init _ reachable.start rfl trivial
  have h2 : reachable sample_consts not_unlisten listening_sample := by
    refine reachable.step (.bus ⟨0x50, 0x4C, 0x90, 0x1F, 0⟩) init _ reachable.start rfl ?_
    intro frame hf
    cases hf
    decide
  exact ⟨h1, h2, rfl, (listen_port_bound sample_consts listening_sample h1).2 h2 (by decide),
    (listen_port_bound sample_consts listening_sample h1).1⟩

/-! ### Poll counters -/

/-- The reset poll (0x4F, 0x4F): only the stored frame, the type-3 counter and the
firmware-sent flag change. -/
theorem sio_process_reset_4F (K : Consts) (device checksum : Nat) (s : sioModem) :
    sio_process K ⟨device, 0x40, 0x4F, 0x4F, checksum⟩ s
      = .ok { s with cmdFrame := ⟨device, 0x40, 0x4F, 0x4F, checksum⟩,
                     count_PollType3 := 0, firmware_sent := false } := by
  rw [sio_process_poll_3]
  simp [sio_poll_3, sio_poll_3_rest, with_frame]

/-- The reset poll (0x4E, 0x4E): only the stored frame and the type-3 counter change. -/
theorem sio_process_reset_4E (K : Consts) (device checksum : Nat) (s : sioModem) :
    sio_process K ⟨device, 0x40, 0x4E, 0x4E, checksum⟩ s
      = .ok { s with cmdFrame := ⟨device, 0x40, 0x4E, 0x4E, checksum⟩,
                     count_PollType3 := 0 } := by
  rw [sio_process_poll_3]
  simp [sio_poll_3, sio_poll_3_rest, with_frame]

/-- A TYPE1_POLL advances the type-1 counter by one, and leaves the trace alone unless
aux1 = 1 or the advanced counter is 16. -/
theorem sio_process_poll_1_count (K : Consts) (device aux1 aux2 checksum : Nat) (s : sioModem) :
    ∃ r, sio_process K ⟨device, 0x3F, aux1, aux2, checksum⟩ s = .ok r ∧
      r.count_PollType1 = s.count_PollType1 + 1 ∧
      (¬ (aux1 = 1 ∨ s.count_PollType1 + 1 = 16) →
        r = { s with cmdFrame := ⟨device, 0x3F, aux1, aux2, checksum⟩,
                     count_PollType1 := s.count_PollType1 + 1 }) ∧
      (s.fw_relocator.1 < 0 →
        r = { s with cmdFrame := ⟨device, 0x3F, aux1, aux2, checksum⟩,
                     count_PollType1 := s.count_PollType1 + 1 }) ∧
      (∀ n : Nat, s.fw_relocator.1 = (n : Int) → (aux1 = 1 ∨ s.count_PollType1 + 1 = 16) →
        r = { s with cmdFrame := ⟨device, 0x3F, aux1, aux2, checksum⟩,
                     count_PollType1 := s.count_PollType1 + 1,
                     clock := s.clock + 5,
                     trace := s.trace ++ [Event.sio_ack, Event.delay_microseconds 5000,
                       Event.sio_to_computer
                         [0x50, 0x01, 0x21, 0x40, 0x00, 0x05, 0x08, 0x00,
                          n % 256, n / 256 % 256, 0x00, 0x00] false] }) := by
  obtain ⟨r1, r2⟩ :=
    sio_poll_1_spec (s.with_frame ⟨device, 0x3F, aux1, aux2, checksum⟩).count_poll_1
  refine ⟨_, sio_process_poll_1 K device aux1 aux2 checksum s, ?_, ?_, ?_, ?_⟩
  · by_cases h : aux1 = 1 ∨ s.count_PollType1 + 1 = 16
    · rw [if_pos h]
      by_cases hneg : s.fw_relocator.1 < 0
      · rw [r1 hneg]
        rfl
      · obtain ⟨n, hn⟩ := Int.eq_ofNat_of_zero_le (not_lt.mp hneg)
        rw [r2 n hn]
        rfl
    · rw [if_neg h]
      rfl
  · intro h
    rw [if_neg h]
    rfl
  · intro hneg
    by_cases h : aux1 = 1 ∨ s.count_PollType1 + 1 = 16
    · rw [if_pos h, r1 hneg]
      rfl
    · rw [if_neg h]
      rfl
  · intro n hn h
    rw [if_pos h, r2 n hn]
    rfl

set_option maxRecDepth 100000 in
/-- C31, as stated, fails. After sixteen TYPE1_POLL commands, the sixteenth of which is
answered, and the reset poll (0x4F, 0x4F), the type-3 counter is 0 but the type-1 counter
is still 16; sixteen more TYPE1_POLL commands with aux1 = 0 then emit nothing, so the
threshold response does not occur again: the trace stays as it was after the reset. -/
theorem reset_poll_keeps_type1_count :
    polled_reset_sample.count_PollType3 = 0 ∧ polled_reset_sample.count_PollType1 = 16 ∧
    polled_reset_sample.trace
      = [Event.sio_ack, Event.delay_microseconds 5000,
         Event.sio_to_computer [0x50, 0x01, 0x21, 0x40, 0x00, 0x05, 0x08, 0x00, 210, 4, 0, 0]
           false] ∧
    (run_steps sample_consts (List.replicate 16 (Step.bus ⟨0x50, 0x3F, 0, 0, 0⟩))
      polled_reset_sample).trace
      = [Event.sio_ack, Event.delay_microseconds 5000,
         Event.sio_to_computer [0x50, 0x01, 0x21, 0x40, 0x00, 0x05, 0x08, 0x00, 210, 4, 0, 0]
           false] ∧
    (run_steps sample_consts (List.replicate 16 (Step.bus ⟨0x50, 0x3F, 0, 0, 0⟩))
      polled_reset_sample).count_PollType1 = 32 := by
  exact ⟨rfl, rfl, rfl, rfl, rfl⟩

/-- C31 (amended): after a TYPE3_POLL reset poll ((aux1, aux2) = (0x4F, 0x4F) or
(0x4E, 0x4E)) the type-3 poll counter is zero, and the type-1 poll counter, the two
download request counters and the trace are as before the poll. So the next TYPE1_POLL
advances the type-1 counter from its value before the reset, and it emits nothing unless
aux1 = 1 or that value plus one is 16. -/
theorem reset_poll_counters (K : Consts) (device checksum : Nat) (s : sioModem) :
    ∀ p ∈ [((0x4F : Nat), (0x4F : Nat)), (0x4E, 0x4E)],
      ∃ r, sio_process K ⟨device, 0x40, p.1, p.2, checksum⟩ s = .ok r ∧
        r.count_PollType3 = 0 ∧ r.count_PollType1 = s.count_PollType1 ∧
        r.count_ReqRelocator = s.count_ReqRelocator ∧
        r.count_ReqHandler = s.count_ReqHandler ∧ r.trace = s.trace ∧
        ∀ d a1 a2 ck : Nat,
          ∃ r2, sio_process K ⟨d, 0x3F, a1, a2, ck⟩ r = .ok r2 ∧
            r2.count_PollType1 = s.count_PollType1 + 1 ∧
            (¬ (a1 = 1 ∨ s.count_PollType1 + 1 = 16) → r2.trace = s.trace) := by
  intro p hp
  simp only [List.mem_cons, List.mem_singleton, List.not_mem_nil, or_false] at hp
  rcases hp with rfl | rfl
  · refine ⟨_, sio_process_reset_4F K device checksum s, rfl, rfl, rfl, rfl, rfl, ?_⟩
    intro d a1 a2 ck
    obtain ⟨r2, h1, h2, h3, _⟩ := sio_process_poll_1_count K d a1 a2 ck
      { s with cmdFrame := ⟨device, 0x40, 0x4F, 0x4F, checksum⟩,
               count_PollType3 := 0, firmware_sent := false }
    refine ⟨r2, h1, h2, ?_⟩
    intro hc
    rw [h3 hc]
  · refine ⟨_, sio_process_reset_4E K device checksum s, rfl, rfl, rfl, rfl, rfl, ?_⟩
    intro d a1 a2 ck
    obtain ⟨r2, h1, h2, h3, _⟩ := sio_process_poll_1_count K d a1 a2 ck
      { s with cmdFrame := ⟨device, 0x40, 0x4E, 0x4E, checksum⟩, count_PollType3 := 0 }
    refine ⟨r2, h1, h2, ?_⟩
    intro hc
    rw [h3 hc]

set_option maxRecDepth 100000 in
/-- C31 (amended) at the reset poll (0x4F, 0x4F) sent to device 0x50 in a fresh session
whose relocator loads. -/
theorem reset_poll_counters_witness :
    (((0x4F : Nat), (0x4F : Nat)) ∈ [((0x4F : Nat), (0x4F : Nat)), (0x4E, 0x4E)]) ∧
    ∃ r, sio_process sample_consts ⟨0x50, 0x40, 0x4F, 0x4F, 0⟩ relocator_sample = .ok r ∧
      r.count_PollType3 = 0 ∧ r.count_PollType1 = relocator_sample.count_PollType1 ∧
      r.count_ReqRelocator = relocator_sample.count_ReqRelocator ∧
      r.count_ReqHandler = relocator_sample.count_ReqHandler ∧
      r.trace = relocator_sample.trace ∧
      ∀ d a1 a2 ck : Nat,
        ∃ r2, sio_process sample_consts ⟨d, 0x3F, a1, a2, ck⟩ r = .ok r2 ∧
          r2.count_PollType1 = relocator_sample.count_PollType1 + 1 ∧
          (¬ (a1 = 1 ∨ relocator_sample.count_PollType1 + 1 = 16) →
            r2.trace = relocator_sample.trace) :=
  ⟨by decide, reset_poll_counters sample_consts 0x50 0 relocator_sample (0x4F, 0x4F) (by decide)⟩

/-- C33: every TYPE1_POLL returns and advances the type-1 poll counter by one. With a
relocator that loads with size n it is answered, by Acknowledge, the settle delay and the
boot block, exactly when aux1 = 1 or the advanced counter equals 16; every other
TYPE1_POLL, and every TYPE1_POLL while the relocator does not load, changes nothing but
the stored frame and the counter: it emits no signal and no payload. -/
theorem type1_poll_threshold (K : Consts) (device aux1 aux2 checksum : Nat) (s : sioModem) :
    ∃ r, sio_process K ⟨device, 0x3F, aux1, aux2, checksum⟩ s = .ok r ∧
      r.count_PollType1 = s.count_PollType1 + 1 ∧
      (∀ n : Nat, s.fw_relocator.1 = (n : Int) →
        r.trace = s.trace ++
          (if aux1 = 1 ∨ s.count_PollType1 + 1 = 16 then
            [Event.sio_ack, Event.delay_microseconds 5000,
             Event.sio_to_computer
               [0x50, 0x01, 0x21, 0x40, 0x00, 0x05, 0x08, 0x00,
                n % 256, n / 256 % 256, 0x00, 0x00] false]
           else [])) ∧
      (¬ (aux1 = 1 ∨ s.count_PollType1 + 1 = 16) ∨ s.fw_relocator.1 < 0 →
        r = { s with cmdFrame := ⟨device, 0x3F, aux1, aux2, checksum⟩,
                     count_PollType1 := s.count_PollType1 + 1 }) := by
  obtain ⟨r, h0, h1, h2, h3, h4⟩ := sio_process_poll_1_count K device aux1 aux2 checksum s
  refine ⟨r, h0, h1, ?_, ?_⟩
  · intro n hn
    by_cases hc : aux1 = 1 ∨ s.count_PollType1 + 1 = 16
    · rw [if_pos hc, h4 n hn hc]
    · rw [if_neg hc, h2 hc, List.append_nil]
  · intro h
    rcases h with h | h
    · exact h2 h
    · exact h3 h

/-! ### Commands that acknowledge and complete -/

/-- Dispatch of SET_DUMP. -/
theorem sio_process_set_dump (K : Consts) (device aux1 aux2 checksum : Nat) (s : sioModem) :
    sio_process K ⟨device, 0x44, aux1, aux2, checksum⟩ s
      = .ok (s.with_frame ⟨device, 0x44, aux1, aux2, checksum⟩).sio_ack.sio_set_dump := by
  simp [sio_process, with_frame, SIO_MODEMCMD_LOAD_RELOCATOR, SIO_MODEMCMD_LOAD_HANDLER,
    SIO_MODEMCMD_TYPE1_POLL, SIO_MODEMCMD_TYPE3_POLL, SIO_MODEMCMD_CONTROL,
    SIO_MODEMCMD_CONFIGURE, SIO_MODEMCMD_SET_DUMP]
  rfl

/-- Dispatch of UNLISTEN. -/
theorem sio_process_unlisten (K : Consts) (device aux1 aux2 checksum : Nat) (s : sioModem) :
    sio_process K ⟨device, 0x4D, aux1, aux2, checksum⟩ s
      = .ok (s.with_frame ⟨device, 0x4D, aux1, aux2, checksum⟩).sio_unlisten := by
  simp [sio_process, with_frame, SIO_MODEMCMD_LOAD_RELOCATOR, SIO_MODEMCMD_LOAD_HANDLER,
    SIO_MODEMCMD_TYPE1_POLL, SIO_MODEMCMD_TYPE3_POLL, SIO_MODEMCMD_CONTROL,
    SIO_MODEMCMD_CONFIGURE, SIO_MODEMCMD_SET_DUMP, SIO_MODEMCMD_LISTEN,
    SIO_MODEMCMD_UNLISTEN]
  rfl

/-- Dispatch of AUTOANSWER. -/
theorem sio_process_autoanswer (K : Consts) (device aux1 aux2 checksum : Nat) (s : sioModem) :
    sio_process K ⟨device, 0x4F, aux1, aux2, checksum⟩ s
      = .ok (s.with_frame ⟨device, 0x4F, aux1, aux2, checksum⟩).sio_autoanswer := by
  simp [sio_process, with_frame, SIO_MODEMCMD_LOAD_RELOCATOR, SIO_MODEMCMD_LOAD_HANDLER,
    SIO_MODEMCMD_TYPE1_POLL, SIO_MODEMCMD_TYPE3_POLL, SIO_MODEMCMD_CONTROL,
    SIO_MODEMCMD_CONFIGURE, SIO_MODEMCMD_SET_DUMP, SIO_MODEMCMD_LISTEN,
    SIO_MODEMCMD_UNLISTEN, SIO_MODEMCMD_BAUDLOCK, SIO_MODEMCMD_AUTOANSWER]
  rfl

/-- A choice between two states with the same trace has that trace. -/
theorem trace_ite (a b : sioModem) (c : Prop) [Decidable c] (t : List Event)
    (ha : a.trace = t) (hb : b.trace = t) : (if c then a else b).trace = t := by
  by_cases h : c
  · rw [if_pos h]
    exact ha
  · rw [if_neg h]
    exact hb

/-- CONTROL appends to the trace at most the stop of the TCP client, then Complete. -/
theorem sio_control_trace (x : sioModem) :
    ∃ mid, x.sio_control.trace = x.trace ++ mid ++ [Event.sio_complete] ∧
      (mid = [] ∨ mid = [Event.tcp_stop]) := by
  unfold sio_control
  lift_lets
  intro aux1 s1 s2 s4 s3
  have h1 : s1.trace = x.trace := trace_ite _ _ _ _ rfl rfl
  have h2 : s2.trace = x.trace := trace_ite _ _ _ _ h1 h1
  have h4 : s4.trace = x.trace := h2
  have h3 : s3.trace = x.trace ∨ s3.trace = x.trace ++ [Event.tcp_stop] := by
    by_cases c7 : aux1 &&& 0x80 ≠ 0
    · by_cases cd : s4.DTR = false ∧ s4.tcp_connected = true
      · right
        simp only [s3, if_pos c7, if_pos cd]
        show s4.trace ++ [Event.tcp_stop] = _
        rw [h4]
      · left
        simp only [s3, if_pos c7, if_neg cd]
        exact h4
    · left
      simp only [s3, if_neg c7]
      exact h2
  rcases h3 with h3 | h3
  · refine ⟨[], ?_, Or.inl rfl⟩
    show s3.trace ++ [Event.sio_complete] = _
    rw [h3, List.append_nil]
  · refine ⟨[Event.tcp_stop], ?_, Or.inr rfl⟩
    show s3.trace ++ [Event.sio_complete] = _
    rw [h3]

/-- CONFIGURE appends Complete to the trace. -/
theorem sio_config_trace (x : sioModem) : x.sio_config.trace = x.trace ++ [Event.sio_complete] := by
  by_cases hl : x.baudLock = true
  · rw [sio_config_locked x hl]
    rfl
  · rw [sio_config_unlocked x (by simpa using hl)]
    rfl

/-- C32: for every device id, aux1, aux2, checksum and session state, each of CONTROL,
CONFIGURE, SET_DUMP, UNLISTEN, BAUDLOCK and AUTOANSWER returns, and among the events it
appends to the trace the bus signals and payloads are exactly Acknowledge then Complete:
CONTROL appends Acknowledge, at most the stop of the TCP client, and Complete; CONFIGURE
Acknowledge and Complete; SET_DUMP Acknowledge, the sniffer switch and Complete; UNLISTEN
Acknowledge, the stops of the TCP client and of the listener, and Complete. BAUDLOCK sets
the baud lock to (aux1 ≠ 0) and AUTOANSWER sets auto-answer to (aux1 ≠ 0); each of the
two changes nothing else but the stored command frame and the trace, which gains
Acknowledge and Complete. -/
theorem ack_then_complete (K : Consts) (device aux1 aux2 checksum : Nat) (s : sioModem) :
    (∀ c ∈ [(0x41 : Nat), 0x42, 0x44, 0x4D, 0x4E, 0x4F],
      ∃ r ev, sio_process K ⟨device, c, aux1, aux2, checksum⟩ s = .ok r ∧
        r.trace = s.trace ++ ev ∧
        ev.filter Event.is_transfer = [Event.sio_ack, Event.sio_complete]) ∧
    (∃ r mid, sio_process K ⟨device, 0x41, aux1, aux2, checksum⟩ s = .ok r ∧
      r.trace = s.trace ++ [Event.sio_ack] ++ mid ++ [Event.sio_complete] ∧
      (mid = [] ∨ mid = [Event.tcp_stop])) ∧
    (∃ r, sio_process K ⟨device, 0x42, aux1, aux2, checksum⟩ s = .ok r ∧
      r.trace = s.trace ++ [Event.sio_ack, Event.sio_complete]) ∧
    (∃ r, sio_process K ⟨device, 0x44, aux1, aux2, checksum⟩ s = .ok r ∧
      r.trace = s.trace ++ [Event.sio_ack, Event.sniffer_setEnable (decide (aux1 ≠ 0)),
        Event.sio_complete]) ∧
    (∃ r, sio_process K ⟨device, 0x4D, aux1, aux2, checksum⟩ s = .ok r ∧
      r.trace = s.trace ++ [Event.sio_ack, Event.tcp_stop, Event.srv_stop,
        Event.sio_complete]) ∧
    sio_process K ⟨device, 0x4E, aux1, aux2, checksum⟩ s
      = .ok { s with cmdFrame := ⟨device, 0x4E, aux1, aux2, checksum⟩,
                     baudLock := decide (aux1 ≠ 0),
                     trace := s.trace ++ [Event.sio_ack, Event.sio_complete] } ∧
    sio_process K ⟨device, 0x4F, aux1, aux2, checksum⟩ s
      = .ok { s with cmdFrame := ⟨device, 0x4F, aux1, aux2, checksum⟩,
                     autoAnswer := decide (aux1 ≠ 0),
                     trace := s.trace ++ [Event.sio_ack, Event.sio_complete] } := by
  have hpos : decide (aux1 > 0) = decide (aux1 ≠ 0) := by
    by_cases h : aux1 = 0
    · simp [h]
    · have : aux1 > 0 := Nat.pos_of_ne_zero h
      simp [h, this]
  have hcontrol : ∃ r mid, sio_process K ⟨device, 0x41, aux1, aux2, checksum⟩ s = .ok r ∧
      r.trace = s.trace ++ [Event.sio_ack] ++ mid ++ [Event.sio_complete] ∧
      (mid = [] ∨ mid = [Event.tcp_stop]) := by
    obtain ⟨mid, h1, h2⟩ :=
      sio_control_trace (s.with_frame ⟨device, 0x41, aux1, aux2, checksum⟩).sio_ack
    exact ⟨_, mid, sio_process_control K device aux1 aux2 checksum s, h1, h2⟩
  have hconfig : ∃ r, sio_process K ⟨device, 0x42, aux1, aux2, checksum⟩ s = .ok r ∧
      r.trace = s.trace ++ [Event.sio_ack, Event.sio_complete] := by
    refine ⟨_, sio_process_configure K device aux1 aux2 checksum s, ?_⟩
    rw [sio_config_trace]
    simp [with_frame, sio_ack, emit]
  have hdump : ∃ r, sio_process K ⟨device, 0x44, aux1, aux2, checksum⟩ s = .ok r ∧
      r.trace = s.trace ++ [Event.sio_ack, Event.sniffer_setEnable (decide (aux1 ≠ 0)),
        Event.sio_complete] := by
    refine ⟨_, sio_process_set_dump K device aux1 aux2 checksum s, ?_⟩
    simp [with_frame, sio_ack, sio_set_dump, sio_complete, emit]
  have hunlisten : ∃ r, sio_process K ⟨device, 0x4D, aux1, aux2, checksum⟩ s = .ok r ∧
      r.trace = s.trace ++ [Event.sio_ack, Event.tcp_stop, Event.srv_stop,
        Event.sio_complete] := by
    refine ⟨_, sio_process_unlisten K device aux1 aux2 checksum s, ?_⟩
    simp [with_frame, sio_unlisten, sio_ack, tcp_stop, srv_stop, sio_complete, emit]
  have hlock : sio_process K ⟨device, 0x4E, aux1, aux2, checksum⟩ s
      = .ok { s with cmdFrame := ⟨device, 0x4E, aux1, aux2, checksum⟩,
                     baudLock := decide (aux1 ≠ 0),
                     trace := s.trace ++ [Event.sio_ack, Event.sio_complete] } := by
    rw [sio_process_baudlock, ← hpos]
    simp [with_frame, sio_baudlock, sio_ack, sio_complete, emit]
  have hauto : sio_process K ⟨device, 0x4F, aux1, aux2, checksum⟩ s
      = .ok { s with cmdFrame := ⟨device, 0x4F, aux1, aux2, checksum⟩,
                     autoAnswer := decide (aux1 ≠ 0),
                     trace := s.trace ++ [Event.sio_ack, Event.sio_complete] } := by
    rw [sio_process_autoanswer, ← hpos]
    simp [with_frame, sio_autoanswer, sio_ack, sio_complete, emit]
  refine ⟨?_, hcontrol, hconfig, hdump, hunlisten, hlock, hauto⟩
  intro c hc
  simp only [List.mem_cons, List.mem_singleton, List.not_mem_nil, or_false] at hc
  rcases hc with rfl | rfl | rfl | rfl | rfl | rfl
  · obtain ⟨r, mid, h1, h2, h3⟩ := hcontrol
    refine ⟨r, [Event.sio_ack] ++ mid ++ [Event.sio_complete], h1, ?_, ?_⟩
    · rw [h2]
      simp [List.append_assoc]
    · rcases h3 with rfl | rfl <;> decide
  · obtain ⟨r, h1, h2⟩ := hconfig
    exact ⟨r, _, h1, h2, by decide⟩
  · obtain ⟨r, h1, h2⟩ := hdump
    refine ⟨r, _, h1, h2, ?_⟩
    simp [List.filter, Event.is_transfer]
  · obtain ⟨r, h1, h2⟩ := hunlisten
    exact ⟨r, _, h1, h2, by decide⟩
  · exact ⟨_, _, hlock, rfl, by decide⟩
  · exact ⟨_, _, hauto, rfl, by decide⟩

/-! ### The matcher -/

/-- The test of the matching loop holds exactly for the entries that are a prefix of the
command. -/
theorem compare_head_iff (e u : List Nat) : compare_head e u = true ↔ e <+: u := by
  unfold compare_head
  rw [List.prefix_iff_eq_take, beq_iff_eq]
  exact ⟨fun h => h.symm, fun h => h.symm⟩

/-- Case folding keeps whitespace whitespace and nothing else. -/
theorem isspace_toupper (c : Nat) : isspace (toupper c) = isspace c := by
  unfold toupper
  by_cases h : 0x61 ≤ c ∧ c ≤ 0x7A
  · rw [if_pos h]
    have h1 : isspace c = false := by
      simp only [isspace, Bool.or_eq_false_iff, beq_eq_false_iff_ne, Bool.and_eq_false_iff,
        decide_eq_false_iff_not, not_le]
      omega
    have h2 : isspace (c - 0x20) = false := by
      simp only [isspace, Bool.or_eq_false_iff, beq_eq_false_iff_ne, Bool.and_eq_false_iff,
        decide_eq_false_iff_not, not_le]
      omega
    rw [h1, h2]
  · rw [if_neg h]

/-- Dropping leading whitespace commutes with case folding. -/
theorem dropWhile_toupper (l : List Nat) :
    (l.map toupper).dropWhile isspace = (l.dropWhile isspace).map toupper := by
  induction l with
  | nil => rfl
  | cons a rest ih =>
    rw [List.map_cons, List.dropWhile_cons, List.dropWhile_cons, isspace_toupper]
    by_cases h : isspace a = true
    · rw [if_pos h, if_pos h]
      exact ih
    · rw [if_neg h, if_neg h]
      rfl

/-- Trimming commutes with case folding. -/
theorem trim_toupper (l : List Nat) :
    util_string_trim (util_string_toupper l) = util_string_toupper (util_string_trim l) := by
  unfold util_string_trim util_string_toupper
  rw [dropWhile_toupper, ← List.map_reverse, dropWhile_toupper, ← List.map_reverse]

/-- Case folding twice is case folding once. -/
theorem toupper_idem (l : List Nat) :
    util_string_toupper (util_string_toupper l) = util_string_toupper l := by
  unfold util_string_toupper
  rw [List.map_map]
  apply List.map_congr_left
  intro c _
  show toupper (toupper c) = toupper c
  unfold toupper
  by_cases h : 0x61 ≤ c ∧ c ≤ 0x7A
  · rw [if_pos h, if_neg (by omega)]
  · rw [if_neg h, if_neg h]

/-- Dropping a leading run stops inside the first list when that list has an element
outside the run. -/
theorem dropWhile_append_left (p : Nat → Bool) (l ws : List Nat) (h : l.dropWhile p ≠ []) :
    (l ++ ws).dropWhile p = l.dropWhile p ++ ws := by
  induction l with
  | nil => exact absurd rfl h
  | cons a rest ih =>
    rw [List.cons_append, List.dropWhile_cons, List.dropWhile_cons]
    rw [List.dropWhile_cons] at h
    by_cases ha : p a = true
    · rw [if_pos ha] at h
      rw [if_pos ha, if_pos ha]
      exact ih h
    · rw [if_neg ha, if_neg ha]
      rfl

/-- Whitespace around a line does not change what trimming leaves. -/
theorem trim_surrounded (ws1 ws2 l : List Nat) (h1 : ∀ c ∈ ws1, isspace c = true)
    (h2 : ∀ c ∈ ws2, isspace c = true) :
    util_string_trim (ws1 ++ l ++ ws2) = util_string_trim l := by
  unfold util_string_trim
  rw [List.append_assoc, dropWhile_append_all isspace ws1 _ h1]
  by_cases hl : l.dropWhile isspace = []
  · have hall : ∀ c ∈ l, isspace c = true := by
      intro c hc
      have := List.dropWhile_eq_nil_iff.mp hl c hc
      exact this
    have hall2 : ∀ c ∈ l ++ ws2, isspace c = true := by
      intro c hc
      rcases List.mem_append.mp hc with h | h
      · exact hall c h
      · exact h2 c h
    rw [hl, List.dropWhile_eq_nil_iff.mpr hall2]
  · rw [dropWhile_append_left isspace l ws2 hl, List.reverse_append,
      dropWhile_append_all isspace ws2.reverse _ (fun c hc => h2 c (List.mem_reverse.mp hc))]

/-- No entry after the first of the table stands for plain AT. -/
theorem at_cmds_rest_not_plain : ∀ e ∈ at_cmds.drop 1, e.1 ≠ _at_cmds.AT_AT := by
  decide

/-- The matcher answers plain AT only for the command AT itself. -/
theorem match_at_cmd_plain (u : List Nat) : match_at_cmd u = _at_cmds.AT_AT ↔ u = str "AT" := by
  constructor
  · intro h
    by_contra hne
    unfold match_at_cmd at h
    rw [if_neg hne] at h
    cases hf : (at_cmds.drop 1).find? (fun e => compare_head e.2 u) with
    | none => rw [hf] at h; exact _at_cmds.noConfusion h
    | some e =>
      rw [hf] at h
      exact at_cmds_rest_not_plain e (find_some_holds _ _ e hf).2 h
  · intro h
    unfold match_at_cmd
    rw [if_pos h]

/-- The matcher answers the first entry after plain AT, in table order, that is a prefix
of the command. -/
theorem match_at_cmd_first (u : List Nat) (i : Nat) (e : _at_cmds × List Nat)
    (hAT : u ≠ str "AT") (hi : (at_cmds.drop 1).get? i = some e) (hp : e.2 <+: u)
    (hb : ∀ x ∈ (at_cmds.drop 1).take i, ¬ x.2 <+: u) : match_at_cmd u = e.1 := by
  unfold match_at_cmd
  rw [if_neg hAT, find_first (fun x => compare_head x.2 u) (at_cmds.drop 1) i e hi
    (fun x hx => by
      have := hb x hx
      rw [← compare_head_iff] at this
      simpa using this)
    ((compare_head_iff e.2 u).mpr hp)]

/-- C34: the entry selected for a command line. With u the trimmed line in upper case
with its first ATASCII EOL replaced by CR, `modemCommand` (on a line that is not blank)
dispatches on the entry selected for the line; that entry is plain AT exactly when u is
AT; otherwise it is the entry of lowest index after plain AT that is a prefix of u, and
the end-of-table value when no entry is; a line with the same upper-case form, and the
line with whitespace around it, select the same entry. -/
theorem matcher_first_match (line : List Nat) :
    (∀ (K : Consts) (s : sioModem), s.cmd = line → util_string_trim line ≠ [] →
      modemCommand K s
        = match at_dispatch K (selected_entry line) s.echoed with
          | .error e => .error e
          | .ok r => .ok r.clear_cmd) ∧
    (selected_entry line = _at_cmds.AT_AT
      ↔ replace_eol (util_string_toupper (util_string_trim line)) = str "AT") ∧
    (∀ (i : Nat) (e : _at_cmds × List Nat),
      replace_eol (util_string_toupper (util_string_trim line)) ≠ str "AT" →
      (at_cmds.drop 1).get? i = some e →
      e.2 <+: replace_eol (util_string_toupper (util_string_trim line)) →
      (∀ x ∈ (at_cmds.drop 1).take i,
        ¬ x.2 <+: replace_eol (util_string_toupper (util_string_trim line))) →
      selected_entry line = e.1) ∧
    (replace_eol (util_string_toupper (util_string_trim line)) ≠ str "AT" →
      (∀ x ∈ at_cmds.drop 1,
        ¬ x.2 <+: replace_eol (util_string_toupper (util_string_trim line))) →
      selected_entry line = _at_cmds.AT_ENUMCOUNT) ∧
    (∀ other : List Nat, util_string_toupper other = util_string_toupper line →
      selected_entry other = selected_entry line) ∧
    (∀ ws1 ws2 : List Nat, (∀ c ∈ ws1, isspace c = true) → (∀ c ∈ ws2, isspace c = true) →
      selected_entry (ws1 ++ line ++ ws2) = selected_entry line) := by
  refine ⟨?_, ?_, ?_, ?_, ?_, ?_⟩
  · intro K s hs hne
    rw [← hs] at hne ⊢
    exact modemCommand_eq K s hne
  · exact match_at_cmd_plain _
  · intro i e hAT hi hp hb
    exact match_at_cmd_first _ i e hAT hi hp hb
  · intro hAT hno
    exact match_at_cmd_none _ hAT hno
  · intro other h
    unfold selected_entry
    rw [← trim_toupper, ← trim_toupper, h]
  · intro ws1 ws2 h1 h2
    unfold selected_entry
    rw [trim_surrounded ws1 ws2 line h1 h2]

set_option maxRecDepth 100000 in
/-- The matcher on sample lines: lower case and padding select the entry of the plain
form, and a line that no entry heads selects the end-of-table value. -/
theorem matcher_samples :
    selected_entry (str "  atv1 ") = _at_cmds.AT_V1 ∧
    selected_entry (str "ATV1") = _at_cmds.AT_V1 ∧
    selected_entry (str "at") = _at_cmds.AT_AT ∧
    selected_entry (str "ATQ") = _at_cmds.AT_ENUMCOUNT := by
  decide

/-! ### The wait loop of WIFICONNECT -/

/-- The wait loop makes no more rounds than it is allowed. -/
theorem wait_rounds_le (left : Nat) (l : List Bool) : wait_rounds left l ≤ left := by
  induction left generalizing l with
  | zero => simp [wait_rounds]
  | succ n ih =>
    match l with
    | [] => simp only [wait_rounds]; exact Nat.succ_le_succ (ih [])
    | true :: rest => simp [wait_rounds]
    | false :: rest => simp only [wait_rounds]; exact Nat.succ_le_succ (ih rest)

/-- The wait loop uses up its rounds exactly when the first polls, one for each round
allowed, all answer not connected. -/
theorem wait_rounds_full (left : Nat) (l : List Bool) :
    wait_rounds left l = left ↔ ∀ i < left, l.getD i false = false := by
  induction left generalizing l with
  | zero => simp [wait_rounds]
  | succ n ih =>
    match l with
    | [] =>
      simp only [wait_rounds, Nat.add_right_cancel_iff, ih]
      simp
    | true :: rest =>
      simp only [wait_rounds]
      constructor
      · intro h; omega
      · intro h
        have := h 0 (Nat.succ_pos n)
        simp at this
    | false :: rest =>
      simp only [wait_rounds, Nat.add_right_cancel_iff, ih]
      constructor
      · intro h i hi
        cases i with
        | zero => rfl
        | succ j => exact h j (by omega)
      · intro h i hi
        exact h (i + 1) (by omega)

/-- The events of a round of the wait loop depend on the output settings only. -/
theorem wait_round_events_congr (x y : sioModem) (ho : x.cmdOutput = y.cmdOutput)
    (ha : x.cmdAtascii = y.cmdAtascii) : wait_round_events x = wait_round_events y := by
  unfold wait_round_events
  rw [print_events_congr _ _ x y ho ha]

/-- One round of the wait loop: a wait of one second and the progress dot. -/
theorem wait_round_eq (s : sioModem) (rest : List Bool) :
    (({ s with wifi_connected := rest } : sioModem).delay 1000).at_cmd_println_str (str ".") false
      = { s with wifi_connected := rest, clock := s.clock + 1000,
                 trace := s.trace ++ wait_round_events s } := by
  rw [at_cmd_println_str_events,
    print_events_congr _ _ ((({ s with wifi_connected := rest } : sioModem).delay 1000)) s rfl rfl]
  simp [delay, wait_round_events, List.append_assoc]

/-- The wait loop of WIFICONNECT from a state with given answers of the collaborator. -/
theorem wificonnect_wait_answers (left retries : Nat) (l : List Bool) (s : sioModem)
    (ev : List Event) (hev : wait_round_events s = ev) :
    wificonnect_wait left retries { s with wifi_connected := l }
      = (retries + wait_rounds left l,
         { s with wifi_connected := l.drop (wait_rounds left l + 1),
                  clock := s.clock + 1000 * wait_rounds left l,
                  trace := s.trace ++ (List.replicate (wait_rounds left l) ev).flatten }) := by
  induction left generalizing retries l s with
  | zero =>
    unfold wificonnect_wait wifi_poll_connected
    cases l with
    | nil => simp [wait_rounds]
    | cons b rest => simp [wait_rounds]
  | succ n ih =>
    unfold wificonnect_wait wifi_poll_connected
    cases l with
    | nil =>
      simp only [Bool.false_eq_true, if_false]
      have h := ih (retries + 1) []
        { s with clock := s.clock + 1000, trace := s.trace ++ ev }
        (by rw [← hev]; exact wait_round_events_congr _ s rfl rfl)
      rw [wait_round_eq s [], hev]
      refine Eq.trans h ?_
      refine Prod.ext ?_ ?_
      · simp only [wait_rounds]; omega
      · simp only [wait_rounds, List.drop_nil, List.replicate_succ, List.flatten_cons,
          List.append_assoc, Nat.mul_succ]
        simp only [Nat.add_assoc, Nat.add_comm 1000]
    | cons b rest =>
      cases b
      · simp only [Bool.false_eq_true, if_false]
        have h := ih (retries + 1) rest
          { s with clock := s.clock + 1000, trace := s.trace ++ ev }
          (by rw [← hev]; exact wait_round_events_congr _ s rfl rfl)
        rw [wait_round_eq s rest, hev]
        refine Eq.trans h ?_
        refine Prod.ext ?_ ?_
        · simp only [wait_rounds]; omega
        · simp only [wait_rounds, List.drop_succ_cons, List.replicate_succ, List.flatten_cons,
            List.append_assoc, Nat.mul_succ]
          simp only [Nat.add_assoc, Nat.add_comm 1000]
      · simp [wait_rounds]

/-- The wait loop of WIFICONNECT returns: it makes the rounds counted by `wait_rounds`,
polls once more than it waits, and each round waits one second and prints a dot. -/
theorem wificonnect_wait_eq (left retries : Nat) (s : sioModem) :
    wificonnect_wait left retries s
      = (retries + wait_rounds left s.wifi_connected,
         { s with wifi_connected := s.wifi_connected.drop (wait_rounds left s.wifi_connected + 1),
                  clock := s.clock + 1000 * wait_rounds left s.wifi_connected,
                  trace := s.trace ++ (List.replicate (wait_rounds left s.wifi_connected)
                    (wait_round_events s)).flatten }) :=
  wificonnect_wait_answers left retries s.wifi_connected s _ rfl

set_option maxRecDepth 100000 in
/-- C35: the wait loop of WIFICONNECT returns after at most 20 rounds, each a wait of one
second and a progress dot, and one poll more than rounds; it makes all 20 rounds exactly
when the first 20 polls answer not connected. The report is decided by the number of
rounds and not by the last poll: with a collaborator that answers not connected to 20
polls and connected to the twenty-first, the line ATWIFICONNECTnet,key waits 20 times,
takes all 21 answers and reports ERROR. -/
theorem wificonnect_late_connection_error :
    (∀ s : sioModem, ∃ n, n ≤ 20 ∧ (wificonnect_wait 20 0 s).1 = n ∧
      (wificonnect_wait 20 0 s).2.trace
        = s.trace ++ (List.replicate n (wait_round_events s)).flatten ∧
      (wificonnect_wait 20 0 s).2.wifi_connected = s.wifi_connected.drop (n + 1) ∧
      (n = 20 ↔ ∀ i < 20, s.wifi_connected.getD i false = false)) ∧
    late_wifi_sample.wifi_connected.getD 20 false = true ∧
    (modemCommand sample_consts (late_wifi_sample.with_cmd (str "ATWIFICONNECTnet,key"))).map
        (fun r => (r.wifi_connected, r.trace.count (Event.delay 1000),
          (r.trace.filter Event.is_uart).reverse.take 3))
      = .ok ([], 20, [Event.uart_write 10, Event.uart_write 13, Event.uart_print (str "ERROR")]) := by
  refine ⟨?_, rfl, rfl⟩
  intro s
  refine ⟨wait_rounds 20 s.wifi_connected, wait_rounds_le _ _, ?_, ?_, ?_, wait_rounds_full _ _⟩
  · rw [wificonnect_wait_eq]; simp
  · rw [wificonnect_wait_eq]
  · rw [wificonnect_wait_eq]

/-! ### The network name and key of WIFICONNECT -/

/-- The WIFICONNECT branch in its two steps. -/
theorem at_handle_wificonnect_eq (K : Consts) (s : sioModem) :
    s.at_handle_wificonnect K
      = (wificonnect_parse s.cmd).map (fun p => wificonnect_run K p.1 p.2 s) := by
  unfold at_handle_wificonnect wificonnect_parse wificonnect_run
  cases find 0x2C 0 s.cmd with
  | none =>
    dsimp only
    cases substr_from 6 s.cmd with
    | error e => rfl
    | ok ssid =>
      simp only [bind, Except.bind, pure, Except.pure, Except.map]
      split <;> rfl
  | some k =>
    dsimp only
    cases substr 13 ((k : Int) - 13 + 1) s.cmd with
    | error e => rfl
    | ok ssid =>
      cases substr_from (k + 1) s.cmd with
      | error e => rfl
      | ok key =>
        simp only [bind, Except.bind, pure, Except.pure, Except.map]
        split <;> rfl

/-- The ssid and key texts of a WIFICONNECT command with a comma: the ssid text runs up
to and including the comma. -/
theorem wificonnect_parse_comma (d a b : List Nat) (hd : d.length = 13) (hn : 0x2C ∉ d)
    (ha : 0x2C ∉ a) : wificonnect_parse (d ++ (a ++ 0x2C :: b)) = .ok (a ++ [0x2C], b) := by
  have hnot : (0x2C : Nat) ∉ d ++ a := by
    rw [List.mem_append]
    exact fun hm => hm.elim hn ha
  have hf : find 0x2C 0 (d ++ (a ++ 0x2C :: b)) = some (d ++ a).length := by
    rw [← List.append_assoc]
    exact find_zero_first 0x2C (d ++ a) b hnot
  unfold wificonnect_parse
  rw [hf]
  simp only [List.length_append, hd]
  have h1 : substr 13 (((13 + a.length : Nat) : Int) - 13 + 1) (d ++ (a ++ 0x2C :: b))
      = .ok (a ++ [0x2C]) := by
    unfold substr
    have hpos : ¬ 13 > (d ++ (a ++ 0x2C :: b)).length := by
      simp [hd]
    have hc : ¬ (((13 + a.length : Nat) : Int) - 13 + 1 < 0) := by omega
    have hcn : (((13 + a.length : Nat) : Int) - 13 + 1).toNat = (a ++ [0x2C]).length := by
      simp
    rw [if_neg hpos, if_neg hc, hcn]
    have : (d ++ (a ++ 0x2C :: b)).drop 13 = (a ++ [0x2C]) ++ b := by
      rw [← hd, List.drop_left]
      simp
    rw [this, List.take_left]
  have h2 : substr_from (13 + a.length + 1) (d ++ (a ++ 0x2C :: b)) = .ok b := by
    unfold substr_from
    have hpos : ¬ 13 + a.length + 1 > (d ++ (a ++ 0x2C :: b)).length := by
      simp [hd]
      omega
    rw [if_neg hpos]
    have : (d ++ (a ++ 0x2C :: b)) = (d ++ a ++ [0x2C]) ++ b := by simp
    rw [this]
    have hl : (d ++ a ++ [0x2C]).length = 13 + a.length + 1 := by
      simp [hd]
      omega
    rw [← hl, List.drop_left]
  rw [h1, h2]
  rfl

/-- The ssid and key texts of a WIFICONNECT command with no comma: the ssid text starts
after the sixth byte of the command. -/
theorem wificonnect_parse_plain (d1 rest : List Nat) (hd : d1.length = 6)
    (hn : 0x2C ∉ d1 ++ rest) : wificonnect_parse (d1 ++ rest) = .ok (rest, []) := by
  unfold wificonnect_parse
  rw [find_zero_none 0x2C _ hn]
  have h1 : substr_from 6 (d1 ++ rest) = .ok rest := by
    unfold substr_from
    have hpos : ¬ 6 > (d1 ++ rest).length := by
      simp [hd]
    rw [if_neg hpos, ← hd, List.drop_left]
  simp only [h1]
  rfl

/-- No print calls the WiFi connect function. -/
theorem print_events_no_wifi (t : List Nat) (b : Bool) (s : sioModem) :
    (print_events t b s).filter Event.is_wifi_connect = [] := by
  unfold print_events eol_events
  by_cases ho : s.cmdOutput = false
  · rw [if_pos ho]
    rfl
  · rw [if_neg ho]
    cases b
    · rfl
    · by_cases ha : s.cmdAtascii = true
      · simp only [ha, if_true]
        rfl
      · simp only [ha, if_false]
        rfl

/-- No result report calls the WiFi connect function. -/
theorem result_events_no_wifi (code : Int) (text : List Nat) (s : sioModem) :
    (result_events code text s).filter Event.is_wifi_connect = [] := by
  unfold result_events
  by_cases hn : s.numericResultCode = true
  · rw [if_pos hn]
    rfl
  · rw [if_neg hn]
    by_cases ho : s.cmdOutput = false
    · rw [if_pos ho]
      rfl
    · rw [if_neg ho]
      by_cases ha : s.cmdAtascii = true
      · rw [if_pos ha]
        rfl
      · rw [if_neg ha]
        rfl

/-- No round of the wait loop calls the WiFi connect function. -/
theorem wait_rounds_no_wifi (n : Nat) (s : sioModem) :
    ((List.replicate n (wait_round_events s)).flatten).filter Event.is_wifi_connect = [] := by
  induction n with
  | zero => rfl
  | succ k ih =>
    rw [List.replicate_succ, List.flatten_cons, List.filter_append, ih]
    unfold wait_round_events
    rw [List.filter_append, print_events_no_wifi]
    rfl

/-- The last step of the WIFICONNECT branch calls the WiFi connect function once, with
the C strings of the ssid and key texts. -/
theorem wificonnect_run_connect (K : Consts) (ssid key : List Nat) (s : sioModem) :
    (wificonnect_run K ssid key s).trace.filter Event.is_wifi_connect
      = s.trace.filter Event.is_wifi_connect
        ++ [Event.wifi_connect (c_str ssid) (c_str key)] := by
  unfold wificonnect_run
  simp only [emit, wificonnect_wait_eq]
  rw [at_cmd_println_str_events (K.help .HELPWIFICONNECTING) false s, println_after,
    println_after, println_after]
  split
  · rw [at_result_eq]
    simp only [List.filter_append, print_events_no_wifi, result_events_no_wifi,
      wait_rounds_no_wifi, List.append_nil, List.nil_append]
    rfl
  · rw [at_result_eq]
    simp only [List.filter_append, print_events_no_wifi, result_events_no_wifi,
      wait_rounds_no_wifi, List.append_nil, List.nil_append]
    rfl

set_option maxRecDepth 100000 in
/-- C36: the WiFi connect call of the WIFICONNECT branch does not receive the ssid as
written. For a command of 13 bytes followed by an ssid, a comma and a key, the call
receives the ssid with the comma at its end (and the key as written); for a command with
no comma it receives all that follows the sixth byte of the command, so the ssid with the
last seven bytes of the command name before it. The lines ATWIFICONNECTmynet,secret and
ATWIFICONNECTmynet call it with the ssids mynet, (comma included) and CONNECTmynet. -/
theorem wificonnect_ssid_text :
    (∀ (K : Consts) (s : sioModem) (d a b : List Nat), d.length = 13 → 0x2C ∉ d → 0x2C ∉ a →
      s.cmd = d ++ (a ++ 0x2C :: b) →
      ∃ r, s.at_handle_wificonnect K = .ok r ∧
        r.trace.filter Event.is_wifi_connect
          = s.trace.filter Event.is_wifi_connect
            ++ [Event.wifi_connect (c_str (a ++ [0x2C])) (c_str b)]) ∧
    (∀ (K : Consts) (s : sioModem) (d1 rest : List Nat), d1.length = 6 → 0x2C ∉ d1 ++ rest →
      s.cmd = d1 ++ rest →
      ∃ r, s.at_handle_wificonnect K = .ok r ∧
        r.trace.filter Event.is_wifi_connect
          = s.trace.filter Event.is_wifi_connect ++ [Event.wifi_connect (c_str rest) []]) ∧
    (modemCommand sample_consts
        (wifi_ready_sample.with_cmd (str "ATWIFICONNECTmynet,secret"))).map
        (fun r => r.trace.filter Event.is_wifi_connect)
      = .ok [Event.wifi_connect (str "mynet,") (str "secret")] ∧
    (modemCommand sample_consts (wifi_ready_sample.with_cmd (str "ATWIFICONNECTmynet"))).map
        (fun r => r.trace.filter Event.is_wifi_connect)
      = .ok [Event.wifi_connect (str "CONNECTmynet") (str "")] := by
  refine ⟨?_, ?_, rfl, rfl⟩
  · intro K s d a b hd hn ha hc
    refine ⟨wificonnect_run K (a ++ [0x2C]) b s, ?_, wificonnect_run_connect K _ _ s⟩
    rw [at_handle_wificonnect_eq, hc, wificonnect_parse_comma d a b hd hn ha]
    rfl
  · intro K s d1 rest hd hn hc
    refine ⟨wificonnect_run K rest [] s, ?_, wificonnect_run_connect K _ _ s⟩
    rw [at_handle_wificonnect_eq, hc, wificonnect_parse_plain d1 rest hd hn]
    rfl

/-! ### Result codes while command output is suppressed -/

set_option maxRecDepth 100000 in
/-- C37: a command run from a WRITE payload can write to the serial transport. The two
functions that write a numeric result code write it whatever the command output flag is.
With numeric result codes on, the line AT handed over by WRITE in CommandMode writes the
code 0, CR and LF between the acknowledgement and the completion of the bus command; with
verbose result codes on, the line ATV0 handed over by WRITE does the same; the line AT
with verbose result codes writes nothing. -/
theorem write_command_numeric_code_written :
    (∀ (s : sioModem) (code : Int),
      (s.at_cmd_resultCode code).trace
        = s.trace ++ [Event.uart_print_int code, Event.uart_write ASCII_CR,
            Event.uart_write ASCII_LF]) ∧
    (∀ (s : sioModem) (baud : Nat),
      (s.at_connect_resultCode baud).trace
        = s.trace ++ [Event.uart_print_int (connect_code baud), Event.uart_write ASCII_CR]) ∧
    (∀ (s : sioModem) (code : Int) (text : List Nat), s.numericResultCode = true →
      ((s.at_result code text).trace.filter Event.is_uart
        = s.trace.filter Event.is_uart ++ [Event.uart_print_int code, Event.uart_write ASCII_CR,
            Event.uart_write ASCII_LF])) ∧
    write_sample_numeric.cmdMode = true ∧
    (sio_process sample_consts ⟨0x50, 0x57, 3, 0, 0⟩ write_sample_numeric).map
        (fun r => (r.cmdOutput, r.trace))
      = .ok (true, [Event.sio_ack, Event.sio_to_peripheral 64, Event.uart_print_int 0,
          Event.uart_write 13, Event.uart_write 10, Event.sio_complete]) ∧
    write_sample_v0.cmdMode = true ∧ write_sample_v0.numericResultCode = false ∧
    (sio_process sample_consts ⟨0x50, 0x57, 5, 0, 0⟩ write_sample_v0).map
        (fun r => (r.numericResultCode, r.trace))
      = .ok (true, [Event.sio_ack, Event.sio_to_peripheral 64, Event.uart_print_int 0,
          Event.uart_write 13, Event.uart_write 10, Event.sio_complete]) ∧
    (sio_process sample_consts ⟨0x50, 0x57, 3, 0, 0⟩ write_sample_at).map
        (fun r => r.trace)
      = .ok [Event.sio_ack, Event.sio_to_peripheral 64, Event.sio_complete] := by
  refine ⟨?_, ?_, ?_, rfl, rfl, rfl, rfl, rfl, rfl⟩
  · intro s code
    simp [at_cmd_resultCode, uart_print_int, uart_write, emit]
  · intro s baud
    simp [at_connect_resultCode, connect_code, uart_print_int, uart_write, emit]
  · intro s code text hn
    rw [at_result_eq]
    unfold result_events
    rw [if_pos hn]
    simp only [List.filter_append]
    rfl

/-! ### Scan records -/

/-- The scan attempts leave the stored records and their count alone. -/
theorem scan_attempt_loop_records (attempts : Nat) (s : sioModem) :
    (scan_attempt_loop attempts s).2.wifi_scan_records = s.wifi_scan_records ∧
    (scan_attempt_loop attempts s).2.wifi_scan_record_count = s.wifi_scan_record_count ∧
    (scan_attempt_loop attempts s).2.esp_scan_ap_records = s.esp_scan_ap_records := by
  induction attempts generalizing s with
  | zero => exact ⟨rfl, rfl, rfl⟩
  | succ n ih =>
    unfold scan_attempt_loop
    cases hl : (s.emit Event.wifi_scan_start).esp_scan_ap_num with
    | nil =>
      simp only [hl]
      exact ih _
    | cons a rest =>
      cases a with
      | none =>
        simp only [hl]
        exact ih _
      | some k =>
        simp only [hl]
        exact ⟨rfl, rfl, rfl⟩

/-- After a network scan the stored count is the number of stored records, it is no
greater than the bound given, and it is the value returned. -/
theorem scan_networks_count (K : Consts) (maxresults : Nat) (s : sioModem) :
    (scan_networks K maxresults s).2.wifi_scan_record_count
      = (scan_networks K maxresults s).2.wifi_scan_records.length ∧
    (scan_networks K maxresults s).2.wifi_scan_record_count ≤ maxresults ∧
    (scan_networks K maxresults s).1
      = (scan_networks K maxresults s).2.wifi_scan_record_count % 256 := by
  unfold scan_networks
  have h1 := scan_attempt_loop_records (K.FNWIFI_RECONNECT_RETRIES + 1)
    { s with wifi_scan_records := [], wifi_scan_record_count := 0 }
  simp only
  generalize scan_attempt_loop (K.FNWIFI_RECONNECT_RETRIES + 1)
    { s with wifi_scan_records := [], wifi_scan_record_count := 0 } = p at h1 ⊢
  obtain ⟨res, y⟩ := p
  simp only at h1 ⊢
  obtain ⟨hr, hc, _⟩ := h1
  by_cases hpos : (if res > maxresults then maxresults else res) > 0
  · rw [if_pos hpos]
    cases hrec : y.esp_scan_ap_records with
    | none => simp
    | some records =>
      simp only [List.length_take]
      refine ⟨trivial, ?_, trivial⟩
      by_cases hm : res > maxresults
      · rw [if_pos hm]
        exact Nat.le_trans (Nat.min_le_left _ _) (Nat.le_refl _)
      · rw [if_neg hm]
        exact Nat.le_trans (Nat.min_le_left _ _) (Nat.le_of_not_gt hm)
  · rw [if_neg hpos]
    simp [hr, hc]

/-- C38: the index test of `get_scan_result` lets the index equal to the stored count
through. An index greater than the count is refused and no record is read; an index less
than the count, with the count the number of stored records, reads the record at the
index; the index equal to the count is not refused and is read outside the stored
records. After every network scan the count is the number of stored records and is no
greater than the bound given, every index below the count reads a record, and the index
equal to the count is read outside. With no scan made, index 0 is read outside; with two
records stored, index 2 is read outside and index 3 is refused. -/
theorem scan_result_index_equal_count :
    (∀ (index : Nat) (s : sioModem), index > s.wifi_scan_record_count →
      get_scan_result index s = .refused) ∧
    (∀ (index : Nat) (s : sioModem),
      s.wifi_scan_record_count = s.wifi_scan_records.length →
      index < s.wifi_scan_record_count →
      ∃ ap, s.wifi_scan_records.get? index = some ap ∧ get_scan_result index s = .record ap) ∧
    (∀ s : sioModem, s.wifi_scan_record_count = s.wifi_scan_records.length →
      get_scan_result s.wifi_scan_record_count s = .outside) ∧
    (∀ (K : Consts) (maxresults : Nat) (s : sioModem),
      (scan_networks K maxresults s).2.wifi_scan_record_count
        = (scan_networks K maxresults s).2.wifi_scan_records.length ∧
      (scan_networks K maxresults s).2.wifi_scan_record_count ≤ maxresults ∧
      (scan_networks K maxresults s).1
        = (scan_networks K maxresults s).2.wifi_scan_record_count % 256 ∧
      get_scan_result (scan_networks K maxresults s).2.wifi_scan_record_count
        (scan_networks K maxresults s).2 = .outside) ∧
    get_scan_result 0 init = .outside ∧
    get_scan_result 1 scanned_sample
      = .record ⟨str "cafe", str "66:77:88:99:AA:BB", 180, 11, 0⟩ ∧
    get_scan_result 2 scanned_sample = .outside ∧
    get_scan_result 3 scanned_sample = .refused := by
  have hout : ∀ s : sioModem, s.wifi_scan_record_count = s.wifi_scan_records.length →
      get_scan_result s.wifi_scan_record_count s = .outside := by
    intro s hc
    unfold get_scan_result
    rw [if_neg (Nat.lt_irrefl _), hc, List.get?_eq_none.mpr (Nat.le_refl _)]
  refine ⟨?_, ?_, hout, ?_, by decide, by decide, by decide, by decide⟩
  · intro index s h
    unfold get_scan_result
    rw [if_pos h]
  · intro index s hc hlt
    rw [hc] at hlt
    refine ⟨s.wifi_scan_records.get ⟨index, hlt⟩, List.get?_eq_get hlt, ?_⟩
    unfold get_scan_result
    rw [if_neg (by omega), List.get?_eq_get hlt]
  · intro K maxresults s
    obtain ⟨h1, h2, h3⟩ := scan_networks_count K maxresults s
    exact ⟨h1, h2, h3, hout _ h1⟩

end sioModem
